import Mathlib

/-!
# Shallow embedding of the Z80 MC-layer back end

This development embeds, in Lean, the machine-code emission layer of the Z80
back end of the repository:

* `Z80MCCodeEmitter.cpp` — `Z80MCCodeEmitter::encodeInstruction`, the
  per-instruction byte/fixup encoder (the bulk of this file: one Lean
  definition `enc_<OPCODE>` per `case Z80::<OPCODE>` block of the C++ switch,
  plus the dispatcher `encodeInstruction`);
* `Z80FixupKinds.h` — the catalog of target fixup kinds;
* `Z80AsmBackend.cpp` — `getFixupKindInfo` (bit widths, PC-relative flags) and
  `shouldForceRelocation`;
* `Z80ELFObjectWriter.cpp` — `getRelocType`.

Machine integers are modelled by `Nat`/`Int` with explicit reductions:
`u8i`/`u16i` are the C++ `static_cast<uint8_t>`/`static_cast<uint16_t>` of an
`int64_t` operand value, and `emitByte` reduces its argument mod 256 exactly
where the C++ converts the argument to the `uint8_t` parameter.  Fatal errors
(`report_fatal_error`) abort the encoder without committing output; they are
modelled by `Except.error` carrying the same message text, so a run that
errors emits no bytes and no fixups.
-/

namespace Z80

/-- The Z80 register file, as in `Z80RegisterInfo` (register identities only;
the encoder treats them by name). -/
inductive Reg
  | A | B | C | D | E | H | L
  | IXH | IXL | IYH | IYL
  | BC | DE | HL | AF
  | IX | IY | SP
deriving DecidableEq, Repr

/-- The syntactic kind of an `MCExpr` (`llvm::MCExpr::ExprKind`).  The encoder
only ever queries an expression operand for this kind. -/
inductive MCExprKind
  | Binary | Constant | SymbolRef | Unary | Target
deriving DecidableEq, Repr

/-- An opaque handle to a symbolic expression: its syntactic kind plus an
identity tag standing for the rest of the (unexamined) expression tree. -/
structure MCExpr where
  kind : MCExprKind
  id : Nat
deriving DecidableEq, Repr

/-- Fixup kinds as seen through `MCFixupKind`: the architecture-independent
kinds of `llvm/MC/MCFixup.h` (`FK_NONE`, `FK_Data_1/2/4/8`, `FK_PCRel_1/2/4`;
modelled from the LLVM MC headers, which are outside this repository),
followed by the thirteen target kinds of `Z80FixupKinds.h` in their catalog
order (`fixup_8 = FirstTargetFixupKind`, …, `fixup_16_be`). -/
inductive MCFixupKind
  | FK_NONE | FK_Data_1 | FK_Data_2 | FK_Data_4 | FK_Data_8
  | FK_PCRel_1 | FK_PCRel_2 | FK_PCRel_4
  | fixup_8 | fixup_8_dis | fixup_8_pcrel | fixup_16 | fixup_24 | fixup_32
  | fixup_byte0 | fixup_byte1 | fixup_byte2 | fixup_byte3
  | fixup_word0 | fixup_word1 | fixup_16_be
deriving DecidableEq, Repr

/-- The thirteen target-specific fixup kinds of `Z80FixupKinds.h`. -/
def MCFixupKind.isTargetKind : MCFixupKind → Bool
  | .fixup_8 | .fixup_8_dis | .fixup_8_pcrel | .fixup_16 | .fixup_24
  | .fixup_32 | .fixup_byte0 | .fixup_byte1 | .fixup_byte2 | .fixup_byte3
  | .fixup_word0 | .fixup_word1 | .fixup_16_be => true
  | _ => false

/-- An `MCFixup` record: offset within the instruction, target expression,
kind and source location (locations are opaque tags here). -/
structure Fixup where
  offset : Nat
  value : MCExpr
  kind : MCFixupKind
  loc : Nat
deriving DecidableEq, Repr

/-- `MCFixup::create(Offset, Value, Kind, Loc)`. -/
def MCFixup.create (offset : Nat) (value : MCExpr) (kind : MCFixupKind)
    (loc : Nat) : Fixup :=
  ⟨offset, value, kind, loc⟩

/-- Every opcode that `Z80MCCodeEmitter::encodeInstruction` names: the two
pseudo instructions, every `case Z80::…` of the real-instruction switch, and
the eleven deliberately unimplemented opcodes. -/
inductive Opcode
  | JQ | JQCC
  | ADC8ai | ADC8ao | ADC8ap | ADC8ar | ADD16SP | ADD16aa | ADD16ao
  | ADD8ai | ADD8ao | ADD8ap | ADD8ar | AND8ai | AND8ao | AND8ap | AND8ar
  | BIT8bg | BIT8bo | BIT8bp | CALL16 | CALL16CC | CCF
  | CP8ai | CP8ao | CP8ap | CP8ar | CPD16 | CPDR16 | CPI16 | CPIR16 | CPL
  | DEC16SP | DEC16r | DEC8o | DEC8p | DEC8r | DI | EI
  | EX16DE | EX16SP | EXAF | EXX
  | INC16SP | INC16r | INC8o | INC8p | INC8r
  | IND16 | INDR16 | INI16 | INIR16 | JP16r
  | LD16SP | LD16am | LD16ma | LD16mo | LD16om | LD16ri
  | LD8am | LD8gg | LD8xx | LD8yy | LD8go | LD8gp | LD8ma | LD8og | LD8oi
  | LD8pg | LD8ri | LD8pi
  | LDD16 | LDDR16 | LDI16 | LDIR16 | LEA16ro | NEG | NOP
  | OR8ai | OR8ao | OR8ap | OR8ar
  | OUTD16 | OUTDR16 | OUTI16 | OUTIR16
  | POP16AF | POP16r | PUSH16AF | PUSH16r
  | RES8bg | RES8bo | RES8bp | RET16 | RET16CC | RETI16 | RETN16
  | RL8o | RL8p | RL8r | RLC8o | RLC8p | RLC8r
  | RR8o | RR8p | RR8r | RRC8o | RRC8p | RRC8r
  | SBC16SP | SBC16aa | SBC16ao | SBC8ai | SBC8ao | SBC8ap | SBC8ar | SCF
  | SET8bg | SET8bo | SET8bp
  | SLA8o | SLA8p | SLA8r | SRA8o | SRA8p | SRA8r | SRL8o | SRL8p | SRL8r
  | SUB8ai | SUB8ao | SUB8ap | SUB8ar
  | XOR8ai | XOR8ao | XOR8ap | XOR8ar
  | ADC16SP | ADC16aa | ADC16ao | JP16 | JP16CC | JR | JRCC
  | LD16or | LD16pr | LD16ro | LD16rp
deriving DecidableEq, Repr

/-- Modelled from the spec: `MCInstrInfo::getName` reads the generated
instruction table (`Z80GenInstrInfo.inc`, not part of this repository's
sources); there each opcode's name is its identifier, used by the encoder in
every diagnostic message. -/
def Opcode.getName : Opcode → String
  | .JQ => "JQ" | .JQCC => "JQCC"
  | .ADC8ai => "ADC8ai" | .ADC8ao => "ADC8ao" | .ADC8ap => "ADC8ap"
  | .ADC8ar => "ADC8ar" | .ADD16SP => "ADD16SP" | .ADD16aa => "ADD16aa"
  | .ADD16ao => "ADD16ao" | .ADD8ai => "ADD8ai" | .ADD8ao => "ADD8ao"
  | .ADD8ap => "ADD8ap" | .ADD8ar => "ADD8ar" | .AND8ai => "AND8ai"
  | .AND8ao => "AND8ao" | .AND8ap => "AND8ap" | .AND8ar => "AND8ar"
  | .BIT8bg => "BIT8bg" | .BIT8bo => "BIT8bo" | .BIT8bp => "BIT8bp"
  | .CALL16 => "CALL16" | .CALL16CC => "CALL16CC" | .CCF => "CCF"
  | .CP8ai => "CP8ai" | .CP8ao => "CP8ao" | .CP8ap => "CP8ap"
  | .CP8ar => "CP8ar" | .CPD16 => "CPD16" | .CPDR16 => "CPDR16"
  | .CPI16 => "CPI16" | .CPIR16 => "CPIR16" | .CPL => "CPL"
  | .DEC16SP => "DEC16SP" | .DEC16r => "DEC16r" | .DEC8o => "DEC8o"
  | .DEC8p => "DEC8p" | .DEC8r => "DEC8r" | .DI => "DI" | .EI => "EI"
  | .EX16DE => "EX16DE" | .EX16SP => "EX16SP" | .EXAF => "EXAF"
  | .EXX => "EXX" | .INC16SP => "INC16SP" | .INC16r => "INC16r"
  | .INC8o => "INC8o" | .INC8p => "INC8p" | .INC8r => "INC8r"
  | .IND16 => "IND16" | .INDR16 => "INDR16" | .INI16 => "INI16"
  | .INIR16 => "INIR16" | .JP16r => "JP16r" | .LD16SP => "LD16SP"
  | .LD16am => "LD16am" | .LD16ma => "LD16ma" | .LD16mo => "LD16mo"
  | .LD16om => "LD16om" | .LD16ri => "LD16ri" | .LD8am => "LD8am"
  | .LD8gg => "LD8gg" | .LD8xx => "LD8xx" | .LD8yy => "LD8yy"
  | .LD8go => "LD8go" | .LD8gp => "LD8gp" | .LD8ma => "LD8ma"
  | .LD8og => "LD8og" | .LD8oi => "LD8oi" | .LD8pg => "LD8pg"
  | .LD8ri => "LD8ri" | .LD8pi => "LD8pi" | .LDD16 => "LDD16"
  | .LDDR16 => "LDDR16" | .LDI16 => "LDI16" | .LDIR16 => "LDIR16"
  | .LEA16ro => "LEA16ro" | .NEG => "NEG" | .NOP => "NOP"
  | .OR8ai => "OR8ai" | .OR8ao => "OR8ao" | .OR8ap => "OR8ap"
  | .OR8ar => "OR8ar" | .OUTD16 => "OUTD16" | .OUTDR16 => "OUTDR16"
  | .OUTI16 => "OUTI16" | .OUTIR16 => "OUTIR16" | .POP16AF => "POP16AF"
  | .POP16r => "POP16r" | .PUSH16AF => "PUSH16AF" | .PUSH16r => "PUSH16r"
  | .RES8bg => "RES8bg" | .RES8bo => "RES8bo" | .RES8bp => "RES8bp"
  | .RET16 => "RET16" | .RET16CC => "RET16CC" | .RETI16 => "RETI16"
  | .RETN16 => "RETN16" | .RL8o => "RL8o" | .RL8p => "RL8p" | .RL8r => "RL8r"
  | .RLC8o => "RLC8o" | .RLC8p => "RLC8p" | .RLC8r => "RLC8r"
  | .RR8o => "RR8o" | .RR8p => "RR8p" | .RR8r => "RR8r"
  | .RRC8o => "RRC8o" | .RRC8p => "RRC8p" | .RRC8r => "RRC8r"
  | .SBC16SP => "SBC16SP" | .SBC16aa => "SBC16aa" | .SBC16ao => "SBC16ao"
  | .SBC8ai => "SBC8ai" | .SBC8ao => "SBC8ao" | .SBC8ap => "SBC8ap"
  | .SBC8ar => "SBC8ar" | .SCF => "SCF" | .SET8bg => "SET8bg"
  | .SET8bo => "SET8bo" | .SET8bp => "SET8bp" | .SLA8o => "SLA8o"
  | .SLA8p => "SLA8p" | .SLA8r => "SLA8r" | .SRA8o => "SRA8o"
  | .SRA8p => "SRA8p" | .SRA8r => "SRA8r" | .SRL8o => "SRL8o"
  | .SRL8p => "SRL8p" | .SRL8r => "SRL8r" | .SUB8ai => "SUB8ai"
  | .SUB8ao => "SUB8ao" | .SUB8ap => "SUB8ap" | .SUB8ar => "SUB8ar"
  | .XOR8ai => "XOR8ai" | .XOR8ao => "XOR8ao" | .XOR8ap => "XOR8ap"
  | .XOR8ar => "XOR8ar" | .ADC16SP => "ADC16SP" | .ADC16aa => "ADC16aa"
  | .ADC16ao => "ADC16ao" | .JP16 => "JP16" | .JP16CC => "JP16CC"
  | .JR => "JR" | .JRCC => "JRCC" | .LD16or => "LD16or"
  | .LD16pr => "LD16pr" | .LD16ro => "LD16ro" | .LD16rp => "LD16rp"

/-- Modelled from the spec: `MCInstrDesc::isPseudo` comes from the generated
instruction table (not in this repository's sources); per the spec exactly
the two pseudo jumps `JQ` and `JQCC` are marked pseudo among the opcodes the
encoder handles. -/
def Opcode.isPseudo : Opcode → Bool
  | .JQ | .JQCC => true
  | _ => false

/-- An instruction operand (`MCOperand`): register, signed 64-bit immediate,
or symbolic expression. -/
inductive Operand
  | reg (r : Reg)
  | imm (i : Int)
  | expr (e : MCExpr)
deriving DecidableEq, Repr

def Operand.isReg : Operand → Bool
  | .reg _ => true
  | _ => false

def Operand.isImm : Operand → Bool
  | .imm _ => true
  | _ => false

def Operand.isExpr : Operand → Bool
  | .expr _ => true
  | _ => false

/-- `MCOperand::getReg`; only called on the guarded register paths, the
default value is never observable. -/
def Operand.getReg : Operand → Reg
  | .reg r => r
  | _ => Reg.A

def Operand.getImm : Operand → Int
  | .imm i => i
  | _ => 0

def Operand.getExpr : Operand → MCExpr
  | .expr e => e
  | _ => ⟨MCExprKind.Constant, 0⟩

/-- An `MCInst`: opcode, operand list and source location.  Modelled from the
spec: the descriptor data the C++ reads from the generated table
(`MCII.get(opcode)`) is carried here — `ez80Mode` is the mode field of the
descriptor's `TSFlags` (`Z80II::EZ80Mode`), and the descriptor operand count
checked by `check_num_operands` is the instruction's own operand count. -/
structure Inst where
  opcode : Opcode
  operands : List Operand
  loc : Nat
  ez80Mode : Bool
deriving DecidableEq, Repr

/-- `Operands[i]` (the C++ indexes the operand array unchecked; all reads are
behind shape guards, so the default is never observable on accepted paths). -/
def Inst.op (mi : Inst) (i : Nat) : Operand :=
  mi.operands.getD i (Operand.imm 0)

/-- The two output sinks of one `encodeInstruction` call: the byte counter
`CurByte`, the byte stream `OS`, and the fixup list `Fixups`. -/
structure EmitState where
  curByte : Nat
  bytes : List Nat
  fixups : List Fixup
deriving DecidableEq, Repr

/-- Sinks at the start of a call (`CurByte = 0`, nothing written). -/
def EmitState.init : EmitState := ⟨0, [], []⟩

/-- `Z80MCCodeEmitter::emitByte`: write one byte and advance `CurByte`.  The
reduction mod 256 is the conversion to the `uint8_t` parameter `C` at the
call site. -/
def emitByte (c : Nat) (s : EmitState) : EmitState :=
  { s with bytes := s.bytes ++ [c % 256], curByte := s.curByte + 1 }

/-- `Fixups.push_back(MCFixup::create(CurByte, e, kind, MI.getLoc()))`:
append a fixup whose offset is the current byte count. -/
def pushFixup (e : MCExpr) (k : MCFixupKind) (loc : Nat) (s : EmitState) :
    EmitState :=
  { s with fixups := s.fixups ++ [MCFixup.create s.curByte e k loc] }

/-- `static_cast<uint8_t>` of an `int64_t` operand value. -/
def u8i (i : Int) : Nat := (i % 256).toNat

/-- `static_cast<uint16_t>` of an `int64_t` operand value. -/
def u16i (i : Int) : Nat := (i % 65536).toNat

/-- The message of `check_num_operands` on mismatch. -/
def numOpsErr (opc : String) (expct actual : Nat) : String :=
  "Invalid number of arguments for instruction " ++ opc ++ ": " ++
    toString expct ++ " vs " ++ toString actual ++ "."

/-- The message of `report_fatal_instr_problem`. -/
def instrErr (opc : String) (er : String) : String := opc ++ ": " ++ er

/-- The two compile-time flags of the encoder: `EMIT_JR_INSTEAD_OF_JP`
(`short-jumps`) and `EMIT_JRCC_INSTEAD_OF_JPCC` (`short-cc-jumps`).  Both are
off in the default build. -/
structure Config where
  shortJumps : Bool
  shortCCJumps : Bool
deriving DecidableEq, Repr

/-- The default (long-form) configuration: both `#ifdef`s off. -/
def Config.default : Config := ⟨false, false⟩

/-- Encoding of the pseudo `JQ` (translated from the `case Z80::JQ` block,
both sides of `#ifdef EMIT_JR_INSTEAD_OF_JP`). -/
def enc_JQ (cfg : Config) (name : String) (mi : Inst) :
    Except String EmitState :=
  (if mi.operands.length = 1 then
    (if (mi.op 0).isExpr then
      (if cfg.shortJumps then
        Except.ok
          (EmitState.init |> emitByte 0x18
            |> pushFixup ((mi.op 0).getExpr) MCFixupKind.fixup_8_pcrel mi.loc
            |> emitByte 0x00)
       else
        Except.ok
          (EmitState.init |> emitByte 0xc3
            |> pushFixup ((mi.op 0).getExpr) MCFixupKind.fixup_16 mi.loc
            |> emitByte 0x00 |> emitByte 0x00))
     else Except.error (instrErr name "Operand should be an expression."))
   else Except.error (numOpsErr name 1 mi.operands.length))

/-- Encoding of the pseudo `JQCC` (translated from the `case Z80::JQCC`
block, both sides of `#ifdef EMIT_JRCC_INSTEAD_OF_JPCC`). -/
def enc_JQCC (cfg : Config) (name : String) (mi : Inst) :
    Except String EmitState :=
  (if mi.operands.length = 2 then
    (if (mi.op 0).isExpr then
      (if (mi.op 1).isImm then
        (if cfg.shortCCJumps then
          (if 4 ≤ u8i ((mi.op 1).getImm) then
            Except.error (instrErr name "Second operand should be in range 0..3.")
           else
            Except.ok
              (EmitState.init
                |> emitByte (((u8i ((mi.op 1).getImm)) <<< 3) ||| 0x20)
                |> pushFixup ((mi.op 0).getExpr) MCFixupKind.fixup_8_pcrel mi.loc
                |> emitByte 0x00))
         else
          (if 8 ≤ u8i ((mi.op 1).getImm) then
            Except.error (instrErr name "Second operand should be in range 0..7.")
           else
            Except.ok
              (EmitState.init
                |> emitByte (((u8i ((mi.op 1).getImm)) <<< 3) ||| 0xc2)
                |> pushFixup ((mi.op 0).getExpr) MCFixupKind.fixup_16 mi.loc
                |> emitByte 0x00 |> emitByte 0x00)))
       else Except.error (instrErr name "Second operand should be immediate."))
     else Except.error (instrErr name "First operand should be an expression."))
   else Except.error (numOpsErr name 2 mi.operands.length))

/-- The shared `report_fatal_instr_problem(name, "Not implemented.")` of the
eleven recognized-but-unimplemented opcodes. -/
def enc_notImplemented (name : String) : Except String EmitState :=
  Except.error (instrErr name "Not implemented.")


/-- Encoding of `LEA16ro` (translated from the `case Z80::LEA16ro` block).
The conditional `PUSH`/`POP` shuffles (`if (Z80::BC != …)`,
`if (op0 != op1)`) become state-level conditionals in the emit pipeline; the
error-capable register switches stay nested matches (the source re-switches
on the second operand inside the `op0 != op1` block, reproduced here). -/
def enc_LEA16ro (name : String) (mi : Inst) : Except String EmitState :=
  (if mi.operands.length = 3 then
    (if ((mi.op 0).isReg && (mi.op 1).isReg) then
      (if (mi.op 2).isImm then
        (match (mi.op 1).getReg with
     | Reg.IX =>
       (if (mi.op 0).getReg = (mi.op 1).getReg then
         Except.ok (EmitState.init |> emitByte 0xf5
            |> (fun s => if Reg.BC = (mi.op 0).getReg then s else emitByte 0xc5 s)
            |> emitByte 0x06 |> emitByte 0x00
            |> emitByte 0x0e |> emitByte (u8i ((mi.op 2).getImm))
            |> (fun s => if (mi.op 0).getReg = (mi.op 1).getReg then s
                else s |> emitByte 0xdd |> emitByte 0xe5)
            |> emitByte 0xdd |> emitByte 0x09
            |> (fun s => if (mi.op 0).getReg = (mi.op 1).getReg then s
                else s |> emitByte 0xdd |> emitByte 0xe5)
            |> (fun s => if Reg.BC = (mi.op 0).getReg then s else emitByte 0xc1 s)
            |> emitByte 0xf1)
        else
         (match (mi.op 0).getReg with
          | Reg.BC =>
            (match (mi.op 1).getReg with
             | Reg.IX =>
               Except.ok (EmitState.init |> emitByte 0xf5
            |> (fun s => if Reg.BC = (mi.op 0).getReg then s else emitByte 0xc5 s)
            |> emitByte 0x06 |> emitByte 0x00
            |> emitByte 0x0e |> emitByte (u8i ((mi.op 2).getImm))
            |> (fun s => if (mi.op 0).getReg = (mi.op 1).getReg then s
                else s |> emitByte 0xdd |> emitByte 0xe5)
            |> emitByte 0xdd |> emitByte 0x09
            |> (fun s => if (mi.op 0).getReg = (mi.op 1).getReg then s
                else s |> emitByte 0xdd |> emitByte 0xe5)
                  |> emitByte 0xc1 |> emitByte 0xdd |> emitByte 0xe1
                  |> (fun s => if Reg.BC = (mi.op 0).getReg then s else emitByte 0xc1 s)
            |> emitByte 0xf1)
             | Reg.IY =>
               Except.ok (EmitState.init |> emitByte 0xf5
            |> (fun s => if Reg.BC = (mi.op 0).getReg then s else emitByte 0xc5 s)
            |> emitByte 0x06 |> emitByte 0x00
            |> emitByte 0x0e |> emitByte (u8i ((mi.op 2).getImm))
            |> (fun s => if (mi.op 0).getReg = (mi.op 1).getReg then s
                else s |> emitByte 0xdd |> emitByte 0xe5)
            |> emitByte 0xdd |> emitByte 0x09
            |> (fun s => if (mi.op 0).getReg = (mi.op 1).getReg then s
                else s |> emitByte 0xdd |> emitByte 0xe5)
                  |> emitByte 0xc1 |> emitByte 0xfd |> emitByte 0xe1
                  |> (fun s => if Reg.BC = (mi.op 0).getReg then s else emitByte 0xc1 s)
            |> emitByte 0xf1)
             | _ => Except.error (instrErr name "Allowed registers in the second operand are IX, IY."))
          | Reg.DE =>
            (match (mi.op 1).getReg with
             | Reg.IX =>
               Except.ok (EmitState.init |> emitByte 0xf5
            |> (fun s => if Reg.BC = (mi.op 0).getReg then s else emitByte 0xc5 s)
            |> emitByte 0x06 |> emitByte 0x00
            |> emitByte 0x0e |> emitByte (u8i ((mi.op 2).getImm))
            |> (fun s => if (mi.op 0).getReg = (mi.op 1).getReg then s
                else s |> emitByte 0xdd |> emitByte 0xe5)
            |> emitByte 0xdd |> emitByte 0x09
            |> (fun s => if (mi.op 0).getReg = (mi.op 1).getReg then s
                else s |> emitByte 0xdd |> emitByte 0xe5)
                  |> emitByte 0xd1 |> emitByte 0xdd |> emitByte 0xe1
                  |> (fun s => if Reg.BC = (mi.op 0).getReg then s else emitByte 0xc1 s)
            |> emitByte 0xf1)
             | Reg.IY =>
               Except.ok (EmitState.init |> emitByte 0xf5
            |> (fun s => if Reg.BC = (mi.op 0).getReg then s else emitByte 0xc5 s)
            |> emitByte 0x06 |> emitByte 0x00
            |> emitByte 0x0e |> emitByte (u8i ((mi.op 2).getImm))
            |> (fun s => if (mi.op 0).getReg = (mi.op 1).getReg then s
                else s |> emitByte 0xdd |> emitByte 0xe5)
            |> emitByte 0xdd |> emitByte 0x09
            |> (fun s => if (mi.op 0).getReg = (mi.op 1).getReg then s
                else s |> emitByte 0xdd |> emitByte 0xe5)
                  |> emitByte 0xd1 |> emitByte 0xfd |> emitByte 0xe1
                  |> (fun s => if Reg.BC = (mi.op 0).getReg then s else emitByte 0xc1 s)
            |> emitByte 0xf1)
             | _ => Except.error (instrErr name "Allowed registers in the second operand are IX, IY."))
          | Reg.HL =>
            (match (mi.op 1).getReg with
             | Reg.IX =>
               Except.ok (EmitState.init |> emitByte 0xf5
            |> (fun s => if Reg.BC = (mi.op 0).getReg then s else emitByte 0xc5 s)
            |> emitByte 0x06 |> emitByte 0x00
            |> emitByte 0x0e |> emitByte (u8i ((mi.op 2).getImm))
            |> (fun s => if (mi.op 0).getReg = (mi.op 1).getReg then s
                else s |> emitByte 0xdd |> emitByte 0xe5)
            |> emitByte 0xdd |> emitByte 0x09
            |> (fun s => if (mi.op 0).getReg = (mi.op 1).getReg then s
                else s |> emitByte 0xdd |> emitByte 0xe5)
                  |> emitByte 0xe1 |> emitByte 0xdd |> emitByte 0xe1
                  |> (fun s => if Reg.BC = (mi.op 0).getReg then s else emitByte 0xc1 s)
            |> emitByte 0xf1)
             | Reg.IY =>
               Except.ok (EmitState.init |> emitByte 0xf5
            |> (fun s => if Reg.BC = (mi.op 0).getReg then s else emitByte 0xc5 s)
            |> emitByte 0x06 |> emitByte 0x00
            |> emitByte 0x0e |> emitByte (u8i ((mi.op 2).getImm))
            |> (fun s => if (mi.op 0).getReg = (mi.op 1).getReg then s
                else s |> emitByte 0xdd |> emitByte 0xe5)
            |> emitByte 0xdd |> emitByte 0x09
            |> (fun s => if (mi.op 0).getReg = (mi.op 1).getReg then s
                else s |> emitByte 0xdd |> emitByte 0xe5)
                  |> emitByte 0xe1 |> emitByte 0xfd |> emitByte 0xe1
                  |> (fun s => if Reg.BC = (mi.op 0).getReg then s else emitByte 0xc1 s)
            |> emitByte 0xf1)
             | _ => Except.error (instrErr name "Allowed registers in the second operand are IX, IY."))
          | Reg.IX =>
            (match (mi.op 1).getReg with
             | Reg.IX =>
               Except.ok (EmitState.init |> emitByte 0xf5
            |> (fun s => if Reg.BC = (mi.op 0).getReg then s else emitByte 0xc5 s)
            |> emitByte 0x06 |> emitByte 0x00
            |> emitByte 0x0e |> emitByte (u8i ((mi.op 2).getImm))
            |> (fun s => if (mi.op 0).getReg = (mi.op 1).getReg then s
                else s |> emitByte 0xdd |> emitByte 0xe5)
            |> emitByte 0xdd |> emitByte 0x09
            |> (fun s => if (mi.op 0).getReg = (mi.op 1).getReg then s
                else s |> emitByte 0xdd |> emitByte 0xe5)
                  |> emitByte 0xdd |> emitByte 0xe1 |> emitByte 0xdd |> emitByte 0xe1
                  |> (fun s => if Reg.BC = (mi.op 0).getReg then s else emitByte 0xc1 s)
            |> emitByte 0xf1)
             | Reg.IY =>
               Except.ok (EmitState.init |> emitByte 0xf5
            |> (fun s => if Reg.BC = (mi.op 0).getReg then s else emitByte 0xc5 s)
            |> emitByte 0x06 |> emitByte 0x00
            |> emitByte 0x0e |> emitByte (u8i ((mi.op 2).getImm))
            |> (fun s => if (mi.op 0).getReg = (mi.op 1).getReg then s
                else s |> emitByte 0xdd |> emitByte 0xe5)
            |> emitByte 0xdd |> emitByte 0x09
            |> (fun s => if (mi.op 0).getReg = (mi.op 1).getReg then s
                else s |> emitByte 0xdd |> emitByte 0xe5)
                  |> emitByte 0xdd |> emitByte 0xe1 |> emitByte 0xfd |> emitByte 0xe1
                  |> (fun s => if Reg.BC = (mi.op 0).getReg then s else emitByte 0xc1 s)
            |> emitByte 0xf1)
             | _ => Except.error (instrErr name "Allowed registers in the second operand are IX, IY."))
          | Reg.IY =>
            (match (mi.op 1).getReg with
             | Reg.IX =>
               Except.ok (EmitState.init |> emitByte 0xf5
            |> (fun s => if Reg.BC = (mi.op 0).getReg then s else emitByte 0xc5 s)
            |> emitByte 0x06 |> emitByte 0x00
            |> emitByte 0x0e |> emitByte (u8i ((mi.op 2).getImm))
            |> (fun s => if (mi.op 0).getReg = (mi.op 1).getReg then s
                else s |> emitByte 0xdd |> emitByte 0xe5)
            |> emitByte 0xdd |> emitByte 0x09
            |> (fun s => if (mi.op 0).getReg = (mi.op 1).getReg then s
                else s |> emitByte 0xdd |> emitByte 0xe5)
                  |> emitByte 0xfd |> emitByte 0xe1 |> emitByte 0xdd |> emitByte 0xe1
                  |> (fun s => if Reg.BC = (mi.op 0).getReg then s else emitByte 0xc1 s)
            |> emitByte 0xf1)
             | Reg.IY =>
               Except.ok (EmitState.init |> emitByte 0xf5
            |> (fun s => if Reg.BC = (mi.op 0).getReg then s else emitByte 0xc5 s)
            |> emitByte 0x06 |> emitByte 0x00
            |> emitByte 0x0e |> emitByte (u8i ((mi.op 2).getImm))
            |> (fun s => if (mi.op 0).getReg = (mi.op 1).getReg then s
                else s |> emitByte 0xdd |> emitByte 0xe5)
            |> emitByte 0xdd |> emitByte 0x09
            |> (fun s => if (mi.op 0).getReg = (mi.op 1).getReg then s
                else s |> emitByte 0xdd |> emitByte 0xe5)
                  |> emitByte 0xfd |> emitByte 0xe1 |> emitByte 0xfd |> emitByte 0xe1
                  |> (fun s => if Reg.BC = (mi.op 0).getReg then s else emitByte 0xc1 s)
            |> emitByte 0xf1)
             | _ => Except.error (instrErr name "Allowed registers in the second operand are IX, IY."))
          | _ => Except.error (instrErr name "Allowed registers in the first operand are BC, DE, HL, IX, IY.")))
     | Reg.IY =>
       (if (mi.op 0).getReg = (mi.op 1).getReg then
         Except.ok (EmitState.init |> emitByte 0xf5
            |> (fun s => if Reg.BC = (mi.op 0).getReg then s else emitByte 0xc5 s)
            |> emitByte 0x06 |> emitByte 0x00
            |> emitByte 0x0e |> emitByte (u8i ((mi.op 2).getImm))
            |> (fun s => if (mi.op 0).getReg = (mi.op 1).getReg then s
                else s |> emitByte 0xfd |> emitByte 0xe5)
            |> emitByte 0xfd |> emitByte 0x09
            |> (fun s => if (mi.op 0).getReg = (mi.op 1).getReg then s
                else s |> emitByte 0xfd |> emitByte 0xe5)
            |> (fun s => if Reg.BC = (mi.op 0).getReg then s else emitByte 0xc1 s)
            |> emitByte 0xf1)
        else
         (match (mi.op 0).getReg with
          | Reg.BC =>
            (match (mi.op 1).getReg with
             | Reg.IX =>
               Except.ok (EmitState.init |> emitByte 0xf5
            |> (fun s => if Reg.BC = (mi.op 0).getReg then s else emitByte 0xc5 s)
            |> emitByte 0x06 |> emitByte 0x00
            |> emitByte 0x0e |> emitByte (u8i ((mi.op 2).getImm))
            |> (fun s => if (mi.op 0).getReg = (mi.op 1).getReg then s
                else s |> emitByte 0xfd |> emitByte 0xe5)
            |> emitByte 0xfd |> emitByte 0x09
            |> (fun s => if (mi.op 0).getReg = (mi.op 1).getReg then s
                else s |> emitByte 0xfd |> emitByte 0xe5)
                  |> emitByte 0xc1 |> emitByte 0xdd |> emitByte 0xe1
                  |> (fun s => if Reg.BC = (mi.op 0).getReg then s else emitByte 0xc1 s)
            |> emitByte 0xf1)
             | Reg.IY =>
               Except.ok (EmitState.init |> emitByte 0xf5
            |> (fun s => if Reg.BC = (mi.op 0).getReg then s else emitByte 0xc5 s)
            |> emitByte 0x06 |> emitByte 0x00
            |> emitByte 0x0e |> emitByte (u8i ((mi.op 2).getImm))
            |> (fun s => if (mi.op 0).getReg = (mi.op 1).getReg then s
                else s |> emitByte 0xfd |> emitByte 0xe5)
            |> emitByte 0xfd |> emitByte 0x09
            |> (fun s => if (mi.op 0).getReg = (mi.op 1).getReg then s
                else s |> emitByte 0xfd |> emitByte 0xe5)
                  |> emitByte 0xc1 |> emitByte 0xfd |> emitByte 0xe1
                  |> (fun s => if Reg.BC = (mi.op 0).getReg then s else emitByte 0xc1 s)
            |> emitByte 0xf1)
             | _ => Except.error (instrErr name "Allowed registers in the second operand are IX, IY."))
          | Reg.DE =>
            (match (mi.op 1).getReg with
             | Reg.IX =>
               Except.ok (EmitState.init |> emitByte 0xf5
            |> (fun s => if Reg.BC = (mi.op 0).getReg then s else emitByte 0xc5 s)
            |> emitByte 0x06 |> emitByte 0x00
            |> emitByte 0x0e |> emitByte (u8i ((mi.op 2).getImm))
            |> (fun s => if (mi.op 0).getReg = (mi.op 1).getReg then s
                else s |> emitByte 0xfd |> emitByte 0xe5)
            |> emitByte 0xfd |> emitByte 0x09
            |> (fun s => if (mi.op 0).getReg = (mi.op 1).getReg then s
                else s |> emitByte 0xfd |> emitByte 0xe5)
                  |> emitByte 0xd1 |> emitByte 0xdd |> emitByte 0xe1
                  |> (fun s => if Reg.BC = (mi.op 0).getReg then s else emitByte 0xc1 s)
            |> emitByte 0xf1)
             | Reg.IY =>
               Except.ok (EmitState.init |> emitByte 0xf5
            |> (fun s => if Reg.BC = (mi.op 0).getReg then s else emitByte 0xc5 s)
            |> emitByte 0x06 |> emitByte 0x00
            |> emitByte 0x0e |> emitByte (u8i ((mi.op 2).getImm))
            |> (fun s => if (mi.op 0).getReg = (mi.op 1).getReg then s
                else s |> emitByte 0xfd |> emitByte 0xe5)
            |> emitByte 0xfd |> emitByte 0x09
            |> (fun s => if (mi.op 0).getReg = (mi.op 1).getReg then s
                else s |> emitByte 0xfd |> emitByte 0xe5)
                  |> emitByte 0xd1 |> emitByte 0xfd |> emitByte 0xe1
                  |> (fun s => if Reg.BC = (mi.op 0).getReg then s else emitByte 0xc1 s)
            |> emitByte 0xf1)
             | _ => Except.error (instrErr name "Allowed registers in the second operand are IX, IY."))
          | Reg.HL =>
            (match (mi.op 1).getReg with
             | Reg.IX =>
               Except.ok (EmitState.init |> emitByte 0xf5
            |> (fun s => if Reg.BC = (mi.op 0).getReg then s else emitByte 0xc5 s)
            |> emitByte 0x06 |> emitByte 0x00
            |> emitByte 0x0e |> emitByte (u8i ((mi.op 2).getImm))
            |> (fun s => if (mi.op 0).getReg = (mi.op 1).getReg then s
                else s |> emitByte 0xfd |> emitByte 0xe5)
            |> emitByte 0xfd |> emitByte 0x09
            |> (fun s => if (mi.op 0).getReg = (mi.op 1).getReg then s
                else s |> emitByte 0xfd |> emitByte 0xe5)
                  |> emitByte 0xe1 |> emitByte 0xdd |> emitByte 0xe1
                  |> (fun s => if Reg.BC = (mi.op 0).getReg then s else emitByte 0xc1 s)
            |> emitByte 0xf1)
             | Reg.IY =>
               Except.ok (EmitState.init |> emitByte 0xf5
            |> (fun s => if Reg.BC = (mi.op 0).getReg then s else emitByte 0xc5 s)
            |> emitByte 0x06 |> emitByte 0x00
            |> emitByte 0x0e |> emitByte (u8i ((mi.op 2).getImm))
            |> (fun s => if (mi.op 0).getReg = (mi.op 1).getReg then s
                else s |> emitByte 0xfd |> emitByte 0xe5)
            |> emitByte 0xfd |> emitByte 0x09
            |> (fun s => if (mi.op 0).getReg = (mi.op 1).getReg then s
                else s |> emitByte 0xfd |> emitByte 0xe5)
                  |> emitByte 0xe1 |> emitByte 0xfd |> emitByte 0xe1
                  |> (fun s => if Reg.BC = (mi.op 0).getReg then s else emitByte 0xc1 s)
            |> emitByte 0xf1)
             | _ => Except.error (instrErr name "Allowed registers in the second operand are IX, IY."))
          | Reg.IX =>
            (match (mi.op 1).getReg with
             | Reg.IX =>
               Except.ok (EmitState.init |> emitByte 0xf5
            |> (fun s => if Reg.BC = (mi.op 0).getReg then s else emitByte 0xc5 s)
            |> emitByte 0x06 |> emitByte 0x00
            |> emitByte 0x0e |> emitByte (u8i ((mi.op 2).getImm))
            |> (fun s => if (mi.op 0).getReg = (mi.op 1).getReg then s
                else s |> emitByte 0xfd |> emitByte 0xe5)
            |> emitByte 0xfd |> emitByte 0x09
            |> (fun s => if (mi.op 0).getReg = (mi.op 1).getReg then s
                else s |> emitByte 0xfd |> emitByte 0xe5)
                  |> emitByte 0xdd |> emitByte 0xe1 |> emitByte 0xdd |> emitByte 0xe1
                  |> (fun s => if Reg.BC = (mi.op 0).getReg then s else emitByte 0xc1 s)
            |> emitByte 0xf1)
             | Reg.IY =>
               Except.ok (EmitState.init |> emitByte 0xf5
            |> (fun s => if Reg.BC = (mi.op 0).getReg then s else emitByte 0xc5 s)
            |> emitByte 0x06 |> emitByte 0x00
            |> emitByte 0x0e |> emitByte (u8i ((mi.op 2).getImm))
            |> (fun s => if (mi.op 0).getReg = (mi.op 1).getReg then s
                else s |> emitByte 0xfd |> emitByte 0xe5)
            |> emitByte 0xfd |> emitByte 0x09
            |> (fun s => if (mi.op 0).getReg = (mi.op 1).getReg then s
                else s |> emitByte 0xfd |> emitByte 0xe5)
                  |> emitByte 0xdd |> emitByte 0xe1 |> emitByte 0xfd |> emitByte 0xe1
                  |> (fun s => if Reg.BC = (mi.op 0).getReg then s else emitByte 0xc1 s)
            |> emitByte 0xf1)
             | _ => Except.error (instrErr name "Allowed registers in the second operand are IX, IY."))
          | Reg.IY =>
            (match (mi.op 1).getReg with
             | Reg.IX =>
               Except.ok (EmitState.init |> emitByte 0xf5
            |> (fun s => if Reg.BC = (mi.op 0).getReg then s else emitByte 0xc5 s)
            |> emitByte 0x06 |> emitByte 0x00
            |> emitByte 0x0e |> emitByte (u8i ((mi.op 2).getImm))
            |> (fun s => if (mi.op 0).getReg = (mi.op 1).getReg then s
                else s |> emitByte 0xfd |> emitByte 0xe5)
            |> emitByte 0xfd |> emitByte 0x09
            |> (fun s => if (mi.op 0).getReg = (mi.op 1).getReg then s
                else s |> emitByte 0xfd |> emitByte 0xe5)
                  |> emitByte 0xfd |> emitByte 0xe1 |> emitByte 0xdd |> emitByte 0xe1
                  |> (fun s => if Reg.BC = (mi.op 0).getReg then s else emitByte 0xc1 s)
            |> emitByte 0xf1)
             | Reg.IY =>
               Except.ok (EmitState.init |> emitByte 0xf5
            |> (fun s => if Reg.BC = (mi.op 0).getReg then s else emitByte 0xc5 s)
            |> emitByte 0x06 |> emitByte 0x00
            |> emitByte 0x0e |> emitByte (u8i ((mi.op 2).getImm))
            |> (fun s => if (mi.op 0).getReg = (mi.op 1).getReg then s
                else s |> emitByte 0xfd |> emitByte 0xe5)
            |> emitByte 0xfd |> emitByte 0x09
            |> (fun s => if (mi.op 0).getReg = (mi.op 1).getReg then s
                else s |> emitByte 0xfd |> emitByte 0xe5)
                  |> emitByte 0xfd |> emitByte 0xe1 |> emitByte 0xfd |> emitByte 0xe1
                  |> (fun s => if Reg.BC = (mi.op 0).getReg then s else emitByte 0xc1 s)
            |> emitByte 0xf1)
             | _ => Except.error (instrErr name "Allowed registers in the second operand are IX, IY."))
          | _ => Except.error (instrErr name "Allowed registers in the first operand are BC, DE, HL, IX, IY.")))
     | _ => Except.error (instrErr name "Allowed registers in the second operand are IX, IY."))
       else Except.error (instrErr name "Third operand should be immediate."))
     else Except.error (instrErr name "First two operands should be registers."))
   else Except.error (numOpsErr name 3 mi.operands.length))

/-- Encoding of `ADC8ai` (translated from the corresponding
`case Z80::ADC8ai` block of `Z80MCCodeEmitter::encodeInstruction`). -/
def enc_ADC8ai (name : String) (mi : Inst) : Except String EmitState :=
  (if mi.operands.length = 1 then
    (if (mi.op 0).isImm then
      Except.ok
        (EmitState.init |> emitByte 0xce |> emitByte (u8i ((mi.op 0).getImm)))
     else Except.error (instrErr name "Operand should be immediate."))
   else Except.error (numOpsErr name 1 mi.operands.length))

/-- Encoding of `ADC8ao` (translated from the corresponding
`case Z80::ADC8ao` block of `Z80MCCodeEmitter::encodeInstruction`). -/
def enc_ADC8ao (name : String) (mi : Inst) : Except String EmitState :=
  (if mi.operands.length = 2 then
    (if (mi.op 0).isReg then
      (if (mi.op 1).isImm then
        (match ((mi.op 0)).getReg with
         | Reg.IX =>
            Except.ok
              (EmitState.init |> emitByte 0xdd |> emitByte 0x8e |> emitByte (u8i ((mi.op 1).getImm)))
         | Reg.IY =>
            Except.ok
              (EmitState.init |> emitByte 0xfd |> emitByte 0x8e |> emitByte (u8i ((mi.op 1).getImm)))
         | _ =>
            Except.error (instrErr name "Allowed registers are IX, IY.")
        )
       else Except.error (instrErr name "Second operand should be immediate."))
     else Except.error (instrErr name "First operand should be register."))
   else Except.error (numOpsErr name 2 mi.operands.length))

/-- Encoding of `ADC8ap` (translated from the corresponding
`case Z80::ADC8ap` block of `Z80MCCodeEmitter::encodeInstruction`). -/
def enc_ADC8ap (name : String) (mi : Inst) : Except String EmitState :=
  (if mi.operands.length = 1 then
    (if (mi.op 0).isReg then
      (match ((mi.op 0)).getReg with
       | Reg.HL =>
          Except.ok
            (EmitState.init |> emitByte 0x8e)
       | _ =>
          Except.error (instrErr name "The only allowed register is HL.")
      )
     else Except.error (instrErr name "Operand should be register."))
   else Except.error (numOpsErr name 1 mi.operands.length))

/-- Encoding of `ADC8ar` (translated from the corresponding
`case Z80::ADC8ar` block of `Z80MCCodeEmitter::encodeInstruction`). -/
def enc_ADC8ar (name : String) (mi : Inst) : Except String EmitState :=
  (if mi.operands.length = 1 then
    (if (mi.op 0).isReg then
      (match ((mi.op 0)).getReg with
       | Reg.A =>
          Except.ok
            (EmitState.init |> emitByte 0x8f)
       | Reg.B =>
          Except.ok
            (EmitState.init |> emitByte 0x88)
       | Reg.C =>
          Except.ok
            (EmitState.init |> emitByte 0x89)
       | Reg.D =>
          Except.ok
            (EmitState.init |> emitByte 0x8a)
       | Reg.E =>
          Except.ok
            (EmitState.init |> emitByte 0x8b)
       | Reg.H =>
          Except.ok
            (EmitState.init |> emitByte 0x8c)
       | Reg.L =>
          Except.ok
            (EmitState.init |> emitByte 0x8d)
       | Reg.IXH =>
          Except.ok
            (EmitState.init |> emitByte 0xe5 |> emitByte 0xdd |> emitByte 0xe5 |> emitByte 0xe1 |> emitByte 0x8c |> emitByte 0xe1)
       | Reg.IXL =>
          Except.ok
            (EmitState.init |> emitByte 0xe5 |> emitByte 0xdd |> emitByte 0xe5 |> emitByte 0xe1 |> emitByte 0x8d |> emitByte 0xe1)
       | Reg.IYH =>
          Except.ok
            (EmitState.init |> emitByte 0xe5 |> emitByte 0xfd |> emitByte 0xe5 |> emitByte 0xe1 |> emitByte 0x8c |> emitByte 0xe1)
       | Reg.IYL =>
          Except.ok
            (EmitState.init |> emitByte 0xe5 |> emitByte 0xfd |> emitByte 0xe5 |> emitByte 0xe1 |> emitByte 0x8d |> emitByte 0xe1)
       | _ =>
          Except.error (instrErr name "Allowed register are A, B, C, D, E, H, L.")
      )
     else Except.error (instrErr name "Operand should be register."))
   else Except.error (numOpsErr name 1 mi.operands.length))

/-- Encoding of `ADD16SP` (translated from the corresponding
`case Z80::ADD16SP` block of `Z80MCCodeEmitter::encodeInstruction`). -/
def enc_ADD16SP (name : String) (mi : Inst) : Except String EmitState :=
  (if mi.operands.length = 2 then
    (if ((mi.op 0).isReg && (mi.op 1).isReg) then
      (if (mi.op 0).getReg = (mi.op 1).getReg then
        (match ((mi.op 0)).getReg with
         | Reg.HL =>
            Except.ok
              (EmitState.init |> emitByte 0x39)
         | Reg.IX =>
            Except.ok
              (EmitState.init |> emitByte 0xdd |> emitByte 0x39)
         | Reg.IY =>
            Except.ok
              (EmitState.init |> emitByte 0xfd |> emitByte 0x39)
         | _ =>
            Except.error (instrErr name "Allowed registers are HL, IX, IY.")
        )
       else Except.error (instrErr name "Both operands should be the same register."))
     else Except.error (instrErr name "Both operands should be registers."))
   else Except.error (numOpsErr name 2 mi.operands.length))

/-- Encoding of `ADD16aa` (translated from the corresponding
`case Z80::ADD16aa` block of `Z80MCCodeEmitter::encodeInstruction`). -/
def enc_ADD16aa (name : String) (mi : Inst) : Except String EmitState :=
  (if mi.operands.length = 2 then
    (if ((mi.op 0).isReg && (mi.op 1).isReg) then
      (if (mi.op 0).getReg = (mi.op 1).getReg then
        (match ((mi.op 0)).getReg with
         | Reg.HL =>
            Except.ok
              (EmitState.init |> emitByte 0x29)
         | Reg.IX =>
            Except.ok
              (EmitState.init |> emitByte 0xdd |> emitByte 0x29)
         | Reg.IY =>
            Except.ok
              (EmitState.init |> emitByte 0xfd |> emitByte 0x29)
         | _ =>
            Except.error (instrErr name "Allowed registers are HL, IX, IY.")
        )
       else Except.error (instrErr name "Both operands should be the same register."))
     else Except.error (instrErr name "Both operands should be registers."))
   else Except.error (numOpsErr name 2 mi.operands.length))

/-- Encoding of `ADD16ao` (translated from the corresponding
`case Z80::ADD16ao` block of `Z80MCCodeEmitter::encodeInstruction`). -/
def enc_ADD16ao (name : String) (mi : Inst) : Except String EmitState :=
  (if mi.operands.length = 3 then
    (if ((mi.op 0).isReg && (mi.op 1).isReg && (mi.op 2).isReg) then
      (if (mi.op 0).getReg = (mi.op 1).getReg then
        (match ((mi.op 0)).getReg with
         | Reg.HL =>
            (match ((mi.op 2)).getReg with
             | Reg.BC =>
                Except.ok
                  (EmitState.init |> emitByte 0x09)
             | Reg.DE =>
                Except.ok
                  (EmitState.init |> emitByte 0x19)
             | _ =>
                Except.error (instrErr name "Allowed last registers are BC, DE.")
            )
         | Reg.IX =>
            (match ((mi.op 2)).getReg with
             | Reg.BC =>
                Except.ok
                  (EmitState.init |> emitByte 0xdd |> emitByte 0x09)
             | Reg.DE =>
                Except.ok
                  (EmitState.init |> emitByte 0xdd |> emitByte 0x19)
             | _ =>
                Except.error (instrErr name "Allowed last registers are BC, DE.")
            )
         | Reg.IY =>
            (match ((mi.op 2)).getReg with
             | Reg.BC =>
                Except.ok
                  (EmitState.init |> emitByte 0xfd |> emitByte 0x09)
             | Reg.DE =>
                Except.ok
                  (EmitState.init |> emitByte 0xfd |> emitByte 0x19)
             | _ =>
                Except.error (instrErr name "Allowed last registers are BC, DE.")
            )
         | _ =>
            Except.error (instrErr name "Allowed first two registers are HL, IX, IY.")
        )
       else Except.error (instrErr name "First two of the operands should be the same register."))
     else Except.error (instrErr name "All operands should be registers."))
   else Except.error (numOpsErr name 3 mi.operands.length))

/-- Encoding of `ADD8ai` (translated from the corresponding
`case Z80::ADD8ai` block of `Z80MCCodeEmitter::encodeInstruction`). -/
def enc_ADD8ai (name : String) (mi : Inst) : Except String EmitState :=
  (if mi.operands.length = 1 then
    (if (mi.op 0).isImm then
      Except.ok
        (EmitState.init |> emitByte 0xc6 |> emitByte (u8i ((mi.op 0).getImm)))
     else Except.error (instrErr name "Operand should be immediate."))
   else Except.error (numOpsErr name 1 mi.operands.length))

/-- Encoding of `ADD8ao` (translated from the corresponding
`case Z80::ADD8ao` block of `Z80MCCodeEmitter::encodeInstruction`). -/
def enc_ADD8ao (name : String) (mi : Inst) : Except String EmitState :=
  (if mi.operands.length = 2 then
    (if (mi.op 0).isReg then
      (if (mi.op 1).isImm then
        (match ((mi.op 0)).getReg with
         | Reg.IX =>
            Except.ok
              (EmitState.init |> emitByte 0xdd |> emitByte 0x86 |> emitByte (u8i ((mi.op 1).getImm)))
         | Reg.IY =>
            Except.ok
              (EmitState.init |> emitByte 0xfd |> emitByte 0x86 |> emitByte (u8i ((mi.op 1).getImm)))
         | _ =>
            Except.error (instrErr name "Allowed registers are IX, IY.")
        )
       else Except.error (instrErr name "Second operand should be immediate."))
     else Except.error (instrErr name "First operand should be register."))
   else Except.error (numOpsErr name 2 mi.operands.length))

/-- Encoding of `ADD8ap` (translated from the corresponding
`case Z80::ADD8ap` block of `Z80MCCodeEmitter::encodeInstruction`). -/
def enc_ADD8ap (name : String) (mi : Inst) : Except String EmitState :=
  (if mi.operands.length = 1 then
    (if (mi.op 0).isReg then
      (match ((mi.op 0)).getReg with
       | Reg.HL =>
          Except.ok
            (EmitState.init |> emitByte 0x86)
       | _ =>
          Except.error (instrErr name "The only allowed register is HL.")
      )
     else Except.error (instrErr name "Operand should be register."))
   else Except.error (numOpsErr name 1 mi.operands.length))

/-- Encoding of `ADD8ar` (translated from the corresponding
`case Z80::ADD8ar` block of `Z80MCCodeEmitter::encodeInstruction`). -/
def enc_ADD8ar (name : String) (mi : Inst) : Except String EmitState :=
  (if mi.operands.length = 1 then
    (if (mi.op 0).isReg then
      (match ((mi.op 0)).getReg with
       | Reg.A =>
          Except.ok
            (EmitState.init |> emitByte 0x87)
       | Reg.B =>
          Except.ok
            (EmitState.init |> emitByte 0x80)
       | Reg.C =>
          Except.ok
            (EmitState.init |> emitByte 0x81)
       | Reg.D =>
          Except.ok
            (EmitState.init |> emitByte 0x82)
       | Reg.E =>
          Except.ok
            (EmitState.init |> emitByte 0x83)
       | Reg.H =>
          Except.ok
            (EmitState.init |> emitByte 0x84)
       | Reg.L =>
          Except.ok
            (EmitState.init |> emitByte 0x85)
       | Reg.IXH =>
          Except.ok
            (EmitState.init |> emitByte 0xe5 |> emitByte 0xdd |> emitByte 0xe5 |> emitByte 0xe1 |> emitByte 0x84 |> emitByte 0xe1)
       | Reg.IXL =>
          Except.ok
            (EmitState.init |> emitByte 0xe5 |> emitByte 0xdd |> emitByte 0xe5 |> emitByte 0xe1 |> emitByte 0x85 |> emitByte 0xe1)
       | Reg.IYH =>
          Except.ok
            (EmitState.init |> emitByte 0xe5 |> emitByte 0xfd |> emitByte 0xe5 |> emitByte 0xe1 |> emitByte 0x84 |> emitByte 0xe1)
       | Reg.IYL =>
          Except.ok
            (EmitState.init |> emitByte 0xe5 |> emitByte 0xfd |> emitByte 0xe5 |> emitByte 0xe1 |> emitByte 0x85 |> emitByte 0xe1)
       | _ =>
          Except.error (instrErr name "Allowed register are A, B, C, D, E, H, L.")
      )
     else Except.error (instrErr name "Operand should be register."))
   else Except.error (numOpsErr name 1 mi.operands.length))

/-- Encoding of `AND8ai` (translated from the corresponding
`case Z80::AND8ai` block of `Z80MCCodeEmitter::encodeInstruction`). -/
def enc_AND8ai (name : String) (mi : Inst) : Except String EmitState :=
  (if mi.operands.length = 1 then
    (if (mi.op 0).isImm then
      Except.ok
        (EmitState.init |> emitByte 0xe6 |> emitByte (u8i ((mi.op 0).getImm)))
     else Except.error (instrErr name "Operand should be immediate."))
   else Except.error (numOpsErr name 1 mi.operands.length))

/-- Encoding of `AND8ao` (translated from the corresponding
`case Z80::AND8ao` block of `Z80MCCodeEmitter::encodeInstruction`). -/
def enc_AND8ao (name : String) (mi : Inst) : Except String EmitState :=
  (if mi.operands.length = 2 then
    (if (mi.op 0).isReg then
      (if (mi.op 1).isImm then
        (match ((mi.op 0)).getReg with
         | Reg.IX =>
            Except.ok
              (EmitState.init |> emitByte 0xdd |> emitByte 0xa6 |> emitByte (u8i ((mi.op 1).getImm)))
         | Reg.IY =>
            Except.ok
              (EmitState.init |> emitByte 0xfd |> emitByte 0xa6 |> emitByte (u8i ((mi.op 1).getImm)))
         | _ =>
            Except.error (instrErr name "Allowed registers are IX, IY.")
        )
       else Except.error (instrErr name "Second operand should be immediate."))
     else Except.error (instrErr name "First operand should be register."))
   else Except.error (numOpsErr name 2 mi.operands.length))

/-- Encoding of `AND8ap` (translated from the corresponding
`case Z80::AND8ap` block of `Z80MCCodeEmitter::encodeInstruction`). -/
def enc_AND8ap (name : String) (mi : Inst) : Except String EmitState :=
  (if mi.operands.length = 1 then
    (if (mi.op 0).isReg then
      (match ((mi.op 0)).getReg with
       | Reg.HL =>
          Except.ok
            (EmitState.init |> emitByte 0xa6)
       | _ =>
          Except.error (instrErr name "The only allowed register is HL.")
      )
     else Except.error (instrErr name "Operand should be register."))
   else Except.error (numOpsErr name 1 mi.operands.length))

/-- Encoding of `AND8ar` (translated from the corresponding
`case Z80::AND8ar` block of `Z80MCCodeEmitter::encodeInstruction`). -/
def enc_AND8ar (name : String) (mi : Inst) : Except String EmitState :=
  (if mi.operands.length = 1 then
    (if (mi.op 0).isReg then
      (match ((mi.op 0)).getReg with
       | Reg.A =>
          Except.ok
            (EmitState.init |> emitByte 0xa7)
       | Reg.B =>
          Except.ok
            (EmitState.init |> emitByte 0xa0)
       | Reg.C =>
          Except.ok
            (EmitState.init |> emitByte 0xa1)
       | Reg.D =>
          Except.ok
            (EmitState.init |> emitByte 0xa2)
       | Reg.E =>
          Except.ok
            (EmitState.init |> emitByte 0xa3)
       | Reg.H =>
          Except.ok
            (EmitState.init |> emitByte 0xa4)
       | Reg.L =>
          Except.ok
            (EmitState.init |> emitByte 0xa5)
       | Reg.IXH =>
          Except.ok
            (EmitState.init |> emitByte 0xe5 |> emitByte 0xdd |> emitByte 0xe5 |> emitByte 0xe1 |> emitByte 0xa4 |> emitByte 0xe1)
       | Reg.IXL =>
          Except.ok
            (EmitState.init |> emitByte 0xe5 |> emitByte 0xdd |> emitByte 0xe5 |> emitByte 0xe1 |> emitByte 0xa5 |> emitByte 0xe1)
       | Reg.IYH =>
          Except.ok
            (EmitState.init |> emitByte 0xe5 |> emitByte 0xfd |> emitByte 0xe5 |> emitByte 0xe1 |> emitByte 0xa4 |> emitByte 0xe1)
       | Reg.IYL =>
          Except.ok
            (EmitState.init |> emitByte 0xe5 |> emitByte 0xfd |> emitByte 0xe5 |> emitByte 0xe1 |> emitByte 0xa5 |> emitByte 0xe1)
       | _ =>
          Except.error (instrErr name "Allowed register are A, B, C, D, E, H, L.")
      )
     else Except.error (instrErr name "Operand should be register."))
   else Except.error (numOpsErr name 1 mi.operands.length))

/-- Encoding of `BIT8bg` (translated from the corresponding
`case Z80::BIT8bg` block of `Z80MCCodeEmitter::encodeInstruction`). -/
def enc_BIT8bg (name : String) (mi : Inst) : Except String EmitState :=
  (if mi.operands.length = 2 then
    (if (mi.op 0).isImm then
      (if (mi.op 1).isReg then
        (if 8 ≤ u8i ((mi.op 0).getImm) then Except.error (instrErr name "First operand should be in range 0..7.")
         else
          (match ((mi.op 1)).getReg with
           | Reg.A =>
              Except.ok
                (EmitState.init |> emitByte 0xcb |> emitByte (((u8i ((mi.op 0).getImm)) <<< 3) ||| 0x47))
           | Reg.B =>
              Except.ok
                (EmitState.init |> emitByte 0xcb |> emitByte (((u8i ((mi.op 0).getImm)) <<< 3) ||| 0x40))
           | Reg.C =>
              Except.ok
                (EmitState.init |> emitByte 0xcb |> emitByte (((u8i ((mi.op 0).getImm)) <<< 3) ||| 0x41))
           | Reg.D =>
              Except.ok
                (EmitState.init |> emitByte 0xcb |> emitByte (((u8i ((mi.op 0).getImm)) <<< 3) ||| 0x42))
           | Reg.E =>
              Except.ok
                (EmitState.init |> emitByte 0xcb |> emitByte (((u8i ((mi.op 0).getImm)) <<< 3) ||| 0x43))
           | Reg.H =>
              Except.ok
                (EmitState.init |> emitByte 0xcb |> emitByte (((u8i ((mi.op 0).getImm)) <<< 3) ||| 0x44))
           | Reg.L =>
              Except.ok
                (EmitState.init |> emitByte 0xcb |> emitByte (((u8i ((mi.op 0).getImm)) <<< 3) ||| 0x45))
           | Reg.IXH =>
              Except.ok
                (EmitState.init |> emitByte 0xe5 |> emitByte 0xdd |> emitByte 0xe5 |> emitByte 0xe1 |> emitByte 0xcb |> emitByte (((u8i ((mi.op 0).getImm)) <<< 3) ||| 0x44) |> emitByte 0xe5 |> emitByte 0xdd |> emitByte 0xe1 |> emitByte 0xe1)
           | Reg.IXL =>
              Except.ok
                (EmitState.init |> emitByte 0xe5 |> emitByte 0xdd |> emitByte 0xe5 |> emitByte 0xe1 |> emitByte 0xcb |> emitByte (((u8i ((mi.op 0).getImm)) <<< 3) ||| 0x45) |> emitByte 0xe5 |> emitByte 0xdd |> emitByte 0xe1 |> emitByte 0xe1)
           | Reg.IYH =>
              Except.ok
                (EmitState.init |> emitByte 0xe5 |> emitByte 0xfd |> emitByte 0xe5 |> emitByte 0xe1 |> emitByte 0xcb |> emitByte (((u8i ((mi.op 0).getImm)) <<< 3) ||| 0x44) |> emitByte 0xe5 |> emitByte 0xfd |> emitByte 0xe1 |> emitByte 0xe1)
           | Reg.IYL =>
              Except.ok
                (EmitState.init |> emitByte 0xe5 |> emitByte 0xfd |> emitByte 0xe5 |> emitByte 0xe1 |> emitByte 0xcb |> emitByte (((u8i ((mi.op 0).getImm)) <<< 3) ||| 0x45) |> emitByte 0xe5 |> emitByte 0xfd |> emitByte 0xe1 |> emitByte 0xe1)
           | _ =>
              Except.error (instrErr name "Allowed register are A, B, C, D, E, H, L.")
          ))
       else Except.error (instrErr name "Second operand should be register."))
     else Except.error (instrErr name "First operand should be immediate."))
   else Except.error (numOpsErr name 2 mi.operands.length))

/-- Encoding of `BIT8bo` (translated from the corresponding
`case Z80::BIT8bo` block of `Z80MCCodeEmitter::encodeInstruction`). -/
def enc_BIT8bo (name : String) (mi : Inst) : Except String EmitState :=
  (if mi.operands.length = 3 then
    (if (mi.op 0).isImm then
      (if (mi.op 1).isReg then
        (if (mi.op 2).isImm then
          (if 8 ≤ u8i ((mi.op 0).getImm) then Except.error (instrErr name "First operand should be in range 0..7.")
           else
            (match ((mi.op 1)).getReg with
             | Reg.IX =>
                Except.ok
                  (EmitState.init |> emitByte 0xdd |> emitByte 0xcb |> emitByte (u8i ((mi.op 2).getImm)) |> emitByte (((u8i ((mi.op 0).getImm)) <<< 3) ||| 0x46))
             | Reg.IY =>
                Except.ok
                  (EmitState.init |> emitByte 0xfd |> emitByte 0xcb |> emitByte (u8i ((mi.op 2).getImm)) |> emitByte (((u8i ((mi.op 0).getImm)) <<< 3) ||| 0x46))
             | _ =>
                Except.error (instrErr name "Allowed registers are IX, IY.")
            ))
         else Except.error (instrErr name "Third operand should be immediate."))
       else Except.error (instrErr name "Second operand should be register."))
     else Except.error (instrErr name "First operand should be immediate."))
   else Except.error (numOpsErr name 3 mi.operands.length))

/-- Encoding of `BIT8bp` (translated from the corresponding
`case Z80::BIT8bp` block of `Z80MCCodeEmitter::encodeInstruction`). -/
def enc_BIT8bp (name : String) (mi : Inst) : Except String EmitState :=
  (if mi.operands.length = 2 then
    (if (mi.op 0).isImm then
      (if (mi.op 1).isReg then
        (if 8 ≤ u8i ((mi.op 0).getImm) then Except.error (instrErr name "First operand should be in range 0..7.")
         else
          (match ((mi.op 1)).getReg with
           | Reg.HL =>
              Except.ok
                (EmitState.init |> emitByte 0xcb |> emitByte (((u8i ((mi.op 0).getImm)) <<< 3) ||| 0x46))
           | Reg.IX =>
              Except.ok
                (EmitState.init |> emitByte 0xdd |> emitByte 0xcb |> emitByte 0x00 |> emitByte (((u8i ((mi.op 0).getImm)) <<< 3) ||| 0x46))
           | Reg.IY =>
              Except.ok
                (EmitState.init |> emitByte 0xfd |> emitByte 0xcb |> emitByte 0x00 |> emitByte (((u8i ((mi.op 0).getImm)) <<< 3) ||| 0x46))
           | _ =>
              Except.error (instrErr name "Allowed registers are HL, IX, IY.")
          ))
       else Except.error (instrErr name "Second operand should be register."))
     else Except.error (instrErr name "First operand should be immediate."))
   else Except.error (numOpsErr name 2 mi.operands.length))

/-- Encoding of `CALL16` (translated from the corresponding
`case Z80::CALL16` block of `Z80MCCodeEmitter::encodeInstruction`). -/
def enc_CALL16 (name : String) (mi : Inst) : Except String EmitState :=
  (if mi.operands.length = 1 then
    (if (mi.op 0).isExpr then
      Except.ok
        (EmitState.init |> emitByte 0xcd |> pushFixup (((mi.op 0)).getExpr) MCFixupKind.fixup_16 mi.loc |> emitByte 0x00 |> emitByte 0x00)
     else
      (if (mi.op 0).isImm then
        Except.ok
          (EmitState.init |> emitByte 0xcd |> emitByte ((u16i ((mi.op 0).getImm) >>> 0) &&& 0xff) |> emitByte ((u16i ((mi.op 0).getImm) >>> 8) &&& 0xff))
       else
        Except.error (instrErr name "Operand should be an expression or immediate.")))
   else Except.error (numOpsErr name 1 mi.operands.length))

/-- Encoding of `CALL16CC` (translated from the corresponding
`case Z80::CALL16CC` block of `Z80MCCodeEmitter::encodeInstruction`). -/
def enc_CALL16CC (name : String) (mi : Inst) : Except String EmitState :=
  (if mi.operands.length = 2 then
    (if (mi.op 1).isImm then
      (if 8 ≤ u8i ((mi.op 1).getImm) then Except.error (instrErr name "Second operand should be in range 0..7.")
       else
        (if (mi.op 0).isExpr then
          (if MCExprKind.SymbolRef = ((mi.op 0).getExpr).kind then
            Except.ok
              (EmitState.init |> emitByte (((u8i ((mi.op 1).getImm)) <<< 3) ||| 0xc4) |> pushFixup (((mi.op 0)).getExpr) MCFixupKind.fixup_16 mi.loc |> emitByte 0x00 |> emitByte 0x00)
           else Except.error (instrErr name "Fitst operand expression should be a call target."))
         else
          (if (mi.op 0).isImm then
            Except.ok
              (EmitState.init |> emitByte (((u8i ((mi.op 1).getImm)) <<< 3) ||| 0xc4) |> emitByte ((u16i ((mi.op 0).getImm) >>> 0) &&& 0xff) |> emitByte ((u16i ((mi.op 0).getImm) >>> 8) &&& 0xff))
           else
            Except.error (instrErr name "First operand should be an expression or immediate."))))
     else Except.error (instrErr name "Second operand should be immediate."))
   else Except.error (numOpsErr name 2 mi.operands.length))

/-- Encoding of `CCF` (translated from the corresponding
`case Z80::CCF` block of `Z80MCCodeEmitter::encodeInstruction`). -/
def enc_CCF (name : String) (mi : Inst) : Except String EmitState :=
  (if mi.operands.length = 0 then
    Except.ok
      (EmitState.init |> emitByte 0x3f)
   else Except.error (numOpsErr name 0 mi.operands.length))

/-- Encoding of `CP8ai` (translated from the corresponding
`case Z80::CP8ai` block of `Z80MCCodeEmitter::encodeInstruction`). -/
def enc_CP8ai (name : String) (mi : Inst) : Except String EmitState :=
  (if mi.operands.length = 1 then
    (if (mi.op 0).isImm then
      Except.ok
        (EmitState.init |> emitByte 0xfe |> emitByte (u8i ((mi.op 0).getImm)))
     else Except.error (instrErr name "Operand should be immediate."))
   else Except.error (numOpsErr name 1 mi.operands.length))

/-- Encoding of `CP8ao` (translated from the corresponding
`case Z80::CP8ao` block of `Z80MCCodeEmitter::encodeInstruction`). -/
def enc_CP8ao (name : String) (mi : Inst) : Except String EmitState :=
  (if mi.operands.length = 2 then
    (if (mi.op 0).isReg then
      (if (mi.op 1).isImm then
        (match ((mi.op 0)).getReg with
         | Reg.IX =>
            Except.ok
              (EmitState.init |> emitByte 0xdd |> emitByte 0xbe |> emitByte (u8i ((mi.op 1).getImm)))
         | Reg.IY =>
            Except.ok
              (EmitState.init |> emitByte 0xfd |> emitByte 0xbe |> emitByte (u8i ((mi.op 1).getImm)))
         | _ =>
            Except.error (instrErr name "Allowed registers are IX, IY.")
        )
       else Except.error (instrErr name "Second operand should be immediate."))
     else Except.error (instrErr name "First operand should be register."))
   else Except.error (numOpsErr name 2 mi.operands.length))

/-- Encoding of `CP8ap` (translated from the corresponding
`case Z80::CP8ap` block of `Z80MCCodeEmitter::encodeInstruction`). -/
def enc_CP8ap (name : String) (mi : Inst) : Except String EmitState :=
  (if mi.operands.length = 1 then
    (if (mi.op 0).isReg then
      (match ((mi.op 0)).getReg with
       | Reg.HL =>
          Except.ok
            (EmitState.init |> emitByte 0xbe)
       | _ =>
          Except.error (instrErr name "The only allowed register is HL.")
      )
     else Except.error (instrErr name "Operand should be register."))
   else Except.error (numOpsErr name 1 mi.operands.length))

/-- Encoding of `CP8ar` (translated from the corresponding
`case Z80::CP8ar` block of `Z80MCCodeEmitter::encodeInstruction`). -/
def enc_CP8ar (name : String) (mi : Inst) : Except String EmitState :=
  (if mi.operands.length = 1 then
    (if (mi.op 0).isReg then
      (match ((mi.op 0)).getReg with
       | Reg.A =>
          Except.ok
            (EmitState.init |> emitByte 0xbf)
       | Reg.B =>
          Except.ok
            (EmitState.init |> emitByte 0xb8)
       | Reg.C =>
          Except.ok
            (EmitState.init |> emitByte 0xb9)
       | Reg.D =>
          Except.ok
            (EmitState.init |> emitByte 0xba)
       | Reg.E =>
          Except.ok
            (EmitState.init |> emitByte 0xbb)
       | Reg.H =>
          Except.ok
            (EmitState.init |> emitByte 0xbc)
       | Reg.L =>
          Except.ok
            (EmitState.init |> emitByte 0xbd)
       | Reg.IXH =>
          Except.ok
            (EmitState.init |> emitByte 0xe5 |> emitByte 0xdd |> emitByte 0xe5 |> emitByte 0xe1 |> emitByte 0xbc |> emitByte 0xe1)
       | Reg.IXL =>
          Except.ok
            (EmitState.init |> emitByte 0xe5 |> emitByte 0xdd |> emitByte 0xe5 |> emitByte 0xe1 |> emitByte 0xbd |> emitByte 0xe1)
       | Reg.IYH =>
          Except.ok
            (EmitState.init |> emitByte 0xe5 |> emitByte 0xfd |> emitByte 0xe5 |> emitByte 0xe1 |> emitByte 0xbc |> emitByte 0xe1)
       | Reg.IYL =>
          Except.ok
            (EmitState.init |> emitByte 0xe5 |> emitByte 0xfd |> emitByte 0xe5 |> emitByte 0xe1 |> emitByte 0xbd |> emitByte 0xe1)
       | _ =>
          Except.error (instrErr name "Allowed register are A, B, C, D, E, H, L.")
      )
     else Except.error (instrErr name "Operand should be register."))
   else Except.error (numOpsErr name 1 mi.operands.length))

/-- Encoding of `CPD16` (translated from the corresponding
`case Z80::CPD16` block of `Z80MCCodeEmitter::encodeInstruction`). -/
def enc_CPD16 (name : String) (mi : Inst) : Except String EmitState :=
  (if mi.operands.length = 0 then
    Except.ok
      (EmitState.init |> emitByte 0xed |> emitByte 0xa9)
   else Except.error (numOpsErr name 0 mi.operands.length))

/-- Encoding of `CPDR16` (translated from the corresponding
`case Z80::CPDR16` block of `Z80MCCodeEmitter::encodeInstruction`). -/
def enc_CPDR16 (name : String) (mi : Inst) : Except String EmitState :=
  (if mi.operands.length = 0 then
    Except.ok
      (EmitState.init |> emitByte 0xed |> emitByte 0xb9)
   else Except.error (numOpsErr name 0 mi.operands.length))

/-- Encoding of `CPI16` (translated from the corresponding
`case Z80::CPI16` block of `Z80MCCodeEmitter::encodeInstruction`). -/
def enc_CPI16 (name : String) (mi : Inst) : Except String EmitState :=
  (if mi.operands.length = 0 then
    Except.ok
      (EmitState.init |> emitByte 0xed |> emitByte 0xa1)
   else Except.error (numOpsErr name 0 mi.operands.length))

/-- Encoding of `CPIR16` (translated from the corresponding
`case Z80::CPIR16` block of `Z80MCCodeEmitter::encodeInstruction`). -/
def enc_CPIR16 (name : String) (mi : Inst) : Except String EmitState :=
  (if mi.operands.length = 0 then
    Except.ok
      (EmitState.init |> emitByte 0xed |> emitByte 0xb1)
   else Except.error (numOpsErr name 0 mi.operands.length))

/-- Encoding of `CPL` (translated from the corresponding
`case Z80::CPL` block of `Z80MCCodeEmitter::encodeInstruction`). -/
def enc_CPL (name : String) (mi : Inst) : Except String EmitState :=
  (if mi.operands.length = 0 then
    Except.ok
      (EmitState.init |> emitByte 0x2f)
   else Except.error (numOpsErr name 0 mi.operands.length))

/-- Encoding of `DEC16SP` (translated from the corresponding
`case Z80::DEC16SP` block of `Z80MCCodeEmitter::encodeInstruction`). -/
def enc_DEC16SP (name : String) (mi : Inst) : Except String EmitState :=
  (if mi.operands.length = 0 then
    Except.ok
      (EmitState.init |> emitByte 0x3b)
   else Except.error (numOpsErr name 0 mi.operands.length))

/-- Encoding of `DEC16r` (translated from the corresponding
`case Z80::DEC16r` block of `Z80MCCodeEmitter::encodeInstruction`). -/
def enc_DEC16r (name : String) (mi : Inst) : Except String EmitState :=
  (if mi.operands.length = 0 then Except.error (instrErr name "Operand missing.")
   else
    (if (mi.op 0).isReg then
      (match ((mi.op 0)).getReg with
       | Reg.BC =>
          Except.ok
            (EmitState.init |> emitByte 0x0b)
       | Reg.DE =>
          Except.ok
            (EmitState.init |> emitByte 0x1b)
       | Reg.HL =>
          Except.ok
            (EmitState.init |> emitByte 0x2b)
       | Reg.IX =>
          Except.ok
            (EmitState.init |> emitByte 0xdd |> emitByte 0x2b)
       | Reg.IY =>
          Except.ok
            (EmitState.init |> emitByte 0xfd |> emitByte 0x2b)
       | _ =>
          Except.error (instrErr name "Allowed registers are BC, DE, HL, IX, IY.")
      )
     else Except.error (instrErr name "An operand should be an register.")))

/-- Encoding of `DEC8o` (translated from the corresponding
`case Z80::DEC8o` block of `Z80MCCodeEmitter::encodeInstruction`). -/
def enc_DEC8o (name : String) (mi : Inst) : Except String EmitState :=
  (if mi.operands.length = 2 then
    (if (mi.op 0).isReg then
      (if (mi.op 1).isImm then
        (match ((mi.op 0)).getReg with
         | Reg.IX =>
            Except.ok
              (EmitState.init |> emitByte 0xdd |> emitByte 0x35 |> emitByte (u8i ((mi.op 1).getImm)))
         | Reg.IY =>
            Except.ok
              (EmitState.init |> emitByte 0xfd |> emitByte 0x35 |> emitByte (u8i ((mi.op 1).getImm)))
         | _ =>
            Except.error (instrErr name "Allowed registers are IX, IY.")
        )
       else Except.error (instrErr name "Second operand should be immediate."))
     else Except.error (instrErr name "First operand should be register."))
   else Except.error (numOpsErr name 2 mi.operands.length))

/-- Encoding of `DEC8p` (translated from the corresponding
`case Z80::DEC8p` block of `Z80MCCodeEmitter::encodeInstruction`). -/
def enc_DEC8p (name : String) (mi : Inst) : Except String EmitState :=
  (if mi.operands.length = 1 then
    (if (mi.op 0).isReg then
      (match ((mi.op 0)).getReg with
       | Reg.HL =>
          Except.ok
            (EmitState.init |> emitByte 0x35)
       | Reg.IX =>
          Except.ok
            (EmitState.init |> emitByte 0xdd |> emitByte 0x35 |> emitByte 0x00)
       | Reg.IY =>
          Except.ok
            (EmitState.init |> emitByte 0xfd |> emitByte 0x35 |> emitByte 0x00)
       | _ =>
          Except.error (instrErr name "Allowed registers are HL, IX, IY.")
      )
     else Except.error (instrErr name "Operand should be register."))
   else Except.error (numOpsErr name 1 mi.operands.length))

/-- Encoding of `DEC8r` (translated from the corresponding
`case Z80::DEC8r` block of `Z80MCCodeEmitter::encodeInstruction`). -/
def enc_DEC8r (name : String) (mi : Inst) : Except String EmitState :=
  (if mi.operands.length = 0 then Except.error (instrErr name "Operand missing.")
   else
    (if (mi.op 0).isReg then
      (match ((mi.op 0)).getReg with
       | Reg.A =>
          Except.ok
            (EmitState.init |> emitByte 0x3d)
       | Reg.B =>
          Except.ok
            (EmitState.init |> emitByte 0x05)
       | Reg.C =>
          Except.ok
            (EmitState.init |> emitByte 0x0d)
       | Reg.D =>
          Except.ok
            (EmitState.init |> emitByte 0x15)
       | Reg.E =>
          Except.ok
            (EmitState.init |> emitByte 0x1d)
       | Reg.H =>
          Except.ok
            (EmitState.init |> emitByte 0x25)
       | Reg.L =>
          Except.ok
            (EmitState.init |> emitByte 0x2d)
       | Reg.IXH =>
          Except.ok
            (EmitState.init |> emitByte 0xe5 |> emitByte 0xdd |> emitByte 0xe5 |> emitByte 0xe1 |> emitByte 0x25 |> emitByte 0xe5 |> emitByte 0xdd |> emitByte 0xe1 |> emitByte 0xe1)
       | Reg.IXL =>
          Except.ok
            (EmitState.init |> emitByte 0xe5 |> emitByte 0xdd |> emitByte 0xe5 |> emitByte 0xe1 |> emitByte 0x2d |> emitByte 0xe5 |> emitByte 0xdd |> emitByte 0xe1 |> emitByte 0xe1)
       | Reg.IYH =>
          Except.ok
            (EmitState.init |> emitByte 0xe5 |> emitByte 0xfd |> emitByte 0xe5 |> emitByte 0xe1 |> emitByte 0x25 |> emitByte 0xe5 |> emitByte 0xfd |> emitByte 0xe1 |> emitByte 0xe1)
       | Reg.IYL =>
          Except.ok
            (EmitState.init |> emitByte 0xe5 |> emitByte 0xfd |> emitByte 0xe5 |> emitByte 0xe1 |> emitByte 0x2d |> emitByte 0xe5 |> emitByte 0xfd |> emitByte 0xe1 |> emitByte 0xe1)
       | _ =>
          Except.error (instrErr name "Allowed register are A, B, C, D, E, H, L.")
      )
     else Except.error (instrErr name "An operand should be an register.")))

/-- Encoding of `DI` (translated from the corresponding
`case Z80::DI` block of `Z80MCCodeEmitter::encodeInstruction`). -/
def enc_DI (name : String) (mi : Inst) : Except String EmitState :=
  (if mi.operands.length = 0 then
    Except.ok
      (EmitState.init |> emitByte 0xf3)
   else Except.error (numOpsErr name 0 mi.operands.length))

/-- Encoding of `EI` (translated from the corresponding
`case Z80::EI` block of `Z80MCCodeEmitter::encodeInstruction`). -/
def enc_EI (name : String) (mi : Inst) : Except String EmitState :=
  (if mi.operands.length = 0 then
    Except.ok
      (EmitState.init |> emitByte 0xfb)
   else Except.error (numOpsErr name 0 mi.operands.length))

/-- Encoding of `EX16DE` (translated from the corresponding
`case Z80::EX16DE` block of `Z80MCCodeEmitter::encodeInstruction`). -/
def enc_EX16DE (name : String) (mi : Inst) : Except String EmitState :=
  (if mi.operands.length = 0 then
    Except.ok
      (EmitState.init |> emitByte 0xeb)
   else Except.error (numOpsErr name 0 mi.operands.length))

/-- Encoding of `EX16SP` (translated from the corresponding
`case Z80::EX16SP` block of `Z80MCCodeEmitter::encodeInstruction`). -/
def enc_EX16SP (name : String) (mi : Inst) : Except String EmitState :=
  (if mi.operands.length = 2 then
    (if ((mi.op 0).isReg && (mi.op 1).isReg) then
      (if (mi.op 0).getReg = (mi.op 1).getReg then
        (match ((mi.op 0)).getReg with
         | Reg.HL =>
            Except.ok
              (EmitState.init |> emitByte 0xe3)
         | Reg.IX =>
            Except.ok
              (EmitState.init |> emitByte 0xdd |> emitByte 0xe3)
         | Reg.IY =>
            Except.ok
              (EmitState.init |> emitByte 0xfd |> emitByte 0xe3)
         | _ =>
            Except.error (instrErr name "Allowed registers are HL, IX, IY.")
        )
       else Except.error (instrErr name "Both operands should be the same register."))
     else Except.error (instrErr name "Both operands should be registers."))
   else Except.error (numOpsErr name 2 mi.operands.length))

/-- Encoding of `EXAF` (translated from the corresponding
`case Z80::EXAF` block of `Z80MCCodeEmitter::encodeInstruction`). -/
def enc_EXAF (name : String) (mi : Inst) : Except String EmitState :=
  (if mi.operands.length = 0 then
    Except.ok
      (EmitState.init |> emitByte 0x08)
   else Except.error (numOpsErr name 0 mi.operands.length))

/-- Encoding of `EXX` (translated from the corresponding
`case Z80::EXX` block of `Z80MCCodeEmitter::encodeInstruction`). -/
def enc_EXX (name : String) (mi : Inst) : Except String EmitState :=
  (if mi.operands.length = 0 then
    Except.ok
      (EmitState.init |> emitByte 0xd9)
   else Except.error (numOpsErr name 0 mi.operands.length))

/-- Encoding of `INC16SP` (translated from the corresponding
`case Z80::INC16SP` block of `Z80MCCodeEmitter::encodeInstruction`). -/
def enc_INC16SP (name : String) (mi : Inst) : Except String EmitState :=
  (if mi.operands.length = 0 then
    Except.ok
      (EmitState.init |> emitByte 0x33)
   else Except.error (numOpsErr name 0 mi.operands.length))

/-- Encoding of `INC16r` (translated from the corresponding
`case Z80::INC16r` block of `Z80MCCodeEmitter::encodeInstruction`). -/
def enc_INC16r (name : String) (mi : Inst) : Except String EmitState :=
  (if mi.operands.length = 0 then Except.error (instrErr name "Operand missing.")
   else
    (if (mi.op 0).isReg then
      (match ((mi.op 0)).getReg with
       | Reg.BC =>
          Except.ok
            (EmitState.init |> emitByte 0x03)
       | Reg.DE =>
          Except.ok
            (EmitState.init |> emitByte 0x13)
       | Reg.HL =>
          Except.ok
            (EmitState.init |> emitByte 0x23)
       | Reg.IX =>
          Except.ok
            (EmitState.init |> emitByte 0xdd |> emitByte 0x23)
       | Reg.IY =>
          Except.ok
            (EmitState.init |> emitByte 0xfd |> emitByte 0x23)
       | _ =>
          Except.error (instrErr name "Allowed registers are BC, DE, HL, IX, IY.")
      )
     else Except.error (instrErr name "An operand should be an register.")))

/-- Encoding of `INC8o` (translated from the corresponding
`case Z80::INC8o` block of `Z80MCCodeEmitter::encodeInstruction`). -/
def enc_INC8o (name : String) (mi : Inst) : Except String EmitState :=
  (if mi.operands.length = 2 then
    (if (mi.op 0).isReg then
      (if (mi.op 1).isImm then
        (match ((mi.op 0)).getReg with
         | Reg.IX =>
            Except.ok
              (EmitState.init |> emitByte 0xdd |> emitByte 0x34 |> emitByte (u8i ((mi.op 1).getImm)))
         | Reg.IY =>
            Except.ok
              (EmitState.init |> emitByte 0xfd |> emitByte 0x34 |> emitByte (u8i ((mi.op 1).getImm)))
         | _ =>
            Except.error (instrErr name "Allowed registers are IX, IY.")
        )
       else Except.error (instrErr name "Second operand should be immediate."))
     else Except.error (instrErr name "First operand should be register."))
   else Except.error (numOpsErr name 2 mi.operands.length))

/-- Encoding of `INC8p` (translated from the corresponding
`case Z80::INC8p` block of `Z80MCCodeEmitter::encodeInstruction`). -/
def enc_INC8p (name : String) (mi : Inst) : Except String EmitState :=
  (if mi.operands.length = 1 then
    (if (mi.op 0).isReg then
      (match ((mi.op 0)).getReg with
       | Reg.HL =>
          Except.ok
            (EmitState.init |> emitByte 0x34)
       | Reg.IX =>
          Except.ok
            (EmitState.init |> emitByte 0xdd |> emitByte 0x34 |> emitByte 0x00)
       | Reg.IY =>
          Except.ok
            (EmitState.init |> emitByte 0xfd |> emitByte 0x34 |> emitByte 0x00)
       | _ =>
          Except.error (instrErr name "Allowed registers are HL, IX, IY.")
      )
     else Except.error (instrErr name "Operand should be register."))
   else Except.error (numOpsErr name 1 mi.operands.length))

/-- Encoding of `INC8r` (translated from the corresponding
`case Z80::INC8r` block of `Z80MCCodeEmitter::encodeInstruction`). -/
def enc_INC8r (name : String) (mi : Inst) : Except String EmitState :=
  (if mi.operands.length = 0 then Except.error (instrErr name "Operand missing.")
   else
    (if (mi.op 0).isReg then
      (match ((mi.op 0)).getReg with
       | Reg.A =>
          Except.ok
            (EmitState.init |> emitByte 0x3c)
       | Reg.B =>
          Except.ok
            (EmitState.init |> emitByte 0x04)
       | Reg.C =>
          Except.ok
            (EmitState.init |> emitByte 0x0c)
       | Reg.D =>
          Except.ok
            (EmitState.init |> emitByte 0x14)
       | Reg.E =>
          Except.ok
            (EmitState.init |> emitByte 0x1c)
       | Reg.H =>
          Except.ok
            (EmitState.init |> emitByte 0x24)
       | Reg.L =>
          Except.ok
            (EmitState.init |> emitByte 0x2c)
       | Reg.IXH =>
          Except.ok
            (EmitState.init |> emitByte 0xe5 |> emitByte 0xdd |> emitByte 0xe5 |> emitByte 0xe1 |> emitByte 0x24 |> emitByte 0xe5 |> emitByte 0xdd |> emitByte 0xe1 |> emitByte 0xe1)
       | Reg.IXL =>
          Except.ok
            (EmitState.init |> emitByte 0xe5 |> emitByte 0xdd |> emitByte 0xe5 |> emitByte 0xe1 |> emitByte 0x2c |> emitByte 0xe5 |> emitByte 0xdd |> emitByte 0xe1 |> emitByte 0xe1)
       | Reg.IYH =>
          Except.ok
            (EmitState.init |> emitByte 0xe5 |> emitByte 0xfd |> emitByte 0xe5 |> emitByte 0xe1 |> emitByte 0x24 |> emitByte 0xe5 |> emitByte 0xfd |> emitByte 0xe1 |> emitByte 0xe1)
       | Reg.IYL =>
          Except.ok
            (EmitState.init |> emitByte 0xe5 |> emitByte 0xfd |> emitByte 0xe5 |> emitByte 0xe1 |> emitByte 0x2c |> emitByte 0xe5 |> emitByte 0xfd |> emitByte 0xe1 |> emitByte 0xe1)
       | _ =>
          Except.error (instrErr name "Allowed register are A, B, C, D, E, H, L.")
      )
     else Except.error (instrErr name "An operand should be an register.")))

/-- Encoding of `IND16` (translated from the corresponding
`case Z80::IND16` block of `Z80MCCodeEmitter::encodeInstruction`). -/
def enc_IND16 (name : String) (mi : Inst) : Except String EmitState :=
  (if mi.operands.length = 0 then
    Except.ok
      (EmitState.init |> emitByte 0xed |> emitByte 0xaa)
   else Except.error (numOpsErr name 0 mi.operands.length))

/-- Encoding of `INDR16` (translated from the corresponding
`case Z80::INDR16` block of `Z80MCCodeEmitter::encodeInstruction`). -/
def enc_INDR16 (name : String) (mi : Inst) : Except String EmitState :=
  (if mi.operands.length = 0 then
    Except.ok
      (EmitState.init |> emitByte 0xed |> emitByte 0xba)
   else Except.error (numOpsErr name 0 mi.operands.length))

/-- Encoding of `INI16` (translated from the corresponding
`case Z80::INI16` block of `Z80MCCodeEmitter::encodeInstruction`). -/
def enc_INI16 (name : String) (mi : Inst) : Except String EmitState :=
  (if mi.operands.length = 0 then
    Except.ok
      (EmitState.init |> emitByte 0xed |> emitByte 0xa2)
   else Except.error (numOpsErr name 0 mi.operands.length))

/-- Encoding of `INIR16` (translated from the corresponding
`case Z80::INIR16` block of `Z80MCCodeEmitter::encodeInstruction`). -/
def enc_INIR16 (name : String) (mi : Inst) : Except String EmitState :=
  (if mi.operands.length = 0 then
    Except.ok
      (EmitState.init |> emitByte 0xed |> emitByte 0xb2)
   else Except.error (numOpsErr name 0 mi.operands.length))

/-- Encoding of `JP16r` (translated from the corresponding
`case Z80::JP16r` block of `Z80MCCodeEmitter::encodeInstruction`). -/
def enc_JP16r (name : String) (mi : Inst) : Except String EmitState :=
  (if mi.operands.length = 1 then
    (if (mi.op 0).isReg then
      (match ((mi.op 0)).getReg with
       | Reg.HL =>
          Except.ok
            (EmitState.init |> emitByte 0xe9)
       | Reg.IX =>
          Except.ok
            (EmitState.init |> emitByte 0xdd |> emitByte 0xe9)
       | Reg.IY =>
          Except.ok
            (EmitState.init |> emitByte 0xfd |> emitByte 0xe9)
       | _ =>
          Except.error (instrErr name "Allowed registers are HL, IX, IY.")
      )
     else Except.error (instrErr name "Operand should be register."))
   else Except.error (numOpsErr name 1 mi.operands.length))

/-- Encoding of `LD16SP` (translated from the corresponding
`case Z80::LD16SP` block of `Z80MCCodeEmitter::encodeInstruction`). -/
def enc_LD16SP (name : String) (mi : Inst) : Except String EmitState :=
  (if mi.operands.length = 1 then
    (if (mi.op 0).isReg then
      (match ((mi.op 0)).getReg with
       | Reg.HL =>
          Except.ok
            (EmitState.init |> emitByte 0xf9)
       | Reg.IX =>
          Except.ok
            (EmitState.init |> emitByte 0xdd |> emitByte 0xf9)
       | Reg.IY =>
          Except.ok
            (EmitState.init |> emitByte 0xfd |> emitByte 0xf9)
       | _ =>
          Except.error (instrErr name "Allowed registers are HL, IX, IY.")
      )
     else Except.error (instrErr name "Operand should be register."))
   else Except.error (numOpsErr name 1 mi.operands.length))

/-- Encoding of `LD16am` (translated from the corresponding
`case Z80::LD16am` block of `Z80MCCodeEmitter::encodeInstruction`). -/
def enc_LD16am (name : String) (mi : Inst) : Except String EmitState :=
  (if mi.operands.length = 2 then
    (if (mi.op 0).isReg then
      (match ((mi.op 0)).getReg with
       | Reg.HL =>
          (if (mi.op 1).isExpr then
            Except.ok
              (EmitState.init |> emitByte 0x2a |> pushFixup (((mi.op 1)).getExpr) MCFixupKind.fixup_16 mi.loc |> emitByte 0x00 |> emitByte 0x00)
           else
            (if (mi.op 1).isImm then
              Except.ok
                (EmitState.init |> emitByte 0x2a |> emitByte ((u16i ((mi.op 1).getImm) >>> 0) &&& 0xff) |> emitByte ((u16i ((mi.op 1).getImm) >>> 8) &&& 0xff))
             else
              Except.error (instrErr name "Second operand should be an expression or immediate.")))
       | Reg.IX =>
          (if (mi.op 1).isExpr then
            Except.ok
              (EmitState.init |> emitByte 0xdd |> emitByte 0x2a |> pushFixup (((mi.op 1)).getExpr) MCFixupKind.fixup_16 mi.loc |> emitByte 0x00 |> emitByte 0x00)
           else
            (if (mi.op 1).isImm then
              Except.ok
                (EmitState.init |> emitByte 0xdd |> emitByte 0x2a |> emitByte ((u16i ((mi.op 1).getImm) >>> 0) &&& 0xff) |> emitByte ((u16i ((mi.op 1).getImm) >>> 8) &&& 0xff))
             else
              Except.error (instrErr name "Second operand should be an expression or immediate.")))
       | Reg.IY =>
          (if (mi.op 1).isExpr then
            Except.ok
              (EmitState.init |> emitByte 0xfd |> emitByte 0x2a |> pushFixup (((mi.op 1)).getExpr) MCFixupKind.fixup_16 mi.loc |> emitByte 0x00 |> emitByte 0x00)
           else
            (if (mi.op 1).isImm then
              Except.ok
                (EmitState.init |> emitByte 0xfd |> emitByte 0x2a |> emitByte ((u16i ((mi.op 1).getImm) >>> 0) &&& 0xff) |> emitByte ((u16i ((mi.op 1).getImm) >>> 8) &&& 0xff))
             else
              Except.error (instrErr name "Second operand should be an expression or immediate.")))
       | _ =>
          Except.error (instrErr name "Allowed registers are HL, IX, IY.")
      )
     else Except.error (instrErr name "First operand should be register."))
   else Except.error (numOpsErr name 2 mi.operands.length))

/-- Encoding of `LD16ma` (translated from the corresponding
`case Z80::LD16ma` block of `Z80MCCodeEmitter::encodeInstruction`). -/
def enc_LD16ma (name : String) (mi : Inst) : Except String EmitState :=
  (if mi.operands.length = 2 then
    (if (mi.op 1).isReg then
      (match ((mi.op 1)).getReg with
       | Reg.HL =>
          (if (mi.op 0).isExpr then
            Except.ok
              (EmitState.init |> emitByte 0x22 |> pushFixup (((mi.op 0)).getExpr) MCFixupKind.fixup_16 mi.loc |> emitByte 0x00 |> emitByte 0x00)
           else
            (if (mi.op 0).isImm then
              Except.ok
                (EmitState.init |> emitByte 0x22 |> emitByte ((u16i ((mi.op 0).getImm) >>> 0) &&& 0xff) |> emitByte ((u16i ((mi.op 0).getImm) >>> 8) &&& 0xff))
             else
              Except.error (instrErr name "First operand should be an expression or immediate.")))
       | Reg.IX =>
          (if (mi.op 0).isExpr then
            Except.ok
              (EmitState.init |> emitByte 0xdd |> emitByte 0x22 |> pushFixup (((mi.op 0)).getExpr) MCFixupKind.fixup_16 mi.loc |> emitByte 0x00 |> emitByte 0x00)
           else
            (if (mi.op 0).isImm then
              Except.ok
                (EmitState.init |> emitByte 0xdd |> emitByte 0x22 |> emitByte ((u16i ((mi.op 0).getImm) >>> 0) &&& 0xff) |> emitByte ((u16i ((mi.op 0).getImm) >>> 8) &&& 0xff))
             else
              Except.error (instrErr name "First operand should be an expression or immediate.")))
       | Reg.IY =>
          (if (mi.op 0).isExpr then
            Except.ok
              (EmitState.init |> emitByte 0xfd |> emitByte 0x22 |> pushFixup (((mi.op 0)).getExpr) MCFixupKind.fixup_16 mi.loc |> emitByte 0x00 |> emitByte 0x00)
           else
            (if (mi.op 0).isImm then
              Except.ok
                (EmitState.init |> emitByte 0xfd |> emitByte 0x22 |> emitByte ((u16i ((mi.op 0).getImm) >>> 0) &&& 0xff) |> emitByte ((u16i ((mi.op 0).getImm) >>> 8) &&& 0xff))
             else
              Except.error (instrErr name "First operand should be an expression or immediate.")))
       | _ =>
          Except.error (instrErr name "Allowed registers are HL, IX, IY.")
      )
     else Except.error (instrErr name "Second operand should be register."))
   else Except.error (numOpsErr name 2 mi.operands.length))

/-- Encoding of `LD16mo` (translated from the corresponding
`case Z80::LD16mo` block of `Z80MCCodeEmitter::encodeInstruction`). -/
def enc_LD16mo (name : String) (mi : Inst) : Except String EmitState :=
  (if mi.operands.length = 2 then
    (if (mi.op 1).isReg then
      (match ((mi.op 1)).getReg with
       | Reg.BC =>
          (if (mi.op 0).isExpr then
            Except.ok
              (EmitState.init |> emitByte 0xed |> emitByte 0x43 |> pushFixup (((mi.op 0)).getExpr) MCFixupKind.fixup_16 mi.loc |> emitByte 0x00 |> emitByte 0x00)
           else
            (if (mi.op 0).isImm then
              Except.ok
                (EmitState.init |> emitByte 0xed |> emitByte 0x43 |> emitByte ((u16i ((mi.op 0).getImm) >>> 0) &&& 0xff) |> emitByte ((u16i ((mi.op 0).getImm) >>> 8) &&& 0xff))
             else
              Except.error (instrErr name "First operand should be an expression or immediate.")))
       | Reg.DE =>
          (if (mi.op 0).isExpr then
            Except.ok
              (EmitState.init |> emitByte 0xed |> emitByte 0x53 |> pushFixup (((mi.op 0)).getExpr) MCFixupKind.fixup_16 mi.loc |> emitByte 0x00 |> emitByte 0x00)
           else
            (if (mi.op 0).isImm then
              Except.ok
                (EmitState.init |> emitByte 0xed |> emitByte 0x53 |> emitByte ((u16i ((mi.op 0).getImm) >>> 0) &&& 0xff) |> emitByte ((u16i ((mi.op 0).getImm) >>> 8) &&& 0xff))
             else
              Except.error (instrErr name "First operand should be an expression or immediate.")))
       | Reg.HL =>
          (if (mi.op 0).isExpr then
            Except.ok
              (EmitState.init |> emitByte 0xed |> emitByte 0x63 |> pushFixup (((mi.op 0)).getExpr) MCFixupKind.fixup_16 mi.loc |> emitByte 0x00 |> emitByte 0x00)
           else
            (if (mi.op 0).isImm then
              Except.ok
                (EmitState.init |> emitByte 0xed |> emitByte 0x63 |> emitByte ((u16i ((mi.op 0).getImm) >>> 0) &&& 0xff) |> emitByte ((u16i ((mi.op 0).getImm) >>> 8) &&& 0xff))
             else
              Except.error (instrErr name "First operand should be an expression or immediate.")))
       | Reg.IX =>
          (if (mi.op 0).isExpr then
            Except.ok
              (EmitState.init |> emitByte 0xdd |> emitByte 0x22 |> pushFixup (((mi.op 0)).getExpr) MCFixupKind.fixup_16 mi.loc |> emitByte 0x00 |> emitByte 0x00)
           else
            (if (mi.op 0).isImm then
              Except.ok
                (EmitState.init |> emitByte 0xdd |> emitByte 0x22 |> emitByte ((u16i ((mi.op 0).getImm) >>> 0) &&& 0xff) |> emitByte ((u16i ((mi.op 0).getImm) >>> 8) &&& 0xff))
             else
              Except.error (instrErr name "First operand should be an expression or immediate.")))
       | Reg.IY =>
          (if (mi.op 0).isExpr then
            Except.ok
              (EmitState.init |> emitByte 0xfd |> emitByte 0x22 |> pushFixup (((mi.op 0)).getExpr) MCFixupKind.fixup_16 mi.loc |> emitByte 0x00 |> emitByte 0x00)
           else
            (if (mi.op 0).isImm then
              Except.ok
                (EmitState.init |> emitByte 0xfd |> emitByte 0x22 |> emitByte ((u16i ((mi.op 0).getImm) >>> 0) &&& 0xff) |> emitByte ((u16i ((mi.op 0).getImm) >>> 8) &&& 0xff))
             else
              Except.error (instrErr name "First operand should be an expression or immediate.")))
       | _ =>
          Except.error (instrErr name "Allowed registers are BC, DE, HL, IX, IY.")
      )
     else Except.error (instrErr name "Second operand should be register."))
   else Except.error (numOpsErr name 2 mi.operands.length))

/-- Encoding of `LD16om` (translated from the corresponding
`case Z80::LD16om` block of `Z80MCCodeEmitter::encodeInstruction`). -/
def enc_LD16om (name : String) (mi : Inst) : Except String EmitState :=
  (if mi.operands.length = 2 then
    (if (mi.op 0).isReg then
      (match ((mi.op 0)).getReg with
       | Reg.BC =>
          (if (mi.op 1).isExpr then
            Except.ok
              (EmitState.init |> emitByte 0xed |> emitByte 0x4b |> pushFixup (((mi.op 1)).getExpr) MCFixupKind.fixup_16 mi.loc |> emitByte 0x00 |> emitByte 0x00)
           else
            (if (mi.op 1).isImm then
              Except.ok
                (EmitState.init |> emitByte 0xed |> emitByte 0x4b |> emitByte ((u16i ((mi.op 1).getImm) >>> 0) &&& 0xff) |> emitByte ((u16i ((mi.op 1).getImm) >>> 8) &&& 0xff))
             else
              Except.error (instrErr name "Second operand should be an expression or immediate.")))
       | Reg.DE =>
          (if (mi.op 1).isExpr then
            Except.ok
              (EmitState.init |> emitByte 0xed |> emitByte 0x5b |> pushFixup (((mi.op 1)).getExpr) MCFixupKind.fixup_16 mi.loc |> emitByte 0x00 |> emitByte 0x00)
           else
            (if (mi.op 1).isImm then
              Except.ok
                (EmitState.init |> emitByte 0xed |> emitByte 0x5b |> emitByte ((u16i ((mi.op 1).getImm) >>> 0) &&& 0xff) |> emitByte ((u16i ((mi.op 1).getImm) >>> 8) &&& 0xff))
             else
              Except.error (instrErr name "Second operand should be an expression or immediate.")))
       | Reg.HL =>
          (if (mi.op 1).isExpr then
            Except.ok
              (EmitState.init |> emitByte 0xed |> emitByte 0x6b |> pushFixup (((mi.op 1)).getExpr) MCFixupKind.fixup_16 mi.loc |> emitByte 0x00 |> emitByte 0x00)
           else
            (if (mi.op 1).isImm then
              Except.ok
                (EmitState.init |> emitByte 0xed |> emitByte 0x6b |> emitByte ((u16i ((mi.op 1).getImm) >>> 0) &&& 0xff) |> emitByte ((u16i ((mi.op 1).getImm) >>> 8) &&& 0xff))
             else
              Except.error (instrErr name "Second operand should be an expression or immediate.")))
       | Reg.IX =>
          (if (mi.op 1).isExpr then
            Except.ok
              (EmitState.init |> emitByte 0xdd |> emitByte 0x2a |> pushFixup (((mi.op 1)).getExpr) MCFixupKind.fixup_16 mi.loc |> emitByte 0x00 |> emitByte 0x00)
           else
            (if (mi.op 1).isImm then
              Except.ok
                (EmitState.init |> emitByte 0xdd |> emitByte 0x2a |> emitByte ((u16i ((mi.op 1).getImm) >>> 0) &&& 0xff) |> emitByte ((u16i ((mi.op 1).getImm) >>> 8) &&& 0xff))
             else
              Except.error (instrErr name "Second operand should be an expression or immediate.")))
       | Reg.IY =>
          (if (mi.op 1).isExpr then
            Except.ok
              (EmitState.init |> emitByte 0xfd |> emitByte 0x2a |> pushFixup (((mi.op 1)).getExpr) MCFixupKind.fixup_16 mi.loc |> emitByte 0x00 |> emitByte 0x00)
           else
            (if (mi.op 1).isImm then
              Except.ok
                (EmitState.init |> emitByte 0xfd |> emitByte 0x2a |> emitByte ((u16i ((mi.op 1).getImm) >>> 0) &&& 0xff) |> emitByte ((u16i ((mi.op 1).getImm) >>> 8) &&& 0xff))
             else
              Except.error (instrErr name "Second operand should be an expression or immediate.")))
       | _ =>
          Except.error (instrErr name "Allowed registers are BC, DE, HL, IX, IY.")
      )
     else Except.error (instrErr name "First operand should be register."))
   else Except.error (numOpsErr name 2 mi.operands.length))

/-- Encoding of `LD16ri` (translated from the corresponding
`case Z80::LD16ri` block of `Z80MCCodeEmitter::encodeInstruction`). -/
def enc_LD16ri (name : String) (mi : Inst) : Except String EmitState :=
  (if mi.operands.length = 2 then
    (if (mi.op 0).isReg then
      (match ((mi.op 0)).getReg with
       | Reg.BC =>
          (if (mi.op 1).isExpr then
            Except.ok
              (EmitState.init |> emitByte 0x01 |> pushFixup (((mi.op 1)).getExpr) MCFixupKind.fixup_16 mi.loc |> emitByte 0x00 |> emitByte 0x00)
           else
            (if (mi.op 1).isImm then
              Except.ok
                (EmitState.init |> emitByte 0x01 |> emitByte ((u16i ((mi.op 1).getImm) >>> 0) &&& 0xff) |> emitByte ((u16i ((mi.op 1).getImm) >>> 8) &&& 0xff))
             else
              Except.error (instrErr name "Second operand should be an expression or immediate.")))
       | Reg.DE =>
          (if (mi.op 1).isExpr then
            Except.ok
              (EmitState.init |> emitByte 0x11 |> pushFixup (((mi.op 1)).getExpr) MCFixupKind.fixup_16 mi.loc |> emitByte 0x00 |> emitByte 0x00)
           else
            (if (mi.op 1).isImm then
              Except.ok
                (EmitState.init |> emitByte 0x11 |> emitByte ((u16i ((mi.op 1).getImm) >>> 0) &&& 0xff) |> emitByte ((u16i ((mi.op 1).getImm) >>> 8) &&& 0xff))
             else
              Except.error (instrErr name "Second operand should be an expression or immediate.")))
       | Reg.HL =>
          (if (mi.op 1).isExpr then
            Except.ok
              (EmitState.init |> emitByte 0x21 |> pushFixup (((mi.op 1)).getExpr) MCFixupKind.fixup_16 mi.loc |> emitByte 0x00 |> emitByte 0x00)
           else
            (if (mi.op 1).isImm then
              Except.ok
                (EmitState.init |> emitByte 0x21 |> emitByte ((u16i ((mi.op 1).getImm) >>> 0) &&& 0xff) |> emitByte ((u16i ((mi.op 1).getImm) >>> 8) &&& 0xff))
             else
              Except.error (instrErr name "Second operand should be an expression or immediate.")))
       | Reg.IX =>
          (if (mi.op 1).isExpr then
            Except.ok
              (EmitState.init |> emitByte 0xdd |> emitByte 0x21 |> pushFixup (((mi.op 1)).getExpr) MCFixupKind.fixup_16 mi.loc |> emitByte 0x00 |> emitByte 0x00)
           else
            (if (mi.op 1).isImm then
              Except.ok
                (EmitState.init |> emitByte 0xdd |> emitByte 0x21 |> emitByte ((u16i ((mi.op 1).getImm) >>> 0) &&& 0xff) |> emitByte ((u16i ((mi.op 1).getImm) >>> 8) &&& 0xff))
             else
              Except.error (instrErr name "Second operand should be an expression or immediate.")))
       | Reg.IY =>
          (if (mi.op 1).isExpr then
            Except.ok
              (EmitState.init |> emitByte 0xfd |> emitByte 0x21 |> pushFixup (((mi.op 1)).getExpr) MCFixupKind.fixup_16 mi.loc |> emitByte 0x00 |> emitByte 0x00)
           else
            (if (mi.op 1).isImm then
              Except.ok
                (EmitState.init |> emitByte 0xfd |> emitByte 0x21 |> emitByte ((u16i ((mi.op 1).getImm) >>> 0) &&& 0xff) |> emitByte ((u16i ((mi.op 1).getImm) >>> 8) &&& 0xff))
             else
              Except.error (instrErr name "Second operand should be an expression or immediate.")))
       | _ =>
          Except.error (instrErr name "Allowed registers are BC, DE, HL, IX, IY.")
      )
     else Except.error (instrErr name "First operand should be register."))
   else Except.error (numOpsErr name 2 mi.operands.length))

/-- Encoding of `LD8am` (translated from the corresponding
`case Z80::LD8am` block of `Z80MCCodeEmitter::encodeInstruction`). -/
def enc_LD8am (name : String) (mi : Inst) : Except String EmitState :=
  (if mi.operands.length = 1 then
    (if (mi.op 0).isExpr then
      Except.ok
        (EmitState.init |> emitByte 0x3a |> pushFixup (((mi.op 0)).getExpr) MCFixupKind.fixup_16 mi.loc |> emitByte 0x00 |> emitByte 0x00)
     else
      (if (mi.op 0).isImm then
        Except.ok
          (EmitState.init |> emitByte 0x3a |> emitByte ((u16i ((mi.op 0).getImm) >>> 0) &&& 0xff) |> emitByte ((u16i ((mi.op 0).getImm) >>> 8) &&& 0xff))
       else
        Except.error (instrErr name "Operand should be an expression or immediate.")))
   else Except.error (numOpsErr name 1 mi.operands.length))

/-- Encoding of `LD8gg`, `LD8xx`, `LD8yy` (translated from the corresponding
`case Z80::LD8gg` block of `Z80MCCodeEmitter::encodeInstruction`). -/
def enc_LD8gg (name : String) (mi : Inst) : Except String EmitState :=
  (if mi.operands.length = 2 then
    (if ((mi.op 0).isReg && (mi.op 1).isReg) then
      (match ((mi.op 0)).getReg with
       | Reg.A =>
          (match ((mi.op 1)).getReg with
           | Reg.A =>
              Except.ok
                (EmitState.init |> emitByte 0x7f)
           | Reg.B =>
              Except.ok
                (EmitState.init |> emitByte 0x78)
           | Reg.C =>
              Except.ok
                (EmitState.init |> emitByte 0x79)
           | Reg.D =>
              Except.ok
                (EmitState.init |> emitByte 0x7a)
           | Reg.E =>
              Except.ok
                (EmitState.init |> emitByte 0x7b)
           | Reg.H =>
              Except.ok
                (EmitState.init |> emitByte 0x7c)
           | Reg.L =>
              Except.ok
                (EmitState.init |> emitByte 0x7d)
           | Reg.IXH =>
              Except.ok
                (EmitState.init |> emitByte 0xe5 |> emitByte 0xdd |> emitByte 0xe5 |> emitByte 0xe1 |> emitByte 0x7c |> emitByte 0xe1)
           | Reg.IXL =>
              Except.ok
                (EmitState.init |> emitByte 0xe5 |> emitByte 0xdd |> emitByte 0xe5 |> emitByte 0xe1 |> emitByte 0x7d |> emitByte 0xe1)
           | Reg.IYH =>
              Except.ok
                (EmitState.init |> emitByte 0xe5 |> emitByte 0xfd |> emitByte 0xe5 |> emitByte 0xe1 |> emitByte 0x7c |> emitByte 0xe1)
           | Reg.IYL =>
              Except.ok
                (EmitState.init |> emitByte 0xe5 |> emitByte 0xfd |> emitByte 0xe5 |> emitByte 0xe1 |> emitByte 0x7d |> emitByte 0xe1)
           | _ =>
              Except.error (instrErr name "Allowed register are A, B, C, D, E, H, L.")
          )
       | Reg.B =>
          (match ((mi.op 1)).getReg with
           | Reg.A =>
              Except.ok
                (EmitState.init |> emitByte 0x47)
           | Reg.B =>
              Except.ok
                (EmitState.init |> emitByte 0x40)
           | Reg.C =>
              Except.ok
                (EmitState.init |> emitByte 0x41)
           | Reg.D =>
              Except.ok
                (EmitState.init |> emitByte 0x42)
           | Reg.E =>
              Except.ok
                (EmitState.init |> emitByte 0x43)
           | Reg.H =>
              Except.ok
                (EmitState.init |> emitByte 0x44)
           | Reg.L =>
              Except.ok
                (EmitState.init |> emitByte 0x45)
           | Reg.IXH =>
              Except.ok
                (EmitState.init |> emitByte 0xe5 |> emitByte 0xdd |> emitByte 0xe5 |> emitByte 0xe1 |> emitByte 0x44 |> emitByte 0xe1)
           | Reg.IXL =>
              Except.ok
                (EmitState.init |> emitByte 0xe5 |> emitByte 0xdd |> emitByte 0xe5 |> emitByte 0xe1 |> emitByte 0x45 |> emitByte 0xe1)
           | Reg.IYH =>
              Except.ok
                (EmitState.init |> emitByte 0xe5 |> emitByte 0xfd |> emitByte 0xe5 |> emitByte 0xe1 |> emitByte 0x44 |> emitByte 0xe1)
           | Reg.IYL =>
              Except.ok
                (EmitState.init |> emitByte 0xe5 |> emitByte 0xfd |> emitByte 0xe5 |> emitByte 0xe1 |> emitByte 0x45 |> emitByte 0xe1)
           | _ =>
              Except.error (instrErr name "Allowed register are A, B, C, D, E, H, L.")
          )
       | Reg.C =>
          (match ((mi.op 1)).getReg with
           | Reg.A =>
              Except.ok
                (EmitState.init |> emitByte 0x4f)
           | Reg.B =>
              Except.ok
                (EmitState.init |> emitByte 0x48)
           | Reg.C =>
              Except.ok
                (EmitState.init |> emitByte 0x49)
           | Reg.D =>
              Except.ok
                (EmitState.init |> emitByte 0x4a)
           | Reg.E =>
              Except.ok
                (EmitState.init |> emitByte 0x4b)
           | Reg.H =>
              Except.ok
                (EmitState.init |> emitByte 0x4c)
           | Reg.L =>
              Except.ok
                (EmitState.init |> emitByte 0x4d)
           | Reg.IXH =>
              Except.ok
                (EmitState.init |> emitByte 0xe5 |> emitByte 0xdd |> emitByte 0xe5 |> emitByte 0xe1 |> emitByte 0x4c |> emitByte 0xe1)
           | Reg.IXL =>
              Except.ok
                (EmitState.init |> emitByte 0xe5 |> emitByte 0xdd |> emitByte 0xe5 |> emitByte 0xe1 |> emitByte 0x4d |> emitByte 0xe1)
           | Reg.IYH =>
              Except.ok
                (EmitState.init |> emitByte 0xe5 |> emitByte 0xfd |> emitByte 0xe5 |> emitByte 0xe1 |> emitByte 0x4c |> emitByte 0xe1)
           | Reg.IYL =>
              Except.ok
                (EmitState.init |> emitByte 0xe5 |> emitByte 0xfd |> emitByte 0xe5 |> emitByte 0xe1 |> emitByte 0x4d |> emitByte 0xe1)
           | _ =>
              Except.error (instrErr name "Allowed register are A, B, C, D, E, H, L.")
          )
       | Reg.D =>
          (match ((mi.op 1)).getReg with
           | Reg.A =>
              Except.ok
                (EmitState.init |> emitByte 0x57)
           | Reg.B =>
              Except.ok
                (EmitState.init |> emitByte 0x50)
           | Reg.C =>
              Except.ok
                (EmitState.init |> emitByte 0x51)
           | Reg.D =>
              Except.ok
                (EmitState.init |> emitByte 0x52)
           | Reg.E =>
              Except.ok
                (EmitState.init |> emitByte 0x53)
           | Reg.H =>
              Except.ok
                (EmitState.init |> emitByte 0x54)
           | Reg.L =>
              Except.ok
                (EmitState.init |> emitByte 0x55)
           | Reg.IXH =>
              Except.ok
                (EmitState.init |> emitByte 0xe5 |> emitByte 0xdd |> emitByte 0xe5 |> emitByte 0xe1 |> emitByte 0x54 |> emitByte 0xe1)
           | Reg.IXL =>
              Except.ok
                (EmitState.init |> emitByte 0xe5 |> emitByte 0xdd |> emitByte 0xe5 |> emitByte 0xe1 |> emitByte 0x55 |> emitByte 0xe1)
           | Reg.IYH =>
              Except.ok
                (EmitState.init |> emitByte 0xe5 |> emitByte 0xfd |> emitByte 0xe5 |> emitByte 0xe1 |> emitByte 0x54 |> emitByte 0xe1)
           | Reg.IYL =>
              Except.ok
                (EmitState.init |> emitByte 0xe5 |> emitByte 0xfd |> emitByte 0xe5 |> emitByte 0xe1 |> emitByte 0x55 |> emitByte 0xe1)
           | _ =>
              Except.error (instrErr name "Allowed register are A, B, C, D, E, H, L.")
          )
       | Reg.E =>
          (match ((mi.op 1)).getReg with
           | Reg.A =>
              Except.ok
                (EmitState.init |> emitByte 0x5f)
           | Reg.B =>
              Except.ok
                (EmitState.init |> emitByte 0x58)
           | Reg.C =>
              Except.ok
                (EmitState.init |> emitByte 0x59)
           | Reg.D =>
              Except.ok
                (EmitState.init |> emitByte 0x5a)
           | Reg.E =>
              Except.ok
                (EmitState.init |> emitByte 0x5b)
           | Reg.H =>
              Except.ok
                (EmitState.init |> emitByte 0x5c)
           | Reg.L =>
              Except.ok
                (EmitState.init |> emitByte 0x5d)
           | Reg.IXH =>
              Except.ok
                (EmitState.init |> emitByte 0xe5 |> emitByte 0xdd |> emitByte 0xe5 |> emitByte 0xe1 |> emitByte 0x5c |> emitByte 0xe1)
           | Reg.IXL =>
              Except.ok
                (EmitState.init |> emitByte 0xe5 |> emitByte 0xdd |> emitByte 0xe5 |> emitByte 0xe1 |> emitByte 0x5d |> emitByte 0xe1)
           | Reg.IYH =>
              Except.ok
                (EmitState.init |> emitByte 0xe5 |> emitByte 0xfd |> emitByte 0xe5 |> emitByte 0xe1 |> emitByte 0x5c |> emitByte 0xe1)
           | Reg.IYL =>
              Except.ok
                (EmitState.init |> emitByte 0xe5 |> emitByte 0xfd |> emitByte 0xe5 |> emitByte 0xe1 |> emitByte 0x5d |> emitByte 0xe1)
           | _ =>
              Except.error (instrErr name "Allowed register are A, B, C, D, E, H, L.")
          )
       | Reg.H =>
          (match ((mi.op 1)).getReg with
           | Reg.A =>
              Except.ok
                (EmitState.init |> emitByte 0x67)
           | Reg.B =>
              Except.ok
                (EmitState.init |> emitByte 0x60)
           | Reg.C =>
              Except.ok
                (EmitState.init |> emitByte 0x61)
           | Reg.D =>
              Except.ok
                (EmitState.init |> emitByte 0x62)
           | Reg.E =>
              Except.ok
                (EmitState.init |> emitByte 0x63)
           | Reg.H =>
              Except.ok
                (EmitState.init |> emitByte 0x64)
           | Reg.L =>
              Except.ok
                (EmitState.init |> emitByte 0x65)
           | Reg.IXH =>
              Except.ok
                (EmitState.init |> emitByte 0xd5 |> emitByte 0xdd |> emitByte 0xe5 |> emitByte 0xd1 |> emitByte 0x62 |> emitByte 0xd1)
           | Reg.IXL =>
              Except.ok
                (EmitState.init |> emitByte 0xd5 |> emitByte 0xdd |> emitByte 0xe5 |> emitByte 0xd1 |> emitByte 0x63 |> emitByte 0xd1)
           | Reg.IYH =>
              Except.ok
                (EmitState.init |> emitByte 0xd5 |> emitByte 0xfd |> emitByte 0xe5 |> emitByte 0xd1 |> emitByte 0x62 |> emitByte 0xd1)
           | Reg.IYL =>
              Except.ok
                (EmitState.init |> emitByte 0xd5 |> emitByte 0xfd |> emitByte 0xe5 |> emitByte 0xd1 |> emitByte 0x63 |> emitByte 0xd1)
           | _ =>
              Except.error (instrErr name "Allowed register are A, B, C, D, E, H, L.")
          )
       | Reg.L =>
          (match ((mi.op 1)).getReg with
           | Reg.A =>
              Except.ok
                (EmitState.init |> emitByte 0x6f)
           | Reg.B =>
              Except.ok
                (EmitState.init |> emitByte 0x68)
           | Reg.C =>
              Except.ok
                (EmitState.init |> emitByte 0x69)
           | Reg.D =>
              Except.ok
                (EmitState.init |> emitByte 0x6a)
           | Reg.E =>
              Except.ok
                (EmitState.init |> emitByte 0x6b)
           | Reg.H =>
              Except.ok
                (EmitState.init |> emitByte 0x6c)
           | Reg.L =>
              Except.ok
                (EmitState.init |> emitByte 0x6d)
           | Reg.IXH =>
              Except.ok
                (EmitState.init |> emitByte 0xd5 |> emitByte 0xdd |> emitByte 0xe5 |> emitByte 0xd1 |> emitByte 0x6a |> emitByte 0xd1)
           | Reg.IXL =>
              Except.ok
                (EmitState.init |> emitByte 0xd5 |> emitByte 0xdd |> emitByte 0xe5 |> emitByte 0xd1 |> emitByte 0x6b |> emitByte 0xd1)
           | Reg.IYH =>
              Except.ok
                (EmitState.init |> emitByte 0xd5 |> emitByte 0xfd |> emitByte 0xe5 |> emitByte 0xd1 |> emitByte 0x6a |> emitByte 0xd1)
           | Reg.IYL =>
              Except.ok
                (EmitState.init |> emitByte 0xd5 |> emitByte 0xfd |> emitByte 0xe5 |> emitByte 0xd1 |> emitByte 0x6b |> emitByte 0xd1)
           | _ =>
              Except.error (instrErr name "Allowed register are A, B, C, D, E, H, L.")
          )
       | Reg.IXH =>
          (match ((mi.op 1)).getReg with
           | Reg.A =>
              Except.ok
                (EmitState.init |> emitByte 0xe5 |> emitByte 0xdd |> emitByte 0xe5 |> emitByte 0xe1 |> emitByte 0x67 |> emitByte 0xe5 |> emitByte 0xdd |> emitByte 0xe1 |> emitByte 0xe1)
           | Reg.B =>
              Except.ok
                (EmitState.init |> emitByte 0xe5 |> emitByte 0xdd |> emitByte 0xe5 |> emitByte 0xe1 |> emitByte 0x60 |> emitByte 0xe5 |> emitByte 0xdd |> emitByte 0xe1 |> emitByte 0xe1)
           | Reg.C =>
              Except.ok
                (EmitState.init |> emitByte 0xe5 |> emitByte 0xdd |> emitByte 0xe5 |> emitByte 0xe1 |> emitByte 0x61 |> emitByte 0xe5 |> emitByte 0xdd |> emitByte 0xe1 |> emitByte 0xe1)
           | Reg.D =>
              Except.ok
                (EmitState.init |> emitByte 0xe5 |> emitByte 0xdd |> emitByte 0xe5 |> emitByte 0xe1 |> emitByte 0x62 |> emitByte 0xe5 |> emitByte 0xdd |> emitByte 0xe1 |> emitByte 0xe1)
           | Reg.E =>
              Except.ok
                (EmitState.init |> emitByte 0xe5 |> emitByte 0xdd |> emitByte 0xe5 |> emitByte 0xe1 |> emitByte 0x63 |> emitByte 0xe5 |> emitByte 0xdd |> emitByte 0xe1 |> emitByte 0xe1)
           | Reg.H =>
              Except.ok
                (EmitState.init |> emitByte 0xd5 |> emitByte 0xdd |> emitByte 0xe5 |> emitByte 0xd1 |> emitByte 0x54 |> emitByte 0xd5 |> emitByte 0xdd |> emitByte 0xe1 |> emitByte 0xd1)
           | Reg.L =>
              Except.ok
                (EmitState.init |> emitByte 0xd5 |> emitByte 0xdd |> emitByte 0xe5 |> emitByte 0xd1 |> emitByte 0x55 |> emitByte 0xd5 |> emitByte 0xdd |> emitByte 0xe1 |> emitByte 0xd1)
           | Reg.IXH =>
              Except.ok
                (EmitState.init |> emitByte 0xe5 |> emitByte 0xdd |> emitByte 0xe5 |> emitByte 0xe1 |> emitByte 0x64 |> emitByte 0xe5 |> emitByte 0xdd |> emitByte 0xe1 |> emitByte 0xe1)
           | Reg.IXL =>
              Except.ok
                (EmitState.init |> emitByte 0xe5 |> emitByte 0xdd |> emitByte 0xe5 |> emitByte 0xe1 |> emitByte 0x65 |> emitByte 0xe5 |> emitByte 0xdd |> emitByte 0xe1 |> emitByte 0xe1)
           | Reg.IYH =>
              Except.ok
                (EmitState.init |> emitByte 0xe5 |> emitByte 0xd5 |> emitByte 0xdd |> emitByte 0xe5 |> emitByte 0xe1 |> emitByte 0xfd |> emitByte 0xe5 |> emitByte 0xd1 |> emitByte 0x62 |> emitByte 0xe5 |> emitByte 0xdd |> emitByte 0xe1 |> emitByte 0xd1 |> emitByte 0xe1)
           | Reg.IYL =>
              Except.ok
                (EmitState.init |> emitByte 0xe5 |> emitByte 0xd5 |> emitByte 0xdd |> emitByte 0xe5 |> emitByte 0xe1 |> emitByte 0xfd |> emitByte 0xe5 |> emitByte 0xd1 |> emitByte 0x63 |> emitByte 0xe5 |> emitByte 0xdd |> emitByte 0xe1 |> emitByte 0xd1 |> emitByte 0xe1)
           | _ =>
              Except.error (instrErr name "Allowed register are A, B, C, D, E, H, L.")
          )
       | Reg.IXL =>
          (match ((mi.op 1)).getReg with
           | Reg.A =>
              Except.ok
                (EmitState.init |> emitByte 0xe5 |> emitByte 0xdd |> emitByte 0xe5 |> emitByte 0xe1 |> emitByte 0x6f |> emitByte 0xe5 |> emitByte 0xdd |> emitByte 0xe1 |> emitByte 0xe1)
           | Reg.B =>
              Except.ok
                (EmitState.init |> emitByte 0xe5 |> emitByte 0xdd |> emitByte 0xe5 |> emitByte 0xe1 |> emitByte 0x68 |> emitByte 0xe5 |> emitByte 0xdd |> emitByte 0xe1 |> emitByte 0xe1)
           | Reg.C =>
              Except.ok
                (EmitState.init |> emitByte 0xe5 |> emitByte 0xdd |> emitByte 0xe5 |> emitByte 0xe1 |> emitByte 0x69 |> emitByte 0xe5 |> emitByte 0xdd |> emitByte 0xe1 |> emitByte 0xe1)
           | Reg.D =>
              Except.ok
                (EmitState.init |> emitByte 0xe5 |> emitByte 0xdd |> emitByte 0xe5 |> emitByte 0xe1 |> emitByte 0x6a |> emitByte 0xe5 |> emitByte 0xdd |> emitByte 0xe1 |> emitByte 0xe1)
           | Reg.E =>
              Except.ok
                (EmitState.init |> emitByte 0xe5 |> emitByte 0xdd |> emitByte 0xe5 |> emitByte 0xe1 |> emitByte 0x6b |> emitByte 0xe5 |> emitByte 0xdd |> emitByte 0xe1 |> emitByte 0xe1)
           | Reg.H =>
              Except.ok
                (EmitState.init |> emitByte 0xd5 |> emitByte 0xdd |> emitByte 0xe5 |> emitByte 0xd1 |> emitByte 0x5c |> emitByte 0xd5 |> emitByte 0xdd |> emitByte 0xe1 |> emitByte 0xd1)
           | Reg.L =>
              Except.ok
                (EmitState.init |> emitByte 0xd5 |> emitByte 0xdd |> emitByte 0xe5 |> emitByte 0xd1 |> emitByte 0x5d |> emitByte 0xd5 |> emitByte 0xdd |> emitByte 0xe1 |> emitByte 0xd1)
           | Reg.IXH =>
              Except.ok
                (EmitState.init |> emitByte 0xe5 |> emitByte 0xdd |> emitByte 0xe5 |> emitByte 0xe1 |> emitByte 0x6c |> emitByte 0xe5 |> emitByte 0xdd |> emitByte 0xe1 |> emitByte 0xe1)
           | Reg.IXL =>
              Except.ok
                (EmitState.init |> emitByte 0xe5 |> emitByte 0xdd |> emitByte 0xe5 |> emitByte 0xe1 |> emitByte 0x6d |> emitByte 0xe5 |> emitByte 0xdd |> emitByte 0xe1 |> emitByte 0xe1)
           | Reg.IYH =>
              Except.ok
                (EmitState.init |> emitByte 0xe5 |> emitByte 0xd5 |> emitByte 0xdd |> emitByte 0xe5 |> emitByte 0xe1 |> emitByte 0xfd |> emitByte 0xe5 |> emitByte 0xd1 |> emitByte 0x6a |> emitByte 0xe5 |> emitByte 0xdd |> emitByte 0xe1 |> emitByte 0xd1 |> emitByte 0xe1)
           | Reg.IYL =>
              Except.ok
                (EmitState.init |> emitByte 0xe5 |> emitByte 0xd5 |> emitByte 0xdd |> emitByte 0xe5 |> emitByte 0xe1 |> emitByte 0xfd |> emitByte 0xe5 |> emitByte 0xd1 |> emitByte 0x6b |> emitByte 0xe5 |> emitByte 0xdd |> emitByte 0xe1 |> emitByte 0xd1 |> emitByte 0xe1)
           | _ =>
              Except.error (instrErr name "Allowed register are A, B, C, D, E, H, L.")
          )
       | Reg.IYH =>
          (match ((mi.op 1)).getReg with
           | Reg.A =>
              Except.ok
                (EmitState.init |> emitByte 0xe5 |> emitByte 0xfd |> emitByte 0xe5 |> emitByte 0xe1 |> emitByte 0x67 |> emitByte 0xe5 |> emitByte 0xfd |> emitByte 0xe1 |> emitByte 0xe1)
           | Reg.B =>
              Except.ok
                (EmitState.init |> emitByte 0xe5 |> emitByte 0xfd |> emitByte 0xe5 |> emitByte 0xe1 |> emitByte 0x60 |> emitByte 0xe5 |> emitByte 0xfd |> emitByte 0xe1 |> emitByte 0xe1)
           | Reg.C =>
              Except.ok
                (EmitState.init |> emitByte 0xe5 |> emitByte 0xfd |> emitByte 0xe5 |> emitByte 0xe1 |> emitByte 0x61 |> emitByte 0xe5 |> emitByte 0xfd |> emitByte 0xe1 |> emitByte 0xe1)
           | Reg.D =>
              Except.ok
                (EmitState.init |> emitByte 0xe5 |> emitByte 0xfd |> emitByte 0xe5 |> emitByte 0xe1 |> emitByte 0x62 |> emitByte 0xe5 |> emitByte 0xfd |> emitByte 0xe1 |> emitByte 0xe1)
           | Reg.E =>
              Except.ok
                (EmitState.init |> emitByte 0xe5 |> emitByte 0xfd |> emitByte 0xe5 |> emitByte 0xe1 |> emitByte 0x63 |> emitByte 0xe5 |> emitByte 0xfd |> emitByte 0xe1 |> emitByte 0xe1)
           | Reg.H =>
              Except.ok
                (EmitState.init |> emitByte 0xd5 |> emitByte 0xfd |> emitByte 0xe5 |> emitByte 0xd1 |> emitByte 0x54 |> emitByte 0xd5 |> emitByte 0xfd |> emitByte 0xe1 |> emitByte 0xd1)
           | Reg.L =>
              Except.ok
                (EmitState.init |> emitByte 0xd5 |> emitByte 0xfd |> emitByte 0xe5 |> emitByte 0xd1 |> emitByte 0x55 |> emitByte 0xd5 |> emitByte 0xfd |> emitByte 0xe1 |> emitByte 0xd1)
           | Reg.IXH =>
              Except.ok
                (EmitState.init |> emitByte 0xe5 |> emitByte 0xd5 |> emitByte 0xfd |> emitByte 0xe5 |> emitByte 0xe1 |> emitByte 0xdd |> emitByte 0xe5 |> emitByte 0xd1 |> emitByte 0x62 |> emitByte 0xe5 |> emitByte 0xfd |> emitByte 0xe1 |> emitByte 0xd1 |> emitByte 0xe1)
           | Reg.IXL =>
              Except.ok
                (EmitState.init |> emitByte 0xe5 |> emitByte 0xd5 |> emitByte 0xfd |> emitByte 0xe5 |> emitByte 0xe1 |> emitByte 0xdd |> emitByte 0xe5 |> emitByte 0xd1 |> emitByte 0x63 |> emitByte 0xe5 |> emitByte 0xfd |> emitByte 0xe1 |> emitByte 0xd1 |> emitByte 0xe1)
           | Reg.IYH =>
              Except.ok
                (EmitState.init |> emitByte 0xe5 |> emitByte 0xfd |> emitByte 0xe5 |> emitByte 0xe1 |> emitByte 0x64 |> emitByte 0xe5 |> emitByte 0xfd |> emitByte 0xe1 |> emitByte 0xe1)
           | Reg.IYL =>
              Except.ok
                (EmitState.init |> emitByte 0xe5 |> emitByte 0xfd |> emitByte 0xe5 |> emitByte 0xe1 |> emitByte 0x65 |> emitByte 0xe5 |> emitByte 0xfd |> emitByte 0xe1 |> emitByte 0xe1)
           | _ =>
              Except.error (instrErr name "Allowed register are A, B, C, D, E, H, L.")
          )
       | Reg.IYL =>
          (match ((mi.op 1)).getReg with
           | Reg.A =>
              Except.ok
                (EmitState.init |> emitByte 0xe5 |> emitByte 0xfd |> emitByte 0xe5 |> emitByte 0xe1 |> emitByte 0x6f |> emitByte 0xe5 |> emitByte 0xfd |> emitByte 0xe1 |> emitByte 0xe1)
           | Reg.B =>
              Except.ok
                (EmitState.init |> emitByte 0xe5 |> emitByte 0xfd |> emitByte 0xe5 |> emitByte 0xe1 |> emitByte 0x68 |> emitByte 0xe5 |> emitByte 0xfd |> emitByte 0xe1 |> emitByte 0xe1)
           | Reg.C =>
              Except.ok
                (EmitState.init |> emitByte 0xe5 |> emitByte 0xfd |> emitByte 0xe5 |> emitByte 0xe1 |> emitByte 0x69 |> emitByte 0xe5 |> emitByte 0xfd |> emitByte 0xe1 |> emitByte 0xe1)
           | Reg.D =>
              Except.ok
                (EmitState.init |> emitByte 0xe5 |> emitByte 0xfd |> emitByte 0xe5 |> emitByte 0xe1 |> emitByte 0x6a |> emitByte 0xe5 |> emitByte 0xfd |> emitByte 0xe1 |> emitByte 0xe1)
           | Reg.E =>
              Except.ok
                (EmitState.init |> emitByte 0xe5 |> emitByte 0xfd |> emitByte 0xe5 |> emitByte 0xe1 |> emitByte 0x6b |> emitByte 0xe5 |> emitByte 0xfd |> emitByte 0xe1 |> emitByte 0xe1)
           | Reg.H =>
              Except.ok
                (EmitState.init |> emitByte 0xd5 |> emitByte 0xfd |> emitByte 0xe5 |> emitByte 0xd1 |> emitByte 0x5c |> emitByte 0xd5 |> emitByte 0xfd |> emitByte 0xe1 |> emitByte 0xd1)
           | Reg.L =>
              Except.ok
                (EmitState.init |> emitByte 0xd5 |> emitByte 0xfd |> emitByte 0xe5 |> emitByte 0xd1 |> emitByte 0x5d |> emitByte 0xd5 |> emitByte 0xfd |> emitByte 0xe1 |> emitByte 0xd1)
           | Reg.IXH =>
              Except.ok
                (EmitState.init |> emitByte 0xe5 |> emitByte 0xd5 |> emitByte 0xfd |> emitByte 0xe5 |> emitByte 0xe1 |> emitByte 0xdd |> emitByte 0xe5 |> emitByte 0xd1 |> emitByte 0x6a |> emitByte 0xe5 |> emitByte 0xfd |> emitByte 0xe1 |> emitByte 0xd1 |> emitByte 0xe1)
           | Reg.IXL =>
              Except.ok
                (EmitState.init |> emitByte 0xe5 |> emitByte 0xd5 |> emitByte 0xfd |> emitByte 0xe5 |> emitByte 0xe1 |> emitByte 0xdd |> emitByte 0xe5 |> emitByte 0xd1 |> emitByte 0x6b |> emitByte 0xe5 |> emitByte 0xfd |> emitByte 0xe1 |> emitByte 0xd1 |> emitByte 0xe1)
           | Reg.IYH =>
              Except.ok
                (EmitState.init |> emitByte 0xe5 |> emitByte 0xfd |> emitByte 0xe5 |> emitByte 0xe1 |> emitByte 0x6c |> emitByte 0xe5 |> emitByte 0xfd |> emitByte 0xe1 |> emitByte 0xe1)
           | Reg.IYL =>
              Except.ok
                (EmitState.init |> emitByte 0xe5 |> emitByte 0xfd |> emitByte 0xe5 |> emitByte 0xe1 |> emitByte 0x6d |> emitByte 0xe5 |> emitByte 0xfd |> emitByte 0xe1 |> emitByte 0xe1)
           | _ =>
              Except.error (instrErr name "Allowed register are A, B, C, D, E, H, L.")
          )
       | _ =>
          Except.error (instrErr name "Allowed register are A, B, C, D, E, H, L.")
      )
     else Except.error (instrErr name "Both operands should be registers."))
   else Except.error (numOpsErr name 2 mi.operands.length))

/-- Encoding of `LD8go` (translated from the corresponding
`case Z80::LD8go` block of `Z80MCCodeEmitter::encodeInstruction`). -/
def enc_LD8go (name : String) (mi : Inst) : Except String EmitState :=
  (if mi.operands.length = 3 then
    (if ((mi.op 0).isReg && (mi.op 1).isReg) then
      (if (mi.op 2).isImm then
        (match ((mi.op 0)).getReg with
         | Reg.IXH =>
            (match ((mi.op 1)).getReg with
             | Reg.IX =>
                Except.ok
                  (EmitState.init |> emitByte 0xe5 |> emitByte 0xdd |> emitByte 0xe5 |> emitByte 0xe1 |> emitByte 0xdd |> emitByte 0x66 |> emitByte (u8i ((mi.op 2).getImm)) |> emitByte 0xe5 |> emitByte 0xdd |> emitByte 0xe1 |> emitByte 0xe1)
             | Reg.IY =>
                Except.ok
                  (EmitState.init |> emitByte 0xe5 |> emitByte 0xdd |> emitByte 0xe5 |> emitByte 0xe1 |> emitByte 0xfd |> emitByte 0x66 |> emitByte (u8i ((mi.op 2).getImm)) |> emitByte 0xe5 |> emitByte 0xdd |> emitByte 0xe1 |> emitByte 0xe1)
             | _ =>
                Except.error (instrErr name "Allowed second operand registers are IX, IY.")
            )
         | Reg.IXL =>
            (match ((mi.op 1)).getReg with
             | Reg.IX =>
                Except.ok
                  (EmitState.init |> emitByte 0xe5 |> emitByte 0xdd |> emitByte 0xe5 |> emitByte 0xe1 |> emitByte 0xdd |> emitByte 0x6e |> emitByte (u8i ((mi.op 2).getImm)) |> emitByte 0xe5 |> emitByte 0xdd |> emitByte 0xe1 |> emitByte 0xe1)
             | Reg.IY =>
                Except.ok
                  (EmitState.init |> emitByte 0xe5 |> emitByte 0xdd |> emitByte 0xe5 |> emitByte 0xe1 |> emitByte 0xfd |> emitByte 0x6e |> emitByte (u8i ((mi.op 2).getImm)) |> emitByte 0xe5 |> emitByte 0xdd |> emitByte 0xe1 |> emitByte 0xe1)
             | _ =>
                Except.error (instrErr name "Allowed second operand registers are IX, IY.")
            )
         | Reg.IYH =>
            (match ((mi.op 1)).getReg with
             | Reg.IX =>
                Except.ok
                  (EmitState.init |> emitByte 0xe5 |> emitByte 0xfd |> emitByte 0xe5 |> emitByte 0xe1 |> emitByte 0xdd |> emitByte 0x66 |> emitByte (u8i ((mi.op 2).getImm)) |> emitByte 0xe5 |> emitByte 0xfd |> emitByte 0xe1 |> emitByte 0xe1)
             | Reg.IY =>
                Except.ok
                  (EmitState.init |> emitByte 0xe5 |> emitByte 0xfd |> emitByte 0xe5 |> emitByte 0xe1 |> emitByte 0xfd |> emitByte 0x66 |> emitByte (u8i ((mi.op 2).getImm)) |> emitByte 0xe5 |> emitByte 0xfd |> emitByte 0xe1 |> emitByte 0xe1)
             | _ =>
                Except.error (instrErr name "Allowed second operand registers are IX, IY.")
            )
         | Reg.IYL =>
            (match ((mi.op 1)).getReg with
             | Reg.IX =>
                Except.ok
                  (EmitState.init |> emitByte 0xe5 |> emitByte 0xfd |> emitByte 0xe5 |> emitByte 0xe1 |> emitByte 0xdd |> emitByte 0x6e |> emitByte (u8i ((mi.op 2).getImm)) |> emitByte 0xe5 |> emitByte 0xfd |> emitByte 0xe1 |> emitByte 0xe1)
             | Reg.IY =>
                Except.ok
                  (EmitState.init |> emitByte 0xe5 |> emitByte 0xfd |> emitByte 0xe5 |> emitByte 0xe1 |> emitByte 0xfd |> emitByte 0x6e |> emitByte (u8i ((mi.op 2).getImm)) |> emitByte 0xe5 |> emitByte 0xfd |> emitByte 0xe1 |> emitByte 0xe1)
             | _ =>
                Except.error (instrErr name "Allowed second operand registers are IX, IY.")
            )
         | _ =>
            (match ((mi.op 1)).getReg with
             | Reg.IX =>
                (match ((mi.op 0)).getReg with
                 | Reg.A =>
                    Except.ok
                      (EmitState.init |> emitByte 0xdd |> emitByte 0x7e |> emitByte (u8i ((mi.op 2).getImm)))
                 | Reg.B =>
                    Except.ok
                      (EmitState.init |> emitByte 0xdd |> emitByte 0x46 |> emitByte (u8i ((mi.op 2).getImm)))
                 | Reg.C =>
                    Except.ok
                      (EmitState.init |> emitByte 0xdd |> emitByte 0x4e |> emitByte (u8i ((mi.op 2).getImm)))
                 | Reg.D =>
                    Except.ok
                      (EmitState.init |> emitByte 0xdd |> emitByte 0x56 |> emitByte (u8i ((mi.op 2).getImm)))
                 | Reg.E =>
                    Except.ok
                      (EmitState.init |> emitByte 0xdd |> emitByte 0x5e |> emitByte (u8i ((mi.op 2).getImm)))
                 | Reg.H =>
                    Except.ok
                      (EmitState.init |> emitByte 0xdd |> emitByte 0x66 |> emitByte (u8i ((mi.op 2).getImm)))
                 | Reg.L =>
                    Except.ok
                      (EmitState.init |> emitByte 0xdd |> emitByte 0x6e |> emitByte (u8i ((mi.op 2).getImm)))
                 | _ =>
                    Except.error (instrErr name "Allowed first operand registers are A, B, C, D, E, H, L.")
                )
             | Reg.IY =>
                (match ((mi.op 0)).getReg with
                 | Reg.A =>
                    Except.ok
                      (EmitState.init |> emitByte 0xfd |> emitByte 0x7e |> emitByte (u8i ((mi.op 2).getImm)))
                 | Reg.B =>
                    Except.ok
                      (EmitState.init |> emitByte 0xfd |> emitByte 0x46 |> emitByte (u8i ((mi.op 2).getImm)))
                 | Reg.C =>
                    Except.ok
                      (EmitState.init |> emitByte 0xfd |> emitByte 0x4e |> emitByte (u8i ((mi.op 2).getImm)))
                 | Reg.D =>
                    Except.ok
                      (EmitState.init |> emitByte 0xfd |> emitByte 0x56 |> emitByte (u8i ((mi.op 2).getImm)))
                 | Reg.E =>
                    Except.ok
                      (EmitState.init |> emitByte 0xfd |> emitByte 0x5e |> emitByte (u8i ((mi.op 2).getImm)))
                 | Reg.H =>
                    Except.ok
                      (EmitState.init |> emitByte 0xfd |> emitByte 0x66 |> emitByte (u8i ((mi.op 2).getImm)))
                 | Reg.L =>
                    Except.ok
                      (EmitState.init |> emitByte 0xfd |> emitByte 0x6e |> emitByte (u8i ((mi.op 2).getImm)))
                 | _ =>
                    Except.error (instrErr name "Allowed first operand registers are A, B, C, D, E, H, L.")
                )
             | _ =>
                Except.error (instrErr name "Allowed second operand registers are IX, IY.")
            )
        )
       else Except.error (instrErr name "Third operand should be immediate."))
     else Except.error (instrErr name "First two operands should be registers."))
   else Except.error (numOpsErr name 3 mi.operands.length))

/-- Encoding of `LD8gp` (translated from the corresponding
`case Z80::LD8gp` block of `Z80MCCodeEmitter::encodeInstruction`). -/
def enc_LD8gp (name : String) (mi : Inst) : Except String EmitState :=
  (if mi.operands.length = 2 then
    (if ((mi.op 0).isReg && (mi.op 1).isReg) then
      (match ((mi.op 1)).getReg with
       | Reg.HL =>
          (match ((mi.op 0)).getReg with
           | Reg.A =>
              Except.ok
                (EmitState.init |> emitByte 0x7e)
           | Reg.B =>
              Except.ok
                (EmitState.init |> emitByte 0x46)
           | Reg.C =>
              Except.ok
                (EmitState.init |> emitByte 0x4e)
           | Reg.D =>
              Except.ok
                (EmitState.init |> emitByte 0x56)
           | Reg.E =>
              Except.ok
                (EmitState.init |> emitByte 0x5e)
           | Reg.H =>
              Except.ok
                (EmitState.init |> emitByte 0x66)
           | Reg.L =>
              Except.ok
                (EmitState.init |> emitByte 0x6e)
           | Reg.IXH =>
              Except.ok
                (EmitState.init |> emitByte 0xd5 |> emitByte 0xdd |> emitByte 0xe5 |> emitByte 0xd1 |> emitByte 0x56 |> emitByte 0xd5 |> emitByte 0xdd |> emitByte 0xe1 |> emitByte 0xd1)
           | Reg.IXL =>
              Except.ok
                (EmitState.init |> emitByte 0xd5 |> emitByte 0xdd |> emitByte 0xe5 |> emitByte 0xd1 |> emitByte 0x5e |> emitByte 0xd5 |> emitByte 0xdd |> emitByte 0xe1 |> emitByte 0xd1)
           | Reg.IYH =>
              Except.ok
                (EmitState.init |> emitByte 0xd5 |> emitByte 0xfd |> emitByte 0xe5 |> emitByte 0xd1 |> emitByte 0x56 |> emitByte 0xd5 |> emitByte 0xfd |> emitByte 0xe1 |> emitByte 0xd1)
           | Reg.IYL =>
              Except.ok
                (EmitState.init |> emitByte 0xd5 |> emitByte 0xfd |> emitByte 0xe5 |> emitByte 0xd1 |> emitByte 0x5e |> emitByte 0xd5 |> emitByte 0xfd |> emitByte 0xe1 |> emitByte 0xd1)
           | _ =>
              Except.error (instrErr name "Allowed first operand registers are A, B, C, D, E, H, L.")
          )
       | Reg.IX =>
          (match ((mi.op 0)).getReg with
           | Reg.A =>
              Except.ok
                (EmitState.init |> emitByte 0xdd |> emitByte 0x7e |> emitByte 0x00)
           | Reg.B =>
              Except.ok
                (EmitState.init |> emitByte 0xdd |> emitByte 0x46 |> emitByte 0x00)
           | Reg.C =>
              Except.ok
                (EmitState.init |> emitByte 0xdd |> emitByte 0x4e |> emitByte 0x00)
           | Reg.D =>
              Except.ok
                (EmitState.init |> emitByte 0xdd |> emitByte 0x56 |> emitByte 0x00)
           | Reg.E =>
              Except.ok
                (EmitState.init |> emitByte 0xdd |> emitByte 0x5e |> emitByte 0x00)
           | Reg.H =>
              Except.ok
                (EmitState.init |> emitByte 0xdd |> emitByte 0x66 |> emitByte 0x00)
           | Reg.L =>
              Except.ok
                (EmitState.init |> emitByte 0xdd |> emitByte 0x6e |> emitByte 0x00)
           | Reg.IXH =>
              Except.ok
                (EmitState.init |> emitByte 0xd5 |> emitByte 0xdd |> emitByte 0xe5 |> emitByte 0xd1 |> emitByte 0xdd |> emitByte 0x56 |> emitByte 0x00 |> emitByte 0xd5 |> emitByte 0xdd |> emitByte 0xe1 |> emitByte 0xd1)
           | Reg.IXL =>
              Except.ok
                (EmitState.init |> emitByte 0xd5 |> emitByte 0xdd |> emitByte 0xe5 |> emitByte 0xd1 |> emitByte 0xdd |> emitByte 0x5e |> emitByte 0x00 |> emitByte 0xd5 |> emitByte 0xdd |> emitByte 0xe1 |> emitByte 0xd1)
           | Reg.IYH =>
              Except.ok
                (EmitState.init |> emitByte 0xd5 |> emitByte 0xfd |> emitByte 0xe5 |> emitByte 0xd1 |> emitByte 0xdd |> emitByte 0x56 |> emitByte 0x00 |> emitByte 0xd5 |> emitByte 0xfd |> emitByte 0xe1 |> emitByte 0xd1)
           | Reg.IYL =>
              Except.ok
                (EmitState.init |> emitByte 0xd5 |> emitByte 0xfd |> emitByte 0xe5 |> emitByte 0xd1 |> emitByte 0xdd |> emitByte 0x5e |> emitByte 0x00 |> emitByte 0xd5 |> emitByte 0xfd |> emitByte 0xe1 |> emitByte 0xd1)
           | _ =>
              Except.error (instrErr name "Allowed first operand registers are A, B, C, D, E, H, L.")
          )
       | Reg.IY =>
          (match ((mi.op 0)).getReg with
           | Reg.A =>
              Except.ok
                (EmitState.init |> emitByte 0xfd |> emitByte 0x7e |> emitByte 0x00)
           | Reg.B =>
              Except.ok
                (EmitState.init |> emitByte 0xfd |> emitByte 0x46 |> emitByte 0x00)
           | Reg.C =>
              Except.ok
                (EmitState.init |> emitByte 0xfd |> emitByte 0x4e |> emitByte 0x00)
           | Reg.D =>
              Except.ok
                (EmitState.init |> emitByte 0xfd |> emitByte 0x56 |> emitByte 0x00)
           | Reg.E =>
              Except.ok
                (EmitState.init |> emitByte 0xfd |> emitByte 0x5e |> emitByte 0x00)
           | Reg.H =>
              Except.ok
                (EmitState.init |> emitByte 0xfd |> emitByte 0x66 |> emitByte 0x00)
           | Reg.L =>
              Except.ok
                (EmitState.init |> emitByte 0xfd |> emitByte 0x6e |> emitByte 0x00)
           | Reg.IXH =>
              Except.ok
                (EmitState.init |> emitByte 0xd5 |> emitByte 0xdd |> emitByte 0xe5 |> emitByte 0xd1 |> emitByte 0xfd |> emitByte 0x56 |> emitByte 0x00 |> emitByte 0xd5 |> emitByte 0xdd |> emitByte 0xe1 |> emitByte 0xd1)
           | Reg.IXL =>
              Except.ok
                (EmitState.init |> emitByte 0xd5 |> emitByte 0xdd |> emitByte 0xe5 |> emitByte 0xd1 |> emitByte 0xfd |> emitByte 0x5e |> emitByte 0x00 |> emitByte 0xd5 |> emitByte 0xdd |> emitByte 0xe1 |> emitByte 0xd1)
           | Reg.IYH =>
              Except.ok
                (EmitState.init |> emitByte 0xd5 |> emitByte 0xfd |> emitByte 0xe5 |> emitByte 0xd1 |> emitByte 0xfd |> emitByte 0x56 |> emitByte 0x00 |> emitByte 0xd5 |> emitByte 0xfd |> emitByte 0xe1 |> emitByte 0xd1)
           | Reg.IYL =>
              Except.ok
                (EmitState.init |> emitByte 0xd5 |> emitByte 0xfd |> emitByte 0xe5 |> emitByte 0xd1 |> emitByte 0xfd |> emitByte 0x5e |> emitByte 0x00 |> emitByte 0xd5 |> emitByte 0xfd |> emitByte 0xe1 |> emitByte 0xd1)
           | _ =>
              Except.error (instrErr name "Allowed first operand registers are A, B, C, D, E, H, L.")
          )
       | _ =>
          Except.error (instrErr name "Allowed registers are HL, IX, IY.")
      )
     else Except.error (instrErr name "Both operands should be registers."))
   else Except.error (numOpsErr name 2 mi.operands.length))

/-- Encoding of `LD8ma` (translated from the corresponding
`case Z80::LD8ma` block of `Z80MCCodeEmitter::encodeInstruction`). -/
def enc_LD8ma (name : String) (mi : Inst) : Except String EmitState :=
  (if mi.operands.length = 1 then
    (if (mi.op 0).isExpr then
      Except.ok
        (EmitState.init |> emitByte 0x32 |> pushFixup (((mi.op 0)).getExpr) MCFixupKind.fixup_16 mi.loc |> emitByte 0x00 |> emitByte 0x00)
     else
      (if (mi.op 0).isImm then
        Except.ok
          (EmitState.init |> emitByte 0x32 |> emitByte ((u16i ((mi.op 0).getImm) >>> 0) &&& 0xff) |> emitByte ((u16i ((mi.op 0).getImm) >>> 8) &&& 0xff))
       else
        Except.error (instrErr name "Operand should be an expression or immediate.")))
   else Except.error (numOpsErr name 1 mi.operands.length))

/-- Encoding of `LD8og` (translated from the corresponding
`case Z80::LD8og` block of `Z80MCCodeEmitter::encodeInstruction`). -/
def enc_LD8og (name : String) (mi : Inst) : Except String EmitState :=
  (if mi.operands.length = 3 then
    (if ((mi.op 0).isReg && (mi.op 2).isReg) then
      (if (mi.op 1).isImm then
        (match ((mi.op 2)).getReg with
         | Reg.IXH =>
            (match ((mi.op 0)).getReg with
             | Reg.IX =>
                Except.ok
                  (EmitState.init |> emitByte 0xe5 |> emitByte 0xdd |> emitByte 0xe5 |> emitByte 0xe1 |> emitByte 0xdd |> emitByte 0x74 |> emitByte (u8i ((mi.op 1).getImm)) |> emitByte 0xe5 |> emitByte 0xdd |> emitByte 0xe1 |> emitByte 0xe1)
             | Reg.IY =>
                Except.ok
                  (EmitState.init |> emitByte 0xe5 |> emitByte 0xdd |> emitByte 0xe5 |> emitByte 0xe1 |> emitByte 0xfd |> emitByte 0x74 |> emitByte (u8i ((mi.op 1).getImm)) |> emitByte 0xe5 |> emitByte 0xdd |> emitByte 0xe1 |> emitByte 0xe1)
             | _ =>
                Except.error (instrErr name "Allowed first operand registers are IX, IY.")
            )
         | Reg.IXL =>
            (match ((mi.op 0)).getReg with
             | Reg.IX =>
                Except.ok
                  (EmitState.init |> emitByte 0xe5 |> emitByte 0xdd |> emitByte 0xe5 |> emitByte 0xe1 |> emitByte 0xdd |> emitByte 0x75 |> emitByte (u8i ((mi.op 1).getImm)) |> emitByte 0xe5 |> emitByte 0xdd |> emitByte 0xe1 |> emitByte 0xe1)
             | Reg.IY =>
                Except.ok
                  (EmitState.init |> emitByte 0xe5 |> emitByte 0xdd |> emitByte 0xe5 |> emitByte 0xe1 |> emitByte 0xfd |> emitByte 0x75 |> emitByte (u8i ((mi.op 1).getImm)) |> emitByte 0xe5 |> emitByte 0xdd |> emitByte 0xe1 |> emitByte 0xe1)
             | _ =>
                Except.error (instrErr name "Allowed first operand registers are IX, IY.")
            )
         | Reg.IYH =>
            (match ((mi.op 0)).getReg with
             | Reg.IX =>
                Except.ok
                  (EmitState.init |> emitByte 0xe5 |> emitByte 0xfd |> emitByte 0xe5 |> emitByte 0xe1 |> emitByte 0xdd |> emitByte 0x74 |> emitByte (u8i ((mi.op 1).getImm)) |> emitByte 0xe5 |> emitByte 0xfd |> emitByte 0xe1 |> emitByte 0xe1)
             | Reg.IY =>
                Except.ok
                  (EmitState.init |> emitByte 0xe5 |> emitByte 0xfd |> emitByte 0xe5 |> emitByte 0xe1 |> emitByte 0xfd |> emitByte 0x74 |> emitByte (u8i ((mi.op 1).getImm)) |> emitByte 0xe5 |> emitByte 0xfd |> emitByte 0xe1 |> emitByte 0xe1)
             | _ =>
                Except.error (instrErr name "Allowed first operand registers are IX, IY.")
            )
         | Reg.IYL =>
            (match ((mi.op 0)).getReg with
             | Reg.IX =>
                Except.ok
                  (EmitState.init |> emitByte 0xe5 |> emitByte 0xfd |> emitByte 0xe5 |> emitByte 0xe1 |> emitByte 0xdd |> emitByte 0x75 |> emitByte (u8i ((mi.op 1).getImm)) |> emitByte 0xe5 |> emitByte 0xfd |> emitByte 0xe1 |> emitByte 0xe1)
             | Reg.IY =>
                Except.ok
                  (EmitState.init |> emitByte 0xe5 |> emitByte 0xfd |> emitByte 0xe5 |> emitByte 0xe1 |> emitByte 0xfd |> emitByte 0x75 |> emitByte (u8i ((mi.op 1).getImm)) |> emitByte 0xe5 |> emitByte 0xfd |> emitByte 0xe1 |> emitByte 0xe1)
             | _ =>
                Except.error (instrErr name "Allowed first operand registers are IX, IY.")
            )
         | _ =>
            (match ((mi.op 0)).getReg with
             | Reg.IX =>
                (match ((mi.op 2)).getReg with
                 | Reg.A =>
                    Except.ok
                      (EmitState.init |> emitByte 0xdd |> emitByte 0x77 |> emitByte (u8i ((mi.op 1).getImm)))
                 | Reg.B =>
                    Except.ok
                      (EmitState.init |> emitByte 0xdd |> emitByte 0x70 |> emitByte (u8i ((mi.op 1).getImm)))
                 | Reg.C =>
                    Except.ok
                      (EmitState.init |> emitByte 0xdd |> emitByte 0x71 |> emitByte (u8i ((mi.op 1).getImm)))
                 | Reg.D =>
                    Except.ok
                      (EmitState.init |> emitByte 0xdd |> emitByte 0x72 |> emitByte (u8i ((mi.op 1).getImm)))
                 | Reg.E =>
                    Except.ok
                      (EmitState.init |> emitByte 0xdd |> emitByte 0x73 |> emitByte (u8i ((mi.op 1).getImm)))
                 | Reg.H =>
                    Except.ok
                      (EmitState.init |> emitByte 0xdd |> emitByte 0x74 |> emitByte (u8i ((mi.op 1).getImm)))
                 | Reg.L =>
                    Except.ok
                      (EmitState.init |> emitByte 0xdd |> emitByte 0x75 |> emitByte (u8i ((mi.op 1).getImm)))
                 | _ =>
                    Except.error (instrErr name "Allowed third operand registers are A, B, C, D, E, H, L.")
                )
             | Reg.IY =>
                (match ((mi.op 2)).getReg with
                 | Reg.A =>
                    Except.ok
                      (EmitState.init |> emitByte 0xfd |> emitByte 0x77 |> emitByte (u8i ((mi.op 1).getImm)))
                 | Reg.B =>
                    Except.ok
                      (EmitState.init |> emitByte 0xfd |> emitByte 0x70 |> emitByte (u8i ((mi.op 1).getImm)))
                 | Reg.C =>
                    Except.ok
                      (EmitState.init |> emitByte 0xfd |> emitByte 0x71 |> emitByte (u8i ((mi.op 1).getImm)))
                 | Reg.D =>
                    Except.ok
                      (EmitState.init |> emitByte 0xfd |> emitByte 0x72 |> emitByte (u8i ((mi.op 1).getImm)))
                 | Reg.E =>
                    Except.ok
                      (EmitState.init |> emitByte 0xfd |> emitByte 0x73 |> emitByte (u8i ((mi.op 1).getImm)))
                 | Reg.H =>
                    Except.ok
                      (EmitState.init |> emitByte 0xfd |> emitByte 0x74 |> emitByte (u8i ((mi.op 1).getImm)))
                 | Reg.L =>
                    Except.ok
                      (EmitState.init |> emitByte 0xfd |> emitByte 0x75 |> emitByte (u8i ((mi.op 1).getImm)))
                 | _ =>
                    Except.error (instrErr name "Allowed third operand registers are A, B, C, D, E, H, L.")
                )
             | _ =>
                Except.error (instrErr name "Allowed first operand registers are IX, IY.")
            )
        )
       else Except.error (instrErr name "Second operand should be immediate."))
     else Except.error (instrErr name "First and third operand should be registers."))
   else Except.error (numOpsErr name 3 mi.operands.length))

/-- Encoding of `LD8oi` (translated from the corresponding
`case Z80::LD8oi` block of `Z80MCCodeEmitter::encodeInstruction`). -/
def enc_LD8oi (name : String) (mi : Inst) : Except String EmitState :=
  (if mi.operands.length = 3 then
    (if (mi.op 0).isReg then
      (if ((mi.op 1).isImm && (mi.op 2).isImm) then
        (match ((mi.op 0)).getReg with
         | Reg.IX =>
            Except.ok
              (EmitState.init |> emitByte 0xdd |> emitByte 0x36 |> emitByte (u8i ((mi.op 1).getImm)) |> emitByte (u8i ((mi.op 2).getImm)))
         | Reg.IY =>
            Except.ok
              (EmitState.init |> emitByte 0xfd |> emitByte 0x36 |> emitByte (u8i ((mi.op 1).getImm)) |> emitByte (u8i ((mi.op 2).getImm)))
         | _ =>
            Except.error (instrErr name "Allowed registers are IX, IY.")
        )
       else Except.error (instrErr name "Second and third  operand should be immediate."))
     else Except.error (instrErr name "First operand should be register."))
   else Except.error (numOpsErr name 3 mi.operands.length))

/-- Encoding of `LD8pg` (translated from the corresponding
`case Z80::LD8pg` block of `Z80MCCodeEmitter::encodeInstruction`). -/
def enc_LD8pg (name : String) (mi : Inst) : Except String EmitState :=
  (if mi.operands.length = 2 then
    (if ((mi.op 0).isReg && (mi.op 1).isReg) then
      (match ((mi.op 0)).getReg with
       | Reg.HL =>
          (match ((mi.op 1)).getReg with
           | Reg.A =>
              Except.ok
                (EmitState.init |> emitByte 0x77)
           | Reg.B =>
              Except.ok
                (EmitState.init |> emitByte 0x70)
           | Reg.C =>
              Except.ok
                (EmitState.init |> emitByte 0x71)
           | Reg.D =>
              Except.ok
                (EmitState.init |> emitByte 0x72)
           | Reg.E =>
              Except.ok
                (EmitState.init |> emitByte 0x73)
           | Reg.H =>
              Except.ok
                (EmitState.init |> emitByte 0x74)
           | Reg.L =>
              Except.ok
                (EmitState.init |> emitByte 0x75)
           | Reg.IXH =>
              Except.ok
                (EmitState.init |> emitByte 0xd5 |> emitByte 0xdd |> emitByte 0xe5 |> emitByte 0xd1 |> emitByte 0x72 |> emitByte 0xd1)
           | Reg.IXL =>
              Except.ok
                (EmitState.init |> emitByte 0xd5 |> emitByte 0xdd |> emitByte 0xe5 |> emitByte 0xd1 |> emitByte 0x73 |> emitByte 0xd1)
           | Reg.IYH =>
              Except.ok
                (EmitState.init |> emitByte 0xd5 |> emitByte 0xfd |> emitByte 0xe5 |> emitByte 0xd1 |> emitByte 0x72 |> emitByte 0xd1)
           | Reg.IYL =>
              Except.ok
                (EmitState.init |> emitByte 0xd5 |> emitByte 0xfd |> emitByte 0xe5 |> emitByte 0xd1 |> emitByte 0x73 |> emitByte 0xd1)
           | _ =>
              Except.error (instrErr name "Allowed first operand registers are A, B, C, D, E, H, L.")
          )
       | Reg.IX =>
          (match ((mi.op 1)).getReg with
           | Reg.A =>
              Except.ok
                (EmitState.init |> emitByte 0xdd |> emitByte 0x77 |> emitByte 0x00)
           | Reg.B =>
              Except.ok
                (EmitState.init |> emitByte 0xdd |> emitByte 0x70 |> emitByte 0x00)
           | Reg.C =>
              Except.ok
                (EmitState.init |> emitByte 0xdd |> emitByte 0x71 |> emitByte 0x00)
           | Reg.D =>
              Except.ok
                (EmitState.init |> emitByte 0xdd |> emitByte 0x72 |> emitByte 0x00)
           | Reg.E =>
              Except.ok
                (EmitState.init |> emitByte 0xdd |> emitByte 0x73 |> emitByte 0x00)
           | Reg.H =>
              Except.ok
                (EmitState.init |> emitByte 0xdd |> emitByte 0x74 |> emitByte 0x00)
           | Reg.L =>
              Except.ok
                (EmitState.init |> emitByte 0xdd |> emitByte 0x75 |> emitByte 0x00)
           | Reg.IXH =>
              Except.ok
                (EmitState.init |> emitByte 0xd5 |> emitByte 0xdd |> emitByte 0xe5 |> emitByte 0xd1 |> emitByte 0xdd |> emitByte 0x72 |> emitByte 0x00 |> emitByte 0xd1)
           | Reg.IXL =>
              Except.ok
                (EmitState.init |> emitByte 0xd5 |> emitByte 0xdd |> emitByte 0xe5 |> emitByte 0xd1 |> emitByte 0xdd |> emitByte 0x73 |> emitByte 0x00 |> emitByte 0xd1)
           | Reg.IYH =>
              Except.ok
                (EmitState.init |> emitByte 0xd5 |> emitByte 0xfd |> emitByte 0xe5 |> emitByte 0xd1 |> emitByte 0xdd |> emitByte 0x72 |> emitByte 0x00 |> emitByte 0xd1)
           | Reg.IYL =>
              Except.ok
                (EmitState.init |> emitByte 0xd5 |> emitByte 0xfd |> emitByte 0xe5 |> emitByte 0xd1 |> emitByte 0xdd |> emitByte 0x73 |> emitByte 0x00 |> emitByte 0xd1)
           | _ =>
              Except.error (instrErr name "Allowed first operand registers are A, B, C, D, E, H, L.")
          )
       | Reg.IY =>
          (match ((mi.op 1)).getReg with
           | Reg.A =>
              Except.ok
                (EmitState.init |> emitByte 0xfd |> emitByte 0x77 |> emitByte 0x00)
           | Reg.B =>
              Except.ok
                (EmitState.init |> emitByte 0xfd |> emitByte 0x70 |> emitByte 0x00)
           | Reg.C =>
              Except.ok
                (EmitState.init |> emitByte 0xfd |> emitByte 0x71 |> emitByte 0x00)
           | Reg.D =>
              Except.ok
                (EmitState.init |> emitByte 0xfd |> emitByte 0x72 |> emitByte 0x00)
           | Reg.E =>
              Except.ok
                (EmitState.init |> emitByte 0xfd |> emitByte 0x73 |> emitByte 0x00)
           | Reg.H =>
              Except.ok
                (EmitState.init |> emitByte 0xfd |> emitByte 0x74 |> emitByte 0x00)
           | Reg.L =>
              Except.ok
                (EmitState.init |> emitByte 0xfd |> emitByte 0x75 |> emitByte 0x00)
           | Reg.IXH =>
              Except.ok
                (EmitState.init |> emitByte 0xd5 |> emitByte 0xdd |> emitByte 0xe5 |> emitByte 0xd1 |> emitByte 0xfd |> emitByte 0x72 |> emitByte 0x00 |> emitByte 0xd1)
           | Reg.IXL =>
              Except.ok
                (EmitState.init |> emitByte 0xd5 |> emitByte 0xdd |> emitByte 0xe5 |> emitByte 0xd1 |> emitByte 0xfd |> emitByte 0x73 |> emitByte 0x00 |> emitByte 0xd1)
           | Reg.IYH =>
              Except.ok
                (EmitState.init |> emitByte 0xd5 |> emitByte 0xfd |> emitByte 0xe5 |> emitByte 0xd1 |> emitByte 0xfd |> emitByte 0x72 |> emitByte 0x00 |> emitByte 0xd1)
           | Reg.IYL =>
              Except.ok
                (EmitState.init |> emitByte 0xd5 |> emitByte 0xfd |> emitByte 0xe5 |> emitByte 0xd1 |> emitByte 0xfd |> emitByte 0x73 |> emitByte 0x00 |> emitByte 0xd1)
           | _ =>
              Except.error (instrErr name "Allowed first operand registers are A, B, C, D, E, H, L.")
          )
       | _ =>
          Except.error (instrErr name "Allowed registers are HL, IX, IY.")
      )
     else Except.error (instrErr name "Both operands should be registers."))
   else Except.error (numOpsErr name 2 mi.operands.length))

/-- Encoding of `LD8ri` (translated from the corresponding
`case Z80::LD8ri` block of `Z80MCCodeEmitter::encodeInstruction`). -/
def enc_LD8ri (name : String) (mi : Inst) : Except String EmitState :=
  (if mi.operands.length = 2 then
    (if (mi.op 0).isReg then
      (if (mi.op 1).isImm then
        (match ((mi.op 0)).getReg with
         | Reg.A =>
            Except.ok
              (EmitState.init |> emitByte 0x3e |> emitByte (u8i ((mi.op 1).getImm)))
         | Reg.B =>
            Except.ok
              (EmitState.init |> emitByte 0x06 |> emitByte (u8i ((mi.op 1).getImm)))
         | Reg.C =>
            Except.ok
              (EmitState.init |> emitByte 0x0e |> emitByte (u8i ((mi.op 1).getImm)))
         | Reg.D =>
            Except.ok
              (EmitState.init |> emitByte 0x16 |> emitByte (u8i ((mi.op 1).getImm)))
         | Reg.E =>
            Except.ok
              (EmitState.init |> emitByte 0x1e |> emitByte (u8i ((mi.op 1).getImm)))
         | Reg.H =>
            Except.ok
              (EmitState.init |> emitByte 0x26 |> emitByte (u8i ((mi.op 1).getImm)))
         | Reg.L =>
            Except.ok
              (EmitState.init |> emitByte 0x2e |> emitByte (u8i ((mi.op 1).getImm)))
         | Reg.IXH =>
            Except.ok
              (EmitState.init |> emitByte 0xe5 |> emitByte 0xdd |> emitByte 0xe5 |> emitByte 0xe1 |> emitByte 0x26 |> emitByte (u8i ((mi.op 1).getImm)) |> emitByte 0xe5 |> emitByte 0xdd |> emitByte 0xe1 |> emitByte 0xe1)
         | Reg.IXL =>
            Except.ok
              (EmitState.init |> emitByte 0xe5 |> emitByte 0xdd |> emitByte 0xe5 |> emitByte 0xe1 |> emitByte 0x2e |> emitByte (u8i ((mi.op 1).getImm)) |> emitByte 0xe5 |> emitByte 0xdd |> emitByte 0xe1 |> emitByte 0xe1)
         | Reg.IYH =>
            Except.ok
              (EmitState.init |> emitByte 0xe5 |> emitByte 0xfd |> emitByte 0xe5 |> emitByte 0xe1 |> emitByte 0x26 |> emitByte (u8i ((mi.op 1).getImm)) |> emitByte 0xe5 |> emitByte 0xfd |> emitByte 0xe1 |> emitByte 0xe1)
         | Reg.IYL =>
            Except.ok
              (EmitState.init |> emitByte 0xe5 |> emitByte 0xfd |> emitByte 0xe5 |> emitByte 0xe1 |> emitByte 0x2e |> emitByte (u8i ((mi.op 1).getImm)) |> emitByte 0xe5 |> emitByte 0xfd |> emitByte 0xe1 |> emitByte 0xe1)
         | _ =>
            Except.error (instrErr name "Allowed first operand registers are A, B, C, D, E, H, L.")
        )
       else Except.error (instrErr name "Second operand should be immediate."))
     else Except.error (instrErr name "First operand should be register."))
   else Except.error (numOpsErr name 2 mi.operands.length))

/-- Encoding of `LD8pi` (translated from the corresponding
`case Z80::LD8pi` block of `Z80MCCodeEmitter::encodeInstruction`). -/
def enc_LD8pi (name : String) (mi : Inst) : Except String EmitState :=
  (if mi.operands.length = 2 then
    (if (mi.op 0).isReg then
      (if (mi.op 1).isImm then
        (match ((mi.op 0)).getReg with
         | Reg.HL =>
            Except.ok
              (EmitState.init |> emitByte 0x36 |> emitByte (u8i ((mi.op 1).getImm)))
         | Reg.IX =>
            Except.ok
              (EmitState.init |> emitByte 0xdd |> emitByte 0x36 |> emitByte 0x00 |> emitByte (u8i ((mi.op 1).getImm)))
         | Reg.IY =>
            Except.ok
              (EmitState.init |> emitByte 0xfd |> emitByte 0x36 |> emitByte 0x00 |> emitByte (u8i ((mi.op 1).getImm)))
         | _ =>
            Except.error (instrErr name "Allowed registers are HL, IX, IY.")
        )
       else Except.error (instrErr name "Second operand should be immediate."))
     else Except.error (instrErr name "First operand should be register."))
   else Except.error (numOpsErr name 2 mi.operands.length))

/-- Encoding of `LDD16` (translated from the corresponding
`case Z80::LDD16` block of `Z80MCCodeEmitter::encodeInstruction`). -/
def enc_LDD16 (name : String) (mi : Inst) : Except String EmitState :=
  (if mi.operands.length = 0 then
    Except.ok
      (EmitState.init |> emitByte 0xed |> emitByte 0xa8)
   else Except.error (numOpsErr name 0 mi.operands.length))

/-- Encoding of `LDDR16` (translated from the corresponding
`case Z80::LDDR16` block of `Z80MCCodeEmitter::encodeInstruction`). -/
def enc_LDDR16 (name : String) (mi : Inst) : Except String EmitState :=
  (if mi.operands.length = 0 then
    Except.ok
      (EmitState.init |> emitByte 0xed |> emitByte 0xb8)
   else Except.error (numOpsErr name 0 mi.operands.length))

/-- Encoding of `LDI16` (translated from the corresponding
`case Z80::LDI16` block of `Z80MCCodeEmitter::encodeInstruction`). -/
def enc_LDI16 (name : String) (mi : Inst) : Except String EmitState :=
  (if mi.operands.length = 0 then
    Except.ok
      (EmitState.init |> emitByte 0xed |> emitByte 0xa0)
   else Except.error (numOpsErr name 0 mi.operands.length))

/-- Encoding of `LDIR16` (translated from the corresponding
`case Z80::LDIR16` block of `Z80MCCodeEmitter::encodeInstruction`). -/
def enc_LDIR16 (name : String) (mi : Inst) : Except String EmitState :=
  (if mi.operands.length = 0 then
    Except.ok
      (EmitState.init |> emitByte 0xed |> emitByte 0xb0)
   else Except.error (numOpsErr name 0 mi.operands.length))

/-- Encoding of `NEG` (translated from the corresponding
`case Z80::NEG` block of `Z80MCCodeEmitter::encodeInstruction`). -/
def enc_NEG (name : String) (mi : Inst) : Except String EmitState :=
  (if mi.operands.length = 0 then
    Except.ok
      (EmitState.init |> emitByte 0xed |> emitByte 0x44)
   else Except.error (numOpsErr name 0 mi.operands.length))

/-- Encoding of `NOP` (translated from the corresponding
`case Z80::NOP` block of `Z80MCCodeEmitter::encodeInstruction`). -/
def enc_NOP (name : String) (mi : Inst) : Except String EmitState :=
  (if mi.operands.length = 0 then
    Except.ok
      (EmitState.init |> emitByte 0x00)
   else Except.error (numOpsErr name 0 mi.operands.length))

/-- Encoding of `OR8ai` (translated from the corresponding
`case Z80::OR8ai` block of `Z80MCCodeEmitter::encodeInstruction`). -/
def enc_OR8ai (name : String) (mi : Inst) : Except String EmitState :=
  (if mi.operands.length = 1 then
    (if (mi.op 0).isImm then
      Except.ok
        (EmitState.init |> emitByte 0xf6 |> emitByte (u8i ((mi.op 0).getImm)))
     else Except.error (instrErr name "Operand should be immediate."))
   else Except.error (numOpsErr name 1 mi.operands.length))

/-- Encoding of `OR8ao` (translated from the corresponding
`case Z80::OR8ao` block of `Z80MCCodeEmitter::encodeInstruction`). -/
def enc_OR8ao (name : String) (mi : Inst) : Except String EmitState :=
  (if mi.operands.length = 2 then
    (if (mi.op 0).isReg then
      (if (mi.op 1).isImm then
        (match ((mi.op 0)).getReg with
         | Reg.IX =>
            Except.ok
              (EmitState.init |> emitByte 0xdd |> emitByte 0xb6 |> emitByte (u8i ((mi.op 1).getImm)))
         | Reg.IY =>
            Except.ok
              (EmitState.init |> emitByte 0xfd |> emitByte 0xb6 |> emitByte (u8i ((mi.op 1).getImm)))
         | _ =>
            Except.error (instrErr name "Allowed registers are IX, IY.")
        )
       else Except.error (instrErr name "Second operand should be immediate."))
     else Except.error (instrErr name "First operand should be register."))
   else Except.error (numOpsErr name 2 mi.operands.length))

/-- Encoding of `OR8ap` (translated from the corresponding
`case Z80::OR8ap` block of `Z80MCCodeEmitter::encodeInstruction`). -/
def enc_OR8ap (name : String) (mi : Inst) : Except String EmitState :=
  (if mi.operands.length = 1 then
    (if (mi.op 0).isReg then
      (match ((mi.op 0)).getReg with
       | Reg.HL =>
          Except.ok
            (EmitState.init |> emitByte 0xb6)
       | _ =>
          Except.error (instrErr name "The only allowed register is HL.")
      )
     else Except.error (instrErr name "Operand should be register."))
   else Except.error (numOpsErr name 1 mi.operands.length))

/-- Encoding of `OR8ar` (translated from the corresponding
`case Z80::OR8ar` block of `Z80MCCodeEmitter::encodeInstruction`). -/
def enc_OR8ar (name : String) (mi : Inst) : Except String EmitState :=
  (if mi.operands.length = 1 then
    (if (mi.op 0).isReg then
      (match ((mi.op 0)).getReg with
       | Reg.A =>
          Except.ok
            (EmitState.init |> emitByte 0xb7)
       | Reg.B =>
          Except.ok
            (EmitState.init |> emitByte 0xb0)
       | Reg.C =>
          Except.ok
            (EmitState.init |> emitByte 0xb1)
       | Reg.D =>
          Except.ok
            (EmitState.init |> emitByte 0xb2)
       | Reg.E =>
          Except.ok
            (EmitState.init |> emitByte 0xb3)
       | Reg.H =>
          Except.ok
            (EmitState.init |> emitByte 0xb4)
       | Reg.L =>
          Except.ok
            (EmitState.init |> emitByte 0xb5)
       | Reg.IXH =>
          Except.ok
            (EmitState.init |> emitByte 0xe5 |> emitByte 0xdd |> emitByte 0xe5 |> emitByte 0xe1 |> emitByte 0xb4 |> emitByte 0xe1)
       | Reg.IXL =>
          Except.ok
            (EmitState.init |> emitByte 0xe5 |> emitByte 0xdd |> emitByte 0xe5 |> emitByte 0xe1 |> emitByte 0xb5 |> emitByte 0xe1)
       | Reg.IYH =>
          Except.ok
            (EmitState.init |> emitByte 0xe5 |> emitByte 0xfd |> emitByte 0xe5 |> emitByte 0xe1 |> emitByte 0xb4 |> emitByte 0xe1)
       | Reg.IYL =>
          Except.ok
            (EmitState.init |> emitByte 0xe5 |> emitByte 0xfd |> emitByte 0xe5 |> emitByte 0xe1 |> emitByte 0xb5 |> emitByte 0xe1)
       | _ =>
          Except.error (instrErr name "Allowed register are A, B, C, D, E, H, L.")
      )
     else Except.error (instrErr name "Operand should be register."))
   else Except.error (numOpsErr name 1 mi.operands.length))

/-- Encoding of `OUTD16` (translated from the corresponding
`case Z80::OUTD16` block of `Z80MCCodeEmitter::encodeInstruction`). -/
def enc_OUTD16 (name : String) (mi : Inst) : Except String EmitState :=
  (if mi.operands.length = 0 then
    Except.ok
      (EmitState.init |> emitByte 0xed |> emitByte 0xab)
   else Except.error (numOpsErr name 0 mi.operands.length))

/-- Encoding of `OUTDR16` (translated from the corresponding
`case Z80::OUTDR16` block of `Z80MCCodeEmitter::encodeInstruction`). -/
def enc_OUTDR16 (name : String) (mi : Inst) : Except String EmitState :=
  (if mi.operands.length = 0 then
    Except.ok
      (EmitState.init |> emitByte 0xed |> emitByte 0xbb)
   else Except.error (numOpsErr name 0 mi.operands.length))

/-- Encoding of `OUTI16` (translated from the corresponding
`case Z80::OUTI16` block of `Z80MCCodeEmitter::encodeInstruction`). -/
def enc_OUTI16 (name : String) (mi : Inst) : Except String EmitState :=
  (if mi.operands.length = 0 then
    Except.ok
      (EmitState.init |> emitByte 0xed |> emitByte 0xa3)
   else Except.error (numOpsErr name 0 mi.operands.length))

/-- Encoding of `OUTIR16` (translated from the corresponding
`case Z80::OUTIR16` block of `Z80MCCodeEmitter::encodeInstruction`). -/
def enc_OUTIR16 (name : String) (mi : Inst) : Except String EmitState :=
  (if mi.operands.length = 0 then
    Except.ok
      (EmitState.init |> emitByte 0xed |> emitByte 0xb3)
   else Except.error (numOpsErr name 0 mi.operands.length))

/-- Encoding of `POP16AF` (translated from the corresponding
`case Z80::POP16AF` block of `Z80MCCodeEmitter::encodeInstruction`). -/
def enc_POP16AF (name : String) (mi : Inst) : Except String EmitState :=
  (if mi.operands.length = 0 then
    Except.ok
      (EmitState.init |> emitByte 0xf1)
   else Except.error (numOpsErr name 0 mi.operands.length))

/-- Encoding of `POP16r` (translated from the corresponding
`case Z80::POP16r` block of `Z80MCCodeEmitter::encodeInstruction`). -/
def enc_POP16r (name : String) (mi : Inst) : Except String EmitState :=
  (if mi.operands.length = 1 then
    (if (mi.op 0).isReg then
      (match ((mi.op 0)).getReg with
       | Reg.BC =>
          Except.ok
            (EmitState.init |> emitByte 0xc1)
       | Reg.DE =>
          Except.ok
            (EmitState.init |> emitByte 0xd1)
       | Reg.HL =>
          Except.ok
            (EmitState.init |> emitByte 0xe1)
       | Reg.IX =>
          Except.ok
            (EmitState.init |> emitByte 0xdd |> emitByte 0xe1)
       | Reg.IY =>
          Except.ok
            (EmitState.init |> emitByte 0xfd |> emitByte 0xe1)
       | _ =>
          Except.error (instrErr name "Allowed registers are BC, DE, HL, IX, IY.")
      )
     else Except.error (instrErr name "Operand should be register."))
   else Except.error (numOpsErr name 1 mi.operands.length))

/-- Encoding of `PUSH16AF` (translated from the corresponding
`case Z80::PUSH16AF` block of `Z80MCCodeEmitter::encodeInstruction`). -/
def enc_PUSH16AF (name : String) (mi : Inst) : Except String EmitState :=
  (if mi.operands.length = 0 then
    Except.ok
      (EmitState.init |> emitByte 0xf5)
   else Except.error (numOpsErr name 0 mi.operands.length))

/-- Encoding of `PUSH16r` (translated from the corresponding
`case Z80::PUSH16r` block of `Z80MCCodeEmitter::encodeInstruction`). -/
def enc_PUSH16r (name : String) (mi : Inst) : Except String EmitState :=
  (if mi.operands.length = 1 then
    (if (mi.op 0).isReg then
      (match ((mi.op 0)).getReg with
       | Reg.BC =>
          Except.ok
            (EmitState.init |> emitByte 0xc5)
       | Reg.DE =>
          Except.ok
            (EmitState.init |> emitByte 0xd5)
       | Reg.HL =>
          Except.ok
            (EmitState.init |> emitByte 0xe5)
       | Reg.IX =>
          Except.ok
            (EmitState.init |> emitByte 0xdd |> emitByte 0xe5)
       | Reg.IY =>
          Except.ok
            (EmitState.init |> emitByte 0xfd |> emitByte 0xe5)
       | _ =>
          Except.error (instrErr name "Allowed registers are BC, DE, HL, IX, IY.")
      )
     else Except.error (instrErr name "Operand should be register."))
   else Except.error (numOpsErr name 1 mi.operands.length))

/-- Encoding of `RES8bg` (translated from the corresponding
`case Z80::RES8bg` block of `Z80MCCodeEmitter::encodeInstruction`). -/
def enc_RES8bg (name : String) (mi : Inst) : Except String EmitState :=
  (if mi.operands.length = 2 then
    (if (mi.op 0).isImm then
      (if 8 ≤ u8i ((mi.op 0).getImm) then Except.error (instrErr name "First operand should be in range 0..7.")
       else
        (if (mi.op 1).isReg then
          (match ((mi.op 1)).getReg with
           | Reg.A =>
              Except.ok
                (EmitState.init |> emitByte 0xcb |> emitByte (((u8i ((mi.op 0).getImm)) <<< 3) ||| 0x87))
           | Reg.B =>
              Except.ok
                (EmitState.init |> emitByte 0xcb |> emitByte (((u8i ((mi.op 0).getImm)) <<< 3) ||| 0x80))
           | Reg.C =>
              Except.ok
                (EmitState.init |> emitByte 0xcb |> emitByte (((u8i ((mi.op 0).getImm)) <<< 3) ||| 0x81))
           | Reg.D =>
              Except.ok
                (EmitState.init |> emitByte 0xcb |> emitByte (((u8i ((mi.op 0).getImm)) <<< 3) ||| 0x82))
           | Reg.E =>
              Except.ok
                (EmitState.init |> emitByte 0xcb |> emitByte (((u8i ((mi.op 0).getImm)) <<< 3) ||| 0x83))
           | Reg.H =>
              Except.ok
                (EmitState.init |> emitByte 0xcb |> emitByte (((u8i ((mi.op 0).getImm)) <<< 3) ||| 0x84))
           | Reg.L =>
              Except.ok
                (EmitState.init |> emitByte 0xcb |> emitByte (((u8i ((mi.op 0).getImm)) <<< 3) ||| 0x85))
           | Reg.IXH =>
              Except.ok
                (EmitState.init |> emitByte 0xe5 |> emitByte 0xdd |> emitByte 0xe5 |> emitByte 0xe1 |> emitByte 0xcb |> emitByte (((u8i ((mi.op 0).getImm)) <<< 3) ||| 0x84) |> emitByte 0xe1)
           | Reg.IXL =>
              Except.ok
                (EmitState.init |> emitByte 0xe5 |> emitByte 0xdd |> emitByte 0xe5 |> emitByte 0xe1 |> emitByte 0xcb |> emitByte (((u8i ((mi.op 0).getImm)) <<< 3) ||| 0x85) |> emitByte 0xe1)
           | Reg.IYH =>
              Except.ok
                (EmitState.init |> emitByte 0xe5 |> emitByte 0xfd |> emitByte 0xe5 |> emitByte 0xe1 |> emitByte 0xcb |> emitByte (((u8i ((mi.op 0).getImm)) <<< 3) ||| 0x84) |> emitByte 0xe1)
           | Reg.IYL =>
              Except.ok
                (EmitState.init |> emitByte 0xe5 |> emitByte 0xfd |> emitByte 0xe5 |> emitByte 0xe1 |> emitByte 0xcb |> emitByte (((u8i ((mi.op 0).getImm)) <<< 3) ||| 0x85) |> emitByte 0xe1)
           | _ =>
              Except.error (instrErr name "Allowed register are A, B, C, D, E, H, L.")
          )
         else Except.error (instrErr name "Second operand should be register.")))
     else Except.error (instrErr name "First operand should be immediate."))
   else Except.error (numOpsErr name 2 mi.operands.length))

/-- Encoding of `RES8bo` (translated from the corresponding
`case Z80::RES8bo` block of `Z80MCCodeEmitter::encodeInstruction`). -/
def enc_RES8bo (name : String) (mi : Inst) : Except String EmitState :=
  (if mi.operands.length = 3 then
    (if (mi.op 0).isImm then
      (if 8 ≤ u8i ((mi.op 0).getImm) then Except.error (instrErr name "First operand should be in range 0..7.")
       else
        (if (mi.op 1).isReg then
          (if (mi.op 2).isImm then
            (match ((mi.op 1)).getReg with
             | Reg.IX =>
                Except.ok
                  (EmitState.init |> emitByte 0xdd |> emitByte 0xcb |> emitByte (u8i ((mi.op 2).getImm)) |> emitByte (((u8i ((mi.op 0).getImm)) <<< 3) ||| 0x86))
             | Reg.IY =>
                Except.ok
                  (EmitState.init |> emitByte 0xfd |> emitByte 0xcb |> emitByte (u8i ((mi.op 2).getImm)) |> emitByte (((u8i ((mi.op 0).getImm)) <<< 3) ||| 0x86))
             | _ =>
                Except.error (instrErr name "Allowed registers are IX, IY.")
            )
           else Except.error (instrErr name "Third operand should be immediate."))
         else Except.error (instrErr name "Second operand should be register.")))
     else Except.error (instrErr name "First operand should be immediate."))
   else Except.error (numOpsErr name 3 mi.operands.length))

/-- Encoding of `RES8bp` (translated from the corresponding
`case Z80::RES8bp` block of `Z80MCCodeEmitter::encodeInstruction`). -/
def enc_RES8bp (name : String) (mi : Inst) : Except String EmitState :=
  (if mi.operands.length = 2 then
    (if (mi.op 0).isImm then
      (if 8 ≤ u8i ((mi.op 0).getImm) then Except.error (instrErr name "First operand should be in range 0..7.")
       else
        (if (mi.op 1).isReg then
          (match ((mi.op 1)).getReg with
           | Reg.HL =>
              Except.ok
                (EmitState.init |> emitByte 0xcb |> emitByte (((u8i ((mi.op 0).getImm)) <<< 3) ||| 0x86))
           | _ =>
              Except.error (instrErr name "The only allowed register is HL.")
          )
         else Except.error (instrErr name "Second operand should be register.")))
     else Except.error (instrErr name "First operand should be immediate."))
   else Except.error (numOpsErr name 2 mi.operands.length))

/-- Encoding of `RET16` (translated from the corresponding
`case Z80::RET16` block of `Z80MCCodeEmitter::encodeInstruction`). -/
def enc_RET16 (name : String) (mi : Inst) : Except String EmitState :=
  (if mi.operands.length = 0 then
    Except.ok
      (EmitState.init |> emitByte 0xc9)
   else Except.error (numOpsErr name 0 mi.operands.length))

/-- Encoding of `RET16CC` (translated from the corresponding
`case Z80::RET16CC` block of `Z80MCCodeEmitter::encodeInstruction`). -/
def enc_RET16CC (name : String) (mi : Inst) : Except String EmitState :=
  (if mi.operands.length = 1 then
    (if (mi.op 0).isImm then
      (if 8 ≤ u8i ((mi.op 0).getImm) then Except.error (instrErr name "Operand should be in range 0..7.")
       else
        Except.ok
          (EmitState.init |> emitByte (((u8i ((mi.op 0).getImm)) <<< 3) ||| 0xc0)))
     else Except.error (instrErr name "Operand should be immediate."))
   else Except.error (numOpsErr name 1 mi.operands.length))

/-- Encoding of `RETI16` (translated from the corresponding
`case Z80::RETI16` block of `Z80MCCodeEmitter::encodeInstruction`). -/
def enc_RETI16 (name : String) (mi : Inst) : Except String EmitState :=
  (if mi.operands.length = 0 then
    Except.ok
      (EmitState.init |> emitByte 0xed |> emitByte 0x4d)
   else Except.error (numOpsErr name 0 mi.operands.length))

/-- Encoding of `RETN16` (translated from the corresponding
`case Z80::RETN16` block of `Z80MCCodeEmitter::encodeInstruction`). -/
def enc_RETN16 (name : String) (mi : Inst) : Except String EmitState :=
  (if mi.operands.length = 0 then
    Except.ok
      (EmitState.init |> emitByte 0xed |> emitByte 0x45)
   else Except.error (numOpsErr name 0 mi.operands.length))

/-- Encoding of `RL8o` (translated from the corresponding
`case Z80::RL8o` block of `Z80MCCodeEmitter::encodeInstruction`). -/
def enc_RL8o (name : String) (mi : Inst) : Except String EmitState :=
  (if mi.operands.length = 2 then
    (if (mi.op 0).isReg then
      (if (mi.op 1).isImm then
        (match ((mi.op 0)).getReg with
         | Reg.IX =>
            Except.ok
              (EmitState.init |> emitByte 0xdd |> emitByte 0xcb |> emitByte (u8i ((mi.op 1).getImm)) |> emitByte 0x16)
         | Reg.IY =>
            Except.ok
              (EmitState.init |> emitByte 0xfd |> emitByte 0xcb |> emitByte (u8i ((mi.op 1).getImm)) |> emitByte 0x16)
         | _ =>
            Except.error (instrErr name "Allowed registers are IX, IY.")
        )
       else Except.error (instrErr name "Second operand should be immediate."))
     else Except.error (instrErr name "First operand should be register."))
   else Except.error (numOpsErr name 2 mi.operands.length))

/-- Encoding of `RL8p` (translated from the corresponding
`case Z80::RL8p` block of `Z80MCCodeEmitter::encodeInstruction`). -/
def enc_RL8p (name : String) (mi : Inst) : Except String EmitState :=
  (if mi.operands.length = 1 then
    (if (mi.op 0).isReg then
      (match ((mi.op 0)).getReg with
       | Reg.HL =>
          Except.ok
            (EmitState.init |> emitByte 0xcb |> emitByte 0x16)
       | _ =>
          Except.error (instrErr name "The only allowed register is HL.")
      )
     else Except.error (instrErr name "Operand should be register."))
   else Except.error (numOpsErr name 1 mi.operands.length))

/-- Encoding of `RL8r` (translated from the corresponding
`case Z80::RL8r` block of `Z80MCCodeEmitter::encodeInstruction`). -/
def enc_RL8r (name : String) (mi : Inst) : Except String EmitState :=
  (if mi.operands.length = 0 then Except.error (instrErr name "Operand missing.")
   else
    (if (mi.op 0).isReg then
      (match ((mi.op 0)).getReg with
       | Reg.A =>
          Except.ok
            (EmitState.init |> emitByte 0xcb |> emitByte 0x17)
       | Reg.B =>
          Except.ok
            (EmitState.init |> emitByte 0xcb |> emitByte 0x10)
       | Reg.C =>
          Except.ok
            (EmitState.init |> emitByte 0xcb |> emitByte 0x11)
       | Reg.D =>
          Except.ok
            (EmitState.init |> emitByte 0xcb |> emitByte 0x12)
       | Reg.E =>
          Except.ok
            (EmitState.init |> emitByte 0xcb |> emitByte 0x13)
       | Reg.H =>
          Except.ok
            (EmitState.init |> emitByte 0xcb |> emitByte 0x14)
       | Reg.L =>
          Except.ok
            (EmitState.init |> emitByte 0xcb |> emitByte 0x15)
       | Reg.IXH =>
          Except.ok
            (EmitState.init |> emitByte 0xe5 |> emitByte 0xdd |> emitByte 0xe5 |> emitByte 0xe1 |> emitByte 0xcb |> emitByte 0x14 |> emitByte 0xe5 |> emitByte 0xdd |> emitByte 0xe1 |> emitByte 0xe1)
       | Reg.IXL =>
          Except.ok
            (EmitState.init |> emitByte 0xe5 |> emitByte 0xdd |> emitByte 0xe5 |> emitByte 0xe1 |> emitByte 0xcb |> emitByte 0x15 |> emitByte 0xe5 |> emitByte 0xdd |> emitByte 0xe1 |> emitByte 0xe1)
       | Reg.IYH =>
          Except.ok
            (EmitState.init |> emitByte 0xe5 |> emitByte 0xfd |> emitByte 0xe5 |> emitByte 0xe1 |> emitByte 0xcb |> emitByte 0x14 |> emitByte 0xe5 |> emitByte 0xfd |> emitByte 0xe1 |> emitByte 0xe1)
       | Reg.IYL =>
          Except.ok
            (EmitState.init |> emitByte 0xe5 |> emitByte 0xfd |> emitByte 0xe5 |> emitByte 0xe1 |> emitByte 0xcb |> emitByte 0x15 |> emitByte 0xe5 |> emitByte 0xfd |> emitByte 0xe1 |> emitByte 0xe1)
       | _ =>
          Except.error (instrErr name "Allowed register are A, B, C, D, E, H, L.")
      )
     else Except.error (instrErr name "An operand should be an register.")))

/-- Encoding of `RLC8o` (translated from the corresponding
`case Z80::RLC8o` block of `Z80MCCodeEmitter::encodeInstruction`). -/
def enc_RLC8o (name : String) (mi : Inst) : Except String EmitState :=
  (if mi.operands.length = 2 then
    (if (mi.op 0).isReg then
      (if (mi.op 1).isImm then
        (match ((mi.op 0)).getReg with
         | Reg.IX =>
            Except.ok
              (EmitState.init |> emitByte 0xdd |> emitByte 0xcb |> emitByte (u8i ((mi.op 1).getImm)) |> emitByte 0x06)
         | Reg.IY =>
            Except.ok
              (EmitState.init |> emitByte 0xfd |> emitByte 0xcb |> emitByte (u8i ((mi.op 1).getImm)) |> emitByte 0x06)
         | _ =>
            Except.error (instrErr name "Allowed registers are IX, IY.")
        )
       else Except.error (instrErr name "Second operand should be immediate."))
     else Except.error (instrErr name "First operand should be register."))
   else Except.error (numOpsErr name 2 mi.operands.length))

/-- Encoding of `RLC8p` (translated from the corresponding
`case Z80::RLC8p` block of `Z80MCCodeEmitter::encodeInstruction`). -/
def enc_RLC8p (name : String) (mi : Inst) : Except String EmitState :=
  (if mi.operands.length = 1 then
    (if (mi.op 0).isReg then
      (match ((mi.op 0)).getReg with
       | Reg.HL =>
          Except.ok
            (EmitState.init |> emitByte 0xcb |> emitByte 0x06)
       | _ =>
          Except.error (instrErr name "The only allowed register is HL.")
      )
     else Except.error (instrErr name "Operand should be register."))
   else Except.error (numOpsErr name 1 mi.operands.length))

/-- Encoding of `RLC8r` (translated from the corresponding
`case Z80::RLC8r` block of `Z80MCCodeEmitter::encodeInstruction`). -/
def enc_RLC8r (name : String) (mi : Inst) : Except String EmitState :=
  (if mi.operands.length = 0 then Except.error (instrErr name "Operand missing.")
   else
    (if (mi.op 0).isReg then
      (match ((mi.op 0)).getReg with
       | Reg.A =>
          Except.ok
            (EmitState.init |> emitByte 0xcb |> emitByte 0x07)
       | Reg.B =>
          Except.ok
            (EmitState.init |> emitByte 0xcb |> emitByte 0x00)
       | Reg.C =>
          Except.ok
            (EmitState.init |> emitByte 0xcb |> emitByte 0x01)
       | Reg.D =>
          Except.ok
            (EmitState.init |> emitByte 0xcb |> emitByte 0x02)
       | Reg.E =>
          Except.ok
            (EmitState.init |> emitByte 0xcb |> emitByte 0x03)
       | Reg.H =>
          Except.ok
            (EmitState.init |> emitByte 0xcb |> emitByte 0x04)
       | Reg.L =>
          Except.ok
            (EmitState.init |> emitByte 0xcb |> emitByte 0x05)
       | Reg.IXH =>
          Except.ok
            (EmitState.init |> emitByte 0xe5 |> emitByte 0xdd |> emitByte 0xe5 |> emitByte 0xe1 |> emitByte 0xcb |> emitByte 0x04 |> emitByte 0xe5 |> emitByte 0xdd |> emitByte 0xe1 |> emitByte 0xe1)
       | Reg.IXL =>
          Except.ok
            (EmitState.init |> emitByte 0xe5 |> emitByte 0xdd |> emitByte 0xe5 |> emitByte 0xe1 |> emitByte 0xcb |> emitByte 0x05 |> emitByte 0xe5 |> emitByte 0xdd |> emitByte 0xe1 |> emitByte 0xe1)
       | Reg.IYH =>
          Except.ok
            (EmitState.init |> emitByte 0xe5 |> emitByte 0xfd |> emitByte 0xe5 |> emitByte 0xe1 |> emitByte 0xcb |> emitByte 0x04 |> emitByte 0xe5 |> emitByte 0xfd |> emitByte 0xe1 |> emitByte 0xe1)
       | Reg.IYL =>
          Except.ok
            (EmitState.init |> emitByte 0xe5 |> emitByte 0xfd |> emitByte 0xe5 |> emitByte 0xe1 |> emitByte 0xcb |> emitByte 0x05 |> emitByte 0xe5 |> emitByte 0xfd |> emitByte 0xe1 |> emitByte 0xe1)
       | _ =>
          Except.error (instrErr name "Allowed register are A, B, C, D, E, H, L.")
      )
     else Except.error (instrErr name "An operand should be an register.")))

/-- Encoding of `RR8o` (translated from the corresponding
`case Z80::RR8o` block of `Z80MCCodeEmitter::encodeInstruction`). -/
def enc_RR8o (name : String) (mi : Inst) : Except String EmitState :=
  (if mi.operands.length = 2 then
    (if (mi.op 0).isReg then
      (if (mi.op 1).isImm then
        (match ((mi.op 0)).getReg with
         | Reg.IX =>
            Except.ok
              (EmitState.init |> emitByte 0xdd |> emitByte 0xcb |> emitByte (u8i ((mi.op 1).getImm)) |> emitByte 0x1e)
         | Reg.IY =>
            Except.ok
              (EmitState.init |> emitByte 0xfd |> emitByte 0xcb |> emitByte (u8i ((mi.op 1).getImm)) |> emitByte 0x1e)
         | _ =>
            Except.error (instrErr name "Allowed registers are IX, IY.")
        )
       else Except.error (instrErr name "Second operand should be immediate."))
     else Except.error (instrErr name "First operand should be register."))
   else Except.error (numOpsErr name 2 mi.operands.length))

/-- Encoding of `RR8p` (translated from the corresponding
`case Z80::RR8p` block of `Z80MCCodeEmitter::encodeInstruction`). -/
def enc_RR8p (name : String) (mi : Inst) : Except String EmitState :=
  (if mi.operands.length = 1 then
    (if (mi.op 0).isReg then
      (match ((mi.op 0)).getReg with
       | Reg.HL =>
          Except.ok
            (EmitState.init |> emitByte 0xcb |> emitByte 0x1e)
       | _ =>
          Except.error (instrErr name "The only allowed register is HL.")
      )
     else Except.error (instrErr name "Operand should be register."))
   else Except.error (numOpsErr name 1 mi.operands.length))

/-- Encoding of `RR8r` (translated from the corresponding
`case Z80::RR8r` block of `Z80MCCodeEmitter::encodeInstruction`). -/
def enc_RR8r (name : String) (mi : Inst) : Except String EmitState :=
  (if mi.operands.length = 0 then Except.error (instrErr name "Operand missing.")
   else
    (if (mi.op 0).isReg then
      (match ((mi.op 0)).getReg with
       | Reg.A =>
          Except.ok
            (EmitState.init |> emitByte 0xcb |> emitByte 0x1f)
       | Reg.B =>
          Except.ok
            (EmitState.init |> emitByte 0xcb |> emitByte 0x18)
       | Reg.C =>
          Except.ok
            (EmitState.init |> emitByte 0xcb |> emitByte 0x19)
       | Reg.D =>
          Except.ok
            (EmitState.init |> emitByte 0xcb |> emitByte 0x1a)
       | Reg.E =>
          Except.ok
            (EmitState.init |> emitByte 0xcb |> emitByte 0x1b)
       | Reg.H =>
          Except.ok
            (EmitState.init |> emitByte 0xcb |> emitByte 0x1c)
       | Reg.L =>
          Except.ok
            (EmitState.init |> emitByte 0xcb |> emitByte 0x1d)
       | Reg.IXH =>
          Except.ok
            (EmitState.init |> emitByte 0xe5 |> emitByte 0xdd |> emitByte 0xe5 |> emitByte 0xe1 |> emitByte 0xcb |> emitByte 0x1c |> emitByte 0xe5 |> emitByte 0xdd |> emitByte 0xe1 |> emitByte 0xe1)
       | Reg.IXL =>
          Except.ok
            (EmitState.init |> emitByte 0xe5 |> emitByte 0xdd |> emitByte 0xe5 |> emitByte 0xe1 |> emitByte 0xcb |> emitByte 0x1d |> emitByte 0xe5 |> emitByte 0xdd |> emitByte 0xe1 |> emitByte 0xe1)
       | Reg.IYH =>
          Except.ok
            (EmitState.init |> emitByte 0xe5 |> emitByte 0xfd |> emitByte 0xe5 |> emitByte 0xe1 |> emitByte 0xcb |> emitByte 0x1c |> emitByte 0xe5 |> emitByte 0xfd |> emitByte 0xe1 |> emitByte 0xe1)
       | Reg.IYL =>
          Except.ok
            (EmitState.init |> emitByte 0xe5 |> emitByte 0xfd |> emitByte 0xe5 |> emitByte 0xe1 |> emitByte 0xcb |> emitByte 0x1d |> emitByte 0xe5 |> emitByte 0xfd |> emitByte 0xe1 |> emitByte 0xe1)
       | _ =>
          Except.error (instrErr name "Allowed register are A, B, C, D, E, H, L.")
      )
     else Except.error (instrErr name "An operand should be an register.")))

/-- Encoding of `RRC8o` (translated from the corresponding
`case Z80::RRC8o` block of `Z80MCCodeEmitter::encodeInstruction`). -/
def enc_RRC8o (name : String) (mi : Inst) : Except String EmitState :=
  (if mi.operands.length = 2 then
    (if (mi.op 0).isReg then
      (if (mi.op 1).isImm then
        (match ((mi.op 0)).getReg with
         | Reg.IX =>
            Except.ok
              (EmitState.init |> emitByte 0xdd |> emitByte 0xcb |> emitByte (u8i ((mi.op 1).getImm)) |> emitByte 0x0e)
         | Reg.IY =>
            Except.ok
              (EmitState.init |> emitByte 0xfd |> emitByte 0xcb |> emitByte (u8i ((mi.op 1).getImm)) |> emitByte 0x0e)
         | _ =>
            Except.error (instrErr name "Allowed registers are IX, IY.")
        )
       else Except.error (instrErr name "Second operand should be immediate."))
     else Except.error (instrErr name "First operand should be register."))
   else Except.error (numOpsErr name 2 mi.operands.length))

/-- Encoding of `RRC8p` (translated from the corresponding
`case Z80::RRC8p` block of `Z80MCCodeEmitter::encodeInstruction`). -/
def enc_RRC8p (name : String) (mi : Inst) : Except String EmitState :=
  (if mi.operands.length = 1 then
    (if (mi.op 0).isReg then
      (match ((mi.op 0)).getReg with
       | Reg.HL =>
          Except.ok
            (EmitState.init |> emitByte 0xcb |> emitByte 0x0e)
       | _ =>
          Except.error (instrErr name "The only allowed register is HL.")
      )
     else Except.error (instrErr name "Operand should be register."))
   else Except.error (numOpsErr name 1 mi.operands.length))

/-- Encoding of `RRC8r` (translated from the corresponding
`case Z80::RRC8r` block of `Z80MCCodeEmitter::encodeInstruction`). -/
def enc_RRC8r (name : String) (mi : Inst) : Except String EmitState :=
  (if mi.operands.length = 0 then Except.error (instrErr name "Operand missing.")
   else
    (if (mi.op 0).isReg then
      (match ((mi.op 0)).getReg with
       | Reg.A =>
          Except.ok
            (EmitState.init |> emitByte 0xcb |> emitByte 0x0f)
       | Reg.B =>
          Except.ok
            (EmitState.init |> emitByte 0xcb |> emitByte 0x08)
       | Reg.C =>
          Except.ok
            (EmitState.init |> emitByte 0xcb |> emitByte 0x09)
       | Reg.D =>
          Except.ok
            (EmitState.init |> emitByte 0xcb |> emitByte 0x0a)
       | Reg.E =>
          Except.ok
            (EmitState.init |> emitByte 0xcb |> emitByte 0x0b)
       | Reg.H =>
          Except.ok
            (EmitState.init |> emitByte 0xcb |> emitByte 0x0c)
       | Reg.L =>
          Except.ok
            (EmitState.init |> emitByte 0xcb |> emitByte 0x0d)
       | Reg.IXH =>
          Except.ok
            (EmitState.init |> emitByte 0xe5 |> emitByte 0xdd |> emitByte 0xe5 |> emitByte 0xe1 |> emitByte 0xcb |> emitByte 0x0c |> emitByte 0xe5 |> emitByte 0xdd |> emitByte 0xe1 |> emitByte 0xe1)
       | Reg.IXL =>
          Except.ok
            (EmitState.init |> emitByte 0xe5 |> emitByte 0xdd |> emitByte 0xe5 |> emitByte 0xe1 |> emitByte 0xcb |> emitByte 0x0d |> emitByte 0xe5 |> emitByte 0xdd |> emitByte 0xe1 |> emitByte 0xe1)
       | Reg.IYH =>
          Except.ok
            (EmitState.init |> emitByte 0xe5 |> emitByte 0xfd |> emitByte 0xe5 |> emitByte 0xe1 |> emitByte 0xcb |> emitByte 0x0c |> emitByte 0xe5 |> emitByte 0xfd |> emitByte 0xe1 |> emitByte 0xe1)
       | Reg.IYL =>
          Except.ok
            (EmitState.init |> emitByte 0xe5 |> emitByte 0xfd |> emitByte 0xe5 |> emitByte 0xe1 |> emitByte 0xcb |> emitByte 0x0d |> emitByte 0xe5 |> emitByte 0xfd |> emitByte 0xe1 |> emitByte 0xe1)
       | _ =>
          Except.error (instrErr name "Allowed register are A, B, C, D, E, H, L.")
      )
     else Except.error (instrErr name "An operand should be an register.")))

/-- Encoding of `SBC16SP` (translated from the corresponding
`case Z80::SBC16SP` block of `Z80MCCodeEmitter::encodeInstruction`). -/
def enc_SBC16SP (name : String) (mi : Inst) : Except String EmitState :=
  (if mi.operands.length = 0 then
    Except.ok
      (EmitState.init |> emitByte 0xed |> emitByte 0x72)
   else Except.error (numOpsErr name 0 mi.operands.length))

/-- Encoding of `SBC16aa` (translated from the corresponding
`case Z80::SBC16aa` block of `Z80MCCodeEmitter::encodeInstruction`). -/
def enc_SBC16aa (name : String) (mi : Inst) : Except String EmitState :=
  (if mi.operands.length = 0 then
    Except.ok
      (EmitState.init |> emitByte 0xed |> emitByte 0x62)
   else Except.error (numOpsErr name 0 mi.operands.length))

/-- Encoding of `SBC16ao` (translated from the corresponding
`case Z80::SBC16ao` block of `Z80MCCodeEmitter::encodeInstruction`). -/
def enc_SBC16ao (name : String) (mi : Inst) : Except String EmitState :=
  (if mi.operands.length = 1 then
    (if (mi.op 0).isReg then
      (match ((mi.op 0)).getReg with
       | Reg.BC =>
          Except.ok
            (EmitState.init |> emitByte 0xed |> emitByte 0x42)
       | Reg.DE =>
          Except.ok
            (EmitState.init |> emitByte 0xed |> emitByte 0x52)
       | _ =>
          Except.error (instrErr name "Allowed registers are BC, DE.")
      )
     else Except.error (instrErr name "Operand should be register."))
   else Except.error (numOpsErr name 1 mi.operands.length))

/-- Encoding of `SBC8ai` (translated from the corresponding
`case Z80::SBC8ai` block of `Z80MCCodeEmitter::encodeInstruction`). -/
def enc_SBC8ai (name : String) (mi : Inst) : Except String EmitState :=
  (if mi.operands.length = 1 then
    (if (mi.op 0).isImm then
      Except.ok
        (EmitState.init |> emitByte 0xde |> emitByte (u8i ((mi.op 0).getImm)))
     else Except.error (instrErr name "Operand should be immediate."))
   else Except.error (numOpsErr name 1 mi.operands.length))

/-- Encoding of `SBC8ao` (translated from the corresponding
`case Z80::SBC8ao` block of `Z80MCCodeEmitter::encodeInstruction`). -/
def enc_SBC8ao (name : String) (mi : Inst) : Except String EmitState :=
  (if mi.operands.length = 2 then
    (if (mi.op 0).isReg then
      (if (mi.op 1).isImm then
        (match ((mi.op 0)).getReg with
         | Reg.IX =>
            Except.ok
              (EmitState.init |> emitByte 0xdd |> emitByte 0x9e |> emitByte (u8i ((mi.op 1).getImm)))
         | Reg.IY =>
            Except.ok
              (EmitState.init |> emitByte 0xfd |> emitByte 0x9e |> emitByte (u8i ((mi.op 1).getImm)))
         | _ =>
            Except.error (instrErr name "Allowed registers are IX, IY.")
        )
       else Except.error (instrErr name "Second operand should be immediate."))
     else Except.error (instrErr name "First operand should be register."))
   else Except.error (numOpsErr name 2 mi.operands.length))

/-- Encoding of `SBC8ap` (translated from the corresponding
`case Z80::SBC8ap` block of `Z80MCCodeEmitter::encodeInstruction`). -/
def enc_SBC8ap (name : String) (mi : Inst) : Except String EmitState :=
  (if mi.operands.length = 1 then
    (if (mi.op 0).isReg then
      (match ((mi.op 0)).getReg with
       | Reg.HL =>
          Except.ok
            (EmitState.init |> emitByte 0x9e)
       | _ =>
          Except.error (instrErr name "The only allowed register is HL.")
      )
     else Except.error (instrErr name "Operand should be register."))
   else Except.error (numOpsErr name 1 mi.operands.length))

/-- Encoding of `SBC8ar` (translated from the corresponding
`case Z80::SBC8ar` block of `Z80MCCodeEmitter::encodeInstruction`). -/
def enc_SBC8ar (name : String) (mi : Inst) : Except String EmitState :=
  (if mi.operands.length = 1 then
    (if (mi.op 0).isReg then
      (match ((mi.op 0)).getReg with
       | Reg.A =>
          Except.ok
            (EmitState.init |> emitByte 0x9f)
       | Reg.B =>
          Except.ok
            (EmitState.init |> emitByte 0x98)
       | Reg.C =>
          Except.ok
            (EmitState.init |> emitByte 0x99)
       | Reg.D =>
          Except.ok
            (EmitState.init |> emitByte 0x9a)
       | Reg.E =>
          Except.ok
            (EmitState.init |> emitByte 0x9b)
       | Reg.H =>
          Except.ok
            (EmitState.init |> emitByte 0x9c)
       | Reg.L =>
          Except.ok
            (EmitState.init |> emitByte 0x9d)
       | Reg.IXH =>
          Except.ok
            (EmitState.init |> emitByte 0xe5 |> emitByte 0xdd |> emitByte 0xe5 |> emitByte 0xe1 |> emitByte 0x9c |> emitByte 0xe1)
       | Reg.IXL =>
          Except.ok
            (EmitState.init |> emitByte 0xe5 |> emitByte 0xdd |> emitByte 0xe5 |> emitByte 0xe1 |> emitByte 0x9d |> emitByte 0xe1)
       | Reg.IYH =>
          Except.ok
            (EmitState.init |> emitByte 0xe5 |> emitByte 0xfd |> emitByte 0xe5 |> emitByte 0xe1 |> emitByte 0x9c |> emitByte 0xe1)
       | Reg.IYL =>
          Except.ok
            (EmitState.init |> emitByte 0xe5 |> emitByte 0xfd |> emitByte 0xe5 |> emitByte 0xe1 |> emitByte 0x9d |> emitByte 0xe1)
       | _ =>
          Except.error (instrErr name "Allowed register are A, B, C, D, E, H, L.")
      )
     else Except.error (instrErr name "Operand should be register."))
   else Except.error (numOpsErr name 1 mi.operands.length))

/-- Encoding of `SCF` (translated from the corresponding
`case Z80::SCF` block of `Z80MCCodeEmitter::encodeInstruction`). -/
def enc_SCF (name : String) (mi : Inst) : Except String EmitState :=
  (if mi.operands.length = 0 then
    Except.ok
      (EmitState.init |> emitByte 0x37)
   else Except.error (numOpsErr name 0 mi.operands.length))

/-- Encoding of `SET8bg` (translated from the corresponding
`case Z80::SET8bg` block of `Z80MCCodeEmitter::encodeInstruction`). -/
def enc_SET8bg (name : String) (mi : Inst) : Except String EmitState :=
  (if mi.operands.length = 2 then
    (if (mi.op 0).isImm then
      (if 8 ≤ u8i ((mi.op 0).getImm) then Except.error (instrErr name "First operand should be in range 0..7.")
       else
        (if (mi.op 1).isReg then
          (match ((mi.op 1)).getReg with
           | Reg.A =>
              Except.ok
                (EmitState.init |> emitByte 0xcb |> emitByte (((u8i ((mi.op 0).getImm)) <<< 3) ||| 0xc7))
           | Reg.B =>
              Except.ok
                (EmitState.init |> emitByte 0xcb |> emitByte (((u8i ((mi.op 0).getImm)) <<< 3) ||| 0xc0))
           | Reg.C =>
              Except.ok
                (EmitState.init |> emitByte 0xcb |> emitByte (((u8i ((mi.op 0).getImm)) <<< 3) ||| 0xc1))
           | Reg.D =>
              Except.ok
                (EmitState.init |> emitByte 0xcb |> emitByte (((u8i ((mi.op 0).getImm)) <<< 3) ||| 0xc2))
           | Reg.E =>
              Except.ok
                (EmitState.init |> emitByte 0xcb |> emitByte (((u8i ((mi.op 0).getImm)) <<< 3) ||| 0xc3))
           | Reg.H =>
              Except.ok
                (EmitState.init |> emitByte 0xcb |> emitByte (((u8i ((mi.op 0).getImm)) <<< 3) ||| 0xc4))
           | Reg.L =>
              Except.ok
                (EmitState.init |> emitByte 0xcb |> emitByte (((u8i ((mi.op 0).getImm)) <<< 3) ||| 0xc5))
           | Reg.IXH =>
              Except.ok
                (EmitState.init |> emitByte 0xe5 |> emitByte 0xdd |> emitByte 0xe5 |> emitByte 0xe1 |> emitByte 0xcb |> emitByte (((u8i ((mi.op 0).getImm)) <<< 3) ||| 0xc4) |> emitByte 0xe1)
           | Reg.IXL =>
              Except.ok
                (EmitState.init |> emitByte 0xe5 |> emitByte 0xdd |> emitByte 0xe5 |> emitByte 0xe1 |> emitByte 0xcb |> emitByte (((u8i ((mi.op 0).getImm)) <<< 3) ||| 0xc5) |> emitByte 0xe1)
           | Reg.IYH =>
              Except.ok
                (EmitState.init |> emitByte 0xe5 |> emitByte 0xfd |> emitByte 0xe5 |> emitByte 0xe1 |> emitByte 0xcb |> emitByte (((u8i ((mi.op 0).getImm)) <<< 3) ||| 0xc4) |> emitByte 0xe1)
           | Reg.IYL =>
              Except.ok
                (EmitState.init |> emitByte 0xe5 |> emitByte 0xfd |> emitByte 0xe5 |> emitByte 0xe1 |> emitByte 0xcb |> emitByte (((u8i ((mi.op 0).getImm)) <<< 3) ||| 0xc5) |> emitByte 0xe1)
           | _ =>
              Except.error (instrErr name "Allowed register are A, B, C, D, E, H, L.")
          )
         else Except.error (instrErr name "Second operand should be register.")))
     else Except.error (instrErr name "First operand should be immediate."))
   else Except.error (numOpsErr name 2 mi.operands.length))

/-- Encoding of `SET8bo` (translated from the corresponding
`case Z80::SET8bo` block of `Z80MCCodeEmitter::encodeInstruction`). -/
def enc_SET8bo (name : String) (mi : Inst) : Except String EmitState :=
  (if mi.operands.length = 3 then
    (if (mi.op 0).isImm then
      (if 8 ≤ u8i ((mi.op 0).getImm) then Except.error (instrErr name "First operand should be in range 0..7.")
       else
        (if (mi.op 1).isReg then
          (if (mi.op 2).isImm then
            (match ((mi.op 1)).getReg with
             | Reg.IX =>
                Except.ok
                  (EmitState.init |> emitByte 0xdd |> emitByte 0xcb |> emitByte (u8i ((mi.op 2).getImm)) |> emitByte (((u8i ((mi.op 0).getImm)) <<< 3) ||| 0xc6))
             | Reg.IY =>
                Except.ok
                  (EmitState.init |> emitByte 0xfd |> emitByte 0xcb |> emitByte (u8i ((mi.op 2).getImm)) |> emitByte (((u8i ((mi.op 0).getImm)) <<< 3) ||| 0xc6))
             | _ =>
                Except.error (instrErr name "Allowed registers are IX, IY.")
            )
           else Except.error (instrErr name "Third operand should be immediate."))
         else Except.error (instrErr name "Second operand should be register.")))
     else Except.error (instrErr name "First operand should be immediate."))
   else Except.error (numOpsErr name 3 mi.operands.length))

/-- Encoding of `SET8bp` (translated from the corresponding
`case Z80::SET8bp` block of `Z80MCCodeEmitter::encodeInstruction`). -/
def enc_SET8bp (name : String) (mi : Inst) : Except String EmitState :=
  (if mi.operands.length = 2 then
    (if (mi.op 0).isImm then
      (if 8 ≤ u8i ((mi.op 0).getImm) then Except.error (instrErr name "First operand should be in range 0..7.")
       else
        (if (mi.op 1).isReg then
          (match ((mi.op 1)).getReg with
           | Reg.HL =>
              Except.ok
                (EmitState.init |> emitByte 0xcb |> emitByte (((u8i ((mi.op 0).getImm)) <<< 3) ||| 0xc6))
           | _ =>
              Except.error (instrErr name "The only allowed register is HL.")
          )
         else Except.error (instrErr name "Second operand should be register.")))
     else Except.error (instrErr name "First operand should be immediate."))
   else Except.error (numOpsErr name 2 mi.operands.length))

/-- Encoding of `SLA8o` (translated from the corresponding
`case Z80::SLA8o` block of `Z80MCCodeEmitter::encodeInstruction`). -/
def enc_SLA8o (name : String) (mi : Inst) : Except String EmitState :=
  (if mi.operands.length = 2 then
    (if (mi.op 0).isReg then
      (if (mi.op 1).isImm then
        (match ((mi.op 0)).getReg with
         | Reg.IX =>
            Except.ok
              (EmitState.init |> emitByte 0xdd |> emitByte 0xcb |> emitByte (u8i ((mi.op 1).getImm)) |> emitByte 0x26)
         | Reg.IY =>
            Except.ok
              (EmitState.init |> emitByte 0xfd |> emitByte 0xcb |> emitByte (u8i ((mi.op 1).getImm)) |> emitByte 0x26)
         | _ =>
            Except.error (instrErr name "Allowed registers are IX, IY.")
        )
       else Except.error (instrErr name "Second operand should be immediate."))
     else Except.error (instrErr name "First operand should be register."))
   else Except.error (numOpsErr name 2 mi.operands.length))

/-- Encoding of `SLA8p` (translated from the corresponding
`case Z80::SLA8p` block of `Z80MCCodeEmitter::encodeInstruction`). -/
def enc_SLA8p (name : String) (mi : Inst) : Except String EmitState :=
  (if mi.operands.length = 1 then
    (if (mi.op 0).isReg then
      (match ((mi.op 0)).getReg with
       | Reg.HL =>
          Except.ok
            (EmitState.init |> emitByte 0xcb |> emitByte 0x26)
       | _ =>
          Except.error (instrErr name "The only allowed register is HL.")
      )
     else Except.error (instrErr name "Operand should be register."))
   else Except.error (numOpsErr name 1 mi.operands.length))

/-- Encoding of `SLA8r` (translated from the corresponding
`case Z80::SLA8r` block of `Z80MCCodeEmitter::encodeInstruction`). -/
def enc_SLA8r (name : String) (mi : Inst) : Except String EmitState :=
  (if mi.operands.length = 0 then Except.error (instrErr name "Operand missing.")
   else
    (if (mi.op 0).isReg then
      (match ((mi.op 0)).getReg with
       | Reg.A =>
          Except.ok
            (EmitState.init |> emitByte 0xcb |> emitByte 0x27)
       | Reg.B =>
          Except.ok
            (EmitState.init |> emitByte 0xcb |> emitByte 0x20)
       | Reg.C =>
          Except.ok
            (EmitState.init |> emitByte 0xcb |> emitByte 0x21)
       | Reg.D =>
          Except.ok
            (EmitState.init |> emitByte 0xcb |> emitByte 0x22)
       | Reg.E =>
          Except.ok
            (EmitState.init |> emitByte 0xcb |> emitByte 0x23)
       | Reg.H =>
          Except.ok
            (EmitState.init |> emitByte 0xcb |> emitByte 0x24)
       | Reg.L =>
          Except.ok
            (EmitState.init |> emitByte 0xcb |> emitByte 0x25)
       | Reg.IXH =>
          Except.ok
            (EmitState.init |> emitByte 0xe5 |> emitByte 0xdd |> emitByte 0xe5 |> emitByte 0xe1 |> emitByte 0xcb |> emitByte 0x24 |> emitByte 0xe5 |> emitByte 0xdd |> emitByte 0xe1 |> emitByte 0xe1)
       | Reg.IXL =>
          Except.ok
            (EmitState.init |> emitByte 0xe5 |> emitByte 0xdd |> emitByte 0xe5 |> emitByte 0xe1 |> emitByte 0xcb |> emitByte 0x25 |> emitByte 0xe5 |> emitByte 0xdd |> emitByte 0xe1 |> emitByte 0xe1)
       | Reg.IYH =>
          Except.ok
            (EmitState.init |> emitByte 0xe5 |> emitByte 0xfd |> emitByte 0xe5 |> emitByte 0xe1 |> emitByte 0xcb |> emitByte 0x24 |> emitByte 0xe5 |> emitByte 0xfd |> emitByte 0xe1 |> emitByte 0xe1)
       | Reg.IYL =>
          Except.ok
            (EmitState.init |> emitByte 0xe5 |> emitByte 0xfd |> emitByte 0xe5 |> emitByte 0xe1 |> emitByte 0xcb |> emitByte 0x25 |> emitByte 0xe5 |> emitByte 0xfd |> emitByte 0xe1 |> emitByte 0xe1)
       | _ =>
          Except.error (instrErr name "Allowed register are A, B, C, D, E, H, L.")
      )
     else Except.error (instrErr name "An operand should be an register.")))

/-- Encoding of `SRA8o` (translated from the corresponding
`case Z80::SRA8o` block of `Z80MCCodeEmitter::encodeInstruction`). -/
def enc_SRA8o (name : String) (mi : Inst) : Except String EmitState :=
  (if mi.operands.length = 2 then
    (if (mi.op 0).isReg then
      (if (mi.op 1).isImm then
        (match ((mi.op 0)).getReg with
         | Reg.IX =>
            Except.ok
              (EmitState.init |> emitByte 0xdd |> emitByte 0xcb |> emitByte (u8i ((mi.op 1).getImm)) |> emitByte 0x2e)
         | Reg.IY =>
            Except.ok
              (EmitState.init |> emitByte 0xfd |> emitByte 0xcb |> emitByte (u8i ((mi.op 1).getImm)) |> emitByte 0x2e)
         | _ =>
            Except.error (instrErr name "Allowed registers are IX, IY.")
        )
       else Except.error (instrErr name "Second operand should be immediate."))
     else Except.error (instrErr name "First operand should be register."))
   else Except.error (numOpsErr name 2 mi.operands.length))

/-- Encoding of `SRA8p` (translated from the corresponding
`case Z80::SRA8p` block of `Z80MCCodeEmitter::encodeInstruction`). -/
def enc_SRA8p (name : String) (mi : Inst) : Except String EmitState :=
  (if mi.operands.length = 1 then
    (if (mi.op 0).isReg then
      (match ((mi.op 0)).getReg with
       | Reg.HL =>
          Except.ok
            (EmitState.init |> emitByte 0xcb |> emitByte 0x2e)
       | _ =>
          Except.error (instrErr name "The only allowed register is HL.")
      )
     else Except.error (instrErr name "Operand should be register."))
   else Except.error (numOpsErr name 1 mi.operands.length))

/-- Encoding of `SRA8r` (translated from the corresponding
`case Z80::SRA8r` block of `Z80MCCodeEmitter::encodeInstruction`). -/
def enc_SRA8r (name : String) (mi : Inst) : Except String EmitState :=
  (if mi.operands.length = 0 then Except.error (instrErr name "Operand missing.")
   else
    (if (mi.op 0).isReg then
      (match ((mi.op 0)).getReg with
       | Reg.A =>
          Except.ok
            (EmitState.init |> emitByte 0xcb |> emitByte 0x2f)
       | Reg.B =>
          Except.ok
            (EmitState.init |> emitByte 0xcb |> emitByte 0x28)
       | Reg.C =>
          Except.ok
            (EmitState.init |> emitByte 0xcb |> emitByte 0x29)
       | Reg.D =>
          Except.ok
            (EmitState.init |> emitByte 0xcb |> emitByte 0x2a)
       | Reg.E =>
          Except.ok
            (EmitState.init |> emitByte 0xcb |> emitByte 0x2b)
       | Reg.H =>
          Except.ok
            (EmitState.init |> emitByte 0xcb |> emitByte 0x2c)
       | Reg.L =>
          Except.ok
            (EmitState.init |> emitByte 0xcb |> emitByte 0x2d)
       | Reg.IXH =>
          Except.ok
            (EmitState.init |> emitByte 0xe5 |> emitByte 0xdd |> emitByte 0xe5 |> emitByte 0xe1 |> emitByte 0xcb |> emitByte 0x2c |> emitByte 0xe5 |> emitByte 0xdd |> emitByte 0xe1 |> emitByte 0xe1)
       | Reg.IXL =>
          Except.ok
            (EmitState.init |> emitByte 0xe5 |> emitByte 0xdd |> emitByte 0xe5 |> emitByte 0xe1 |> emitByte 0xcb |> emitByte 0x2d |> emitByte 0xe5 |> emitByte 0xdd |> emitByte 0xe1 |> emitByte 0xe1)
       | Reg.IYH =>
          Except.ok
            (EmitState.init |> emitByte 0xe5 |> emitByte 0xfd |> emitByte 0xe5 |> emitByte 0xe1 |> emitByte 0xcb |> emitByte 0x2c |> emitByte 0xe5 |> emitByte 0xfd |> emitByte 0xe1 |> emitByte 0xe1)
       | Reg.IYL =>
          Except.ok
            (EmitState.init |> emitByte 0xe5 |> emitByte 0xfd |> emitByte 0xe5 |> emitByte 0xe1 |> emitByte 0xcb |> emitByte 0x2d |> emitByte 0xe5 |> emitByte 0xfd |> emitByte 0xe1 |> emitByte 0xe1)
       | _ =>
          Except.error (instrErr name "Allowed register are A, B, C, D, E, H, L.")
      )
     else Except.error (instrErr name "An operand should be an register.")))

/-- Encoding of `SRL8o` (translated from the corresponding
`case Z80::SRL8o` block of `Z80MCCodeEmitter::encodeInstruction`). -/
def enc_SRL8o (name : String) (mi : Inst) : Except String EmitState :=
  (if mi.operands.length = 2 then
    (if (mi.op 0).isReg then
      (if (mi.op 1).isImm then
        (match ((mi.op 0)).getReg with
         | Reg.IX =>
            Except.ok
              (EmitState.init |> emitByte 0xdd |> emitByte 0xcb |> emitByte (u8i ((mi.op 1).getImm)) |> emitByte 0x3e)
         | Reg.IY =>
            Except.ok
              (EmitState.init |> emitByte 0xfd |> emitByte 0xcb |> emitByte (u8i ((mi.op 1).getImm)) |> emitByte 0x3e)
         | _ =>
            Except.error (instrErr name "Allowed registers are IX, IY.")
        )
       else Except.error (instrErr name "Second operand should be immediate."))
     else Except.error (instrErr name "First operand should be register."))
   else Except.error (numOpsErr name 2 mi.operands.length))

/-- Encoding of `SRL8p` (translated from the corresponding
`case Z80::SRL8p` block of `Z80MCCodeEmitter::encodeInstruction`). -/
def enc_SRL8p (name : String) (mi : Inst) : Except String EmitState :=
  (if mi.operands.length = 1 then
    (if (mi.op 0).isReg then
      (match ((mi.op 0)).getReg with
       | Reg.HL =>
          Except.ok
            (EmitState.init |> emitByte 0xcb |> emitByte 0x3e)
       | _ =>
          Except.error (instrErr name "The only allowed register is HL.")
      )
     else Except.error (instrErr name "Operand should be register."))
   else Except.error (numOpsErr name 1 mi.operands.length))

/-- Encoding of `SRL8r` (translated from the corresponding
`case Z80::SRL8r` block of `Z80MCCodeEmitter::encodeInstruction`). -/
def enc_SRL8r (name : String) (mi : Inst) : Except String EmitState :=
  (if mi.operands.length = 0 then Except.error (instrErr name "Operand missing.")
   else
    (if (mi.op 0).isReg then
      (match ((mi.op 0)).getReg with
       | Reg.A =>
          Except.ok
            (EmitState.init |> emitByte 0xcb |> emitByte 0x3f)
       | Reg.B =>
          Except.ok
            (EmitState.init |> emitByte 0xcb |> emitByte 0x38)
       | Reg.C =>
          Except.ok
            (EmitState.init |> emitByte 0xcb |> emitByte 0x39)
       | Reg.D =>
          Except.ok
            (EmitState.init |> emitByte 0xcb |> emitByte 0x3a)
       | Reg.E =>
          Except.ok
            (EmitState.init |> emitByte 0xcb |> emitByte 0x3b)
       | Reg.H =>
          Except.ok
            (EmitState.init |> emitByte 0xcb |> emitByte 0x3c)
       | Reg.L =>
          Except.ok
            (EmitState.init |> emitByte 0xcb |> emitByte 0x3d)
       | Reg.IXH =>
          Except.ok
            (EmitState.init |> emitByte 0xe5 |> emitByte 0xdd |> emitByte 0xe5 |> emitByte 0xe1 |> emitByte 0xcb |> emitByte 0x3c |> emitByte 0xe5 |> emitByte 0xdd |> emitByte 0xe1 |> emitByte 0xe1)
       | Reg.IXL =>
          Except.ok
            (EmitState.init |> emitByte 0xe5 |> emitByte 0xdd |> emitByte 0xe5 |> emitByte 0xe1 |> emitByte 0xcb |> emitByte 0x3d |> emitByte 0xe5 |> emitByte 0xdd |> emitByte 0xe1 |> emitByte 0xe1)
       | Reg.IYH =>
          Except.ok
            (EmitState.init |> emitByte 0xe5 |> emitByte 0xfd |> emitByte 0xe5 |> emitByte 0xe1 |> emitByte 0xcb |> emitByte 0x3c |> emitByte 0xe5 |> emitByte 0xfd |> emitByte 0xe1 |> emitByte 0xe1)
       | Reg.IYL =>
          Except.ok
            (EmitState.init |> emitByte 0xe5 |> emitByte 0xfd |> emitByte 0xe5 |> emitByte 0xe1 |> emitByte 0xcb |> emitByte 0x3d |> emitByte 0xe5 |> emitByte 0xfd |> emitByte 0xe1 |> emitByte 0xe1)
       | _ =>
          Except.error (instrErr name "Allowed register are A, B, C, D, E, H, L.")
      )
     else Except.error (instrErr name "An operand should be an register.")))

/-- Encoding of `SUB8ai` (translated from the corresponding
`case Z80::SUB8ai` block of `Z80MCCodeEmitter::encodeInstruction`). -/
def enc_SUB8ai (name : String) (mi : Inst) : Except String EmitState :=
  (if mi.operands.length = 1 then
    (if (mi.op 0).isImm then
      Except.ok
        (EmitState.init |> emitByte 0xd6 |> emitByte (u8i ((mi.op 0).getImm)))
     else Except.error (instrErr name "Operand should be immediate."))
   else Except.error (numOpsErr name 1 mi.operands.length))

/-- Encoding of `SUB8ao` (translated from the corresponding
`case Z80::SUB8ao` block of `Z80MCCodeEmitter::encodeInstruction`). -/
def enc_SUB8ao (name : String) (mi : Inst) : Except String EmitState :=
  (if mi.operands.length = 2 then
    (if (mi.op 0).isReg then
      (if (mi.op 1).isImm then
        (match ((mi.op 0)).getReg with
         | Reg.IX =>
            Except.ok
              (EmitState.init |> emitByte 0xdd |> emitByte 0x96 |> emitByte (u8i ((mi.op 1).getImm)))
         | Reg.IY =>
            Except.ok
              (EmitState.init |> emitByte 0xfd |> emitByte 0x96 |> emitByte (u8i ((mi.op 1).getImm)))
         | _ =>
            Except.error (instrErr name "Allowed registers are IX, IY.")
        )
       else Except.error (instrErr name "Second operand should be immediate."))
     else Except.error (instrErr name "First operand should be register."))
   else Except.error (numOpsErr name 2 mi.operands.length))

/-- Encoding of `SUB8ap` (translated from the corresponding
`case Z80::SUB8ap` block of `Z80MCCodeEmitter::encodeInstruction`). -/
def enc_SUB8ap (name : String) (mi : Inst) : Except String EmitState :=
  (if mi.operands.length = 1 then
    (if (mi.op 0).isReg then
      (match ((mi.op 0)).getReg with
       | Reg.HL =>
          Except.ok
            (EmitState.init |> emitByte 0x96)
       | _ =>
          Except.error (instrErr name "The only allowed register is HL.")
      )
     else Except.error (instrErr name "Operand should be register."))
   else Except.error (numOpsErr name 1 mi.operands.length))

/-- Encoding of `SUB8ar` (translated from the corresponding
`case Z80::SUB8ar` block of `Z80MCCodeEmitter::encodeInstruction`). -/
def enc_SUB8ar (name : String) (mi : Inst) : Except String EmitState :=
  (if mi.operands.length = 1 then
    (if (mi.op 0).isReg then
      (match ((mi.op 0)).getReg with
       | Reg.A =>
          Except.ok
            (EmitState.init |> emitByte 0x97)
       | Reg.B =>
          Except.ok
            (EmitState.init |> emitByte 0x90)
       | Reg.C =>
          Except.ok
            (EmitState.init |> emitByte 0x91)
       | Reg.D =>
          Except.ok
            (EmitState.init |> emitByte 0x92)
       | Reg.E =>
          Except.ok
            (EmitState.init |> emitByte 0x93)
       | Reg.H =>
          Except.ok
            (EmitState.init |> emitByte 0x94)
       | Reg.L =>
          Except.ok
            (EmitState.init |> emitByte 0x95)
       | Reg.IXH =>
          Except.ok
            (EmitState.init |> emitByte 0xe5 |> emitByte 0xdd |> emitByte 0xe5 |> emitByte 0xe1 |> emitByte 0x94 |> emitByte 0xe1)
       | Reg.IXL =>
          Except.ok
            (EmitState.init |> emitByte 0xe5 |> emitByte 0xdd |> emitByte 0xe5 |> emitByte 0xe1 |> emitByte 0x95 |> emitByte 0xe1)
       | Reg.IYH =>
          Except.ok
            (EmitState.init |> emitByte 0xe5 |> emitByte 0xfd |> emitByte 0xe5 |> emitByte 0xe1 |> emitByte 0x94 |> emitByte 0xe1)
       | Reg.IYL =>
          Except.ok
            (EmitState.init |> emitByte 0xe5 |> emitByte 0xfd |> emitByte 0xe5 |> emitByte 0xe1 |> emitByte 0x95 |> emitByte 0xe1)
       | _ =>
          Except.error (instrErr name "Allowed register are A, B, C, D, E, H, L.")
      )
     else Except.error (instrErr name "Operand should be register."))
   else Except.error (numOpsErr name 1 mi.operands.length))

/-- Encoding of `XOR8ai` (translated from the corresponding
`case Z80::XOR8ai` block of `Z80MCCodeEmitter::encodeInstruction`). -/
def enc_XOR8ai (name : String) (mi : Inst) : Except String EmitState :=
  (if mi.operands.length = 1 then
    (if (mi.op 0).isImm then
      Except.ok
        (EmitState.init |> emitByte 0xee |> emitByte (u8i ((mi.op 0).getImm)))
     else Except.error (instrErr name "Operand should be immediate."))
   else Except.error (numOpsErr name 1 mi.operands.length))

/-- Encoding of `XOR8ao` (translated from the corresponding
`case Z80::XOR8ao` block of `Z80MCCodeEmitter::encodeInstruction`). -/
def enc_XOR8ao (name : String) (mi : Inst) : Except String EmitState :=
  (if mi.operands.length = 2 then
    (if (mi.op 0).isReg then
      (if (mi.op 1).isImm then
        (match ((mi.op 0)).getReg with
         | Reg.IX =>
            Except.ok
              (EmitState.init |> emitByte 0xdd |> emitByte 0xae |> emitByte (u8i ((mi.op 1).getImm)))
         | Reg.IY =>
            Except.ok
              (EmitState.init |> emitByte 0xfd |> emitByte 0xae |> emitByte (u8i ((mi.op 1).getImm)))
         | _ =>
            Except.error (instrErr name "Allowed registers are IX, IY.")
        )
       else Except.error (instrErr name "Second operand should be immediate."))
     else Except.error (instrErr name "First operand should be register."))
   else Except.error (numOpsErr name 2 mi.operands.length))

/-- Encoding of `XOR8ap` (translated from the corresponding
`case Z80::XOR8ap` block of `Z80MCCodeEmitter::encodeInstruction`). -/
def enc_XOR8ap (name : String) (mi : Inst) : Except String EmitState :=
  (if mi.operands.length = 1 then
    (if (mi.op 0).isReg then
      (match ((mi.op 0)).getReg with
       | Reg.HL =>
          Except.ok
            (EmitState.init |> emitByte 0xae)
       | _ =>
          Except.error (instrErr name "The only allowed register is HL.")
      )
     else Except.error (instrErr name "Operand should be register."))
   else Except.error (numOpsErr name 1 mi.operands.length))

/-- Encoding of `XOR8ar` (translated from the corresponding
`case Z80::XOR8ar` block of `Z80MCCodeEmitter::encodeInstruction`). -/
def enc_XOR8ar (name : String) (mi : Inst) : Except String EmitState :=
  (if mi.operands.length = 1 then
    (if (mi.op 0).isReg then
      (match ((mi.op 0)).getReg with
       | Reg.A =>
          Except.ok
            (EmitState.init |> emitByte 0xaf)
       | Reg.B =>
          Except.ok
            (EmitState.init |> emitByte 0xa8)
       | Reg.C =>
          Except.ok
            (EmitState.init |> emitByte 0xa9)
       | Reg.D =>
          Except.ok
            (EmitState.init |> emitByte 0xaa)
       | Reg.E =>
          Except.ok
            (EmitState.init |> emitByte 0xab)
       | Reg.H =>
          Except.ok
            (EmitState.init |> emitByte 0xac)
       | Reg.L =>
          Except.ok
            (EmitState.init |> emitByte 0xad)
       | Reg.IXH =>
          Except.ok
            (EmitState.init |> emitByte 0xe5 |> emitByte 0xdd |> emitByte 0xe5 |> emitByte 0xe1 |> emitByte 0xac |> emitByte 0xe1)
       | Reg.IXL =>
          Except.ok
            (EmitState.init |> emitByte 0xe5 |> emitByte 0xdd |> emitByte 0xe5 |> emitByte 0xe1 |> emitByte 0xad |> emitByte 0xe1)
       | Reg.IYH =>
          Except.ok
            (EmitState.init |> emitByte 0xe5 |> emitByte 0xfd |> emitByte 0xe5 |> emitByte 0xe1 |> emitByte 0xac |> emitByte 0xe1)
       | Reg.IYL =>
          Except.ok
            (EmitState.init |> emitByte 0xe5 |> emitByte 0xfd |> emitByte 0xe5 |> emitByte 0xe1 |> emitByte 0xad |> emitByte 0xe1)
       | _ =>
          Except.error (instrErr name "Allowed register are A, B, C, D, E, H, L.")
      )
     else Except.error (instrErr name "Operand should be register."))
   else Except.error (numOpsErr name 1 mi.operands.length))

/-- `Z80MCCodeEmitter::encodeInstruction`: reject EZ80-mode instructions,
handle pseudo instructions, then dispatch on the opcode onto the
per-opcode encoders above.  `cfg` carries the two compile-time `#ifdef`
flags (both off in the default build). -/
def encodeInstruction (cfg : Config) (mi : Inst) : Except String EmitState :=
  if mi.ez80Mode then
    Except.error "EZ80 machine instructions not supported (yet?)"
  else if mi.opcode.isPseudo then
    match mi.opcode with
    | Opcode.JQ => enc_JQ cfg mi.opcode.getName mi
    | Opcode.JQCC => enc_JQCC cfg mi.opcode.getName mi
    | _ => Except.error ("Not supported pseudo instr: " ++ mi.opcode.getName)
  else
    match mi.opcode with
    | Opcode.ADC8ai => enc_ADC8ai mi.opcode.getName mi
    | Opcode.ADC8ao => enc_ADC8ao mi.opcode.getName mi
    | Opcode.ADC8ap => enc_ADC8ap mi.opcode.getName mi
    | Opcode.ADC8ar => enc_ADC8ar mi.opcode.getName mi
    | Opcode.ADD16SP => enc_ADD16SP mi.opcode.getName mi
    | Opcode.ADD16aa => enc_ADD16aa mi.opcode.getName mi
    | Opcode.ADD16ao => enc_ADD16ao mi.opcode.getName mi
    | Opcode.ADD8ai => enc_ADD8ai mi.opcode.getName mi
    | Opcode.ADD8ao => enc_ADD8ao mi.opcode.getName mi
    | Opcode.ADD8ap => enc_ADD8ap mi.opcode.getName mi
    | Opcode.ADD8ar => enc_ADD8ar mi.opcode.getName mi
    | Opcode.AND8ai => enc_AND8ai mi.opcode.getName mi
    | Opcode.AND8ao => enc_AND8ao mi.opcode.getName mi
    | Opcode.AND8ap => enc_AND8ap mi.opcode.getName mi
    | Opcode.AND8ar => enc_AND8ar mi.opcode.getName mi
    | Opcode.BIT8bg => enc_BIT8bg mi.opcode.getName mi
    | Opcode.BIT8bo => enc_BIT8bo mi.opcode.getName mi
    | Opcode.BIT8bp => enc_BIT8bp mi.opcode.getName mi
    | Opcode.CALL16 => enc_CALL16 mi.opcode.getName mi
    | Opcode.CALL16CC => enc_CALL16CC mi.opcode.getName mi
    | Opcode.CCF => enc_CCF mi.opcode.getName mi
    | Opcode.CP8ai => enc_CP8ai mi.opcode.getName mi
    | Opcode.CP8ao => enc_CP8ao mi.opcode.getName mi
    | Opcode.CP8ap => enc_CP8ap mi.opcode.getName mi
    | Opcode.CP8ar => enc_CP8ar mi.opcode.getName mi
    | Opcode.CPD16 => enc_CPD16 mi.opcode.getName mi
    | Opcode.CPDR16 => enc_CPDR16 mi.opcode.getName mi
    | Opcode.CPI16 => enc_CPI16 mi.opcode.getName mi
    | Opcode.CPIR16 => enc_CPIR16 mi.opcode.getName mi
    | Opcode.CPL => enc_CPL mi.opcode.getName mi
    | Opcode.DEC16SP => enc_DEC16SP mi.opcode.getName mi
    | Opcode.DEC16r => enc_DEC16r mi.opcode.getName mi
    | Opcode.DEC8o => enc_DEC8o mi.opcode.getName mi
    | Opcode.DEC8p => enc_DEC8p mi.opcode.getName mi
    | Opcode.DEC8r => enc_DEC8r mi.opcode.getName mi
    | Opcode.DI => enc_DI mi.opcode.getName mi
    | Opcode.EI => enc_EI mi.opcode.getName mi
    | Opcode.EX16DE => enc_EX16DE mi.opcode.getName mi
    | Opcode.EX16SP => enc_EX16SP mi.opcode.getName mi
    | Opcode.EXAF => enc_EXAF mi.opcode.getName mi
    | Opcode.EXX => enc_EXX mi.opcode.getName mi
    | Opcode.INC16SP => enc_INC16SP mi.opcode.getName mi
    | Opcode.INC16r => enc_INC16r mi.opcode.getName mi
    | Opcode.INC8o => enc_INC8o mi.opcode.getName mi
    | Opcode.INC8p => enc_INC8p mi.opcode.getName mi
    | Opcode.INC8r => enc_INC8r mi.opcode.getName mi
    | Opcode.IND16 => enc_IND16 mi.opcode.getName mi
    | Opcode.INDR16 => enc_INDR16 mi.opcode.getName mi
    | Opcode.INI16 => enc_INI16 mi.opcode.getName mi
    | Opcode.INIR16 => enc_INIR16 mi.opcode.getName mi
    | Opcode.JP16r => enc_JP16r mi.opcode.getName mi
    | Opcode.LD16SP => enc_LD16SP mi.opcode.getName mi
    | Opcode.LD16am => enc_LD16am mi.opcode.getName mi
    | Opcode.LD16ma => enc_LD16ma mi.opcode.getName mi
    | Opcode.LD16mo => enc_LD16mo mi.opcode.getName mi
    | Opcode.LD16om => enc_LD16om mi.opcode.getName mi
    | Opcode.LD16ri => enc_LD16ri mi.opcode.getName mi
    | Opcode.LD8am => enc_LD8am mi.opcode.getName mi
    | Opcode.LD8gg => enc_LD8gg mi.opcode.getName mi
    | Opcode.LD8xx => enc_LD8gg mi.opcode.getName mi
    | Opcode.LD8yy => enc_LD8gg mi.opcode.getName mi
    | Opcode.LD8go => enc_LD8go mi.opcode.getName mi
    | Opcode.LD8gp => enc_LD8gp mi.opcode.getName mi
    | Opcode.LD8ma => enc_LD8ma mi.opcode.getName mi
    | Opcode.LD8og => enc_LD8og mi.opcode.getName mi
    | Opcode.LD8oi => enc_LD8oi mi.opcode.getName mi
    | Opcode.LD8pg => enc_LD8pg mi.opcode.getName mi
    | Opcode.LD8ri => enc_LD8ri mi.opcode.getName mi
    | Opcode.LD8pi => enc_LD8pi mi.opcode.getName mi
    | Opcode.LDD16 => enc_LDD16 mi.opcode.getName mi
    | Opcode.LDDR16 => enc_LDDR16 mi.opcode.getName mi
    | Opcode.LDI16 => enc_LDI16 mi.opcode.getName mi
    | Opcode.LDIR16 => enc_LDIR16 mi.opcode.getName mi
    | Opcode.LEA16ro => enc_LEA16ro mi.opcode.getName mi
    | Opcode.NEG => enc_NEG mi.opcode.getName mi
    | Opcode.NOP => enc_NOP mi.opcode.getName mi
    | Opcode.OR8ai => enc_OR8ai mi.opcode.getName mi
    | Opcode.OR8ao => enc_OR8ao mi.opcode.getName mi
    | Opcode.OR8ap => enc_OR8ap mi.opcode.getName mi
    | Opcode.OR8ar => enc_OR8ar mi.opcode.getName mi
    | Opcode.OUTD16 => enc_OUTD16 mi.opcode.getName mi
    | Opcode.OUTDR16 => enc_OUTDR16 mi.opcode.getName mi
    | Opcode.OUTI16 => enc_OUTI16 mi.opcode.getName mi
    | Opcode.OUTIR16 => enc_OUTIR16 mi.opcode.getName mi
    | Opcode.POP16AF => enc_POP16AF mi.opcode.getName mi
    | Opcode.POP16r => enc_POP16r mi.opcode.getName mi
    | Opcode.PUSH16AF => enc_PUSH16AF mi.opcode.getName mi
    | Opcode.PUSH16r => enc_PUSH16r mi.opcode.getName mi
    | Opcode.RES8bg => enc_RES8bg mi.opcode.getName mi
    | Opcode.RES8bo => enc_RES8bo mi.opcode.getName mi
    | Opcode.RES8bp => enc_RES8bp mi.opcode.getName mi
    | Opcode.RET16 => enc_RET16 mi.opcode.getName mi
    | Opcode.RET16CC => enc_RET16CC mi.opcode.getName mi
    | Opcode.RETI16 => enc_RETI16 mi.opcode.getName mi
    | Opcode.RETN16 => enc_RETN16 mi.opcode.getName mi
    | Opcode.RL8o => enc_RL8o mi.opcode.getName mi
    | Opcode.RL8p => enc_RL8p mi.opcode.getName mi
    | Opcode.RL8r => enc_RL8r mi.opcode.getName mi
    | Opcode.RLC8o => enc_RLC8o mi.opcode.getName mi
    | Opcode.RLC8p => enc_RLC8p mi.opcode.getName mi
    | Opcode.RLC8r => enc_RLC8r mi.opcode.getName mi
    | Opcode.RR8o => enc_RR8o mi.opcode.getName mi
    | Opcode.RR8p => enc_RR8p mi.opcode.getName mi
    | Opcode.RR8r => enc_RR8r mi.opcode.getName mi
    | Opcode.RRC8o => enc_RRC8o mi.opcode.getName mi
    | Opcode.RRC8p => enc_RRC8p mi.opcode.getName mi
    | Opcode.RRC8r => enc_RRC8r mi.opcode.getName mi
    | Opcode.SBC16SP => enc_SBC16SP mi.opcode.getName mi
    | Opcode.SBC16aa => enc_SBC16aa mi.opcode.getName mi
    | Opcode.SBC16ao => enc_SBC16ao mi.opcode.getName mi
    | Opcode.SBC8ai => enc_SBC8ai mi.opcode.getName mi
    | Opcode.SBC8ao => enc_SBC8ao mi.opcode.getName mi
    | Opcode.SBC8ap => enc_SBC8ap mi.opcode.getName mi
    | Opcode.SBC8ar => enc_SBC8ar mi.opcode.getName mi
    | Opcode.SCF => enc_SCF mi.opcode.getName mi
    | Opcode.SET8bg => enc_SET8bg mi.opcode.getName mi
    | Opcode.SET8bo => enc_SET8bo mi.opcode.getName mi
    | Opcode.SET8bp => enc_SET8bp mi.opcode.getName mi
    | Opcode.SLA8o => enc_SLA8o mi.opcode.getName mi
    | Opcode.SLA8p => enc_SLA8p mi.opcode.getName mi
    | Opcode.SLA8r => enc_SLA8r mi.opcode.getName mi
    | Opcode.SRA8o => enc_SRA8o mi.opcode.getName mi
    | Opcode.SRA8p => enc_SRA8p mi.opcode.getName mi
    | Opcode.SRA8r => enc_SRA8r mi.opcode.getName mi
    | Opcode.SRL8o => enc_SRL8o mi.opcode.getName mi
    | Opcode.SRL8p => enc_SRL8p mi.opcode.getName mi
    | Opcode.SRL8r => enc_SRL8r mi.opcode.getName mi
    | Opcode.SUB8ai => enc_SUB8ai mi.opcode.getName mi
    | Opcode.SUB8ao => enc_SUB8ao mi.opcode.getName mi
    | Opcode.SUB8ap => enc_SUB8ap mi.opcode.getName mi
    | Opcode.SUB8ar => enc_SUB8ar mi.opcode.getName mi
    | Opcode.XOR8ai => enc_XOR8ai mi.opcode.getName mi
    | Opcode.XOR8ao => enc_XOR8ao mi.opcode.getName mi
    | Opcode.XOR8ap => enc_XOR8ap mi.opcode.getName mi
    | Opcode.XOR8ar => enc_XOR8ar mi.opcode.getName mi
    | Opcode.ADC16SP => enc_notImplemented mi.opcode.getName
    | Opcode.ADC16aa => enc_notImplemented mi.opcode.getName
    | Opcode.ADC16ao => enc_notImplemented mi.opcode.getName
    | Opcode.JP16 => enc_notImplemented mi.opcode.getName
    | Opcode.JP16CC => enc_notImplemented mi.opcode.getName
    | Opcode.JR => enc_notImplemented mi.opcode.getName
    | Opcode.JRCC => enc_notImplemented mi.opcode.getName
    | Opcode.LD16or => enc_notImplemented mi.opcode.getName
    | Opcode.LD16pr => enc_notImplemented mi.opcode.getName
    | Opcode.LD16ro => enc_notImplemented mi.opcode.getName
    | Opcode.LD16rp => enc_notImplemented mi.opcode.getName
    | _ => Except.error ("Not supported instr: " ++ mi.opcode.getName)

/-- Fixup bit widths, as recorded in the `Infos` table of
`Z80AsmBackend::getFixupKindInfo` for the thirteen target kinds; for the
architecture-independent kinds the C++ delegates to
`MCAsmBackend::getFixupKindInfo`, whose generic table (modelled from the LLVM
MC sources, outside this repository) gives `FK_Data_N`/`FK_PCRel_N` width
`8·N` and `FK_NONE` width 0. -/
def fixupKindBits : MCFixupKind → Nat
  | .FK_NONE => 0
  | .FK_Data_1 => 8
  | .FK_Data_2 => 16
  | .FK_Data_4 => 32
  | .FK_Data_8 => 64
  | .FK_PCRel_1 => 8
  | .FK_PCRel_2 => 16
  | .FK_PCRel_4 => 32
  | .fixup_8 => 8
  | .fixup_8_dis => 8
  | .fixup_8_pcrel => 8
  | .fixup_16 => 16
  | .fixup_24 => 24
  | .fixup_32 => 32
  | .fixup_byte0 => 32
  | .fixup_byte1 => 32
  | .fixup_byte2 => 32
  | .fixup_byte3 => 32
  | .fixup_word0 => 32
  | .fixup_word1 => 32
  | .fixup_16_be => 16

/-- The `FKF_IsPCRel` flag of the same `Infos` table (set only on
`fixup_8_pcrel` among the target kinds; among the generic kinds on the
`FK_PCRel_N` family). -/
def fixupKindIsPCRel : MCFixupKind → Bool
  | .FK_PCRel_1 | .FK_PCRel_2 | .FK_PCRel_4 => true
  | .fixup_8_pcrel => true
  | _ => false

/-- The number of placeholder bytes covering a fixup of kind `k`:
`ceil(bit width / 8)`. -/
def fixupNumBytes (k : MCFixupKind) : Nat := (fixupKindBits k + 7) / 8

/-- `Z80AsmBackend::shouldForceRelocation`: the switch on
`Fixup.getKind()` returns `true` for exactly `fixup_8_dis`,
`fixup_8_pcrel` and `fixup_16`, and `false` in the `default` case. -/
def shouldForceRelocation (k : MCFixupKind) : Bool :=
  match k with
  | .fixup_8_dis | .fixup_8_pcrel | .fixup_16 => true
  | _ => false

/-- The ELF relocation codes for `EM_Z80` used by `Z80ELFObjectWriter`
(`llvm/BinaryFormat/ELF.h`). -/
inductive RelocType
  | R_Z80_8 | R_Z80_8_DIS | R_Z80_8_PCREL | R_Z80_16 | R_Z80_24 | R_Z80_32
  | R_Z80_BYTE0 | R_Z80_BYTE1 | R_Z80_BYTE2 | R_Z80_BYTE3
  | R_Z80_WORD0 | R_Z80_WORD1 | R_Z80_16_BE
deriving DecidableEq, Repr

/-- `Z80ELFObjectWriter::getRelocType`: the switch on the fixup's kind.  The
`assert(IsPCRel)` in the `fixup_8_pcrel` case and the `llvm_unreachable` in
the `default` case are both fatal-on-violation and modelled as
`Except.error`. -/
def getRelocType (k : MCFixupKind) (isPCRel : Bool) : Except String RelocType :=
  match k with
  | .FK_Data_1 | .fixup_8 => Except.ok RelocType.R_Z80_8
  | .fixup_8_dis => Except.ok RelocType.R_Z80_8_DIS
  | .fixup_8_pcrel =>
    if isPCRel then Except.ok RelocType.R_Z80_8_PCREL
    else Except.error "assert(IsPCRel)"
  | .FK_Data_2 | .fixup_16 => Except.ok RelocType.R_Z80_16
  | .fixup_24 => Except.ok RelocType.R_Z80_24
  | .FK_Data_4 | .fixup_32 => Except.ok RelocType.R_Z80_32
  | .fixup_byte0 => Except.ok RelocType.R_Z80_BYTE0
  | .fixup_byte1 => Except.ok RelocType.R_Z80_BYTE1
  | .fixup_byte2 => Except.ok RelocType.R_Z80_BYTE2
  | .fixup_byte3 => Except.ok RelocType.R_Z80_BYTE3
  | .fixup_word0 => Except.ok RelocType.R_Z80_WORD0
  | .fixup_word1 => Except.ok RelocType.R_Z80_WORD1
  | .fixup_16_be => Except.ok RelocType.R_Z80_16_BE
  | _ => Except.error "Invalid fixup kind!"

/-! ## Small projection lemmas about the emission primitives -/

theorem emitByte_fixups (c : Nat) (s : EmitState) :
    (emitByte c s).fixups = s.fixups := rfl

theorem emitByte_bytes (c : Nat) (s : EmitState) :
    (emitByte c s).bytes = s.bytes ++ [c % 256] := rfl

theorem emitByte_curByte (c : Nat) (s : EmitState) :
    (emitByte c s).curByte = s.curByte + 1 := rfl

theorem pushFixup_fixups (e : MCExpr) (k : MCFixupKind) (l : Nat) (s : EmitState) :
    (pushFixup e k l s).fixups = s.fixups ++ [MCFixup.create s.curByte e k l] := rfl

theorem pushFixup_bytes (e : MCExpr) (k : MCFixupKind) (l : Nat) (s : EmitState) :
    (pushFixup e k l s).bytes = s.bytes := rfl

theorem EmitState.init_fixups : EmitState.init.fixups = [] := rfl

theorem enc_ADC8ai_fixups (name : String) (mi : Inst) (r : EmitState)
    (h : enc_ADC8ai name mi = Except.ok r) :
    ∀ f ∈ r.fixups, f.kind = MCFixupKind.fixup_16 ∧ f.offset + 2 ≤ r.bytes.length ∧
      (r.bytes.drop f.offset).take 2 = [0, 0] := by
  unfold enc_ADC8ai at h
  repeat' split at h
  all_goals cases h
  all_goals first
    | exact fun f hf => absurd hf (List.not_mem_nil f)
    | (intro f hf
       obtain rfl := List.mem_singleton.mp hf
       refine ⟨rfl, ?_, rfl⟩
       simp [emitByte, pushFixup, EmitState.init, MCFixup.create])
    | (intro f hf
       simp only [emitByte_fixups, EmitState.init_fixups, apply_ite EmitState.fixups,
         ite_self] at hf
       exact absurd hf (List.not_mem_nil f))

theorem enc_ADC8ao_fixups (name : String) (mi : Inst) (r : EmitState)
    (h : enc_ADC8ao name mi = Except.ok r) :
    ∀ f ∈ r.fixups, f.kind = MCFixupKind.fixup_16 ∧ f.offset + 2 ≤ r.bytes.length ∧
      (r.bytes.drop f.offset).take 2 = [0, 0] := by
  unfold enc_ADC8ao at h
  repeat' split at h
  all_goals cases h
  all_goals first
    | exact fun f hf => absurd hf (List.not_mem_nil f)
    | (intro f hf
       obtain rfl := List.mem_singleton.mp hf
       refine ⟨rfl, ?_, rfl⟩
       simp [emitByte, pushFixup, EmitState.init, MCFixup.create])
    | (intro f hf
       simp only [emitByte_fixups, EmitState.init_fixups, apply_ite EmitState.fixups,
         ite_self] at hf
       exact absurd hf (List.not_mem_nil f))

theorem enc_ADC8ap_fixups (name : String) (mi : Inst) (r : EmitState)
    (h : enc_ADC8ap name mi = Except.ok r) :
    ∀ f ∈ r.fixups, f.kind = MCFixupKind.fixup_16 ∧ f.offset + 2 ≤ r.bytes.length ∧
      (r.bytes.drop f.offset).take 2 = [0, 0] := by
  unfold enc_ADC8ap at h
  repeat' split at h
  all_goals cases h
  all_goals first
    | exact fun f hf => absurd hf (List.not_mem_nil f)
    | (intro f hf
       obtain rfl := List.mem_singleton.mp hf
       refine ⟨rfl, ?_, rfl⟩
       simp [emitByte, pushFixup, EmitState.init, MCFixup.create])
    | (intro f hf
       simp only [emitByte_fixups, EmitState.init_fixups, apply_ite EmitState.fixups,
         ite_self] at hf
       exact absurd hf (List.not_mem_nil f))

theorem enc_ADC8ar_fixups (name : String) (mi : Inst) (r : EmitState)
    (h : enc_ADC8ar name mi = Except.ok r) :
    ∀ f ∈ r.fixups, f.kind = MCFixupKind.fixup_16 ∧ f.offset + 2 ≤ r.bytes.length ∧
      (r.bytes.drop f.offset).take 2 = [0, 0] := by
  unfold enc_ADC8ar at h
  repeat' split at h
  all_goals cases h
  all_goals first
    | exact fun f hf => absurd hf (List.not_mem_nil f)
    | (intro f hf
       obtain rfl := List.mem_singleton.mp hf
       refine ⟨rfl, ?_, rfl⟩
       simp [emitByte, pushFixup, EmitState.init, MCFixup.create])
    | (intro f hf
       simp only [emitByte_fixups, EmitState.init_fixups, apply_ite EmitState.fixups,
         ite_self] at hf
       exact absurd hf (List.not_mem_nil f))

theorem enc_ADD16SP_fixups (name : String) (mi : Inst) (r : EmitState)
    (h : enc_ADD16SP name mi = Except.ok r) :
    ∀ f ∈ r.fixups, f.kind = MCFixupKind.fixup_16 ∧ f.offset + 2 ≤ r.bytes.length ∧
      (r.bytes.drop f.offset).take 2 = [0, 0] := by
  unfold enc_ADD16SP at h
  repeat' split at h
  all_goals cases h
  all_goals first
    | exact fun f hf => absurd hf (List.not_mem_nil f)
    | (intro f hf
       obtain rfl := List.mem_singleton.mp hf
       refine ⟨rfl, ?_, rfl⟩
       simp [emitByte, pushFixup, EmitState.init, MCFixup.create])
    | (intro f hf
       simp only [emitByte_fixups, EmitState.init_fixups, apply_ite EmitState.fixups,
         ite_self] at hf
       exact absurd hf (List.not_mem_nil f))

theorem enc_ADD16aa_fixups (name : String) (mi : Inst) (r : EmitState)
    (h : enc_ADD16aa name mi = Except.ok r) :
    ∀ f ∈ r.fixups, f.kind = MCFixupKind.fixup_16 ∧ f.offset + 2 ≤ r.bytes.length ∧
      (r.bytes.drop f.offset).take 2 = [0, 0] := by
  unfold enc_ADD16aa at h
  repeat' split at h
  all_goals cases h
  all_goals first
    | exact fun f hf => absurd hf (List.not_mem_nil f)
    | (intro f hf
       obtain rfl := List.mem_singleton.mp hf
       refine ⟨rfl, ?_, rfl⟩
       simp [emitByte, pushFixup, EmitState.init, MCFixup.create])
    | (intro f hf
       simp only [emitByte_fixups, EmitState.init_fixups, apply_ite EmitState.fixups,
         ite_self] at hf
       exact absurd hf (List.not_mem_nil f))

theorem enc_ADD16ao_fixups (name : String) (mi : Inst) (r : EmitState)
    (h : enc_ADD16ao name mi = Except.ok r) :
    ∀ f ∈ r.fixups, f.kind = MCFixupKind.fixup_16 ∧ f.offset + 2 ≤ r.bytes.length ∧
      (r.bytes.drop f.offset).take 2 = [0, 0] := by
  unfold enc_ADD16ao at h
  repeat' split at h
  all_goals cases h
  all_goals first
    | exact fun f hf => absurd hf (List.not_mem_nil f)
    | (intro f hf
       obtain rfl := List.mem_singleton.mp hf
       refine ⟨rfl, ?_, rfl⟩
       simp [emitByte, pushFixup, EmitState.init, MCFixup.create])
    | (intro f hf
       simp only [emitByte_fixups, EmitState.init_fixups, apply_ite EmitState.fixups,
         ite_self] at hf
       exact absurd hf (List.not_mem_nil f))

theorem enc_ADD8ai_fixups (name : String) (mi : Inst) (r : EmitState)
    (h : enc_ADD8ai name mi = Except.ok r) :
    ∀ f ∈ r.fixups, f.kind = MCFixupKind.fixup_16 ∧ f.offset + 2 ≤ r.bytes.length ∧
      (r.bytes.drop f.offset).take 2 = [0, 0] := by
  unfold enc_ADD8ai at h
  repeat' split at h
  all_goals cases h
  all_goals first
    | exact fun f hf => absurd hf (List.not_mem_nil f)
    | (intro f hf
       obtain rfl := List.mem_singleton.mp hf
       refine ⟨rfl, ?_, rfl⟩
       simp [emitByte, pushFixup, EmitState.init, MCFixup.create])
    | (intro f hf
       simp only [emitByte_fixups, EmitState.init_fixups, apply_ite EmitState.fixups,
         ite_self] at hf
       exact absurd hf (List.not_mem_nil f))

theorem enc_ADD8ao_fixups (name : String) (mi : Inst) (r : EmitState)
    (h : enc_ADD8ao name mi = Except.ok r) :
    ∀ f ∈ r.fixups, f.kind = MCFixupKind.fixup_16 ∧ f.offset + 2 ≤ r.bytes.length ∧
      (r.bytes.drop f.offset).take 2 = [0, 0] := by
  unfold enc_ADD8ao at h
  repeat' split at h
  all_goals cases h
  all_goals first
    | exact fun f hf => absurd hf (List.not_mem_nil f)
    | (intro f hf
       obtain rfl := List.mem_singleton.mp hf
       refine ⟨rfl, ?_, rfl⟩
       simp [emitByte, pushFixup, EmitState.init, MCFixup.create])
    | (intro f hf
       simp only [emitByte_fixups, EmitState.init_fixups, apply_ite EmitState.fixups,
         ite_self] at hf
       exact absurd hf (List.not_mem_nil f))

theorem enc_ADD8ap_fixups (name : String) (mi : Inst) (r : EmitState)
    (h : enc_ADD8ap name mi = Except.ok r) :
    ∀ f ∈ r.fixups, f.kind = MCFixupKind.fixup_16 ∧ f.offset + 2 ≤ r.bytes.length ∧
      (r.bytes.drop f.offset).take 2 = [0, 0] := by
  unfold enc_ADD8ap at h
  repeat' split at h
  all_goals cases h
  all_goals first
    | exact fun f hf => absurd hf (List.not_mem_nil f)
    | (intro f hf
       obtain rfl := List.mem_singleton.mp hf
       refine ⟨rfl, ?_, rfl⟩
       simp [emitByte, pushFixup, EmitState.init, MCFixup.create])
    | (intro f hf
       simp only [emitByte_fixups, EmitState.init_fixups, apply_ite EmitState.fixups,
         ite_self] at hf
       exact absurd hf (List.not_mem_nil f))

theorem enc_ADD8ar_fixups (name : String) (mi : Inst) (r : EmitState)
    (h : enc_ADD8ar name mi = Except.ok r) :
    ∀ f ∈ r.fixups, f.kind = MCFixupKind.fixup_16 ∧ f.offset + 2 ≤ r.bytes.length ∧
      (r.bytes.drop f.offset).take 2 = [0, 0] := by
  unfold enc_ADD8ar at h
  repeat' split at h
  all_goals cases h
  all_goals first
    | exact fun f hf => absurd hf (List.not_mem_nil f)
    | (intro f hf
       obtain rfl := List.mem_singleton.mp hf
       refine ⟨rfl, ?_, rfl⟩
       simp [emitByte, pushFixup, EmitState.init, MCFixup.create])
    | (intro f hf
       simp only [emitByte_fixups, EmitState.init_fixups, apply_ite EmitState.fixups,
         ite_self] at hf
       exact absurd hf (List.not_mem_nil f))

theorem enc_AND8ai_fixups (name : String) (mi : Inst) (r : EmitState)
    (h : enc_AND8ai name mi = Except.ok r) :
    ∀ f ∈ r.fixups, f.kind = MCFixupKind.fixup_16 ∧ f.offset + 2 ≤ r.bytes.length ∧
      (r.bytes.drop f.offset).take 2 = [0, 0] := by
  unfold enc_AND8ai at h
  repeat' split at h
  all_goals cases h
  all_goals first
    | exact fun f hf => absurd hf (List.not_mem_nil f)
    | (intro f hf
       obtain rfl := List.mem_singleton.mp hf
       refine ⟨rfl, ?_, rfl⟩
       simp [emitByte, pushFixup, EmitState.init, MCFixup.create])
    | (intro f hf
       simp only [emitByte_fixups, EmitState.init_fixups, apply_ite EmitState.fixups,
         ite_self] at hf
       exact absurd hf (List.not_mem_nil f))

theorem enc_AND8ao_fixups (name : String) (mi : Inst) (r : EmitState)
    (h : enc_AND8ao name mi = Except.ok r) :
    ∀ f ∈ r.fixups, f.kind = MCFixupKind.fixup_16 ∧ f.offset + 2 ≤ r.bytes.length ∧
      (r.bytes.drop f.offset).take 2 = [0, 0] := by
  unfold enc_AND8ao at h
  repeat' split at h
  all_goals cases h
  all_goals first
    | exact fun f hf => absurd hf (List.not_mem_nil f)
    | (intro f hf
       obtain rfl := List.mem_singleton.mp hf
       refine ⟨rfl, ?_, rfl⟩
       simp [emitByte, pushFixup, EmitState.init, MCFixup.create])
    | (intro f hf
       simp only [emitByte_fixups, EmitState.init_fixups, apply_ite EmitState.fixups,
         ite_self] at hf
       exact absurd hf (List.not_mem_nil f))

theorem enc_AND8ap_fixups (name : String) (mi : Inst) (r : EmitState)
    (h : enc_AND8ap name mi = Except.ok r) :
    ∀ f ∈ r.fixups, f.kind = MCFixupKind.fixup_16 ∧ f.offset + 2 ≤ r.bytes.length ∧
      (r.bytes.drop f.offset).take 2 = [0, 0] := by
  unfold enc_AND8ap at h
  repeat' split at h
  all_goals cases h
  all_goals first
    | exact fun f hf => absurd hf (List.not_mem_nil f)
    | (intro f hf
       obtain rfl := List.mem_singleton.mp hf
       refine ⟨rfl, ?_, rfl⟩
       simp [emitByte, pushFixup, EmitState.init, MCFixup.create])
    | (intro f hf
       simp only [emitByte_fixups, EmitState.init_fixups, apply_ite EmitState.fixups,
         ite_self] at hf
       exact absurd hf (List.not_mem_nil f))

theorem enc_AND8ar_fixups (name : String) (mi : Inst) (r : EmitState)
    (h : enc_AND8ar name mi = Except.ok r) :
    ∀ f ∈ r.fixups, f.kind = MCFixupKind.fixup_16 ∧ f.offset + 2 ≤ r.bytes.length ∧
      (r.bytes.drop f.offset).take 2 = [0, 0] := by
  unfold enc_AND8ar at h
  repeat' split at h
  all_goals cases h
  all_goals first
    | exact fun f hf => absurd hf (List.not_mem_nil f)
    | (intro f hf
       obtain rfl := List.mem_singleton.mp hf
       refine ⟨rfl, ?_, rfl⟩
       simp [emitByte, pushFixup, EmitState.init, MCFixup.create])
    | (intro f hf
       simp only [emitByte_fixups, EmitState.init_fixups, apply_ite EmitState.fixups,
         ite_self] at hf
       exact absurd hf (List.not_mem_nil f))

theorem enc_BIT8bg_fixups (name : String) (mi : Inst) (r : EmitState)
    (h : enc_BIT8bg name mi = Except.ok r) :
    ∀ f ∈ r.fixups, f.kind = MCFixupKind.fixup_16 ∧ f.offset + 2 ≤ r.bytes.length ∧
      (r.bytes.drop f.offset).take 2 = [0, 0] := by
  unfold enc_BIT8bg at h
  repeat' split at h
  all_goals cases h
  all_goals first
    | exact fun f hf => absurd hf (List.not_mem_nil f)
    | (intro f hf
       obtain rfl := List.mem_singleton.mp hf
       refine ⟨rfl, ?_, rfl⟩
       simp [emitByte, pushFixup, EmitState.init, MCFixup.create])
    | (intro f hf
       simp only [emitByte_fixups, EmitState.init_fixups, apply_ite EmitState.fixups,
         ite_self] at hf
       exact absurd hf (List.not_mem_nil f))

theorem enc_BIT8bo_fixups (name : String) (mi : Inst) (r : EmitState)
    (h : enc_BIT8bo name mi = Except.ok r) :
    ∀ f ∈ r.fixups, f.kind = MCFixupKind.fixup_16 ∧ f.offset + 2 ≤ r.bytes.length ∧
      (r.bytes.drop f.offset).take 2 = [0, 0] := by
  unfold enc_BIT8bo at h
  repeat' split at h
  all_goals cases h
  all_goals first
    | exact fun f hf => absurd hf (List.not_mem_nil f)
    | (intro f hf
       obtain rfl := List.mem_singleton.mp hf
       refine ⟨rfl, ?_, rfl⟩
       simp [emitByte, pushFixup, EmitState.init, MCFixup.create])
    | (intro f hf
       simp only [emitByte_fixups, EmitState.init_fixups, apply_ite EmitState.fixups,
         ite_self] at hf
       exact absurd hf (List.not_mem_nil f))

theorem enc_BIT8bp_fixups (name : String) (mi : Inst) (r : EmitState)
    (h : enc_BIT8bp name mi = Except.ok r) :
    ∀ f ∈ r.fixups, f.kind = MCFixupKind.fixup_16 ∧ f.offset + 2 ≤ r.bytes.length ∧
      (r.bytes.drop f.offset).take 2 = [0, 0] := by
  unfold enc_BIT8bp at h
  repeat' split at h
  all_goals cases h
  all_goals first
    | exact fun f hf => absurd hf (List.not_mem_nil f)
    | (intro f hf
       obtain rfl := List.mem_singleton.mp hf
       refine ⟨rfl, ?_, rfl⟩
       simp [emitByte, pushFixup, EmitState.init, MCFixup.create])
    | (intro f hf
       simp only [emitByte_fixups, EmitState.init_fixups, apply_ite EmitState.fixups,
         ite_self] at hf
       exact absurd hf (List.not_mem_nil f))

theorem enc_CALL16_fixups (name : String) (mi : Inst) (r : EmitState)
    (h : enc_CALL16 name mi = Except.ok r) :
    ∀ f ∈ r.fixups, f.kind = MCFixupKind.fixup_16 ∧ f.offset + 2 ≤ r.bytes.length ∧
      (r.bytes.drop f.offset).take 2 = [0, 0] := by
  unfold enc_CALL16 at h
  repeat' split at h
  all_goals cases h
  all_goals first
    | exact fun f hf => absurd hf (List.not_mem_nil f)
    | (intro f hf
       obtain rfl := List.mem_singleton.mp hf
       refine ⟨rfl, ?_, rfl⟩
       simp [emitByte, pushFixup, EmitState.init, MCFixup.create])
    | (intro f hf
       simp only [emitByte_fixups, EmitState.init_fixups, apply_ite EmitState.fixups,
         ite_self] at hf
       exact absurd hf (List.not_mem_nil f))

theorem enc_CALL16CC_fixups (name : String) (mi : Inst) (r : EmitState)
    (h : enc_CALL16CC name mi = Except.ok r) :
    ∀ f ∈ r.fixups, f.kind = MCFixupKind.fixup_16 ∧ f.offset + 2 ≤ r.bytes.length ∧
      (r.bytes.drop f.offset).take 2 = [0, 0] := by
  unfold enc_CALL16CC at h
  repeat' split at h
  all_goals cases h
  all_goals first
    | exact fun f hf => absurd hf (List.not_mem_nil f)
    | (intro f hf
       obtain rfl := List.mem_singleton.mp hf
       refine ⟨rfl, ?_, rfl⟩
       simp [emitByte, pushFixup, EmitState.init, MCFixup.create])
    | (intro f hf
       simp only [emitByte_fixups, EmitState.init_fixups, apply_ite EmitState.fixups,
         ite_self] at hf
       exact absurd hf (List.not_mem_nil f))

theorem enc_CCF_fixups (name : String) (mi : Inst) (r : EmitState)
    (h : enc_CCF name mi = Except.ok r) :
    ∀ f ∈ r.fixups, f.kind = MCFixupKind.fixup_16 ∧ f.offset + 2 ≤ r.bytes.length ∧
      (r.bytes.drop f.offset).take 2 = [0, 0] := by
  unfold enc_CCF at h
  repeat' split at h
  all_goals cases h
  all_goals first
    | exact fun f hf => absurd hf (List.not_mem_nil f)
    | (intro f hf
       obtain rfl := List.mem_singleton.mp hf
       refine ⟨rfl, ?_, rfl⟩
       simp [emitByte, pushFixup, EmitState.init, MCFixup.create])
    | (intro f hf
       simp only [emitByte_fixups, EmitState.init_fixups, apply_ite EmitState.fixups,
         ite_self] at hf
       exact absurd hf (List.not_mem_nil f))

theorem enc_CP8ai_fixups (name : String) (mi : Inst) (r : EmitState)
    (h : enc_CP8ai name mi = Except.ok r) :
    ∀ f ∈ r.fixups, f.kind = MCFixupKind.fixup_16 ∧ f.offset + 2 ≤ r.bytes.length ∧
      (r.bytes.drop f.offset).take 2 = [0, 0] := by
  unfold enc_CP8ai at h
  repeat' split at h
  all_goals cases h
  all_goals first
    | exact fun f hf => absurd hf (List.not_mem_nil f)
    | (intro f hf
       obtain rfl := List.mem_singleton.mp hf
       refine ⟨rfl, ?_, rfl⟩
       simp [emitByte, pushFixup, EmitState.init, MCFixup.create])
    | (intro f hf
       simp only [emitByte_fixups, EmitState.init_fixups, apply_ite EmitState.fixups,
         ite_self] at hf
       exact absurd hf (List.not_mem_nil f))

theorem enc_CP8ao_fixups (name : String) (mi : Inst) (r : EmitState)
    (h : enc_CP8ao name mi = Except.ok r) :
    ∀ f ∈ r.fixups, f.kind = MCFixupKind.fixup_16 ∧ f.offset + 2 ≤ r.bytes.length ∧
      (r.bytes.drop f.offset).take 2 = [0, 0] := by
  unfold enc_CP8ao at h
  repeat' split at h
  all_goals cases h
  all_goals first
    | exact fun f hf => absurd hf (List.not_mem_nil f)
    | (intro f hf
       obtain rfl := List.mem_singleton.mp hf
       refine ⟨rfl, ?_, rfl⟩
       simp [emitByte, pushFixup, EmitState.init, MCFixup.create])
    | (intro f hf
       simp only [emitByte_fixups, EmitState.init_fixups, apply_ite EmitState.fixups,
         ite_self] at hf
       exact absurd hf (List.not_mem_nil f))

theorem enc_CP8ap_fixups (name : String) (mi : Inst) (r : EmitState)
    (h : enc_CP8ap name mi = Except.ok r) :
    ∀ f ∈ r.fixups, f.kind = MCFixupKind.fixup_16 ∧ f.offset + 2 ≤ r.bytes.length ∧
      (r.bytes.drop f.offset).take 2 = [0, 0] := by
  unfold enc_CP8ap at h
  repeat' split at h
  all_goals cases h
  all_goals first
    | exact fun f hf => absurd hf (List.not_mem_nil f)
    | (intro f hf
       obtain rfl := List.mem_singleton.mp hf
       refine ⟨rfl, ?_, rfl⟩
       simp [emitByte, pushFixup, EmitState.init, MCFixup.create])
    | (intro f hf
       simp only [emitByte_fixups, EmitState.init_fixups, apply_ite EmitState.fixups,
         ite_self] at hf
       exact absurd hf (List.not_mem_nil f))

theorem enc_CP8ar_fixups (name : String) (mi : Inst) (r : EmitState)
    (h : enc_CP8ar name mi = Except.ok r) :
    ∀ f ∈ r.fixups, f.kind = MCFixupKind.fixup_16 ∧ f.offset + 2 ≤ r.bytes.length ∧
      (r.bytes.drop f.offset).take 2 = [0, 0] := by
  unfold enc_CP8ar at h
  repeat' split at h
  all_goals cases h
  all_goals first
    | exact fun f hf => absurd hf (List.not_mem_nil f)
    | (intro f hf
       obtain rfl := List.mem_singleton.mp hf
       refine ⟨rfl, ?_, rfl⟩
       simp [emitByte, pushFixup, EmitState.init, MCFixup.create])
    | (intro f hf
       simp only [emitByte_fixups, EmitState.init_fixups, apply_ite EmitState.fixups,
         ite_self] at hf
       exact absurd hf (List.not_mem_nil f))

theorem enc_CPD16_fixups (name : String) (mi : Inst) (r : EmitState)
    (h : enc_CPD16 name mi = Except.ok r) :
    ∀ f ∈ r.fixups, f.kind = MCFixupKind.fixup_16 ∧ f.offset + 2 ≤ r.bytes.length ∧
      (r.bytes.drop f.offset).take 2 = [0, 0] := by
  unfold enc_CPD16 at h
  repeat' split at h
  all_goals cases h
  all_goals first
    | exact fun f hf => absurd hf (List.not_mem_nil f)
    | (intro f hf
       obtain rfl := List.mem_singleton.mp hf
       refine ⟨rfl, ?_, rfl⟩
       simp [emitByte, pushFixup, EmitState.init, MCFixup.create])
    | (intro f hf
       simp only [emitByte_fixups, EmitState.init_fixups, apply_ite EmitState.fixups,
         ite_self] at hf
       exact absurd hf (List.not_mem_nil f))

theorem enc_CPDR16_fixups (name : String) (mi : Inst) (r : EmitState)
    (h : enc_CPDR16 name mi = Except.ok r) :
    ∀ f ∈ r.fixups, f.kind = MCFixupKind.fixup_16 ∧ f.offset + 2 ≤ r.bytes.length ∧
      (r.bytes.drop f.offset).take 2 = [0, 0] := by
  unfold enc_CPDR16 at h
  repeat' split at h
  all_goals cases h
  all_goals first
    | exact fun f hf => absurd hf (List.not_mem_nil f)
    | (intro f hf
       obtain rfl := List.mem_singleton.mp hf
       refine ⟨rfl, ?_, rfl⟩
       simp [emitByte, pushFixup, EmitState.init, MCFixup.create])
    | (intro f hf
       simp only [emitByte_fixups, EmitState.init_fixups, apply_ite EmitState.fixups,
         ite_self] at hf
       exact absurd hf (List.not_mem_nil f))

theorem enc_CPI16_fixups (name : String) (mi : Inst) (r : EmitState)
    (h : enc_CPI16 name mi = Except.ok r) :
    ∀ f ∈ r.fixups, f.kind = MCFixupKind.fixup_16 ∧ f.offset + 2 ≤ r.bytes.length ∧
      (r.bytes.drop f.offset).take 2 = [0, 0] := by
  unfold enc_CPI16 at h
  repeat' split at h
  all_goals cases h
  all_goals first
    | exact fun f hf => absurd hf (List.not_mem_nil f)
    | (intro f hf
       obtain rfl := List.mem_singleton.mp hf
       refine ⟨rfl, ?_, rfl⟩
       simp [emitByte, pushFixup, EmitState.init, MCFixup.create])
    | (intro f hf
       simp only [emitByte_fixups, EmitState.init_fixups, apply_ite EmitState.fixups,
         ite_self] at hf
       exact absurd hf (List.not_mem_nil f))

theorem enc_CPIR16_fixups (name : String) (mi : Inst) (r : EmitState)
    (h : enc_CPIR16 name mi = Except.ok r) :
    ∀ f ∈ r.fixups, f.kind = MCFixupKind.fixup_16 ∧ f.offset + 2 ≤ r.bytes.length ∧
      (r.bytes.drop f.offset).take 2 = [0, 0] := by
  unfold enc_CPIR16 at h
  repeat' split at h
  all_goals cases h
  all_goals first
    | exact fun f hf => absurd hf (List.not_mem_nil f)
    | (intro f hf
       obtain rfl := List.mem_singleton.mp hf
       refine ⟨rfl, ?_, rfl⟩
       simp [emitByte, pushFixup, EmitState.init, MCFixup.create])
    | (intro f hf
       simp only [emitByte_fixups, EmitState.init_fixups, apply_ite EmitState.fixups,
         ite_self] at hf
       exact absurd hf (List.not_mem_nil f))

theorem enc_CPL_fixups (name : String) (mi : Inst) (r : EmitState)
    (h : enc_CPL name mi = Except.ok r) :
    ∀ f ∈ r.fixups, f.kind = MCFixupKind.fixup_16 ∧ f.offset + 2 ≤ r.bytes.length ∧
      (r.bytes.drop f.offset).take 2 = [0, 0] := by
  unfold enc_CPL at h
  repeat' split at h
  all_goals cases h
  all_goals first
    | exact fun f hf => absurd hf (List.not_mem_nil f)
    | (intro f hf
       obtain rfl := List.mem_singleton.mp hf
       refine ⟨rfl, ?_, rfl⟩
       simp [emitByte, pushFixup, EmitState.init, MCFixup.create])
    | (intro f hf
       simp only [emitByte_fixups, EmitState.init_fixups, apply_ite EmitState.fixups,
         ite_self] at hf
       exact absurd hf (List.not_mem_nil f))

theorem enc_DEC16SP_fixups (name : String) (mi : Inst) (r : EmitState)
    (h : enc_DEC16SP name mi = Except.ok r) :
    ∀ f ∈ r.fixups, f.kind = MCFixupKind.fixup_16 ∧ f.offset + 2 ≤ r.bytes.length ∧
      (r.bytes.drop f.offset).take 2 = [0, 0] := by
  unfold enc_DEC16SP at h
  repeat' split at h
  all_goals cases h
  all_goals first
    | exact fun f hf => absurd hf (List.not_mem_nil f)
    | (intro f hf
       obtain rfl := List.mem_singleton.mp hf
       refine ⟨rfl, ?_, rfl⟩
       simp [emitByte, pushFixup, EmitState.init, MCFixup.create])
    | (intro f hf
       simp only [emitByte_fixups, EmitState.init_fixups, apply_ite EmitState.fixups,
         ite_self] at hf
       exact absurd hf (List.not_mem_nil f))

theorem enc_DEC16r_fixups (name : String) (mi : Inst) (r : EmitState)
    (h : enc_DEC16r name mi = Except.ok r) :
    ∀ f ∈ r.fixups, f.kind = MCFixupKind.fixup_16 ∧ f.offset + 2 ≤ r.bytes.length ∧
      (r.bytes.drop f.offset).take 2 = [0, 0] := by
  unfold enc_DEC16r at h
  repeat' split at h
  all_goals cases h
  all_goals first
    | exact fun f hf => absurd hf (List.not_mem_nil f)
    | (intro f hf
       obtain rfl := List.mem_singleton.mp hf
       refine ⟨rfl, ?_, rfl⟩
       simp [emitByte, pushFixup, EmitState.init, MCFixup.create])
    | (intro f hf
       simp only [emitByte_fixups, EmitState.init_fixups, apply_ite EmitState.fixups,
         ite_self] at hf
       exact absurd hf (List.not_mem_nil f))

theorem enc_DEC8o_fixups (name : String) (mi : Inst) (r : EmitState)
    (h : enc_DEC8o name mi = Except.ok r) :
    ∀ f ∈ r.fixups, f.kind = MCFixupKind.fixup_16 ∧ f.offset + 2 ≤ r.bytes.length ∧
      (r.bytes.drop f.offset).take 2 = [0, 0] := by
  unfold enc_DEC8o at h
  repeat' split at h
  all_goals cases h
  all_goals first
    | exact fun f hf => absurd hf (List.not_mem_nil f)
    | (intro f hf
       obtain rfl := List.mem_singleton.mp hf
       refine ⟨rfl, ?_, rfl⟩
       simp [emitByte, pushFixup, EmitState.init, MCFixup.create])
    | (intro f hf
       simp only [emitByte_fixups, EmitState.init_fixups, apply_ite EmitState.fixups,
         ite_self] at hf
       exact absurd hf (List.not_mem_nil f))

theorem enc_DEC8p_fixups (name : String) (mi : Inst) (r : EmitState)
    (h : enc_DEC8p name mi = Except.ok r) :
    ∀ f ∈ r.fixups, f.kind = MCFixupKind.fixup_16 ∧ f.offset + 2 ≤ r.bytes.length ∧
      (r.bytes.drop f.offset).take 2 = [0, 0] := by
  unfold enc_DEC8p at h
  repeat' split at h
  all_goals cases h
  all_goals first
    | exact fun f hf => absurd hf (List.not_mem_nil f)
    | (intro f hf
       obtain rfl := List.mem_singleton.mp hf
       refine ⟨rfl, ?_, rfl⟩
       simp [emitByte, pushFixup, EmitState.init, MCFixup.create])
    | (intro f hf
       simp only [emitByte_fixups, EmitState.init_fixups, apply_ite EmitState.fixups,
         ite_self] at hf
       exact absurd hf (List.not_mem_nil f))

theorem enc_DEC8r_fixups (name : String) (mi : Inst) (r : EmitState)
    (h : enc_DEC8r name mi = Except.ok r) :
    ∀ f ∈ r.fixups, f.kind = MCFixupKind.fixup_16 ∧ f.offset + 2 ≤ r.bytes.length ∧
      (r.bytes.drop f.offset).take 2 = [0, 0] := by
  unfold enc_DEC8r at h
  repeat' split at h
  all_goals cases h
  all_goals first
    | exact fun f hf => absurd hf (List.not_mem_nil f)
    | (intro f hf
       obtain rfl := List.mem_singleton.mp hf
       refine ⟨rfl, ?_, rfl⟩
       simp [emitByte, pushFixup, EmitState.init, MCFixup.create])
    | (intro f hf
       simp only [emitByte_fixups, EmitState.init_fixups, apply_ite EmitState.fixups,
         ite_self] at hf
       exact absurd hf (List.not_mem_nil f))

theorem enc_DI_fixups (name : String) (mi : Inst) (r : EmitState)
    (h : enc_DI name mi = Except.ok r) :
    ∀ f ∈ r.fixups, f.kind = MCFixupKind.fixup_16 ∧ f.offset + 2 ≤ r.bytes.length ∧
      (r.bytes.drop f.offset).take 2 = [0, 0] := by
  unfold enc_DI at h
  repeat' split at h
  all_goals cases h
  all_goals first
    | exact fun f hf => absurd hf (List.not_mem_nil f)
    | (intro f hf
       obtain rfl := List.mem_singleton.mp hf
       refine ⟨rfl, ?_, rfl⟩
       simp [emitByte, pushFixup, EmitState.init, MCFixup.create])
    | (intro f hf
       simp only [emitByte_fixups, EmitState.init_fixups, apply_ite EmitState.fixups,
         ite_self] at hf
       exact absurd hf (List.not_mem_nil f))

theorem enc_EI_fixups (name : String) (mi : Inst) (r : EmitState)
    (h : enc_EI name mi = Except.ok r) :
    ∀ f ∈ r.fixups, f.kind = MCFixupKind.fixup_16 ∧ f.offset + 2 ≤ r.bytes.length ∧
      (r.bytes.drop f.offset).take 2 = [0, 0] := by
  unfold enc_EI at h
  repeat' split at h
  all_goals cases h
  all_goals first
    | exact fun f hf => absurd hf (List.not_mem_nil f)
    | (intro f hf
       obtain rfl := List.mem_singleton.mp hf
       refine ⟨rfl, ?_, rfl⟩
       simp [emitByte, pushFixup, EmitState.init, MCFixup.create])
    | (intro f hf
       simp only [emitByte_fixups, EmitState.init_fixups, apply_ite EmitState.fixups,
         ite_self] at hf
       exact absurd hf (List.not_mem_nil f))

theorem enc_EX16DE_fixups (name : String) (mi : Inst) (r : EmitState)
    (h : enc_EX16DE name mi = Except.ok r) :
    ∀ f ∈ r.fixups, f.kind = MCFixupKind.fixup_16 ∧ f.offset + 2 ≤ r.bytes.length ∧
      (r.bytes.drop f.offset).take 2 = [0, 0] := by
  unfold enc_EX16DE at h
  repeat' split at h
  all_goals cases h
  all_goals first
    | exact fun f hf => absurd hf (List.not_mem_nil f)
    | (intro f hf
       obtain rfl := List.mem_singleton.mp hf
       refine ⟨rfl, ?_, rfl⟩
       simp [emitByte, pushFixup, EmitState.init, MCFixup.create])
    | (intro f hf
       simp only [emitByte_fixups, EmitState.init_fixups, apply_ite EmitState.fixups,
         ite_self] at hf
       exact absurd hf (List.not_mem_nil f))

theorem enc_EX16SP_fixups (name : String) (mi : Inst) (r : EmitState)
    (h : enc_EX16SP name mi = Except.ok r) :
    ∀ f ∈ r.fixups, f.kind = MCFixupKind.fixup_16 ∧ f.offset + 2 ≤ r.bytes.length ∧
      (r.bytes.drop f.offset).take 2 = [0, 0] := by
  unfold enc_EX16SP at h
  repeat' split at h
  all_goals cases h
  all_goals first
    | exact fun f hf => absurd hf (List.not_mem_nil f)
    | (intro f hf
       obtain rfl := List.mem_singleton.mp hf
       refine ⟨rfl, ?_, rfl⟩
       simp [emitByte, pushFixup, EmitState.init, MCFixup.create])
    | (intro f hf
       simp only [emitByte_fixups, EmitState.init_fixups, apply_ite EmitState.fixups,
         ite_self] at hf
       exact absurd hf (List.not_mem_nil f))

theorem enc_EXAF_fixups (name : String) (mi : Inst) (r : EmitState)
    (h : enc_EXAF name mi = Except.ok r) :
    ∀ f ∈ r.fixups, f.kind = MCFixupKind.fixup_16 ∧ f.offset + 2 ≤ r.bytes.length ∧
      (r.bytes.drop f.offset).take 2 = [0, 0] := by
  unfold enc_EXAF at h
  repeat' split at h
  all_goals cases h
  all_goals first
    | exact fun f hf => absurd hf (List.not_mem_nil f)
    | (intro f hf
       obtain rfl := List.mem_singleton.mp hf
       refine ⟨rfl, ?_, rfl⟩
       simp [emitByte, pushFixup, EmitState.init, MCFixup.create])
    | (intro f hf
       simp only [emitByte_fixups, EmitState.init_fixups, apply_ite EmitState.fixups,
         ite_self] at hf
       exact absurd hf (List.not_mem_nil f))

theorem enc_EXX_fixups (name : String) (mi : Inst) (r : EmitState)
    (h : enc_EXX name mi = Except.ok r) :
    ∀ f ∈ r.fixups, f.kind = MCFixupKind.fixup_16 ∧ f.offset + 2 ≤ r.bytes.length ∧
      (r.bytes.drop f.offset).take 2 = [0, 0] := by
  unfold enc_EXX at h
  repeat' split at h
  all_goals cases h
  all_goals first
    | exact fun f hf => absurd hf (List.not_mem_nil f)
    | (intro f hf
       obtain rfl := List.mem_singleton.mp hf
       refine ⟨rfl, ?_, rfl⟩
       simp [emitByte, pushFixup, EmitState.init, MCFixup.create])
    | (intro f hf
       simp only [emitByte_fixups, EmitState.init_fixups, apply_ite EmitState.fixups,
         ite_self] at hf
       exact absurd hf (List.not_mem_nil f))

theorem enc_INC16SP_fixups (name : String) (mi : Inst) (r : EmitState)
    (h : enc_INC16SP name mi = Except.ok r) :
    ∀ f ∈ r.fixups, f.kind = MCFixupKind.fixup_16 ∧ f.offset + 2 ≤ r.bytes.length ∧
      (r.bytes.drop f.offset).take 2 = [0, 0] := by
  unfold enc_INC16SP at h
  repeat' split at h
  all_goals cases h
  all_goals first
    | exact fun f hf => absurd hf (List.not_mem_nil f)
    | (intro f hf
       obtain rfl := List.mem_singleton.mp hf
       refine ⟨rfl, ?_, rfl⟩
       simp [emitByte, pushFixup, EmitState.init, MCFixup.create])
    | (intro f hf
       simp only [emitByte_fixups, EmitState.init_fixups, apply_ite EmitState.fixups,
         ite_self] at hf
       exact absurd hf (List.not_mem_nil f))

theorem enc_INC16r_fixups (name : String) (mi : Inst) (r : EmitState)
    (h : enc_INC16r name mi = Except.ok r) :
    ∀ f ∈ r.fixups, f.kind = MCFixupKind.fixup_16 ∧ f.offset + 2 ≤ r.bytes.length ∧
      (r.bytes.drop f.offset).take 2 = [0, 0] := by
  unfold enc_INC16r at h
  repeat' split at h
  all_goals cases h
  all_goals first
    | exact fun f hf => absurd hf (List.not_mem_nil f)
    | (intro f hf
       obtain rfl := List.mem_singleton.mp hf
       refine ⟨rfl, ?_, rfl⟩
       simp [emitByte, pushFixup, EmitState.init, MCFixup.create])
    | (intro f hf
       simp only [emitByte_fixups, EmitState.init_fixups, apply_ite EmitState.fixups,
         ite_self] at hf
       exact absurd hf (List.not_mem_nil f))

theorem enc_INC8o_fixups (name : String) (mi : Inst) (r : EmitState)
    (h : enc_INC8o name mi = Except.ok r) :
    ∀ f ∈ r.fixups, f.kind = MCFixupKind.fixup_16 ∧ f.offset + 2 ≤ r.bytes.length ∧
      (r.bytes.drop f.offset).take 2 = [0, 0] := by
  unfold enc_INC8o at h
  repeat' split at h
  all_goals cases h
  all_goals first
    | exact fun f hf => absurd hf (List.not_mem_nil f)
    | (intro f hf
       obtain rfl := List.mem_singleton.mp hf
       refine ⟨rfl, ?_, rfl⟩
       simp [emitByte, pushFixup, EmitState.init, MCFixup.create])
    | (intro f hf
       simp only [emitByte_fixups, EmitState.init_fixups, apply_ite EmitState.fixups,
         ite_self] at hf
       exact absurd hf (List.not_mem_nil f))

theorem enc_INC8p_fixups (name : String) (mi : Inst) (r : EmitState)
    (h : enc_INC8p name mi = Except.ok r) :
    ∀ f ∈ r.fixups, f.kind = MCFixupKind.fixup_16 ∧ f.offset + 2 ≤ r.bytes.length ∧
      (r.bytes.drop f.offset).take 2 = [0, 0] := by
  unfold enc_INC8p at h
  repeat' split at h
  all_goals cases h
  all_goals first
    | exact fun f hf => absurd hf (List.not_mem_nil f)
    | (intro f hf
       obtain rfl := List.mem_singleton.mp hf
       refine ⟨rfl, ?_, rfl⟩
       simp [emitByte, pushFixup, EmitState.init, MCFixup.create])
    | (intro f hf
       simp only [emitByte_fixups, EmitState.init_fixups, apply_ite EmitState.fixups,
         ite_self] at hf
       exact absurd hf (List.not_mem_nil f))

theorem enc_INC8r_fixups (name : String) (mi : Inst) (r : EmitState)
    (h : enc_INC8r name mi = Except.ok r) :
    ∀ f ∈ r.fixups, f.kind = MCFixupKind.fixup_16 ∧ f.offset + 2 ≤ r.bytes.length ∧
      (r.bytes.drop f.offset).take 2 = [0, 0] := by
  unfold enc_INC8r at h
  repeat' split at h
  all_goals cases h
  all_goals first
    | exact fun f hf => absurd hf (List.not_mem_nil f)
    | (intro f hf
       obtain rfl := List.mem_singleton.mp hf
       refine ⟨rfl, ?_, rfl⟩
       simp [emitByte, pushFixup, EmitState.init, MCFixup.create])
    | (intro f hf
       simp only [emitByte_fixups, EmitState.init_fixups, apply_ite EmitState.fixups,
         ite_self] at hf
       exact absurd hf (List.not_mem_nil f))

theorem enc_IND16_fixups (name : String) (mi : Inst) (r : EmitState)
    (h : enc_IND16 name mi = Except.ok r) :
    ∀ f ∈ r.fixups, f.kind = MCFixupKind.fixup_16 ∧ f.offset + 2 ≤ r.bytes.length ∧
      (r.bytes.drop f.offset).take 2 = [0, 0] := by
  unfold enc_IND16 at h
  repeat' split at h
  all_goals cases h
  all_goals first
    | exact fun f hf => absurd hf (List.not_mem_nil f)
    | (intro f hf
       obtain rfl := List.mem_singleton.mp hf
       refine ⟨rfl, ?_, rfl⟩
       simp [emitByte, pushFixup, EmitState.init, MCFixup.create])
    | (intro f hf
       simp only [emitByte_fixups, EmitState.init_fixups, apply_ite EmitState.fixups,
         ite_self] at hf
       exact absurd hf (List.not_mem_nil f))

theorem enc_INDR16_fixups (name : String) (mi : Inst) (r : EmitState)
    (h : enc_INDR16 name mi = Except.ok r) :
    ∀ f ∈ r.fixups, f.kind = MCFixupKind.fixup_16 ∧ f.offset + 2 ≤ r.bytes.length ∧
      (r.bytes.drop f.offset).take 2 = [0, 0] := by
  unfold enc_INDR16 at h
  repeat' split at h
  all_goals cases h
  all_goals first
    | exact fun f hf => absurd hf (List.not_mem_nil f)
    | (intro f hf
       obtain rfl := List.mem_singleton.mp hf
       refine ⟨rfl, ?_, rfl⟩
       simp [emitByte, pushFixup, EmitState.init, MCFixup.create])
    | (intro f hf
       simp only [emitByte_fixups, EmitState.init_fixups, apply_ite EmitState.fixups,
         ite_self] at hf
       exact absurd hf (List.not_mem_nil f))

theorem enc_INI16_fixups (name : String) (mi : Inst) (r : EmitState)
    (h : enc_INI16 name mi = Except.ok r) :
    ∀ f ∈ r.fixups, f.kind = MCFixupKind.fixup_16 ∧ f.offset + 2 ≤ r.bytes.length ∧
      (r.bytes.drop f.offset).take 2 = [0, 0] := by
  unfold enc_INI16 at h
  repeat' split at h
  all_goals cases h
  all_goals first
    | exact fun f hf => absurd hf (List.not_mem_nil f)
    | (intro f hf
       obtain rfl := List.mem_singleton.mp hf
       refine ⟨rfl, ?_, rfl⟩
       simp [emitByte, pushFixup, EmitState.init, MCFixup.create])
    | (intro f hf
       simp only [emitByte_fixups, EmitState.init_fixups, apply_ite EmitState.fixups,
         ite_self] at hf
       exact absurd hf (List.not_mem_nil f))

theorem enc_INIR16_fixups (name : String) (mi : Inst) (r : EmitState)
    (h : enc_INIR16 name mi = Except.ok r) :
    ∀ f ∈ r.fixups, f.kind = MCFixupKind.fixup_16 ∧ f.offset + 2 ≤ r.bytes.length ∧
      (r.bytes.drop f.offset).take 2 = [0, 0] := by
  unfold enc_INIR16 at h
  repeat' split at h
  all_goals cases h
  all_goals first
    | exact fun f hf => absurd hf (List.not_mem_nil f)
    | (intro f hf
       obtain rfl := List.mem_singleton.mp hf
       refine ⟨rfl, ?_, rfl⟩
       simp [emitByte, pushFixup, EmitState.init, MCFixup.create])
    | (intro f hf
       simp only [emitByte_fixups, EmitState.init_fixups, apply_ite EmitState.fixups,
         ite_self] at hf
       exact absurd hf (List.not_mem_nil f))

theorem enc_JP16r_fixups (name : String) (mi : Inst) (r : EmitState)
    (h : enc_JP16r name mi = Except.ok r) :
    ∀ f ∈ r.fixups, f.kind = MCFixupKind.fixup_16 ∧ f.offset + 2 ≤ r.bytes.length ∧
      (r.bytes.drop f.offset).take 2 = [0, 0] := by
  unfold enc_JP16r at h
  repeat' split at h
  all_goals cases h
  all_goals first
    | exact fun f hf => absurd hf (List.not_mem_nil f)
    | (intro f hf
       obtain rfl := List.mem_singleton.mp hf
       refine ⟨rfl, ?_, rfl⟩
       simp [emitByte, pushFixup, EmitState.init, MCFixup.create])
    | (intro f hf
       simp only [emitByte_fixups, EmitState.init_fixups, apply_ite EmitState.fixups,
         ite_self] at hf
       exact absurd hf (List.not_mem_nil f))

theorem enc_LD16SP_fixups (name : String) (mi : Inst) (r : EmitState)
    (h : enc_LD16SP name mi = Except.ok r) :
    ∀ f ∈ r.fixups, f.kind = MCFixupKind.fixup_16 ∧ f.offset + 2 ≤ r.bytes.length ∧
      (r.bytes.drop f.offset).take 2 = [0, 0] := by
  unfold enc_LD16SP at h
  repeat' split at h
  all_goals cases h
  all_goals first
    | exact fun f hf => absurd hf (List.not_mem_nil f)
    | (intro f hf
       obtain rfl := List.mem_singleton.mp hf
       refine ⟨rfl, ?_, rfl⟩
       simp [emitByte, pushFixup, EmitState.init, MCFixup.create])
    | (intro f hf
       simp only [emitByte_fixups, EmitState.init_fixups, apply_ite EmitState.fixups,
         ite_self] at hf
       exact absurd hf (List.not_mem_nil f))

theorem enc_LD16am_fixups (name : String) (mi : Inst) (r : EmitState)
    (h : enc_LD16am name mi = Except.ok r) :
    ∀ f ∈ r.fixups, f.kind = MCFixupKind.fixup_16 ∧ f.offset + 2 ≤ r.bytes.length ∧
      (r.bytes.drop f.offset).take 2 = [0, 0] := by
  unfold enc_LD16am at h
  repeat' split at h
  all_goals cases h
  all_goals first
    | exact fun f hf => absurd hf (List.not_mem_nil f)
    | (intro f hf
       obtain rfl := List.mem_singleton.mp hf
       refine ⟨rfl, ?_, rfl⟩
       simp [emitByte, pushFixup, EmitState.init, MCFixup.create])
    | (intro f hf
       simp only [emitByte_fixups, EmitState.init_fixups, apply_ite EmitState.fixups,
         ite_self] at hf
       exact absurd hf (List.not_mem_nil f))

theorem enc_LD16ma_fixups (name : String) (mi : Inst) (r : EmitState)
    (h : enc_LD16ma name mi = Except.ok r) :
    ∀ f ∈ r.fixups, f.kind = MCFixupKind.fixup_16 ∧ f.offset + 2 ≤ r.bytes.length ∧
      (r.bytes.drop f.offset).take 2 = [0, 0] := by
  unfold enc_LD16ma at h
  repeat' split at h
  all_goals cases h
  all_goals first
    | exact fun f hf => absurd hf (List.not_mem_nil f)
    | (intro f hf
       obtain rfl := List.mem_singleton.mp hf
       refine ⟨rfl, ?_, rfl⟩
       simp [emitByte, pushFixup, EmitState.init, MCFixup.create])
    | (intro f hf
       simp only [emitByte_fixups, EmitState.init_fixups, apply_ite EmitState.fixups,
         ite_self] at hf
       exact absurd hf (List.not_mem_nil f))

theorem enc_LD16mo_fixups (name : String) (mi : Inst) (r : EmitState)
    (h : enc_LD16mo name mi = Except.ok r) :
    ∀ f ∈ r.fixups, f.kind = MCFixupKind.fixup_16 ∧ f.offset + 2 ≤ r.bytes.length ∧
      (r.bytes.drop f.offset).take 2 = [0, 0] := by
  unfold enc_LD16mo at h
  repeat' split at h
  all_goals cases h
  all_goals first
    | exact fun f hf => absurd hf (List.not_mem_nil f)
    | (intro f hf
       obtain rfl := List.mem_singleton.mp hf
       refine ⟨rfl, ?_, rfl⟩
       simp [emitByte, pushFixup, EmitState.init, MCFixup.create])
    | (intro f hf
       simp only [emitByte_fixups, EmitState.init_fixups, apply_ite EmitState.fixups,
         ite_self] at hf
       exact absurd hf (List.not_mem_nil f))

theorem enc_LD16om_fixups (name : String) (mi : Inst) (r : EmitState)
    (h : enc_LD16om name mi = Except.ok r) :
    ∀ f ∈ r.fixups, f.kind = MCFixupKind.fixup_16 ∧ f.offset + 2 ≤ r.bytes.length ∧
      (r.bytes.drop f.offset).take 2 = [0, 0] := by
  unfold enc_LD16om at h
  repeat' split at h
  all_goals cases h
  all_goals first
    | exact fun f hf => absurd hf (List.not_mem_nil f)
    | (intro f hf
       obtain rfl := List.mem_singleton.mp hf
       refine ⟨rfl, ?_, rfl⟩
       simp [emitByte, pushFixup, EmitState.init, MCFixup.create])
    | (intro f hf
       simp only [emitByte_fixups, EmitState.init_fixups, apply_ite EmitState.fixups,
         ite_self] at hf
       exact absurd hf (List.not_mem_nil f))

theorem enc_LD16ri_fixups (name : String) (mi : Inst) (r : EmitState)
    (h : enc_LD16ri name mi = Except.ok r) :
    ∀ f ∈ r.fixups, f.kind = MCFixupKind.fixup_16 ∧ f.offset + 2 ≤ r.bytes.length ∧
      (r.bytes.drop f.offset).take 2 = [0, 0] := by
  unfold enc_LD16ri at h
  repeat' split at h
  all_goals cases h
  all_goals first
    | exact fun f hf => absurd hf (List.not_mem_nil f)
    | (intro f hf
       obtain rfl := List.mem_singleton.mp hf
       refine ⟨rfl, ?_, rfl⟩
       simp [emitByte, pushFixup, EmitState.init, MCFixup.create])
    | (intro f hf
       simp only [emitByte_fixups, EmitState.init_fixups, apply_ite EmitState.fixups,
         ite_self] at hf
       exact absurd hf (List.not_mem_nil f))

theorem enc_LD8am_fixups (name : String) (mi : Inst) (r : EmitState)
    (h : enc_LD8am name mi = Except.ok r) :
    ∀ f ∈ r.fixups, f.kind = MCFixupKind.fixup_16 ∧ f.offset + 2 ≤ r.bytes.length ∧
      (r.bytes.drop f.offset).take 2 = [0, 0] := by
  unfold enc_LD8am at h
  repeat' split at h
  all_goals cases h
  all_goals first
    | exact fun f hf => absurd hf (List.not_mem_nil f)
    | (intro f hf
       obtain rfl := List.mem_singleton.mp hf
       refine ⟨rfl, ?_, rfl⟩
       simp [emitByte, pushFixup, EmitState.init, MCFixup.create])
    | (intro f hf
       simp only [emitByte_fixups, EmitState.init_fixups, apply_ite EmitState.fixups,
         ite_self] at hf
       exact absurd hf (List.not_mem_nil f))

theorem enc_LD8gg_fixups (name : String) (mi : Inst) (r : EmitState)
    (h : enc_LD8gg name mi = Except.ok r) :
    ∀ f ∈ r.fixups, f.kind = MCFixupKind.fixup_16 ∧ f.offset + 2 ≤ r.bytes.length ∧
      (r.bytes.drop f.offset).take 2 = [0, 0] := by
  unfold enc_LD8gg at h
  repeat' split at h
  all_goals cases h
  all_goals first
    | exact fun f hf => absurd hf (List.not_mem_nil f)
    | (intro f hf
       obtain rfl := List.mem_singleton.mp hf
       refine ⟨rfl, ?_, rfl⟩
       simp [emitByte, pushFixup, EmitState.init, MCFixup.create])
    | (intro f hf
       simp only [emitByte_fixups, EmitState.init_fixups, apply_ite EmitState.fixups,
         ite_self] at hf
       exact absurd hf (List.not_mem_nil f))

theorem enc_LD8go_fixups (name : String) (mi : Inst) (r : EmitState)
    (h : enc_LD8go name mi = Except.ok r) :
    ∀ f ∈ r.fixups, f.kind = MCFixupKind.fixup_16 ∧ f.offset + 2 ≤ r.bytes.length ∧
      (r.bytes.drop f.offset).take 2 = [0, 0] := by
  unfold enc_LD8go at h
  repeat' split at h
  all_goals cases h
  all_goals first
    | exact fun f hf => absurd hf (List.not_mem_nil f)
    | (intro f hf
       obtain rfl := List.mem_singleton.mp hf
       refine ⟨rfl, ?_, rfl⟩
       simp [emitByte, pushFixup, EmitState.init, MCFixup.create])
    | (intro f hf
       simp only [emitByte_fixups, EmitState.init_fixups, apply_ite EmitState.fixups,
         ite_self] at hf
       exact absurd hf (List.not_mem_nil f))

theorem enc_LD8gp_fixups (name : String) (mi : Inst) (r : EmitState)
    (h : enc_LD8gp name mi = Except.ok r) :
    ∀ f ∈ r.fixups, f.kind = MCFixupKind.fixup_16 ∧ f.offset + 2 ≤ r.bytes.length ∧
      (r.bytes.drop f.offset).take 2 = [0, 0] := by
  unfold enc_LD8gp at h
  repeat' split at h
  all_goals cases h
  all_goals first
    | exact fun f hf => absurd hf (List.not_mem_nil f)
    | (intro f hf
       obtain rfl := List.mem_singleton.mp hf
       refine ⟨rfl, ?_, rfl⟩
       simp [emitByte, pushFixup, EmitState.init, MCFixup.create])
    | (intro f hf
       simp only [emitByte_fixups, EmitState.init_fixups, apply_ite EmitState.fixups,
         ite_self] at hf
       exact absurd hf (List.not_mem_nil f))

theorem enc_LD8ma_fixups (name : String) (mi : Inst) (r : EmitState)
    (h : enc_LD8ma name mi = Except.ok r) :
    ∀ f ∈ r.fixups, f.kind = MCFixupKind.fixup_16 ∧ f.offset + 2 ≤ r.bytes.length ∧
      (r.bytes.drop f.offset).take 2 = [0, 0] := by
  unfold enc_LD8ma at h
  repeat' split at h
  all_goals cases h
  all_goals first
    | exact fun f hf => absurd hf (List.not_mem_nil f)
    | (intro f hf
       obtain rfl := List.mem_singleton.mp hf
       refine ⟨rfl, ?_, rfl⟩
       simp [emitByte, pushFixup, EmitState.init, MCFixup.create])
    | (intro f hf
       simp only [emitByte_fixups, EmitState.init_fixups, apply_ite EmitState.fixups,
         ite_self] at hf
       exact absurd hf (List.not_mem_nil f))

theorem enc_LD8og_fixups (name : String) (mi : Inst) (r : EmitState)
    (h : enc_LD8og name mi = Except.ok r) :
    ∀ f ∈ r.fixups, f.kind = MCFixupKind.fixup_16 ∧ f.offset + 2 ≤ r.bytes.length ∧
      (r.bytes.drop f.offset).take 2 = [0, 0] := by
  unfold enc_LD8og at h
  repeat' split at h
  all_goals cases h
  all_goals first
    | exact fun f hf => absurd hf (List.not_mem_nil f)
    | (intro f hf
       obtain rfl := List.mem_singleton.mp hf
       refine ⟨rfl, ?_, rfl⟩
       simp [emitByte, pushFixup, EmitState.init, MCFixup.create])
    | (intro f hf
       simp only [emitByte_fixups, EmitState.init_fixups, apply_ite EmitState.fixups,
         ite_self] at hf
       exact absurd hf (List.not_mem_nil f))

theorem enc_LD8oi_fixups (name : String) (mi : Inst) (r : EmitState)
    (h : enc_LD8oi name mi = Except.ok r) :
    ∀ f ∈ r.fixups, f.kind = MCFixupKind.fixup_16 ∧ f.offset + 2 ≤ r.bytes.length ∧
      (r.bytes.drop f.offset).take 2 = [0, 0] := by
  unfold enc_LD8oi at h
  repeat' split at h
  all_goals cases h
  all_goals first
    | exact fun f hf => absurd hf (List.not_mem_nil f)
    | (intro f hf
       obtain rfl := List.mem_singleton.mp hf
       refine ⟨rfl, ?_, rfl⟩
       simp [emitByte, pushFixup, EmitState.init, MCFixup.create])
    | (intro f hf
       simp only [emitByte_fixups, EmitState.init_fixups, apply_ite EmitState.fixups,
         ite_self] at hf
       exact absurd hf (List.not_mem_nil f))

theorem enc_LD8pg_fixups (name : String) (mi : Inst) (r : EmitState)
    (h : enc_LD8pg name mi = Except.ok r) :
    ∀ f ∈ r.fixups, f.kind = MCFixupKind.fixup_16 ∧ f.offset + 2 ≤ r.bytes.length ∧
      (r.bytes.drop f.offset).take 2 = [0, 0] := by
  unfold enc_LD8pg at h
  repeat' split at h
  all_goals cases h
  all_goals first
    | exact fun f hf => absurd hf (List.not_mem_nil f)
    | (intro f hf
       obtain rfl := List.mem_singleton.mp hf
       refine ⟨rfl, ?_, rfl⟩
       simp [emitByte, pushFixup, EmitState.init, MCFixup.create])
    | (intro f hf
       simp only [emitByte_fixups, EmitState.init_fixups, apply_ite EmitState.fixups,
         ite_self] at hf
       exact absurd hf (List.not_mem_nil f))

theorem enc_LD8ri_fixups (name : String) (mi : Inst) (r : EmitState)
    (h : enc_LD8ri name mi = Except.ok r) :
    ∀ f ∈ r.fixups, f.kind = MCFixupKind.fixup_16 ∧ f.offset + 2 ≤ r.bytes.length ∧
      (r.bytes.drop f.offset).take 2 = [0, 0] := by
  unfold enc_LD8ri at h
  repeat' split at h
  all_goals cases h
  all_goals first
    | exact fun f hf => absurd hf (List.not_mem_nil f)
    | (intro f hf
       obtain rfl := List.mem_singleton.mp hf
       refine ⟨rfl, ?_, rfl⟩
       simp [emitByte, pushFixup, EmitState.init, MCFixup.create])
    | (intro f hf
       simp only [emitByte_fixups, EmitState.init_fixups, apply_ite EmitState.fixups,
         ite_self] at hf
       exact absurd hf (List.not_mem_nil f))

theorem enc_LD8pi_fixups (name : String) (mi : Inst) (r : EmitState)
    (h : enc_LD8pi name mi = Except.ok r) :
    ∀ f ∈ r.fixups, f.kind = MCFixupKind.fixup_16 ∧ f.offset + 2 ≤ r.bytes.length ∧
      (r.bytes.drop f.offset).take 2 = [0, 0] := by
  unfold enc_LD8pi at h
  repeat' split at h
  all_goals cases h
  all_goals first
    | exact fun f hf => absurd hf (List.not_mem_nil f)
    | (intro f hf
       obtain rfl := List.mem_singleton.mp hf
       refine ⟨rfl, ?_, rfl⟩
       simp [emitByte, pushFixup, EmitState.init, MCFixup.create])
    | (intro f hf
       simp only [emitByte_fixups, EmitState.init_fixups, apply_ite EmitState.fixups,
         ite_self] at hf
       exact absurd hf (List.not_mem_nil f))

theorem enc_LDD16_fixups (name : String) (mi : Inst) (r : EmitState)
    (h : enc_LDD16 name mi = Except.ok r) :
    ∀ f ∈ r.fixups, f.kind = MCFixupKind.fixup_16 ∧ f.offset + 2 ≤ r.bytes.length ∧
      (r.bytes.drop f.offset).take 2 = [0, 0] := by
  unfold enc_LDD16 at h
  repeat' split at h
  all_goals cases h
  all_goals first
    | exact fun f hf => absurd hf (List.not_mem_nil f)
    | (intro f hf
       obtain rfl := List.mem_singleton.mp hf
       refine ⟨rfl, ?_, rfl⟩
       simp [emitByte, pushFixup, EmitState.init, MCFixup.create])
    | (intro f hf
       simp only [emitByte_fixups, EmitState.init_fixups, apply_ite EmitState.fixups,
         ite_self] at hf
       exact absurd hf (List.not_mem_nil f))

theorem enc_LDDR16_fixups (name : String) (mi : Inst) (r : EmitState)
    (h : enc_LDDR16 name mi = Except.ok r) :
    ∀ f ∈ r.fixups, f.kind = MCFixupKind.fixup_16 ∧ f.offset + 2 ≤ r.bytes.length ∧
      (r.bytes.drop f.offset).take 2 = [0, 0] := by
  unfold enc_LDDR16 at h
  repeat' split at h
  all_goals cases h
  all_goals first
    | exact fun f hf => absurd hf (List.not_mem_nil f)
    | (intro f hf
       obtain rfl := List.mem_singleton.mp hf
       refine ⟨rfl, ?_, rfl⟩
       simp [emitByte, pushFixup, EmitState.init, MCFixup.create])
    | (intro f hf
       simp only [emitByte_fixups, EmitState.init_fixups, apply_ite EmitState.fixups,
         ite_self] at hf
       exact absurd hf (List.not_mem_nil f))

theorem enc_LDI16_fixups (name : String) (mi : Inst) (r : EmitState)
    (h : enc_LDI16 name mi = Except.ok r) :
    ∀ f ∈ r.fixups, f.kind = MCFixupKind.fixup_16 ∧ f.offset + 2 ≤ r.bytes.length ∧
      (r.bytes.drop f.offset).take 2 = [0, 0] := by
  unfold enc_LDI16 at h
  repeat' split at h
  all_goals cases h
  all_goals first
    | exact fun f hf => absurd hf (List.not_mem_nil f)
    | (intro f hf
       obtain rfl := List.mem_singleton.mp hf
       refine ⟨rfl, ?_, rfl⟩
       simp [emitByte, pushFixup, EmitState.init, MCFixup.create])
    | (intro f hf
       simp only [emitByte_fixups, EmitState.init_fixups, apply_ite EmitState.fixups,
         ite_self] at hf
       exact absurd hf (List.not_mem_nil f))

theorem enc_LDIR16_fixups (name : String) (mi : Inst) (r : EmitState)
    (h : enc_LDIR16 name mi = Except.ok r) :
    ∀ f ∈ r.fixups, f.kind = MCFixupKind.fixup_16 ∧ f.offset + 2 ≤ r.bytes.length ∧
      (r.bytes.drop f.offset).take 2 = [0, 0] := by
  unfold enc_LDIR16 at h
  repeat' split at h
  all_goals cases h
  all_goals first
    | exact fun f hf => absurd hf (List.not_mem_nil f)
    | (intro f hf
       obtain rfl := List.mem_singleton.mp hf
       refine ⟨rfl, ?_, rfl⟩
       simp [emitByte, pushFixup, EmitState.init, MCFixup.create])
    | (intro f hf
       simp only [emitByte_fixups, EmitState.init_fixups, apply_ite EmitState.fixups,
         ite_self] at hf
       exact absurd hf (List.not_mem_nil f))

theorem enc_NEG_fixups (name : String) (mi : Inst) (r : EmitState)
    (h : enc_NEG name mi = Except.ok r) :
    ∀ f ∈ r.fixups, f.kind = MCFixupKind.fixup_16 ∧ f.offset + 2 ≤ r.bytes.length ∧
      (r.bytes.drop f.offset).take 2 = [0, 0] := by
  unfold enc_NEG at h
  repeat' split at h
  all_goals cases h
  all_goals first
    | exact fun f hf => absurd hf (List.not_mem_nil f)
    | (intro f hf
       obtain rfl := List.mem_singleton.mp hf
       refine ⟨rfl, ?_, rfl⟩
       simp [emitByte, pushFixup, EmitState.init, MCFixup.create])
    | (intro f hf
       simp only [emitByte_fixups, EmitState.init_fixups, apply_ite EmitState.fixups,
         ite_self] at hf
       exact absurd hf (List.not_mem_nil f))

theorem enc_NOP_fixups (name : String) (mi : Inst) (r : EmitState)
    (h : enc_NOP name mi = Except.ok r) :
    ∀ f ∈ r.fixups, f.kind = MCFixupKind.fixup_16 ∧ f.offset + 2 ≤ r.bytes.length ∧
      (r.bytes.drop f.offset).take 2 = [0, 0] := by
  unfold enc_NOP at h
  repeat' split at h
  all_goals cases h
  all_goals first
    | exact fun f hf => absurd hf (List.not_mem_nil f)
    | (intro f hf
       obtain rfl := List.mem_singleton.mp hf
       refine ⟨rfl, ?_, rfl⟩
       simp [emitByte, pushFixup, EmitState.init, MCFixup.create])
    | (intro f hf
       simp only [emitByte_fixups, EmitState.init_fixups, apply_ite EmitState.fixups,
         ite_self] at hf
       exact absurd hf (List.not_mem_nil f))

theorem enc_OR8ai_fixups (name : String) (mi : Inst) (r : EmitState)
    (h : enc_OR8ai name mi = Except.ok r) :
    ∀ f ∈ r.fixups, f.kind = MCFixupKind.fixup_16 ∧ f.offset + 2 ≤ r.bytes.length ∧
      (r.bytes.drop f.offset).take 2 = [0, 0] := by
  unfold enc_OR8ai at h
  repeat' split at h
  all_goals cases h
  all_goals first
    | exact fun f hf => absurd hf (List.not_mem_nil f)
    | (intro f hf
       obtain rfl := List.mem_singleton.mp hf
       refine ⟨rfl, ?_, rfl⟩
       simp [emitByte, pushFixup, EmitState.init, MCFixup.create])
    | (intro f hf
       simp only [emitByte_fixups, EmitState.init_fixups, apply_ite EmitState.fixups,
         ite_self] at hf
       exact absurd hf (List.not_mem_nil f))

theorem enc_OR8ao_fixups (name : String) (mi : Inst) (r : EmitState)
    (h : enc_OR8ao name mi = Except.ok r) :
    ∀ f ∈ r.fixups, f.kind = MCFixupKind.fixup_16 ∧ f.offset + 2 ≤ r.bytes.length ∧
      (r.bytes.drop f.offset).take 2 = [0, 0] := by
  unfold enc_OR8ao at h
  repeat' split at h
  all_goals cases h
  all_goals first
    | exact fun f hf => absurd hf (List.not_mem_nil f)
    | (intro f hf
       obtain rfl := List.mem_singleton.mp hf
       refine ⟨rfl, ?_, rfl⟩
       simp [emitByte, pushFixup, EmitState.init, MCFixup.create])
    | (intro f hf
       simp only [emitByte_fixups, EmitState.init_fixups, apply_ite EmitState.fixups,
         ite_self] at hf
       exact absurd hf (List.not_mem_nil f))

theorem enc_OR8ap_fixups (name : String) (mi : Inst) (r : EmitState)
    (h : enc_OR8ap name mi = Except.ok r) :
    ∀ f ∈ r.fixups, f.kind = MCFixupKind.fixup_16 ∧ f.offset + 2 ≤ r.bytes.length ∧
      (r.bytes.drop f.offset).take 2 = [0, 0] := by
  unfold enc_OR8ap at h
  repeat' split at h
  all_goals cases h
  all_goals first
    | exact fun f hf => absurd hf (List.not_mem_nil f)
    | (intro f hf
       obtain rfl := List.mem_singleton.mp hf
       refine ⟨rfl, ?_, rfl⟩
       simp [emitByte, pushFixup, EmitState.init, MCFixup.create])
    | (intro f hf
       simp only [emitByte_fixups, EmitState.init_fixups, apply_ite EmitState.fixups,
         ite_self] at hf
       exact absurd hf (List.not_mem_nil f))

theorem enc_OR8ar_fixups (name : String) (mi : Inst) (r : EmitState)
    (h : enc_OR8ar name mi = Except.ok r) :
    ∀ f ∈ r.fixups, f.kind = MCFixupKind.fixup_16 ∧ f.offset + 2 ≤ r.bytes.length ∧
      (r.bytes.drop f.offset).take 2 = [0, 0] := by
  unfold enc_OR8ar at h
  repeat' split at h
  all_goals cases h
  all_goals first
    | exact fun f hf => absurd hf (List.not_mem_nil f)
    | (intro f hf
       obtain rfl := List.mem_singleton.mp hf
       refine ⟨rfl, ?_, rfl⟩
       simp [emitByte, pushFixup, EmitState.init, MCFixup.create])
    | (intro f hf
       simp only [emitByte_fixups, EmitState.init_fixups, apply_ite EmitState.fixups,
         ite_self] at hf
       exact absurd hf (List.not_mem_nil f))

theorem enc_OUTD16_fixups (name : String) (mi : Inst) (r : EmitState)
    (h : enc_OUTD16 name mi = Except.ok r) :
    ∀ f ∈ r.fixups, f.kind = MCFixupKind.fixup_16 ∧ f.offset + 2 ≤ r.bytes.length ∧
      (r.bytes.drop f.offset).take 2 = [0, 0] := by
  unfold enc_OUTD16 at h
  repeat' split at h
  all_goals cases h
  all_goals first
    | exact fun f hf => absurd hf (List.not_mem_nil f)
    | (intro f hf
       obtain rfl := List.mem_singleton.mp hf
       refine ⟨rfl, ?_, rfl⟩
       simp [emitByte, pushFixup, EmitState.init, MCFixup.create])
    | (intro f hf
       simp only [emitByte_fixups, EmitState.init_fixups, apply_ite EmitState.fixups,
         ite_self] at hf
       exact absurd hf (List.not_mem_nil f))

theorem enc_OUTDR16_fixups (name : String) (mi : Inst) (r : EmitState)
    (h : enc_OUTDR16 name mi = Except.ok r) :
    ∀ f ∈ r.fixups, f.kind = MCFixupKind.fixup_16 ∧ f.offset + 2 ≤ r.bytes.length ∧
      (r.bytes.drop f.offset).take 2 = [0, 0] := by
  unfold enc_OUTDR16 at h
  repeat' split at h
  all_goals cases h
  all_goals first
    | exact fun f hf => absurd hf (List.not_mem_nil f)
    | (intro f hf
       obtain rfl := List.mem_singleton.mp hf
       refine ⟨rfl, ?_, rfl⟩
       simp [emitByte, pushFixup, EmitState.init, MCFixup.create])
    | (intro f hf
       simp only [emitByte_fixups, EmitState.init_fixups, apply_ite EmitState.fixups,
         ite_self] at hf
       exact absurd hf (List.not_mem_nil f))

theorem enc_OUTI16_fixups (name : String) (mi : Inst) (r : EmitState)
    (h : enc_OUTI16 name mi = Except.ok r) :
    ∀ f ∈ r.fixups, f.kind = MCFixupKind.fixup_16 ∧ f.offset + 2 ≤ r.bytes.length ∧
      (r.bytes.drop f.offset).take 2 = [0, 0] := by
  unfold enc_OUTI16 at h
  repeat' split at h
  all_goals cases h
  all_goals first
    | exact fun f hf => absurd hf (List.not_mem_nil f)
    | (intro f hf
       obtain rfl := List.mem_singleton.mp hf
       refine ⟨rfl, ?_, rfl⟩
       simp [emitByte, pushFixup, EmitState.init, MCFixup.create])
    | (intro f hf
       simp only [emitByte_fixups, EmitState.init_fixups, apply_ite EmitState.fixups,
         ite_self] at hf
       exact absurd hf (List.not_mem_nil f))

theorem enc_OUTIR16_fixups (name : String) (mi : Inst) (r : EmitState)
    (h : enc_OUTIR16 name mi = Except.ok r) :
    ∀ f ∈ r.fixups, f.kind = MCFixupKind.fixup_16 ∧ f.offset + 2 ≤ r.bytes.length ∧
      (r.bytes.drop f.offset).take 2 = [0, 0] := by
  unfold enc_OUTIR16 at h
  repeat' split at h
  all_goals cases h
  all_goals first
    | exact fun f hf => absurd hf (List.not_mem_nil f)
    | (intro f hf
       obtain rfl := List.mem_singleton.mp hf
       refine ⟨rfl, ?_, rfl⟩
       simp [emitByte, pushFixup, EmitState.init, MCFixup.create])
    | (intro f hf
       simp only [emitByte_fixups, EmitState.init_fixups, apply_ite EmitState.fixups,
         ite_self] at hf
       exact absurd hf (List.not_mem_nil f))

theorem enc_POP16AF_fixups (name : String) (mi : Inst) (r : EmitState)
    (h : enc_POP16AF name mi = Except.ok r) :
    ∀ f ∈ r.fixups, f.kind = MCFixupKind.fixup_16 ∧ f.offset + 2 ≤ r.bytes.length ∧
      (r.bytes.drop f.offset).take 2 = [0, 0] := by
  unfold enc_POP16AF at h
  repeat' split at h
  all_goals cases h
  all_goals first
    | exact fun f hf => absurd hf (List.not_mem_nil f)
    | (intro f hf
       obtain rfl := List.mem_singleton.mp hf
       refine ⟨rfl, ?_, rfl⟩
       simp [emitByte, pushFixup, EmitState.init, MCFixup.create])
    | (intro f hf
       simp only [emitByte_fixups, EmitState.init_fixups, apply_ite EmitState.fixups,
         ite_self] at hf
       exact absurd hf (List.not_mem_nil f))

theorem enc_POP16r_fixups (name : String) (mi : Inst) (r : EmitState)
    (h : enc_POP16r name mi = Except.ok r) :
    ∀ f ∈ r.fixups, f.kind = MCFixupKind.fixup_16 ∧ f.offset + 2 ≤ r.bytes.length ∧
      (r.bytes.drop f.offset).take 2 = [0, 0] := by
  unfold enc_POP16r at h
  repeat' split at h
  all_goals cases h
  all_goals first
    | exact fun f hf => absurd hf (List.not_mem_nil f)
    | (intro f hf
       obtain rfl := List.mem_singleton.mp hf
       refine ⟨rfl, ?_, rfl⟩
       simp [emitByte, pushFixup, EmitState.init, MCFixup.create])
    | (intro f hf
       simp only [emitByte_fixups, EmitState.init_fixups, apply_ite EmitState.fixups,
         ite_self] at hf
       exact absurd hf (List.not_mem_nil f))

theorem enc_PUSH16AF_fixups (name : String) (mi : Inst) (r : EmitState)
    (h : enc_PUSH16AF name mi = Except.ok r) :
    ∀ f ∈ r.fixups, f.kind = MCFixupKind.fixup_16 ∧ f.offset + 2 ≤ r.bytes.length ∧
      (r.bytes.drop f.offset).take 2 = [0, 0] := by
  unfold enc_PUSH16AF at h
  repeat' split at h
  all_goals cases h
  all_goals first
    | exact fun f hf => absurd hf (List.not_mem_nil f)
    | (intro f hf
       obtain rfl := List.mem_singleton.mp hf
       refine ⟨rfl, ?_, rfl⟩
       simp [emitByte, pushFixup, EmitState.init, MCFixup.create])
    | (intro f hf
       simp only [emitByte_fixups, EmitState.init_fixups, apply_ite EmitState.fixups,
         ite_self] at hf
       exact absurd hf (List.not_mem_nil f))

theorem enc_PUSH16r_fixups (name : String) (mi : Inst) (r : EmitState)
    (h : enc_PUSH16r name mi = Except.ok r) :
    ∀ f ∈ r.fixups, f.kind = MCFixupKind.fixup_16 ∧ f.offset + 2 ≤ r.bytes.length ∧
      (r.bytes.drop f.offset).take 2 = [0, 0] := by
  unfold enc_PUSH16r at h
  repeat' split at h
  all_goals cases h
  all_goals first
    | exact fun f hf => absurd hf (List.not_mem_nil f)
    | (intro f hf
       obtain rfl := List.mem_singleton.mp hf
       refine ⟨rfl, ?_, rfl⟩
       simp [emitByte, pushFixup, EmitState.init, MCFixup.create])
    | (intro f hf
       simp only [emitByte_fixups, EmitState.init_fixups, apply_ite EmitState.fixups,
         ite_self] at hf
       exact absurd hf (List.not_mem_nil f))

theorem enc_RES8bg_fixups (name : String) (mi : Inst) (r : EmitState)
    (h : enc_RES8bg name mi = Except.ok r) :
    ∀ f ∈ r.fixups, f.kind = MCFixupKind.fixup_16 ∧ f.offset + 2 ≤ r.bytes.length ∧
      (r.bytes.drop f.offset).take 2 = [0, 0] := by
  unfold enc_RES8bg at h
  repeat' split at h
  all_goals cases h
  all_goals first
    | exact fun f hf => absurd hf (List.not_mem_nil f)
    | (intro f hf
       obtain rfl := List.mem_singleton.mp hf
       refine ⟨rfl, ?_, rfl⟩
       simp [emitByte, pushFixup, EmitState.init, MCFixup.create])
    | (intro f hf
       simp only [emitByte_fixups, EmitState.init_fixups, apply_ite EmitState.fixups,
         ite_self] at hf
       exact absurd hf (List.not_mem_nil f))

theorem enc_RES8bo_fixups (name : String) (mi : Inst) (r : EmitState)
    (h : enc_RES8bo name mi = Except.ok r) :
    ∀ f ∈ r.fixups, f.kind = MCFixupKind.fixup_16 ∧ f.offset + 2 ≤ r.bytes.length ∧
      (r.bytes.drop f.offset).take 2 = [0, 0] := by
  unfold enc_RES8bo at h
  repeat' split at h
  all_goals cases h
  all_goals first
    | exact fun f hf => absurd hf (List.not_mem_nil f)
    | (intro f hf
       obtain rfl := List.mem_singleton.mp hf
       refine ⟨rfl, ?_, rfl⟩
       simp [emitByte, pushFixup, EmitState.init, MCFixup.create])
    | (intro f hf
       simp only [emitByte_fixups, EmitState.init_fixups, apply_ite EmitState.fixups,
         ite_self] at hf
       exact absurd hf (List.not_mem_nil f))

theorem enc_RES8bp_fixups (name : String) (mi : Inst) (r : EmitState)
    (h : enc_RES8bp name mi = Except.ok r) :
    ∀ f ∈ r.fixups, f.kind = MCFixupKind.fixup_16 ∧ f.offset + 2 ≤ r.bytes.length ∧
      (r.bytes.drop f.offset).take 2 = [0, 0] := by
  unfold enc_RES8bp at h
  repeat' split at h
  all_goals cases h
  all_goals first
    | exact fun f hf => absurd hf (List.not_mem_nil f)
    | (intro f hf
       obtain rfl := List.mem_singleton.mp hf
       refine ⟨rfl, ?_, rfl⟩
       simp [emitByte, pushFixup, EmitState.init, MCFixup.create])
    | (intro f hf
       simp only [emitByte_fixups, EmitState.init_fixups, apply_ite EmitState.fixups,
         ite_self] at hf
       exact absurd hf (List.not_mem_nil f))

theorem enc_RET16_fixups (name : String) (mi : Inst) (r : EmitState)
    (h : enc_RET16 name mi = Except.ok r) :
    ∀ f ∈ r.fixups, f.kind = MCFixupKind.fixup_16 ∧ f.offset + 2 ≤ r.bytes.length ∧
      (r.bytes.drop f.offset).take 2 = [0, 0] := by
  unfold enc_RET16 at h
  repeat' split at h
  all_goals cases h
  all_goals first
    | exact fun f hf => absurd hf (List.not_mem_nil f)
    | (intro f hf
       obtain rfl := List.mem_singleton.mp hf
       refine ⟨rfl, ?_, rfl⟩
       simp [emitByte, pushFixup, EmitState.init, MCFixup.create])
    | (intro f hf
       simp only [emitByte_fixups, EmitState.init_fixups, apply_ite EmitState.fixups,
         ite_self] at hf
       exact absurd hf (List.not_mem_nil f))

theorem enc_RET16CC_fixups (name : String) (mi : Inst) (r : EmitState)
    (h : enc_RET16CC name mi = Except.ok r) :
    ∀ f ∈ r.fixups, f.kind = MCFixupKind.fixup_16 ∧ f.offset + 2 ≤ r.bytes.length ∧
      (r.bytes.drop f.offset).take 2 = [0, 0] := by
  unfold enc_RET16CC at h
  repeat' split at h
  all_goals cases h
  all_goals first
    | exact fun f hf => absurd hf (List.not_mem_nil f)
    | (intro f hf
       obtain rfl := List.mem_singleton.mp hf
       refine ⟨rfl, ?_, rfl⟩
       simp [emitByte, pushFixup, EmitState.init, MCFixup.create])
    | (intro f hf
       simp only [emitByte_fixups, EmitState.init_fixups, apply_ite EmitState.fixups,
         ite_self] at hf
       exact absurd hf (List.not_mem_nil f))

theorem enc_RETI16_fixups (name : String) (mi : Inst) (r : EmitState)
    (h : enc_RETI16 name mi = Except.ok r) :
    ∀ f ∈ r.fixups, f.kind = MCFixupKind.fixup_16 ∧ f.offset + 2 ≤ r.bytes.length ∧
      (r.bytes.drop f.offset).take 2 = [0, 0] := by
  unfold enc_RETI16 at h
  repeat' split at h
  all_goals cases h
  all_goals first
    | exact fun f hf => absurd hf (List.not_mem_nil f)
    | (intro f hf
       obtain rfl := List.mem_singleton.mp hf
       refine ⟨rfl, ?_, rfl⟩
       simp [emitByte, pushFixup, EmitState.init, MCFixup.create])
    | (intro f hf
       simp only [emitByte_fixups, EmitState.init_fixups, apply_ite EmitState.fixups,
         ite_self] at hf
       exact absurd hf (List.not_mem_nil f))

theorem enc_RETN16_fixups (name : String) (mi : Inst) (r : EmitState)
    (h : enc_RETN16 name mi = Except.ok r) :
    ∀ f ∈ r.fixups, f.kind = MCFixupKind.fixup_16 ∧ f.offset + 2 ≤ r.bytes.length ∧
      (r.bytes.drop f.offset).take 2 = [0, 0] := by
  unfold enc_RETN16 at h
  repeat' split at h
  all_goals cases h
  all_goals first
    | exact fun f hf => absurd hf (List.not_mem_nil f)
    | (intro f hf
       obtain rfl := List.mem_singleton.mp hf
       refine ⟨rfl, ?_, rfl⟩
       simp [emitByte, pushFixup, EmitState.init, MCFixup.create])
    | (intro f hf
       simp only [emitByte_fixups, EmitState.init_fixups, apply_ite EmitState.fixups,
         ite_self] at hf
       exact absurd hf (List.not_mem_nil f))

theorem enc_RL8o_fixups (name : String) (mi : Inst) (r : EmitState)
    (h : enc_RL8o name mi = Except.ok r) :
    ∀ f ∈ r.fixups, f.kind = MCFixupKind.fixup_16 ∧ f.offset + 2 ≤ r.bytes.length ∧
      (r.bytes.drop f.offset).take 2 = [0, 0] := by
  unfold enc_RL8o at h
  repeat' split at h
  all_goals cases h
  all_goals first
    | exact fun f hf => absurd hf (List.not_mem_nil f)
    | (intro f hf
       obtain rfl := List.mem_singleton.mp hf
       refine ⟨rfl, ?_, rfl⟩
       simp [emitByte, pushFixup, EmitState.init, MCFixup.create])
    | (intro f hf
       simp only [emitByte_fixups, EmitState.init_fixups, apply_ite EmitState.fixups,
         ite_self] at hf
       exact absurd hf (List.not_mem_nil f))

theorem enc_RL8p_fixups (name : String) (mi : Inst) (r : EmitState)
    (h : enc_RL8p name mi = Except.ok r) :
    ∀ f ∈ r.fixups, f.kind = MCFixupKind.fixup_16 ∧ f.offset + 2 ≤ r.bytes.length ∧
      (r.bytes.drop f.offset).take 2 = [0, 0] := by
  unfold enc_RL8p at h
  repeat' split at h
  all_goals cases h
  all_goals first
    | exact fun f hf => absurd hf (List.not_mem_nil f)
    | (intro f hf
       obtain rfl := List.mem_singleton.mp hf
       refine ⟨rfl, ?_, rfl⟩
       simp [emitByte, pushFixup, EmitState.init, MCFixup.create])
    | (intro f hf
       simp only [emitByte_fixups, EmitState.init_fixups, apply_ite EmitState.fixups,
         ite_self] at hf
       exact absurd hf (List.not_mem_nil f))

theorem enc_RL8r_fixups (name : String) (mi : Inst) (r : EmitState)
    (h : enc_RL8r name mi = Except.ok r) :
    ∀ f ∈ r.fixups, f.kind = MCFixupKind.fixup_16 ∧ f.offset + 2 ≤ r.bytes.length ∧
      (r.bytes.drop f.offset).take 2 = [0, 0] := by
  unfold enc_RL8r at h
  repeat' split at h
  all_goals cases h
  all_goals first
    | exact fun f hf => absurd hf (List.not_mem_nil f)
    | (intro f hf
       obtain rfl := List.mem_singleton.mp hf
       refine ⟨rfl, ?_, rfl⟩
       simp [emitByte, pushFixup, EmitState.init, MCFixup.create])
    | (intro f hf
       simp only [emitByte_fixups, EmitState.init_fixups, apply_ite EmitState.fixups,
         ite_self] at hf
       exact absurd hf (List.not_mem_nil f))

theorem enc_RLC8o_fixups (name : String) (mi : Inst) (r : EmitState)
    (h : enc_RLC8o name mi = Except.ok r) :
    ∀ f ∈ r.fixups, f.kind = MCFixupKind.fixup_16 ∧ f.offset + 2 ≤ r.bytes.length ∧
      (r.bytes.drop f.offset).take 2 = [0, 0] := by
  unfold enc_RLC8o at h
  repeat' split at h
  all_goals cases h
  all_goals first
    | exact fun f hf => absurd hf (List.not_mem_nil f)
    | (intro f hf
       obtain rfl := List.mem_singleton.mp hf
       refine ⟨rfl, ?_, rfl⟩
       simp [emitByte, pushFixup, EmitState.init, MCFixup.create])
    | (intro f hf
       simp only [emitByte_fixups, EmitState.init_fixups, apply_ite EmitState.fixups,
         ite_self] at hf
       exact absurd hf (List.not_mem_nil f))

theorem enc_RLC8p_fixups (name : String) (mi : Inst) (r : EmitState)
    (h : enc_RLC8p name mi = Except.ok r) :
    ∀ f ∈ r.fixups, f.kind = MCFixupKind.fixup_16 ∧ f.offset + 2 ≤ r.bytes.length ∧
      (r.bytes.drop f.offset).take 2 = [0, 0] := by
  unfold enc_RLC8p at h
  repeat' split at h
  all_goals cases h
  all_goals first
    | exact fun f hf => absurd hf (List.not_mem_nil f)
    | (intro f hf
       obtain rfl := List.mem_singleton.mp hf
       refine ⟨rfl, ?_, rfl⟩
       simp [emitByte, pushFixup, EmitState.init, MCFixup.create])
    | (intro f hf
       simp only [emitByte_fixups, EmitState.init_fixups, apply_ite EmitState.fixups,
         ite_self] at hf
       exact absurd hf (List.not_mem_nil f))

theorem enc_RLC8r_fixups (name : String) (mi : Inst) (r : EmitState)
    (h : enc_RLC8r name mi = Except.ok r) :
    ∀ f ∈ r.fixups, f.kind = MCFixupKind.fixup_16 ∧ f.offset + 2 ≤ r.bytes.length ∧
      (r.bytes.drop f.offset).take 2 = [0, 0] := by
  unfold enc_RLC8r at h
  repeat' split at h
  all_goals cases h
  all_goals first
    | exact fun f hf => absurd hf (List.not_mem_nil f)
    | (intro f hf
       obtain rfl := List.mem_singleton.mp hf
       refine ⟨rfl, ?_, rfl⟩
       simp [emitByte, pushFixup, EmitState.init, MCFixup.create])
    | (intro f hf
       simp only [emitByte_fixups, EmitState.init_fixups, apply_ite EmitState.fixups,
         ite_self] at hf
       exact absurd hf (List.not_mem_nil f))

theorem enc_RR8o_fixups (name : String) (mi : Inst) (r : EmitState)
    (h : enc_RR8o name mi = Except.ok r) :
    ∀ f ∈ r.fixups, f.kind = MCFixupKind.fixup_16 ∧ f.offset + 2 ≤ r.bytes.length ∧
      (r.bytes.drop f.offset).take 2 = [0, 0] := by
  unfold enc_RR8o at h
  repeat' split at h
  all_goals cases h
  all_goals first
    | exact fun f hf => absurd hf (List.not_mem_nil f)
    | (intro f hf
       obtain rfl := List.mem_singleton.mp hf
       refine ⟨rfl, ?_, rfl⟩
       simp [emitByte, pushFixup, EmitState.init, MCFixup.create])
    | (intro f hf
       simp only [emitByte_fixups, EmitState.init_fixups, apply_ite EmitState.fixups,
         ite_self] at hf
       exact absurd hf (List.not_mem_nil f))

theorem enc_RR8p_fixups (name : String) (mi : Inst) (r : EmitState)
    (h : enc_RR8p name mi = Except.ok r) :
    ∀ f ∈ r.fixups, f.kind = MCFixupKind.fixup_16 ∧ f.offset + 2 ≤ r.bytes.length ∧
      (r.bytes.drop f.offset).take 2 = [0, 0] := by
  unfold enc_RR8p at h
  repeat' split at h
  all_goals cases h
  all_goals first
    | exact fun f hf => absurd hf (List.not_mem_nil f)
    | (intro f hf
       obtain rfl := List.mem_singleton.mp hf
       refine ⟨rfl, ?_, rfl⟩
       simp [emitByte, pushFixup, EmitState.init, MCFixup.create])
    | (intro f hf
       simp only [emitByte_fixups, EmitState.init_fixups, apply_ite EmitState.fixups,
         ite_self] at hf
       exact absurd hf (List.not_mem_nil f))

theorem enc_RR8r_fixups (name : String) (mi : Inst) (r : EmitState)
    (h : enc_RR8r name mi = Except.ok r) :
    ∀ f ∈ r.fixups, f.kind = MCFixupKind.fixup_16 ∧ f.offset + 2 ≤ r.bytes.length ∧
      (r.bytes.drop f.offset).take 2 = [0, 0] := by
  unfold enc_RR8r at h
  repeat' split at h
  all_goals cases h
  all_goals first
    | exact fun f hf => absurd hf (List.not_mem_nil f)
    | (intro f hf
       obtain rfl := List.mem_singleton.mp hf
       refine ⟨rfl, ?_, rfl⟩
       simp [emitByte, pushFixup, EmitState.init, MCFixup.create])
    | (intro f hf
       simp only [emitByte_fixups, EmitState.init_fixups, apply_ite EmitState.fixups,
         ite_self] at hf
       exact absurd hf (List.not_mem_nil f))

theorem enc_RRC8o_fixups (name : String) (mi : Inst) (r : EmitState)
    (h : enc_RRC8o name mi = Except.ok r) :
    ∀ f ∈ r.fixups, f.kind = MCFixupKind.fixup_16 ∧ f.offset + 2 ≤ r.bytes.length ∧
      (r.bytes.drop f.offset).take 2 = [0, 0] := by
  unfold enc_RRC8o at h
  repeat' split at h
  all_goals cases h
  all_goals first
    | exact fun f hf => absurd hf (List.not_mem_nil f)
    | (intro f hf
       obtain rfl := List.mem_singleton.mp hf
       refine ⟨rfl, ?_, rfl⟩
       simp [emitByte, pushFixup, EmitState.init, MCFixup.create])
    | (intro f hf
       simp only [emitByte_fixups, EmitState.init_fixups, apply_ite EmitState.fixups,
         ite_self] at hf
       exact absurd hf (List.not_mem_nil f))

theorem enc_RRC8p_fixups (name : String) (mi : Inst) (r : EmitState)
    (h : enc_RRC8p name mi = Except.ok r) :
    ∀ f ∈ r.fixups, f.kind = MCFixupKind.fixup_16 ∧ f.offset + 2 ≤ r.bytes.length ∧
      (r.bytes.drop f.offset).take 2 = [0, 0] := by
  unfold enc_RRC8p at h
  repeat' split at h
  all_goals cases h
  all_goals first
    | exact fun f hf => absurd hf (List.not_mem_nil f)
    | (intro f hf
       obtain rfl := List.mem_singleton.mp hf
       refine ⟨rfl, ?_, rfl⟩
       simp [emitByte, pushFixup, EmitState.init, MCFixup.create])
    | (intro f hf
       simp only [emitByte_fixups, EmitState.init_fixups, apply_ite EmitState.fixups,
         ite_self] at hf
       exact absurd hf (List.not_mem_nil f))

theorem enc_RRC8r_fixups (name : String) (mi : Inst) (r : EmitState)
    (h : enc_RRC8r name mi = Except.ok r) :
    ∀ f ∈ r.fixups, f.kind = MCFixupKind.fixup_16 ∧ f.offset + 2 ≤ r.bytes.length ∧
      (r.bytes.drop f.offset).take 2 = [0, 0] := by
  unfold enc_RRC8r at h
  repeat' split at h
  all_goals cases h
  all_goals first
    | exact fun f hf => absurd hf (List.not_mem_nil f)
    | (intro f hf
       obtain rfl := List.mem_singleton.mp hf
       refine ⟨rfl, ?_, rfl⟩
       simp [emitByte, pushFixup, EmitState.init, MCFixup.create])
    | (intro f hf
       simp only [emitByte_fixups, EmitState.init_fixups, apply_ite EmitState.fixups,
         ite_self] at hf
       exact absurd hf (List.not_mem_nil f))

theorem enc_SBC16SP_fixups (name : String) (mi : Inst) (r : EmitState)
    (h : enc_SBC16SP name mi = Except.ok r) :
    ∀ f ∈ r.fixups, f.kind = MCFixupKind.fixup_16 ∧ f.offset + 2 ≤ r.bytes.length ∧
      (r.bytes.drop f.offset).take 2 = [0, 0] := by
  unfold enc_SBC16SP at h
  repeat' split at h
  all_goals cases h
  all_goals first
    | exact fun f hf => absurd hf (List.not_mem_nil f)
    | (intro f hf
       obtain rfl := List.mem_singleton.mp hf
       refine ⟨rfl, ?_, rfl⟩
       simp [emitByte, pushFixup, EmitState.init, MCFixup.create])
    | (intro f hf
       simp only [emitByte_fixups, EmitState.init_fixups, apply_ite EmitState.fixups,
         ite_self] at hf
       exact absurd hf (List.not_mem_nil f))

theorem enc_SBC16aa_fixups (name : String) (mi : Inst) (r : EmitState)
    (h : enc_SBC16aa name mi = Except.ok r) :
    ∀ f ∈ r.fixups, f.kind = MCFixupKind.fixup_16 ∧ f.offset + 2 ≤ r.bytes.length ∧
      (r.bytes.drop f.offset).take 2 = [0, 0] := by
  unfold enc_SBC16aa at h
  repeat' split at h
  all_goals cases h
  all_goals first
    | exact fun f hf => absurd hf (List.not_mem_nil f)
    | (intro f hf
       obtain rfl := List.mem_singleton.mp hf
       refine ⟨rfl, ?_, rfl⟩
       simp [emitByte, pushFixup, EmitState.init, MCFixup.create])
    | (intro f hf
       simp only [emitByte_fixups, EmitState.init_fixups, apply_ite EmitState.fixups,
         ite_self] at hf
       exact absurd hf (List.not_mem_nil f))

theorem enc_SBC16ao_fixups (name : String) (mi : Inst) (r : EmitState)
    (h : enc_SBC16ao name mi = Except.ok r) :
    ∀ f ∈ r.fixups, f.kind = MCFixupKind.fixup_16 ∧ f.offset + 2 ≤ r.bytes.length ∧
      (r.bytes.drop f.offset).take 2 = [0, 0] := by
  unfold enc_SBC16ao at h
  repeat' split at h
  all_goals cases h
  all_goals first
    | exact fun f hf => absurd hf (List.not_mem_nil f)
    | (intro f hf
       obtain rfl := List.mem_singleton.mp hf
       refine ⟨rfl, ?_, rfl⟩
       simp [emitByte, pushFixup, EmitState.init, MCFixup.create])
    | (intro f hf
       simp only [emitByte_fixups, EmitState.init_fixups, apply_ite EmitState.fixups,
         ite_self] at hf
       exact absurd hf (List.not_mem_nil f))

theorem enc_SBC8ai_fixups (name : String) (mi : Inst) (r : EmitState)
    (h : enc_SBC8ai name mi = Except.ok r) :
    ∀ f ∈ r.fixups, f.kind = MCFixupKind.fixup_16 ∧ f.offset + 2 ≤ r.bytes.length ∧
      (r.bytes.drop f.offset).take 2 = [0, 0] := by
  unfold enc_SBC8ai at h
  repeat' split at h
  all_goals cases h
  all_goals first
    | exact fun f hf => absurd hf (List.not_mem_nil f)
    | (intro f hf
       obtain rfl := List.mem_singleton.mp hf
       refine ⟨rfl, ?_, rfl⟩
       simp [emitByte, pushFixup, EmitState.init, MCFixup.create])
    | (intro f hf
       simp only [emitByte_fixups, EmitState.init_fixups, apply_ite EmitState.fixups,
         ite_self] at hf
       exact absurd hf (List.not_mem_nil f))

theorem enc_SBC8ao_fixups (name : String) (mi : Inst) (r : EmitState)
    (h : enc_SBC8ao name mi = Except.ok r) :
    ∀ f ∈ r.fixups, f.kind = MCFixupKind.fixup_16 ∧ f.offset + 2 ≤ r.bytes.length ∧
      (r.bytes.drop f.offset).take 2 = [0, 0] := by
  unfold enc_SBC8ao at h
  repeat' split at h
  all_goals cases h
  all_goals first
    | exact fun f hf => absurd hf (List.not_mem_nil f)
    | (intro f hf
       obtain rfl := List.mem_singleton.mp hf
       refine ⟨rfl, ?_, rfl⟩
       simp [emitByte, pushFixup, EmitState.init, MCFixup.create])
    | (intro f hf
       simp only [emitByte_fixups, EmitState.init_fixups, apply_ite EmitState.fixups,
         ite_self] at hf
       exact absurd hf (List.not_mem_nil f))

theorem enc_SBC8ap_fixups (name : String) (mi : Inst) (r : EmitState)
    (h : enc_SBC8ap name mi = Except.ok r) :
    ∀ f ∈ r.fixups, f.kind = MCFixupKind.fixup_16 ∧ f.offset + 2 ≤ r.bytes.length ∧
      (r.bytes.drop f.offset).take 2 = [0, 0] := by
  unfold enc_SBC8ap at h
  repeat' split at h
  all_goals cases h
  all_goals first
    | exact fun f hf => absurd hf (List.not_mem_nil f)
    | (intro f hf
       obtain rfl := List.mem_singleton.mp hf
       refine ⟨rfl, ?_, rfl⟩
       simp [emitByte, pushFixup, EmitState.init, MCFixup.create])
    | (intro f hf
       simp only [emitByte_fixups, EmitState.init_fixups, apply_ite EmitState.fixups,
         ite_self] at hf
       exact absurd hf (List.not_mem_nil f))

theorem enc_SBC8ar_fixups (name : String) (mi : Inst) (r : EmitState)
    (h : enc_SBC8ar name mi = Except.ok r) :
    ∀ f ∈ r.fixups, f.kind = MCFixupKind.fixup_16 ∧ f.offset + 2 ≤ r.bytes.length ∧
      (r.bytes.drop f.offset).take 2 = [0, 0] := by
  unfold enc_SBC8ar at h
  repeat' split at h
  all_goals cases h
  all_goals first
    | exact fun f hf => absurd hf (List.not_mem_nil f)
    | (intro f hf
       obtain rfl := List.mem_singleton.mp hf
       refine ⟨rfl, ?_, rfl⟩
       simp [emitByte, pushFixup, EmitState.init, MCFixup.create])
    | (intro f hf
       simp only [emitByte_fixups, EmitState.init_fixups, apply_ite EmitState.fixups,
         ite_self] at hf
       exact absurd hf (List.not_mem_nil f))

theorem enc_SCF_fixups (name : String) (mi : Inst) (r : EmitState)
    (h : enc_SCF name mi = Except.ok r) :
    ∀ f ∈ r.fixups, f.kind = MCFixupKind.fixup_16 ∧ f.offset + 2 ≤ r.bytes.length ∧
      (r.bytes.drop f.offset).take 2 = [0, 0] := by
  unfold enc_SCF at h
  repeat' split at h
  all_goals cases h
  all_goals first
    | exact fun f hf => absurd hf (List.not_mem_nil f)
    | (intro f hf
       obtain rfl := List.mem_singleton.mp hf
       refine ⟨rfl, ?_, rfl⟩
       simp [emitByte, pushFixup, EmitState.init, MCFixup.create])
    | (intro f hf
       simp only [emitByte_fixups, EmitState.init_fixups, apply_ite EmitState.fixups,
         ite_self] at hf
       exact absurd hf (List.not_mem_nil f))

theorem enc_SET8bg_fixups (name : String) (mi : Inst) (r : EmitState)
    (h : enc_SET8bg name mi = Except.ok r) :
    ∀ f ∈ r.fixups, f.kind = MCFixupKind.fixup_16 ∧ f.offset + 2 ≤ r.bytes.length ∧
      (r.bytes.drop f.offset).take 2 = [0, 0] := by
  unfold enc_SET8bg at h
  repeat' split at h
  all_goals cases h
  all_goals first
    | exact fun f hf => absurd hf (List.not_mem_nil f)
    | (intro f hf
       obtain rfl := List.mem_singleton.mp hf
       refine ⟨rfl, ?_, rfl⟩
       simp [emitByte, pushFixup, EmitState.init, MCFixup.create])
    | (intro f hf
       simp only [emitByte_fixups, EmitState.init_fixups, apply_ite EmitState.fixups,
         ite_self] at hf
       exact absurd hf (List.not_mem_nil f))

theorem enc_SET8bo_fixups (name : String) (mi : Inst) (r : EmitState)
    (h : enc_SET8bo name mi = Except.ok r) :
    ∀ f ∈ r.fixups, f.kind = MCFixupKind.fixup_16 ∧ f.offset + 2 ≤ r.bytes.length ∧
      (r.bytes.drop f.offset).take 2 = [0, 0] := by
  unfold enc_SET8bo at h
  repeat' split at h
  all_goals cases h
  all_goals first
    | exact fun f hf => absurd hf (List.not_mem_nil f)
    | (intro f hf
       obtain rfl := List.mem_singleton.mp hf
       refine ⟨rfl, ?_, rfl⟩
       simp [emitByte, pushFixup, EmitState.init, MCFixup.create])
    | (intro f hf
       simp only [emitByte_fixups, EmitState.init_fixups, apply_ite EmitState.fixups,
         ite_self] at hf
       exact absurd hf (List.not_mem_nil f))

theorem enc_SET8bp_fixups (name : String) (mi : Inst) (r : EmitState)
    (h : enc_SET8bp name mi = Except.ok r) :
    ∀ f ∈ r.fixups, f.kind = MCFixupKind.fixup_16 ∧ f.offset + 2 ≤ r.bytes.length ∧
      (r.bytes.drop f.offset).take 2 = [0, 0] := by
  unfold enc_SET8bp at h
  repeat' split at h
  all_goals cases h
  all_goals first
    | exact fun f hf => absurd hf (List.not_mem_nil f)
    | (intro f hf
       obtain rfl := List.mem_singleton.mp hf
       refine ⟨rfl, ?_, rfl⟩
       simp [emitByte, pushFixup, EmitState.init, MCFixup.create])
    | (intro f hf
       simp only [emitByte_fixups, EmitState.init_fixups, apply_ite EmitState.fixups,
         ite_self] at hf
       exact absurd hf (List.not_mem_nil f))

theorem enc_SLA8o_fixups (name : String) (mi : Inst) (r : EmitState)
    (h : enc_SLA8o name mi = Except.ok r) :
    ∀ f ∈ r.fixups, f.kind = MCFixupKind.fixup_16 ∧ f.offset + 2 ≤ r.bytes.length ∧
      (r.bytes.drop f.offset).take 2 = [0, 0] := by
  unfold enc_SLA8o at h
  repeat' split at h
  all_goals cases h
  all_goals first
    | exact fun f hf => absurd hf (List.not_mem_nil f)
    | (intro f hf
       obtain rfl := List.mem_singleton.mp hf
       refine ⟨rfl, ?_, rfl⟩
       simp [emitByte, pushFixup, EmitState.init, MCFixup.create])
    | (intro f hf
       simp only [emitByte_fixups, EmitState.init_fixups, apply_ite EmitState.fixups,
         ite_self] at hf
       exact absurd hf (List.not_mem_nil f))

theorem enc_SLA8p_fixups (name : String) (mi : Inst) (r : EmitState)
    (h : enc_SLA8p name mi = Except.ok r) :
    ∀ f ∈ r.fixups, f.kind = MCFixupKind.fixup_16 ∧ f.offset + 2 ≤ r.bytes.length ∧
      (r.bytes.drop f.offset).take 2 = [0, 0] := by
  unfold enc_SLA8p at h
  repeat' split at h
  all_goals cases h
  all_goals first
    | exact fun f hf => absurd hf (List.not_mem_nil f)
    | (intro f hf
       obtain rfl := List.mem_singleton.mp hf
       refine ⟨rfl, ?_, rfl⟩
       simp [emitByte, pushFixup, EmitState.init, MCFixup.create])
    | (intro f hf
       simp only [emitByte_fixups, EmitState.init_fixups, apply_ite EmitState.fixups,
         ite_self] at hf
       exact absurd hf (List.not_mem_nil f))

theorem enc_SLA8r_fixups (name : String) (mi : Inst) (r : EmitState)
    (h : enc_SLA8r name mi = Except.ok r) :
    ∀ f ∈ r.fixups, f.kind = MCFixupKind.fixup_16 ∧ f.offset + 2 ≤ r.bytes.length ∧
      (r.bytes.drop f.offset).take 2 = [0, 0] := by
  unfold enc_SLA8r at h
  repeat' split at h
  all_goals cases h
  all_goals first
    | exact fun f hf => absurd hf (List.not_mem_nil f)
    | (intro f hf
       obtain rfl := List.mem_singleton.mp hf
       refine ⟨rfl, ?_, rfl⟩
       simp [emitByte, pushFixup, EmitState.init, MCFixup.create])
    | (intro f hf
       simp only [emitByte_fixups, EmitState.init_fixups, apply_ite EmitState.fixups,
         ite_self] at hf
       exact absurd hf (List.not_mem_nil f))

theorem enc_SRA8o_fixups (name : String) (mi : Inst) (r : EmitState)
    (h : enc_SRA8o name mi = Except.ok r) :
    ∀ f ∈ r.fixups, f.kind = MCFixupKind.fixup_16 ∧ f.offset + 2 ≤ r.bytes.length ∧
      (r.bytes.drop f.offset).take 2 = [0, 0] := by
  unfold enc_SRA8o at h
  repeat' split at h
  all_goals cases h
  all_goals first
    | exact fun f hf => absurd hf (List.not_mem_nil f)
    | (intro f hf
       obtain rfl := List.mem_singleton.mp hf
       refine ⟨rfl, ?_, rfl⟩
       simp [emitByte, pushFixup, EmitState.init, MCFixup.create])
    | (intro f hf
       simp only [emitByte_fixups, EmitState.init_fixups, apply_ite EmitState.fixups,
         ite_self] at hf
       exact absurd hf (List.not_mem_nil f))

theorem enc_SRA8p_fixups (name : String) (mi : Inst) (r : EmitState)
    (h : enc_SRA8p name mi = Except.ok r) :
    ∀ f ∈ r.fixups, f.kind = MCFixupKind.fixup_16 ∧ f.offset + 2 ≤ r.bytes.length ∧
      (r.bytes.drop f.offset).take 2 = [0, 0] := by
  unfold enc_SRA8p at h
  repeat' split at h
  all_goals cases h
  all_goals first
    | exact fun f hf => absurd hf (List.not_mem_nil f)
    | (intro f hf
       obtain rfl := List.mem_singleton.mp hf
       refine ⟨rfl, ?_, rfl⟩
       simp [emitByte, pushFixup, EmitState.init, MCFixup.create])
    | (intro f hf
       simp only [emitByte_fixups, EmitState.init_fixups, apply_ite EmitState.fixups,
         ite_self] at hf
       exact absurd hf (List.not_mem_nil f))

theorem enc_SRA8r_fixups (name : String) (mi : Inst) (r : EmitState)
    (h : enc_SRA8r name mi = Except.ok r) :
    ∀ f ∈ r.fixups, f.kind = MCFixupKind.fixup_16 ∧ f.offset + 2 ≤ r.bytes.length ∧
      (r.bytes.drop f.offset).take 2 = [0, 0] := by
  unfold enc_SRA8r at h
  repeat' split at h
  all_goals cases h
  all_goals first
    | exact fun f hf => absurd hf (List.not_mem_nil f)
    | (intro f hf
       obtain rfl := List.mem_singleton.mp hf
       refine ⟨rfl, ?_, rfl⟩
       simp [emitByte, pushFixup, EmitState.init, MCFixup.create])
    | (intro f hf
       simp only [emitByte_fixups, EmitState.init_fixups, apply_ite EmitState.fixups,
         ite_self] at hf
       exact absurd hf (List.not_mem_nil f))

theorem enc_SRL8o_fixups (name : String) (mi : Inst) (r : EmitState)
    (h : enc_SRL8o name mi = Except.ok r) :
    ∀ f ∈ r.fixups, f.kind = MCFixupKind.fixup_16 ∧ f.offset + 2 ≤ r.bytes.length ∧
      (r.bytes.drop f.offset).take 2 = [0, 0] := by
  unfold enc_SRL8o at h
  repeat' split at h
  all_goals cases h
  all_goals first
    | exact fun f hf => absurd hf (List.not_mem_nil f)
    | (intro f hf
       obtain rfl := List.mem_singleton.mp hf
       refine ⟨rfl, ?_, rfl⟩
       simp [emitByte, pushFixup, EmitState.init, MCFixup.create])
    | (intro f hf
       simp only [emitByte_fixups, EmitState.init_fixups, apply_ite EmitState.fixups,
         ite_self] at hf
       exact absurd hf (List.not_mem_nil f))

theorem enc_SRL8p_fixups (name : String) (mi : Inst) (r : EmitState)
    (h : enc_SRL8p name mi = Except.ok r) :
    ∀ f ∈ r.fixups, f.kind = MCFixupKind.fixup_16 ∧ f.offset + 2 ≤ r.bytes.length ∧
      (r.bytes.drop f.offset).take 2 = [0, 0] := by
  unfold enc_SRL8p at h
  repeat' split at h
  all_goals cases h
  all_goals first
    | exact fun f hf => absurd hf (List.not_mem_nil f)
    | (intro f hf
       obtain rfl := List.mem_singleton.mp hf
       refine ⟨rfl, ?_, rfl⟩
       simp [emitByte, pushFixup, EmitState.init, MCFixup.create])
    | (intro f hf
       simp only [emitByte_fixups, EmitState.init_fixups, apply_ite EmitState.fixups,
         ite_self] at hf
       exact absurd hf (List.not_mem_nil f))

theorem enc_SRL8r_fixups (name : String) (mi : Inst) (r : EmitState)
    (h : enc_SRL8r name mi = Except.ok r) :
    ∀ f ∈ r.fixups, f.kind = MCFixupKind.fixup_16 ∧ f.offset + 2 ≤ r.bytes.length ∧
      (r.bytes.drop f.offset).take 2 = [0, 0] := by
  unfold enc_SRL8r at h
  repeat' split at h
  all_goals cases h
  all_goals first
    | exact fun f hf => absurd hf (List.not_mem_nil f)
    | (intro f hf
       obtain rfl := List.mem_singleton.mp hf
       refine ⟨rfl, ?_, rfl⟩
       simp [emitByte, pushFixup, EmitState.init, MCFixup.create])
    | (intro f hf
       simp only [emitByte_fixups, EmitState.init_fixups, apply_ite EmitState.fixups,
         ite_self] at hf
       exact absurd hf (List.not_mem_nil f))

theorem enc_SUB8ai_fixups (name : String) (mi : Inst) (r : EmitState)
    (h : enc_SUB8ai name mi = Except.ok r) :
    ∀ f ∈ r.fixups, f.kind = MCFixupKind.fixup_16 ∧ f.offset + 2 ≤ r.bytes.length ∧
      (r.bytes.drop f.offset).take 2 = [0, 0] := by
  unfold enc_SUB8ai at h
  repeat' split at h
  all_goals cases h
  all_goals first
    | exact fun f hf => absurd hf (List.not_mem_nil f)
    | (intro f hf
       obtain rfl := List.mem_singleton.mp hf
       refine ⟨rfl, ?_, rfl⟩
       simp [emitByte, pushFixup, EmitState.init, MCFixup.create])
    | (intro f hf
       simp only [emitByte_fixups, EmitState.init_fixups, apply_ite EmitState.fixups,
         ite_self] at hf
       exact absurd hf (List.not_mem_nil f))

theorem enc_SUB8ao_fixups (name : String) (mi : Inst) (r : EmitState)
    (h : enc_SUB8ao name mi = Except.ok r) :
    ∀ f ∈ r.fixups, f.kind = MCFixupKind.fixup_16 ∧ f.offset + 2 ≤ r.bytes.length ∧
      (r.bytes.drop f.offset).take 2 = [0, 0] := by
  unfold enc_SUB8ao at h
  repeat' split at h
  all_goals cases h
  all_goals first
    | exact fun f hf => absurd hf (List.not_mem_nil f)
    | (intro f hf
       obtain rfl := List.mem_singleton.mp hf
       refine ⟨rfl, ?_, rfl⟩
       simp [emitByte, pushFixup, EmitState.init, MCFixup.create])
    | (intro f hf
       simp only [emitByte_fixups, EmitState.init_fixups, apply_ite EmitState.fixups,
         ite_self] at hf
       exact absurd hf (List.not_mem_nil f))

theorem enc_SUB8ap_fixups (name : String) (mi : Inst) (r : EmitState)
    (h : enc_SUB8ap name mi = Except.ok r) :
    ∀ f ∈ r.fixups, f.kind = MCFixupKind.fixup_16 ∧ f.offset + 2 ≤ r.bytes.length ∧
      (r.bytes.drop f.offset).take 2 = [0, 0] := by
  unfold enc_SUB8ap at h
  repeat' split at h
  all_goals cases h
  all_goals first
    | exact fun f hf => absurd hf (List.not_mem_nil f)
    | (intro f hf
       obtain rfl := List.mem_singleton.mp hf
       refine ⟨rfl, ?_, rfl⟩
       simp [emitByte, pushFixup, EmitState.init, MCFixup.create])
    | (intro f hf
       simp only [emitByte_fixups, EmitState.init_fixups, apply_ite EmitState.fixups,
         ite_self] at hf
       exact absurd hf (List.not_mem_nil f))

theorem enc_SUB8ar_fixups (name : String) (mi : Inst) (r : EmitState)
    (h : enc_SUB8ar name mi = Except.ok r) :
    ∀ f ∈ r.fixups, f.kind = MCFixupKind.fixup_16 ∧ f.offset + 2 ≤ r.bytes.length ∧
      (r.bytes.drop f.offset).take 2 = [0, 0] := by
  unfold enc_SUB8ar at h
  repeat' split at h
  all_goals cases h
  all_goals first
    | exact fun f hf => absurd hf (List.not_mem_nil f)
    | (intro f hf
       obtain rfl := List.mem_singleton.mp hf
       refine ⟨rfl, ?_, rfl⟩
       simp [emitByte, pushFixup, EmitState.init, MCFixup.create])
    | (intro f hf
       simp only [emitByte_fixups, EmitState.init_fixups, apply_ite EmitState.fixups,
         ite_self] at hf
       exact absurd hf (List.not_mem_nil f))

theorem enc_XOR8ai_fixups (name : String) (mi : Inst) (r : EmitState)
    (h : enc_XOR8ai name mi = Except.ok r) :
    ∀ f ∈ r.fixups, f.kind = MCFixupKind.fixup_16 ∧ f.offset + 2 ≤ r.bytes.length ∧
      (r.bytes.drop f.offset).take 2 = [0, 0] := by
  unfold enc_XOR8ai at h
  repeat' split at h
  all_goals cases h
  all_goals first
    | exact fun f hf => absurd hf (List.not_mem_nil f)
    | (intro f hf
       obtain rfl := List.mem_singleton.mp hf
       refine ⟨rfl, ?_, rfl⟩
       simp [emitByte, pushFixup, EmitState.init, MCFixup.create])
    | (intro f hf
       simp only [emitByte_fixups, EmitState.init_fixups, apply_ite EmitState.fixups,
         ite_self] at hf
       exact absurd hf (List.not_mem_nil f))

theorem enc_XOR8ao_fixups (name : String) (mi : Inst) (r : EmitState)
    (h : enc_XOR8ao name mi = Except.ok r) :
    ∀ f ∈ r.fixups, f.kind = MCFixupKind.fixup_16 ∧ f.offset + 2 ≤ r.bytes.length ∧
      (r.bytes.drop f.offset).take 2 = [0, 0] := by
  unfold enc_XOR8ao at h
  repeat' split at h
  all_goals cases h
  all_goals first
    | exact fun f hf => absurd hf (List.not_mem_nil f)
    | (intro f hf
       obtain rfl := List.mem_singleton.mp hf
       refine ⟨rfl, ?_, rfl⟩
       simp [emitByte, pushFixup, EmitState.init, MCFixup.create])
    | (intro f hf
       simp only [emitByte_fixups, EmitState.init_fixups, apply_ite EmitState.fixups,
         ite_self] at hf
       exact absurd hf (List.not_mem_nil f))

theorem enc_XOR8ap_fixups (name : String) (mi : Inst) (r : EmitState)
    (h : enc_XOR8ap name mi = Except.ok r) :
    ∀ f ∈ r.fixups, f.kind = MCFixupKind.fixup_16 ∧ f.offset + 2 ≤ r.bytes.length ∧
      (r.bytes.drop f.offset).take 2 = [0, 0] := by
  unfold enc_XOR8ap at h
  repeat' split at h
  all_goals cases h
  all_goals first
    | exact fun f hf => absurd hf (List.not_mem_nil f)
    | (intro f hf
       obtain rfl := List.mem_singleton.mp hf
       refine ⟨rfl, ?_, rfl⟩
       simp [emitByte, pushFixup, EmitState.init, MCFixup.create])
    | (intro f hf
       simp only [emitByte_fixups, EmitState.init_fixups, apply_ite EmitState.fixups,
         ite_self] at hf
       exact absurd hf (List.not_mem_nil f))

theorem enc_XOR8ar_fixups (name : String) (mi : Inst) (r : EmitState)
    (h : enc_XOR8ar name mi = Except.ok r) :
    ∀ f ∈ r.fixups, f.kind = MCFixupKind.fixup_16 ∧ f.offset + 2 ≤ r.bytes.length ∧
      (r.bytes.drop f.offset).take 2 = [0, 0] := by
  unfold enc_XOR8ar at h
  repeat' split at h
  all_goals cases h
  all_goals first
    | exact fun f hf => absurd hf (List.not_mem_nil f)
    | (intro f hf
       obtain rfl := List.mem_singleton.mp hf
       refine ⟨rfl, ?_, rfl⟩
       simp [emitByte, pushFixup, EmitState.init, MCFixup.create])
    | (intro f hf
       simp only [emitByte_fixups, EmitState.init_fixups, apply_ite EmitState.fixups,
         ite_self] at hf
       exact absurd hf (List.not_mem_nil f))

/-- Fixups of the pseudo `JQ`: a `fixup_16` with two zero placeholder bytes
in the default long form, a `fixup_8_pcrel` with one zero placeholder byte
when `short-jumps` is configured. -/
theorem enc_JQ_fixups (cfg : Config) (name : String) (mi : Inst) (r : EmitState)
    (h : enc_JQ cfg name mi = Except.ok r) :
    ∀ f ∈ r.fixups,
      (f.kind = MCFixupKind.fixup_16 ∧ f.offset + 2 ≤ r.bytes.length ∧
        (r.bytes.drop f.offset).take 2 = [0, 0]) ∨
      (f.kind = MCFixupKind.fixup_8_pcrel ∧
        (cfg.shortJumps = true ∨ cfg.shortCCJumps = true) ∧
        f.offset + 1 ≤ r.bytes.length ∧ (r.bytes.drop f.offset).take 1 = [0]) := by
  unfold enc_JQ at h
  repeat' split at h
  all_goals cases h
  all_goals intro f hf
  all_goals obtain rfl := List.mem_singleton.mp hf
  · exact Or.inr ⟨rfl, Or.inl (by assumption), Nat.le_refl 2, rfl⟩
  · exact Or.inl ⟨rfl, Nat.le_refl 3, rfl⟩

/-- Fixups of the pseudo `JQCC`: as for `JQ`, with the short form controlled
by `short-cc-jumps`. -/
theorem enc_JQCC_fixups (cfg : Config) (name : String) (mi : Inst) (r : EmitState)
    (h : enc_JQCC cfg name mi = Except.ok r) :
    ∀ f ∈ r.fixups,
      (f.kind = MCFixupKind.fixup_16 ∧ f.offset + 2 ≤ r.bytes.length ∧
        (r.bytes.drop f.offset).take 2 = [0, 0]) ∨
      (f.kind = MCFixupKind.fixup_8_pcrel ∧
        (cfg.shortJumps = true ∨ cfg.shortCCJumps = true) ∧
        f.offset + 1 ≤ r.bytes.length ∧ (r.bytes.drop f.offset).take 1 = [0]) := by
  unfold enc_JQCC at h
  repeat' split at h
  all_goals cases h
  all_goals intro f hf
  all_goals obtain rfl := List.mem_singleton.mp hf
  · exact Or.inr ⟨rfl, Or.inr (by assumption), Nat.le_refl 2, rfl⟩
  · exact Or.inl ⟨rfl, Nat.le_refl 3, rfl⟩

theorem enc_LEA16ro_fixups (name : String) (mi : Inst) (r : EmitState)
    (h : enc_LEA16ro name mi = Except.ok r) :
    ∀ f ∈ r.fixups, f.kind = MCFixupKind.fixup_16 ∧ f.offset + 2 ≤ r.bytes.length ∧
      (r.bytes.drop f.offset).take 2 = [0, 0] := by
  unfold enc_LEA16ro at h
  repeat' split at h
  all_goals cases h
  all_goals first
    | exact fun f hf => absurd hf (List.not_mem_nil f)
    | (intro f hf
       simp only [emitByte_fixups, EmitState.init_fixups, apply_ite EmitState.fixups,
         ite_self] at hf
       exact absurd hf (List.not_mem_nil f))

/-- Master fixup lemma for one encoder call: every fixup an accepted
instruction emits is a `fixup_16` covered by two zero placeholder bytes at
its recorded offset, except that the short-form pseudo jumps (only available
when the corresponding configuration flag is on) emit a `fixup_8_pcrel`
covered by one zero placeholder byte. -/
theorem encodeInstruction_fixups (cfg : Config) (mi : Inst) (r : EmitState)
    (h : encodeInstruction cfg mi = Except.ok r) :
    ∀ f ∈ r.fixups,
      (f.kind = MCFixupKind.fixup_16 ∧ f.offset + 2 ≤ r.bytes.length ∧
        (r.bytes.drop f.offset).take 2 = [0, 0]) ∨
      (f.kind = MCFixupKind.fixup_8_pcrel ∧
        (cfg.shortJumps = true ∨ cfg.shortCCJumps = true) ∧
        f.offset + 1 ≤ r.bytes.length ∧ (r.bytes.drop f.offset).take 1 = [0]) := by
  obtain ⟨opc, ops, loc, ez⟩ := mi
  cases ez with
  | true => exact absurd h (by simp [encodeInstruction])
  | false =>
    cases opc with
    | JQ =>
      simp only [encodeInstruction, Opcode.isPseudo, Bool.false_eq_true,
        if_false, reduceIte] at h
      exact enc_JQ_fixups cfg _ _ r h
    | JQCC =>
      simp only [encodeInstruction, Opcode.isPseudo, Bool.false_eq_true,
        if_false, reduceIte] at h
      exact enc_JQCC_fixups cfg _ _ r h
    | ADC8ai =>
      simp only [encodeInstruction, Opcode.isPseudo, Bool.false_eq_true,
        if_false, reduceIte] at h
      exact fun f hf => Or.inl (enc_ADC8ai_fixups _ _ r h f hf)
    | ADC8ao =>
      simp only [encodeInstruction, Opcode.isPseudo, Bool.false_eq_true,
        if_false, reduceIte] at h
      exact fun f hf => Or.inl (enc_ADC8ao_fixups _ _ r h f hf)
    | ADC8ap =>
      simp only [encodeInstruction, Opcode.isPseudo, Bool.false_eq_true,
        if_false, reduceIte] at h
      exact fun f hf => Or.inl (enc_ADC8ap_fixups _ _ r h f hf)
    | ADC8ar =>
      simp only [encodeInstruction, Opcode.isPseudo, Bool.false_eq_true,
        if_false, reduceIte] at h
      exact fun f hf => Or.inl (enc_ADC8ar_fixups _ _ r h f hf)
    | ADD16SP =>
      simp only [encodeInstruction, Opcode.isPseudo, Bool.false_eq_true,
        if_false, reduceIte] at h
      exact fun f hf => Or.inl (enc_ADD16SP_fixups _ _ r h f hf)
    | ADD16aa =>
      simp only [encodeInstruction, Opcode.isPseudo, Bool.false_eq_true,
        if_false, reduceIte] at h
      exact fun f hf => Or.inl (enc_ADD16aa_fixups _ _ r h f hf)
    | ADD16ao =>
      simp only [encodeInstruction, Opcode.isPseudo, Bool.false_eq_true,
        if_false, reduceIte] at h
      exact fun f hf => Or.inl (enc_ADD16ao_fixups _ _ r h f hf)
    | ADD8ai =>
      simp only [encodeInstruction, Opcode.isPseudo, Bool.false_eq_true,
        if_false, reduceIte] at h
      exact fun f hf => Or.inl (enc_ADD8ai_fixups _ _ r h f hf)
    | ADD8ao =>
      simp only [encodeInstruction, Opcode.isPseudo, Bool.false_eq_true,
        if_false, reduceIte] at h
      exact fun f hf => Or.inl (enc_ADD8ao_fixups _ _ r h f hf)
    | ADD8ap =>
      simp only [encodeInstruction, Opcode.isPseudo, Bool.false_eq_true,
        if_false, reduceIte] at h
      exact fun f hf => Or.inl (enc_ADD8ap_fixups _ _ r h f hf)
    | ADD8ar =>
      simp only [encodeInstruction, Opcode.isPseudo, Bool.false_eq_true,
        if_false, reduceIte] at h
      exact fun f hf => Or.inl (enc_ADD8ar_fixups _ _ r h f hf)
    | AND8ai =>
      simp only [encodeInstruction, Opcode.isPseudo, Bool.false_eq_true,
        if_false, reduceIte] at h
      exact fun f hf => Or.inl (enc_AND8ai_fixups _ _ r h f hf)
    | AND8ao =>
      simp only [encodeInstruction, Opcode.isPseudo, Bool.false_eq_true,
        if_false, reduceIte] at h
      exact fun f hf => Or.inl (enc_AND8ao_fixups _ _ r h f hf)
    | AND8ap =>
      simp only [encodeInstruction, Opcode.isPseudo, Bool.false_eq_true,
        if_false, reduceIte] at h
      exact fun f hf => Or.inl (enc_AND8ap_fixups _ _ r h f hf)
    | AND8ar =>
      simp only [encodeInstruction, Opcode.isPseudo, Bool.false_eq_true,
        if_false, reduceIte] at h
      exact fun f hf => Or.inl (enc_AND8ar_fixups _ _ r h f hf)
    | BIT8bg =>
      simp only [encodeInstruction, Opcode.isPseudo, Bool.false_eq_true,
        if_false, reduceIte] at h
      exact fun f hf => Or.inl (enc_BIT8bg_fixups _ _ r h f hf)
    | BIT8bo =>
      simp only [encodeInstruction, Opcode.isPseudo, Bool.false_eq_true,
        if_false, reduceIte] at h
      exact fun f hf => Or.inl (enc_BIT8bo_fixups _ _ r h f hf)
    | BIT8bp =>
      simp only [encodeInstruction, Opcode.isPseudo, Bool.false_eq_true,
        if_false, reduceIte] at h
      exact fun f hf => Or.inl (enc_BIT8bp_fixups _ _ r h f hf)
    | CALL16 =>
      simp only [encodeInstruction, Opcode.isPseudo, Bool.false_eq_true,
        if_false, reduceIte] at h
      exact fun f hf => Or.inl (enc_CALL16_fixups _ _ r h f hf)
    | CALL16CC =>
      simp only [encodeInstruction, Opcode.isPseudo, Bool.false_eq_true,
        if_false, reduceIte] at h
      exact fun f hf => Or.inl (enc_CALL16CC_fixups _ _ r h f hf)
    | CCF =>
      simp only [encodeInstruction, Opcode.isPseudo, Bool.false_eq_true,
        if_false, reduceIte] at h
      exact fun f hf => Or.inl (enc_CCF_fixups _ _ r h f hf)
    | CP8ai =>
      simp only [encodeInstruction, Opcode.isPseudo, Bool.false_eq_true,
        if_false, reduceIte] at h
      exact fun f hf => Or.inl (enc_CP8ai_fixups _ _ r h f hf)
    | CP8ao =>
      simp only [encodeInstruction, Opcode.isPseudo, Bool.false_eq_true,
        if_false, reduceIte] at h
      exact fun f hf => Or.inl (enc_CP8ao_fixups _ _ r h f hf)
    | CP8ap =>
      simp only [encodeInstruction, Opcode.isPseudo, Bool.false_eq_true,
        if_false, reduceIte] at h
      exact fun f hf => Or.inl (enc_CP8ap_fixups _ _ r h f hf)
    | CP8ar =>
      simp only [encodeInstruction, Opcode.isPseudo, Bool.false_eq_true,
        if_false, reduceIte] at h
      exact fun f hf => Or.inl (enc_CP8ar_fixups _ _ r h f hf)
    | CPD16 =>
      simp only [encodeInstruction, Opcode.isPseudo, Bool.false_eq_true,
        if_false, reduceIte] at h
      exact fun f hf => Or.inl (enc_CPD16_fixups _ _ r h f hf)
    | CPDR16 =>
      simp only [encodeInstruction, Opcode.isPseudo, Bool.false_eq_true,
        if_false, reduceIte] at h
      exact fun f hf => Or.inl (enc_CPDR16_fixups _ _ r h f hf)
    | CPI16 =>
      simp only [encodeInstruction, Opcode.isPseudo, Bool.false_eq_true,
        if_false, reduceIte] at h
      exact fun f hf => Or.inl (enc_CPI16_fixups _ _ r h f hf)
    | CPIR16 =>
      simp only [encodeInstruction, Opcode.isPseudo, Bool.false_eq_true,
        if_false, reduceIte] at h
      exact fun f hf => Or.inl (enc_CPIR16_fixups _ _ r h f hf)
    | CPL =>
      simp only [encodeInstruction, Opcode.isPseudo, Bool.false_eq_true,
        if_false, reduceIte] at h
      exact fun f hf => Or.inl (enc_CPL_fixups _ _ r h f hf)
    | DEC16SP =>
      simp only [encodeInstruction, Opcode.isPseudo, Bool.false_eq_true,
        if_false, reduceIte] at h
      exact fun f hf => Or.inl (enc_DEC16SP_fixups _ _ r h f hf)
    | DEC16r =>
      simp only [encodeInstruction, Opcode.isPseudo, Bool.false_eq_true,
        if_false, reduceIte] at h
      exact fun f hf => Or.inl (enc_DEC16r_fixups _ _ r h f hf)
    | DEC8o =>
      simp only [encodeInstruction, Opcode.isPseudo, Bool.false_eq_true,
        if_false, reduceIte] at h
      exact fun f hf => Or.inl (enc_DEC8o_fixups _ _ r h f hf)
    | DEC8p =>
      simp only [encodeInstruction, Opcode.isPseudo, Bool.false_eq_true,
        if_false, reduceIte] at h
      exact fun f hf => Or.inl (enc_DEC8p_fixups _ _ r h f hf)
    | DEC8r =>
      simp only [encodeInstruction, Opcode.isPseudo, Bool.false_eq_true,
        if_false, reduceIte] at h
      exact fun f hf => Or.inl (enc_DEC8r_fixups _ _ r h f hf)
    | DI =>
      simp only [encodeInstruction, Opcode.isPseudo, Bool.false_eq_true,
        if_false, reduceIte] at h
      exact fun f hf => Or.inl (enc_DI_fixups _ _ r h f hf)
    | EI =>
      simp only [encodeInstruction, Opcode.isPseudo, Bool.false_eq_true,
        if_false, reduceIte] at h
      exact fun f hf => Or.inl (enc_EI_fixups _ _ r h f hf)
    | EX16DE =>
      simp only [encodeInstruction, Opcode.isPseudo, Bool.false_eq_true,
        if_false, reduceIte] at h
      exact fun f hf => Or.inl (enc_EX16DE_fixups _ _ r h f hf)
    | EX16SP =>
      simp only [encodeInstruction, Opcode.isPseudo, Bool.false_eq_true,
        if_false, reduceIte] at h
      exact fun f hf => Or.inl (enc_EX16SP_fixups _ _ r h f hf)
    | EXAF =>
      simp only [encodeInstruction, Opcode.isPseudo, Bool.false_eq_true,
        if_false, reduceIte] at h
      exact fun f hf => Or.inl (enc_EXAF_fixups _ _ r h f hf)
    | EXX =>
      simp only [encodeInstruction, Opcode.isPseudo, Bool.false_eq_true,
        if_false, reduceIte] at h
      exact fun f hf => Or.inl (enc_EXX_fixups _ _ r h f hf)
    | INC16SP =>
      simp only [encodeInstruction, Opcode.isPseudo, Bool.false_eq_true,
        if_false, reduceIte] at h
      exact fun f hf => Or.inl (enc_INC16SP_fixups _ _ r h f hf)
    | INC16r =>
      simp only [encodeInstruction, Opcode.isPseudo, Bool.false_eq_true,
        if_false, reduceIte] at h
      exact fun f hf => Or.inl (enc_INC16r_fixups _ _ r h f hf)
    | INC8o =>
      simp only [encodeInstruction, Opcode.isPseudo, Bool.false_eq_true,
        if_false, reduceIte] at h
      exact fun f hf => Or.inl (enc_INC8o_fixups _ _ r h f hf)
    | INC8p =>
      simp only [encodeInstruction, Opcode.isPseudo, Bool.false_eq_true,
        if_false, reduceIte] at h
      exact fun f hf => Or.inl (enc_INC8p_fixups _ _ r h f hf)
    | INC8r =>
      simp only [encodeInstruction, Opcode.isPseudo, Bool.false_eq_true,
        if_false, reduceIte] at h
      exact fun f hf => Or.inl (enc_INC8r_fixups _ _ r h f hf)
    | IND16 =>
      simp only [encodeInstruction, Opcode.isPseudo, Bool.false_eq_true,
        if_false, reduceIte] at h
      exact fun f hf => Or.inl (enc_IND16_fixups _ _ r h f hf)
    | INDR16 =>
      simp only [encodeInstruction, Opcode.isPseudo, Bool.false_eq_true,
        if_false, reduceIte] at h
      exact fun f hf => Or.inl (enc_INDR16_fixups _ _ r h f hf)
    | INI16 =>
      simp only [encodeInstruction, Opcode.isPseudo, Bool.false_eq_true,
        if_false, reduceIte] at h
      exact fun f hf => Or.inl (enc_INI16_fixups _ _ r h f hf)
    | INIR16 =>
      simp only [encodeInstruction, Opcode.isPseudo, Bool.false_eq_true,
        if_false, reduceIte] at h
      exact fun f hf => Or.inl (enc_INIR16_fixups _ _ r h f hf)
    | JP16r =>
      simp only [encodeInstruction, Opcode.isPseudo, Bool.false_eq_true,
        if_false, reduceIte] at h
      exact fun f hf => Or.inl (enc_JP16r_fixups _ _ r h f hf)
    | LD16SP =>
      simp only [encodeInstruction, Opcode.isPseudo, Bool.false_eq_true,
        if_false, reduceIte] at h
      exact fun f hf => Or.inl (enc_LD16SP_fixups _ _ r h f hf)
    | LD16am =>
      simp only [encodeInstruction, Opcode.isPseudo, Bool.false_eq_true,
        if_false, reduceIte] at h
      exact fun f hf => Or.inl (enc_LD16am_fixups _ _ r h f hf)
    | LD16ma =>
      simp only [encodeInstruction, Opcode.isPseudo, Bool.false_eq_true,
        if_false, reduceIte] at h
      exact fun f hf => Or.inl (enc_LD16ma_fixups _ _ r h f hf)
    | LD16mo =>
      simp only [encodeInstruction, Opcode.isPseudo, Bool.false_eq_true,
        if_false, reduceIte] at h
      exact fun f hf => Or.inl (enc_LD16mo_fixups _ _ r h f hf)
    | LD16om =>
      simp only [encodeInstruction, Opcode.isPseudo, Bool.false_eq_true,
        if_false, reduceIte] at h
      exact fun f hf => Or.inl (enc_LD16om_fixups _ _ r h f hf)
    | LD16ri =>
      simp only [encodeInstruction, Opcode.isPseudo, Bool.false_eq_true,
        if_false, reduceIte] at h
      exact fun f hf => Or.inl (enc_LD16ri_fixups _ _ r h f hf)
    | LD8am =>
      simp only [encodeInstruction, Opcode.isPseudo, Bool.false_eq_true,
        if_false, reduceIte] at h
      exact fun f hf => Or.inl (enc_LD8am_fixups _ _ r h f hf)
    | LD8gg =>
      simp only [encodeInstruction, Opcode.isPseudo, Bool.false_eq_true,
        if_false, reduceIte] at h
      exact fun f hf => Or.inl (enc_LD8gg_fixups _ _ r h f hf)
    | LD8xx =>
      simp only [encodeInstruction, Opcode.isPseudo, Bool.false_eq_true,
        if_false, reduceIte] at h
      exact fun f hf => Or.inl (enc_LD8gg_fixups _ _ r h f hf)
    | LD8yy =>
      simp only [encodeInstruction, Opcode.isPseudo, Bool.false_eq_true,
        if_false, reduceIte] at h
      exact fun f hf => Or.inl (enc_LD8gg_fixups _ _ r h f hf)
    | LD8go =>
      simp only [encodeInstruction, Opcode.isPseudo, Bool.false_eq_true,
        if_false, reduceIte] at h
      exact fun f hf => Or.inl (enc_LD8go_fixups _ _ r h f hf)
    | LD8gp =>
      simp only [encodeInstruction, Opcode.isPseudo, Bool.false_eq_true,
        if_false, reduceIte] at h
      exact fun f hf => Or.inl (enc_LD8gp_fixups _ _ r h f hf)
    | LD8ma =>
      simp only [encodeInstruction, Opcode.isPseudo, Bool.false_eq_true,
        if_false, reduceIte] at h
      exact fun f hf => Or.inl (enc_LD8ma_fixups _ _ r h f hf)
    | LD8og =>
      simp only [encodeInstruction, Opcode.isPseudo, Bool.false_eq_true,
        if_false, reduceIte] at h
      exact fun f hf => Or.inl (enc_LD8og_fixups _ _ r h f hf)
    | LD8oi =>
      simp only [encodeInstruction, Opcode.isPseudo, Bool.false_eq_true,
        if_false, reduceIte] at h
      exact fun f hf => Or.inl (enc_LD8oi_fixups _ _ r h f hf)
    | LD8pg =>
      simp only [encodeInstruction, Opcode.isPseudo, Bool.false_eq_true,
        if_false, reduceIte] at h
      exact fun f hf => Or.inl (enc_LD8pg_fixups _ _ r h f hf)
    | LD8ri =>
      simp only [encodeInstruction, Opcode.isPseudo, Bool.false_eq_true,
        if_false, reduceIte] at h
      exact fun f hf => Or.inl (enc_LD8ri_fixups _ _ r h f hf)
    | LD8pi =>
      simp only [encodeInstruction, Opcode.isPseudo, Bool.false_eq_true,
        if_false, reduceIte] at h
      exact fun f hf => Or.inl (enc_LD8pi_fixups _ _ r h f hf)
    | LDD16 =>
      simp only [encodeInstruction, Opcode.isPseudo, Bool.false_eq_true,
        if_false, reduceIte] at h
      exact fun f hf => Or.inl (enc_LDD16_fixups _ _ r h f hf)
    | LDDR16 =>
      simp only [encodeInstruction, Opcode.isPseudo, Bool.false_eq_true,
        if_false, reduceIte] at h
      exact fun f hf => Or.inl (enc_LDDR16_fixups _ _ r h f hf)
    | LDI16 =>
      simp only [encodeInstruction, Opcode.isPseudo, Bool.false_eq_true,
        if_false, reduceIte] at h
      exact fun f hf => Or.inl (enc_LDI16_fixups _ _ r h f hf)
    | LDIR16 =>
      simp only [encodeInstruction, Opcode.isPseudo, Bool.false_eq_true,
        if_false, reduceIte] at h
      exact fun f hf => Or.inl (enc_LDIR16_fixups _ _ r h f hf)
    | LEA16ro =>
      simp only [encodeInstruction, Opcode.isPseudo, Bool.false_eq_true,
        if_false, reduceIte] at h
      exact fun f hf => Or.inl (enc_LEA16ro_fixups _ _ r h f hf)
    | NEG =>
      simp only [encodeInstruction, Opcode.isPseudo, Bool.false_eq_true,
        if_false, reduceIte] at h
      exact fun f hf => Or.inl (enc_NEG_fixups _ _ r h f hf)
    | NOP =>
      simp only [encodeInstruction, Opcode.isPseudo, Bool.false_eq_true,
        if_false, reduceIte] at h
      exact fun f hf => Or.inl (enc_NOP_fixups _ _ r h f hf)
    | OR8ai =>
      simp only [encodeInstruction, Opcode.isPseudo, Bool.false_eq_true,
        if_false, reduceIte] at h
      exact fun f hf => Or.inl (enc_OR8ai_fixups _ _ r h f hf)
    | OR8ao =>
      simp only [encodeInstruction, Opcode.isPseudo, Bool.false_eq_true,
        if_false, reduceIte] at h
      exact fun f hf => Or.inl (enc_OR8ao_fixups _ _ r h f hf)
    | OR8ap =>
      simp only [encodeInstruction, Opcode.isPseudo, Bool.false_eq_true,
        if_false, reduceIte] at h
      exact fun f hf => Or.inl (enc_OR8ap_fixups _ _ r h f hf)
    | OR8ar =>
      simp only [encodeInstruction, Opcode.isPseudo, Bool.false_eq_true,
        if_false, reduceIte] at h
      exact fun f hf => Or.inl (enc_OR8ar_fixups _ _ r h f hf)
    | OUTD16 =>
      simp only [encodeInstruction, Opcode.isPseudo, Bool.false_eq_true,
        if_false, reduceIte] at h
      exact fun f hf => Or.inl (enc_OUTD16_fixups _ _ r h f hf)
    | OUTDR16 =>
      simp only [encodeInstruction, Opcode.isPseudo, Bool.false_eq_true,
        if_false, reduceIte] at h
      exact fun f hf => Or.inl (enc_OUTDR16_fixups _ _ r h f hf)
    | OUTI16 =>
      simp only [encodeInstruction, Opcode.isPseudo, Bool.false_eq_true,
        if_false, reduceIte] at h
      exact fun f hf => Or.inl (enc_OUTI16_fixups _ _ r h f hf)
    | OUTIR16 =>
      simp only [encodeInstruction, Opcode.isPseudo, Bool.false_eq_true,
        if_false, reduceIte] at h
      exact fun f hf => Or.inl (enc_OUTIR16_fixups _ _ r h f hf)
    | POP16AF =>
      simp only [encodeInstruction, Opcode.isPseudo, Bool.false_eq_true,
        if_false, reduceIte] at h
      exact fun f hf => Or.inl (enc_POP16AF_fixups _ _ r h f hf)
    | POP16r =>
      simp only [encodeInstruction, Opcode.isPseudo, Bool.false_eq_true,
        if_false, reduceIte] at h
      exact fun f hf => Or.inl (enc_POP16r_fixups _ _ r h f hf)
    | PUSH16AF =>
      simp only [encodeInstruction, Opcode.isPseudo, Bool.false_eq_true,
        if_false, reduceIte] at h
      exact fun f hf => Or.inl (enc_PUSH16AF_fixups _ _ r h f hf)
    | PUSH16r =>
      simp only [encodeInstruction, Opcode.isPseudo, Bool.false_eq_true,
        if_false, reduceIte] at h
      exact fun f hf => Or.inl (enc_PUSH16r_fixups _ _ r h f hf)
    | RES8bg =>
      simp only [encodeInstruction, Opcode.isPseudo, Bool.false_eq_true,
        if_false, reduceIte] at h
      exact fun f hf => Or.inl (enc_RES8bg_fixups _ _ r h f hf)
    | RES8bo =>
      simp only [encodeInstruction, Opcode.isPseudo, Bool.false_eq_true,
        if_false, reduceIte] at h
      exact fun f hf => Or.inl (enc_RES8bo_fixups _ _ r h f hf)
    | RES8bp =>
      simp only [encodeInstruction, Opcode.isPseudo, Bool.false_eq_true,
        if_false, reduceIte] at h
      exact fun f hf => Or.inl (enc_RES8bp_fixups _ _ r h f hf)
    | RET16 =>
      simp only [encodeInstruction, Opcode.isPseudo, Bool.false_eq_true,
        if_false, reduceIte] at h
      exact fun f hf => Or.inl (enc_RET16_fixups _ _ r h f hf)
    | RET16CC =>
      simp only [encodeInstruction, Opcode.isPseudo, Bool.false_eq_true,
        if_false, reduceIte] at h
      exact fun f hf => Or.inl (enc_RET16CC_fixups _ _ r h f hf)
    | RETI16 =>
      simp only [encodeInstruction, Opcode.isPseudo, Bool.false_eq_true,
        if_false, reduceIte] at h
      exact fun f hf => Or.inl (enc_RETI16_fixups _ _ r h f hf)
    | RETN16 =>
      simp only [encodeInstruction, Opcode.isPseudo, Bool.false_eq_true,
        if_false, reduceIte] at h
      exact fun f hf => Or.inl (enc_RETN16_fixups _ _ r h f hf)
    | RL8o =>
      simp only [encodeInstruction, Opcode.isPseudo, Bool.false_eq_true,
        if_false, reduceIte] at h
      exact fun f hf => Or.inl (enc_RL8o_fixups _ _ r h f hf)
    | RL8p =>
      simp only [encodeInstruction, Opcode.isPseudo, Bool.false_eq_true,
        if_false, reduceIte] at h
      exact fun f hf => Or.inl (enc_RL8p_fixups _ _ r h f hf)
    | RL8r =>
      simp only [encodeInstruction, Opcode.isPseudo, Bool.false_eq_true,
        if_false, reduceIte] at h
      exact fun f hf => Or.inl (enc_RL8r_fixups _ _ r h f hf)
    | RLC8o =>
      simp only [encodeInstruction, Opcode.isPseudo, Bool.false_eq_true,
        if_false, reduceIte] at h
      exact fun f hf => Or.inl (enc_RLC8o_fixups _ _ r h f hf)
    | RLC8p =>
      simp only [encodeInstruction, Opcode.isPseudo, Bool.false_eq_true,
        if_false, reduceIte] at h
      exact fun f hf => Or.inl (enc_RLC8p_fixups _ _ r h f hf)
    | RLC8r =>
      simp only [encodeInstruction, Opcode.isPseudo, Bool.false_eq_true,
        if_false, reduceIte] at h
      exact fun f hf => Or.inl (enc_RLC8r_fixups _ _ r h f hf)
    | RR8o =>
      simp only [encodeInstruction, Opcode.isPseudo, Bool.false_eq_true,
        if_false, reduceIte] at h
      exact fun f hf => Or.inl (enc_RR8o_fixups _ _ r h f hf)
    | RR8p =>
      simp only [encodeInstruction, Opcode.isPseudo, Bool.false_eq_true,
        if_false, reduceIte] at h
      exact fun f hf => Or.inl (enc_RR8p_fixups _ _ r h f hf)
    | RR8r =>
      simp only [encodeInstruction, Opcode.isPseudo, Bool.false_eq_true,
        if_false, reduceIte] at h
      exact fun f hf => Or.inl (enc_RR8r_fixups _ _ r h f hf)
    | RRC8o =>
      simp only [encodeInstruction, Opcode.isPseudo, Bool.false_eq_true,
        if_false, reduceIte] at h
      exact fun f hf => Or.inl (enc_RRC8o_fixups _ _ r h f hf)
    | RRC8p =>
      simp only [encodeInstruction, Opcode.isPseudo, Bool.false_eq_true,
        if_false, reduceIte] at h
      exact fun f hf => Or.inl (enc_RRC8p_fixups _ _ r h f hf)
    | RRC8r =>
      simp only [encodeInstruction, Opcode.isPseudo, Bool.false_eq_true,
        if_false, reduceIte] at h
      exact fun f hf => Or.inl (enc_RRC8r_fixups _ _ r h f hf)
    | SBC16SP =>
      simp only [encodeInstruction, Opcode.isPseudo, Bool.false_eq_true,
        if_false, reduceIte] at h
      exact fun f hf => Or.inl (enc_SBC16SP_fixups _ _ r h f hf)
    | SBC16aa =>
      simp only [encodeInstruction, Opcode.isPseudo, Bool.false_eq_true,
        if_false, reduceIte] at h
      exact fun f hf => Or.inl (enc_SBC16aa_fixups _ _ r h f hf)
    | SBC16ao =>
      simp only [encodeInstruction, Opcode.isPseudo, Bool.false_eq_true,
        if_false, reduceIte] at h
      exact fun f hf => Or.inl (enc_SBC16ao_fixups _ _ r h f hf)
    | SBC8ai =>
      simp only [encodeInstruction, Opcode.isPseudo, Bool.false_eq_true,
        if_false, reduceIte] at h
      exact fun f hf => Or.inl (enc_SBC8ai_fixups _ _ r h f hf)
    | SBC8ao =>
      simp only [encodeInstruction, Opcode.isPseudo, Bool.false_eq_true,
        if_false, reduceIte] at h
      exact fun f hf => Or.inl (enc_SBC8ao_fixups _ _ r h f hf)
    | SBC8ap =>
      simp only [encodeInstruction, Opcode.isPseudo, Bool.false_eq_true,
        if_false, reduceIte] at h
      exact fun f hf => Or.inl (enc_SBC8ap_fixups _ _ r h f hf)
    | SBC8ar =>
      simp only [encodeInstruction, Opcode.isPseudo, Bool.false_eq_true,
        if_false, reduceIte] at h
      exact fun f hf => Or.inl (enc_SBC8ar_fixups _ _ r h f hf)
    | SCF =>
      simp only [encodeInstruction, Opcode.isPseudo, Bool.false_eq_true,
        if_false, reduceIte] at h
      exact fun f hf => Or.inl (enc_SCF_fixups _ _ r h f hf)
    | SET8bg =>
      simp only [encodeInstruction, Opcode.isPseudo, Bool.false_eq_true,
        if_false, reduceIte] at h
      exact fun f hf => Or.inl (enc_SET8bg_fixups _ _ r h f hf)
    | SET8bo =>
      simp only [encodeInstruction, Opcode.isPseudo, Bool.false_eq_true,
        if_false, reduceIte] at h
      exact fun f hf => Or.inl (enc_SET8bo_fixups _ _ r h f hf)
    | SET8bp =>
      simp only [encodeInstruction, Opcode.isPseudo, Bool.false_eq_true,
        if_false, reduceIte] at h
      exact fun f hf => Or.inl (enc_SET8bp_fixups _ _ r h f hf)
    | SLA8o =>
      simp only [encodeInstruction, Opcode.isPseudo, Bool.false_eq_true,
        if_false, reduceIte] at h
      exact fun f hf => Or.inl (enc_SLA8o_fixups _ _ r h f hf)
    | SLA8p =>
      simp only [encodeInstruction, Opcode.isPseudo, Bool.false_eq_true,
        if_false, reduceIte] at h
      exact fun f hf => Or.inl (enc_SLA8p_fixups _ _ r h f hf)
    | SLA8r =>
      simp only [encodeInstruction, Opcode.isPseudo, Bool.false_eq_true,
        if_false, reduceIte] at h
      exact fun f hf => Or.inl (enc_SLA8r_fixups _ _ r h f hf)
    | SRA8o =>
      simp only [encodeInstruction, Opcode.isPseudo, Bool.false_eq_true,
        if_false, reduceIte] at h
      exact fun f hf => Or.inl (enc_SRA8o_fixups _ _ r h f hf)
    | SRA8p =>
      simp only [encodeInstruction, Opcode.isPseudo, Bool.false_eq_true,
        if_false, reduceIte] at h
      exact fun f hf => Or.inl (enc_SRA8p_fixups _ _ r h f hf)
    | SRA8r =>
      simp only [encodeInstruction, Opcode.isPseudo, Bool.false_eq_true,
        if_false, reduceIte] at h
      exact fun f hf => Or.inl (enc_SRA8r_fixups _ _ r h f hf)
    | SRL8o =>
      simp only [encodeInstruction, Opcode.isPseudo, Bool.false_eq_true,
        if_false, reduceIte] at h
      exact fun f hf => Or.inl (enc_SRL8o_fixups _ _ r h f hf)
    | SRL8p =>
      simp only [encodeInstruction, Opcode.isPseudo, Bool.false_eq_true,
        if_false, reduceIte] at h
      exact fun f hf => Or.inl (enc_SRL8p_fixups _ _ r h f hf)
    | SRL8r =>
      simp only [encodeInstruction, Opcode.isPseudo, Bool.false_eq_true,
        if_false, reduceIte] at h
      exact fun f hf => Or.inl (enc_SRL8r_fixups _ _ r h f hf)
    | SUB8ai =>
      simp only [encodeInstruction, Opcode.isPseudo, Bool.false_eq_true,
        if_false, reduceIte] at h
      exact fun f hf => Or.inl (enc_SUB8ai_fixups _ _ r h f hf)
    | SUB8ao =>
      simp only [encodeInstruction, Opcode.isPseudo, Bool.false_eq_true,
        if_false, reduceIte] at h
      exact fun f hf => Or.inl (enc_SUB8ao_fixups _ _ r h f hf)
    | SUB8ap =>
      simp only [encodeInstruction, Opcode.isPseudo, Bool.false_eq_true,
        if_false, reduceIte] at h
      exact fun f hf => Or.inl (enc_SUB8ap_fixups _ _ r h f hf)
    | SUB8ar =>
      simp only [encodeInstruction, Opcode.isPseudo, Bool.false_eq_true,
        if_false, reduceIte] at h
      exact fun f hf => Or.inl (enc_SUB8ar_fixups _ _ r h f hf)
    | XOR8ai =>
      simp only [encodeInstruction, Opcode.isPseudo, Bool.false_eq_true,
        if_false, reduceIte] at h
      exact fun f hf => Or.inl (enc_XOR8ai_fixups _ _ r h f hf)
    | XOR8ao =>
      simp only [encodeInstruction, Opcode.isPseudo, Bool.false_eq_true,
        if_false, reduceIte] at h
      exact fun f hf => Or.inl (enc_XOR8ao_fixups _ _ r h f hf)
    | XOR8ap =>
      simp only [encodeInstruction, Opcode.isPseudo, Bool.false_eq_true,
        if_false, reduceIte] at h
      exact fun f hf => Or.inl (enc_XOR8ap_fixups _ _ r h f hf)
    | XOR8ar =>
      simp only [encodeInstruction, Opcode.isPseudo, Bool.false_eq_true,
        if_false, reduceIte] at h
      exact fun f hf => Or.inl (enc_XOR8ar_fixups _ _ r h f hf)
    | ADC16SP =>
      simp only [encodeInstruction, Opcode.isPseudo, Bool.false_eq_true,
        if_false, reduceIte] at h
      exact absurd h (by simp [enc_notImplemented, instrErr])
    | ADC16aa =>
      simp only [encodeInstruction, Opcode.isPseudo, Bool.false_eq_true,
        if_false, reduceIte] at h
      exact absurd h (by simp [enc_notImplemented, instrErr])
    | ADC16ao =>
      simp only [encodeInstruction, Opcode.isPseudo, Bool.false_eq_true,
        if_false, reduceIte] at h
      exact absurd h (by simp [enc_notImplemented, instrErr])
    | JP16 =>
      simp only [encodeInstruction, Opcode.isPseudo, Bool.false_eq_true,
        if_false, reduceIte] at h
      exact absurd h (by simp [enc_notImplemented, instrErr])
    | JP16CC =>
      simp only [encodeInstruction, Opcode.isPseudo, Bool.false_eq_true,
        if_false, reduceIte] at h
      exact absurd h (by simp [enc_notImplemented, instrErr])
    | JR =>
      simp only [encodeInstruction, Opcode.isPseudo, Bool.false_eq_true,
        if_false, reduceIte] at h
      exact absurd h (by simp [enc_notImplemented, instrErr])
    | JRCC =>
      simp only [encodeInstruction, Opcode.isPseudo, Bool.false_eq_true,
        if_false, reduceIte] at h
      exact absurd h (by simp [enc_notImplemented, instrErr])
    | LD16or =>
      simp only [encodeInstruction, Opcode.isPseudo, Bool.false_eq_true,
        if_false, reduceIte] at h
      exact absurd h (by simp [enc_notImplemented, instrErr])
    | LD16pr =>
      simp only [encodeInstruction, Opcode.isPseudo, Bool.false_eq_true,
        if_false, reduceIte] at h
      exact absurd h (by simp [enc_notImplemented, instrErr])
    | LD16ro =>
      simp only [encodeInstruction, Opcode.isPseudo, Bool.false_eq_true,
        if_false, reduceIte] at h
      exact absurd h (by simp [enc_notImplemented, instrErr])
    | LD16rp =>
      simp only [encodeInstruction, Opcode.isPseudo, Bool.false_eq_true,
        if_false, reduceIte] at h
      exact absurd h (by simp [enc_notImplemented, instrErr])

/-! ## Arithmetic helpers for the 16-bit little-endian immediate path -/

/-- `u8i` lands below 256, so the `uint8_t` parameter conversion inside
`emitByte` leaves it unchanged. -/
theorem u8i_mod (i : Int) : u8i i % 256 = (i % 256).toNat := by
  unfold u8i
  omega

/-- The low payload byte of a 16-bit immediate is the value mod 256. -/
theorem u16_low (v : Int) : ((u16i v >>> 0) &&& 0xff) % 256 = (v % 256).toNat := by
  unfold u16i
  rw [Nat.shiftRight_zero]
  have h := Nat.and_pow_two_sub_one_eq_mod (v % 65536).toNat 8
  norm_num at h
  rw [h]
  have h2 : v % 65536 % 256 = v % 256 := Int.emod_emod_of_dvd v (by norm_num)
  omega

/-- The high payload byte of a 16-bit immediate is the truncated value
divided by 256. -/
theorem u16_high (v : Int) :
    ((u16i v >>> 8) &&& 0xff) % 256 = ((v % 65536) / 256).toNat := by
  unfold u16i
  have h := Nat.and_pow_two_sub_one_eq_mod ((v % 65536).toNat >>> 8) 8
  norm_num at h
  rw [h, Nat.shiftRight_eq_div_pow]
  norm_num
  omega

/-- For nonnegative values, the high byte is `(v / 256) % 256`. -/
theorem u16_high_nonneg (v : Int) (h : 0 ≤ v) :
    ((v % 65536) / 256).toNat = ((v / 256) % 256).toNat := by
  omega

/-! ## The claims -/

/-- C1.  Under the default (long-form) configuration, `JQ` with a single
expression operand emits exactly the bytes `C3 00 00` and exactly one fixup,
of kind `fixup_16`, at offset 1, bound to that expression (with the
instruction's location propagated).  The `ez80Mode` field is `false` because
the pseudo instruction's descriptor is not an EZ80-mode descriptor. -/
theorem claim_C1 (e : MCExpr) (loc : Nat) :
    encodeInstruction Config.default ⟨Opcode.JQ, [Operand.expr e], loc, false⟩ =
      Except.ok ⟨3, [0xc3, 0x00, 0x00], [⟨1, e, MCFixupKind.fixup_16, loc⟩]⟩ := rfl

/-- C2.  Every fixup an accepted instruction emits records as its offset the
byte index at which its placeholder begins, and the `ceil(W/8)` bytes there
(`W` the bit width of its kind: two bytes for `fixup_16`, one for
`fixup_8_pcrel`) are zero placeholder bytes, for every configuration.  The
offset stored by `pushFixup` is `CurByte`, the number of bytes already
emitted at creation time, exactly as in `MCFixup::create(CurByte, …)`. -/
theorem claim_C2 (cfg : Config) (mi : Inst) (r : EmitState)
    (h : encodeInstruction cfg mi = Except.ok r) :
    ∀ f ∈ r.fixups,
      f.offset + fixupNumBytes f.kind ≤ r.bytes.length ∧
        (r.bytes.drop f.offset).take (fixupNumBytes f.kind) =
          List.replicate (fixupNumBytes f.kind) 0 := by
  intro f hf
  rcases encodeInstruction_fixups cfg mi r h f hf with ⟨hk, hle, hdt⟩ | ⟨hk, _, hle, hdt⟩
  · rw [hk]
    exact ⟨hle, hdt⟩
  · rw [hk]
    exact ⟨hle, hdt⟩

theorem claim_C2_witness :
    (⟨1, ⟨MCExprKind.SymbolRef, 0⟩, MCFixupKind.fixup_16, 0⟩ : Fixup).offset +
        fixupNumBytes (⟨1, ⟨MCExprKind.SymbolRef, 0⟩, MCFixupKind.fixup_16, 0⟩ : Fixup).kind ≤
        (⟨3, [0xc3, 0, 0], [⟨1, ⟨MCExprKind.SymbolRef, 0⟩, MCFixupKind.fixup_16, 0⟩]⟩ :
          EmitState).bytes.length ∧
      ((⟨3, [0xc3, 0, 0], [⟨1, ⟨MCExprKind.SymbolRef, 0⟩, MCFixupKind.fixup_16, 0⟩]⟩ :
            EmitState).bytes.drop
            (⟨1, ⟨MCExprKind.SymbolRef, 0⟩, MCFixupKind.fixup_16, 0⟩ : Fixup).offset).take
          (fixupNumBytes (⟨1, ⟨MCExprKind.SymbolRef, 0⟩, MCFixupKind.fixup_16, 0⟩ : Fixup).kind) =
        List.replicate
          (fixupNumBytes (⟨1, ⟨MCExprKind.SymbolRef, 0⟩, MCFixupKind.fixup_16, 0⟩ : Fixup).kind) 0 :=
  claim_C2 Config.default ⟨Opcode.JQ, [Operand.expr ⟨MCExprKind.SymbolRef, 0⟩], 0, false⟩
    ⟨3, [0xc3, 0, 0], [⟨1, ⟨MCExprKind.SymbolRef, 0⟩, MCFixupKind.fixup_16, 0⟩]⟩ rfl
    ⟨1, ⟨MCExprKind.SymbolRef, 0⟩, MCFixupKind.fixup_16, 0⟩ (by decide)

/-- C3.  `ADD8ar` with single register operand `IXH` emits exactly the six
bytes `E5 DD E5 E1 84 E1` (`PUSH HL; PUSH IX; POP HL; ADD A,H; POP HL` —
a read-only index-half expansion ending in a single `POP HL`) and no
fixups. -/
theorem claim_C3 (loc : Nat) :
    encodeInstruction Config.default ⟨Opcode.ADD8ar, [Operand.reg Reg.IXH], loc, false⟩ =
      Except.ok ⟨6, [0xe5, 0xdd, 0xe5, 0xe1, 0x84, 0xe1], []⟩ := rfl

/-- C4.  `shouldForceRelocation` returns `true` exactly on `fixup_8_dis`,
`fixup_8_pcrel` and `fixup_16`; on every other kind — the remaining ten
target kinds and all generic kinds, the data kinds included — it returns
`false`. -/
theorem claim_C4 (k : MCFixupKind) :
    shouldForceRelocation k = true ↔
      (k = MCFixupKind.fixup_8_dis ∨ k = MCFixupKind.fixup_8_pcrel ∨
        k = MCFixupKind.fixup_16) := by
  cases k <;> decide

/-- C5.  `getRelocType`: (1) the generic data kinds `FK_Data_1/2/4` map to
the same codes as `fixup_8`/`fixup_16`/`fixup_32`; (2) those codes are
`R_Z80_8`, `R_Z80_16`, `R_Z80_32`; (3) each of the thirteen target kinds
maps to a defined code (with the PC-relative flag set exactly for
`fixup_8_pcrel`); (4) the `fixup_8_pcrel` case asserts the PC-relative flag;
(5) no other case reads the flag; (6) every remaining kind hits the fatal
`default` case. -/
theorem claim_C5 :
    (∀ b : Bool,
        getRelocType MCFixupKind.FK_Data_1 b = getRelocType MCFixupKind.fixup_8 b ∧
        getRelocType MCFixupKind.FK_Data_2 b = getRelocType MCFixupKind.fixup_16 b ∧
        getRelocType MCFixupKind.FK_Data_4 b = getRelocType MCFixupKind.fixup_32 b) ∧
    (∀ b : Bool,
        getRelocType MCFixupKind.FK_Data_1 b = Except.ok RelocType.R_Z80_8 ∧
        getRelocType MCFixupKind.FK_Data_2 b = Except.ok RelocType.R_Z80_16 ∧
        getRelocType MCFixupKind.FK_Data_4 b = Except.ok RelocType.R_Z80_32) ∧
    (∀ k : MCFixupKind, k.isTargetKind = true →
        (getRelocType k (decide (k = MCFixupKind.fixup_8_pcrel))).isOk = true) ∧
    (∀ b : Bool,
        (getRelocType MCFixupKind.fixup_8_pcrel b).isOk = true ↔ b = true) ∧
    (∀ (k : MCFixupKind) (b₁ b₂ : Bool), k ≠ MCFixupKind.fixup_8_pcrel →
        getRelocType k b₁ = getRelocType k b₂) ∧
    (∀ (k : MCFixupKind) (b : Bool), k.isTargetKind = false →
        k ≠ MCFixupKind.FK_Data_1 → k ≠ MCFixupKind.FK_Data_2 →
        k ≠ MCFixupKind.FK_Data_4 →
        getRelocType k b = Except.error "Invalid fixup kind!") := by
  refine ⟨fun b => ?_, fun b => ?_, fun k hk => ?_, fun b => ?_,
    fun k b₁ b₂ hk => ?_, fun k b h1 h2 h3 h4 => ?_⟩
  · cases b <;> exact ⟨rfl, rfl, rfl⟩
  · cases b <;> exact ⟨rfl, rfl, rfl⟩
  · cases k <;> first
      | rfl
      | exact absurd hk (by decide)
  · cases b <;> decide
  · cases k <;> first
      | exact absurd rfl hk
      | (cases b₁ <;> cases b₂ <;> rfl)
  · cases k <;> simp_all [getRelocType, MCFixupKind.isTargetKind]

theorem claim_C5_witness :
    (getRelocType MCFixupKind.fixup_24
        (decide (MCFixupKind.fixup_24 = MCFixupKind.fixup_8_pcrel))).isOk = true :=
  claim_C5.2.2.1 MCFixupKind.fixup_24 (by decide)

/-- C6.  Each of the eleven recognized-but-unimplemented opcodes fails with
the "Not implemented." error naming its mnemonic, for any operand list and
under either configuration; on an error the encoder commits no bytes and no
fixups. -/
theorem claim_C6 (cfg : Config) (ops : List Operand) (loc : Nat) :
    encodeInstruction cfg ⟨Opcode.ADC16SP, ops, loc, false⟩ =
        Except.error "ADC16SP: Not implemented." ∧
      encodeInstruction cfg ⟨Opcode.ADC16aa, ops, loc, false⟩ =
        Except.error "ADC16aa: Not implemented." ∧
      encodeInstruction cfg ⟨Opcode.ADC16ao, ops, loc, false⟩ =
        Except.error "ADC16ao: Not implemented." ∧
      encodeInstruction cfg ⟨Opcode.JP16, ops, loc, false⟩ =
        Except.error "JP16: Not implemented." ∧
      encodeInstruction cfg ⟨Opcode.JP16CC, ops, loc, false⟩ =
        Except.error "JP16CC: Not implemented." ∧
      encodeInstruction cfg ⟨Opcode.JR, ops, loc, false⟩ =
        Except.error "JR: Not implemented." ∧
      encodeInstruction cfg ⟨Opcode.JRCC, ops, loc, false⟩ =
        Except.error "JRCC: Not implemented." ∧
      encodeInstruction cfg ⟨Opcode.LD16or, ops, loc, false⟩ =
        Except.error "LD16or: Not implemented." ∧
      encodeInstruction cfg ⟨Opcode.LD16pr, ops, loc, false⟩ =
        Except.error "LD16pr: Not implemented." ∧
      encodeInstruction cfg ⟨Opcode.LD16ro, ops, loc, false⟩ =
        Except.error "LD16ro: Not implemented." ∧
      encodeInstruction cfg ⟨Opcode.LD16rp, ops, loc, false⟩ =
        Except.error "LD16rp: Not implemented." :=
  ⟨rfl, rfl, rfl, rfl, rfl, rfl, rfl, rfl, rfl, rfl, rfl⟩

/-- C9.  `CALL16` accepts any expression operand (no syntactic restriction),
while `CALL16CC` rejects every expression whose kind is not `SymbolRef`
("Fitst operand expression should be a call target.", typo as in the
source); in particular a `Binary` expression is accepted by `CALL16` and
rejected by `CALL16CC`. -/
theorem claim_C9 :
    (∀ (e : MCExpr) (loc : Nat),
        encodeInstruction Config.default ⟨Opcode.CALL16, [Operand.expr e], loc, false⟩ =
          Except.ok ⟨3, [0xcd, 0, 0], [⟨1, e, MCFixupKind.fixup_16, loc⟩]⟩) ∧
    (∀ (e : MCExpr) (cc : Int) (loc : Nat), e.kind ≠ MCExprKind.SymbolRef →
        u8i cc < 8 →
        encodeInstruction Config.default
            ⟨Opcode.CALL16CC, [Operand.expr e, Operand.imm cc], loc, false⟩ =
          Except.error "CALL16CC: Fitst operand expression should be a call target.") ∧
    (encodeInstruction Config.default
          ⟨Opcode.CALL16, [Operand.expr ⟨MCExprKind.Binary, 0⟩], 0, false⟩ =
        Except.ok ⟨3, [0xcd, 0, 0], [⟨1, ⟨MCExprKind.Binary, 0⟩, MCFixupKind.fixup_16, 0⟩]⟩ ∧
      encodeInstruction Config.default
          ⟨Opcode.CALL16CC, [Operand.expr ⟨MCExprKind.Binary, 0⟩, Operand.imm 0], 0, false⟩ =
        Except.error "CALL16CC: Fitst operand expression should be a call target.") := by
  refine ⟨fun e loc => rfl, fun e cc loc hk hcc => ?_, rfl, rfl⟩
  have h8 : ¬ (8 ≤ u8i cc) := by omega
  show enc_CALL16CC "CALL16CC"
      ⟨Opcode.CALL16CC, [Operand.expr e, Operand.imm cc], loc, false⟩ = _
  unfold enc_CALL16CC
  repeat' split
  all_goals first
    | rfl
    | exact absurd rfl (by assumption)
    | exact absurd (by assumption) h8
    | exact absurd (Eq.symm (by assumption)) hk

theorem claim_C9_witness :
    encodeInstruction Config.default
        ⟨Opcode.CALL16CC, [Operand.expr ⟨MCExprKind.Binary, 5⟩, Operand.imm 0], 0, false⟩ =
      Except.error "CALL16CC: Fitst operand expression should be a call target." :=
  claim_C9.2.1 ⟨MCExprKind.Binary, 5⟩ 0 0 (by decide) (by decide)

/-- C10.  The 8-bit immediate paths never range-check: the emitted byte is
the operand reduced mod 2⁸, for any immediate.  Covered here for the ALU
immediate `ADD8ai`, the displacement byte of `ADD8ao`, and both the
displacement and the stored value of `LD8oi` (each for `IX` and for `IY`). -/
theorem claim_C10 :
    (∀ (i : Int) (loc : Nat),
        encodeInstruction Config.default ⟨Opcode.ADD8ai, [Operand.imm i], loc, false⟩ =
          Except.ok ⟨2, [0xc6, (i % 256).toNat], []⟩) ∧
    (∀ (d : Int) (loc : Nat),
        encodeInstruction Config.default
            ⟨Opcode.ADD8ao, [Operand.reg Reg.IX, Operand.imm d], loc, false⟩ =
          Except.ok ⟨3, [0xdd, 0x86, (d % 256).toNat], []⟩) ∧
    (∀ (d v : Int) (loc : Nat),
        encodeInstruction Config.default
            ⟨Opcode.LD8oi, [Operand.reg Reg.IX, Operand.imm d, Operand.imm v], loc, false⟩ =
          Except.ok ⟨4, [0xdd, 0x36, (d % 256).toNat, (v % 256).toNat], []⟩) ∧
    (∀ (d v : Int) (loc : Nat),
        encodeInstruction Config.default
            ⟨Opcode.LD8oi, [Operand.reg Reg.IY, Operand.imm d, Operand.imm v], loc, false⟩ =
          Except.ok ⟨4, [0xfd, 0x36, (d % 256).toNat, (v % 256).toNat], []⟩) := by
  refine ⟨fun i loc => ?_, fun d loc => ?_, fun d v loc => ?_, fun d v loc => ?_⟩
  · rw [show encodeInstruction Config.default
        ⟨Opcode.ADD8ai, [Operand.imm i], loc, false⟩ =
        Except.ok ⟨2, [0xc6, u8i i % 256], []⟩ from rfl, u8i_mod]
  · rw [show encodeInstruction Config.default
        ⟨Opcode.ADD8ao, [Operand.reg Reg.IX, Operand.imm d], loc, false⟩ =
        Except.ok ⟨3, [0xdd, 0x86, u8i d % 256], []⟩ from rfl, u8i_mod]
  · rw [show encodeInstruction Config.default
        ⟨Opcode.LD8oi, [Operand.reg Reg.IX, Operand.imm d, Operand.imm v], loc, false⟩ =
        Except.ok ⟨4, [0xdd, 0x36, u8i d % 256, u8i v % 256], []⟩ from rfl, u8i_mod, u8i_mod]
  · rw [show encodeInstruction Config.default
        ⟨Opcode.LD8oi, [Operand.reg Reg.IY, Operand.imm d, Operand.imm v], loc, false⟩ =
        Except.ok ⟨4, [0xfd, 0x36, u8i d % 256, u8i v % 256], []⟩ from rfl, u8i_mod, u8i_mod]

/-- C7.  Every 16-bit immediate field is written little-endian, low byte
first: the two payload bytes are `v mod 256` then `(v div 256) mod 256` of
the truncated 16-bit value — shown for `CALL16` (including the concrete
`CALL 0xABCD -> CD CD AB` and the `(v / 256) % 256` form for nonnegative
`v`), `CALL16CC`, all five register forms of `LD16ri`, and the absolute
load/store forms `LD16am`, `LD16ma`, `LD16mo`, `LD16om` and `LD8am`. -/
theorem claim_C7 :
    (∀ (v : Int) (loc : Nat),
        encodeInstruction Config.default ⟨Opcode.CALL16, [Operand.imm v], loc, false⟩ =
          Except.ok ⟨3, [0xcd, (v % 256).toNat, ((v % 65536) / 256).toNat], []⟩) ∧
    (∀ (v : Int) (loc : Nat), 0 ≤ v →
        encodeInstruction Config.default ⟨Opcode.CALL16, [Operand.imm v], loc, false⟩ =
          Except.ok ⟨3, [0xcd, (v % 256).toNat, ((v / 256) % 256).toNat], []⟩) ∧
    (encodeInstruction Config.default ⟨Opcode.CALL16, [Operand.imm 0xabcd], 0, false⟩ =
        Except.ok ⟨3, [0xcd, 0xcd, 0xab], []⟩) ∧
    (∀ (v : Int) (loc : Nat),
        encodeInstruction Config.default ⟨Opcode.CALL16CC, [Operand.imm v, Operand.imm 0], loc, false⟩ =
          Except.ok ⟨3, [0xc4, (v % 256).toNat, ((v % 65536) / 256).toNat], []⟩) ∧
    (∀ (v : Int) (loc : Nat),
        encodeInstruction Config.default ⟨Opcode.LD16ri, [Operand.reg Reg.BC, Operand.imm v], loc, false⟩ =
          Except.ok ⟨3, [0x01, (v % 256).toNat, ((v % 65536) / 256).toNat], []⟩) ∧
    (∀ (v : Int) (loc : Nat),
        encodeInstruction Config.default ⟨Opcode.LD16ri, [Operand.reg Reg.DE, Operand.imm v], loc, false⟩ =
          Except.ok ⟨3, [0x11, (v % 256).toNat, ((v % 65536) / 256).toNat], []⟩) ∧
    (∀ (v : Int) (loc : Nat),
        encodeInstruction Config.default ⟨Opcode.LD16ri, [Operand.reg Reg.HL, Operand.imm v], loc, false⟩ =
          Except.ok ⟨3, [0x21, (v % 256).toNat, ((v % 65536) / 256).toNat], []⟩) ∧
    (∀ (v : Int) (loc : Nat),
        encodeInstruction Config.default ⟨Opcode.LD16ri, [Operand.reg Reg.IX, Operand.imm v], loc, false⟩ =
          Except.ok ⟨4, [0xdd, 0x21, (v % 256).toNat, ((v % 65536) / 256).toNat], []⟩) ∧
    (∀ (v : Int) (loc : Nat),
        encodeInstruction Config.default ⟨Opcode.LD16ri, [Operand.reg Reg.IY, Operand.imm v], loc, false⟩ =
          Except.ok ⟨4, [0xfd, 0x21, (v % 256).toNat, ((v % 65536) / 256).toNat], []⟩) ∧
    (∀ (v : Int) (loc : Nat),
        encodeInstruction Config.default ⟨Opcode.LD16am, [Operand.reg Reg.HL, Operand.imm v], loc, false⟩ =
          Except.ok ⟨3, [0x2a, (v % 256).toNat, ((v % 65536) / 256).toNat], []⟩) ∧
    (∀ (v : Int) (loc : Nat),
        encodeInstruction Config.default ⟨Opcode.LD16ma, [Operand.imm v, Operand.reg Reg.HL], loc, false⟩ =
          Except.ok ⟨3, [0x22, (v % 256).toNat, ((v % 65536) / 256).toNat], []⟩) ∧
    (∀ (v : Int) (loc : Nat),
        encodeInstruction Config.default ⟨Opcode.LD16mo, [Operand.imm v, Operand.reg Reg.BC], loc, false⟩ =
          Except.ok ⟨4, [0xed, 0x43, (v % 256).toNat, ((v % 65536) / 256).toNat], []⟩) ∧
    (∀ (v : Int) (loc : Nat),
        encodeInstruction Config.default ⟨Opcode.LD16om, [Operand.reg Reg.BC, Operand.imm v], loc, false⟩ =
          Except.ok ⟨4, [0xed, 0x4b, (v % 256).toNat, ((v % 65536) / 256).toNat], []⟩) ∧
    (∀ (v : Int) (loc : Nat),
        encodeInstruction Config.default ⟨Opcode.LD8am, [Operand.imm v], loc, false⟩ =
          Except.ok ⟨3, [0x3a, (v % 256).toNat, ((v % 65536) / 256).toNat], []⟩) := by
  refine ⟨?_, ?_, ?_, ?_, ?_, ?_, ?_, ?_, ?_, ?_, ?_, ?_, ?_, ?_⟩
  · intro v loc
    rw [show encodeInstruction Config.default ⟨Opcode.CALL16, [Operand.imm v], loc, false⟩ =
        Except.ok ⟨3, [0xcd, ((u16i v >>> 0) &&& 0xff) % 256,
          ((u16i v >>> 8) &&& 0xff) % 256], []⟩ from rfl, u16_low, u16_high]
  · intro v loc hv
    rw [show encodeInstruction Config.default ⟨Opcode.CALL16, [Operand.imm v], loc, false⟩ =
        Except.ok ⟨3, [0xcd, ((u16i v >>> 0) &&& 0xff) % 256,
          ((u16i v >>> 8) &&& 0xff) % 256], []⟩ from rfl, u16_low, u16_high,
      u16_high_nonneg v hv]
  · rfl
  · intro v loc
    rw [show encodeInstruction Config.default ⟨Opcode.CALL16CC, [Operand.imm v, Operand.imm 0], loc, false⟩ =
        Except.ok ⟨3, [((u8i 0 <<< 3) ||| 0xc4) % 256, ((u16i v >>> 0) &&& 0xff) % 256,
          ((u16i v >>> 8) &&& 0xff) % 256], []⟩ from rfl,
      show ((u8i 0 <<< 3) ||| (0xc4 : Nat)) % 256 = 0xc4 from rfl, u16_low, u16_high]
  · intro v loc
    rw [show encodeInstruction Config.default ⟨Opcode.LD16ri, [Operand.reg Reg.BC, Operand.imm v], loc, false⟩ =
        Except.ok ⟨3, [0x01, ((u16i v >>> 0) &&& 0xff) % 256,
          ((u16i v >>> 8) &&& 0xff) % 256], []⟩ from rfl, u16_low, u16_high]
  · intro v loc
    rw [show encodeInstruction Config.default ⟨Opcode.LD16ri, [Operand.reg Reg.DE, Operand.imm v], loc, false⟩ =
        Except.ok ⟨3, [0x11, ((u16i v >>> 0) &&& 0xff) % 256,
          ((u16i v >>> 8) &&& 0xff) % 256], []⟩ from rfl, u16_low, u16_high]
  · intro v loc
    rw [show encodeInstruction Config.default ⟨Opcode.LD16ri, [Operand.reg Reg.HL, Operand.imm v], loc, false⟩ =
        Except.ok ⟨3, [0x21, ((u16i v >>> 0) &&& 0xff) % 256,
          ((u16i v >>> 8) &&& 0xff) % 256], []⟩ from rfl, u16_low, u16_high]
  · intro v loc
    rw [show encodeInstruction Config.default ⟨Opcode.LD16ri, [Operand.reg Reg.IX, Operand.imm v], loc, false⟩ =
        Except.ok ⟨4, [0xdd, 0x21, ((u16i v >>> 0) &&& 0xff) % 256,
          ((u16i v >>> 8) &&& 0xff) % 256], []⟩ from rfl, u16_low, u16_high]
  · intro v loc
    rw [show encodeInstruction Config.default ⟨Opcode.LD16ri, [Operand.reg Reg.IY, Operand.imm v], loc, false⟩ =
        Except.ok ⟨4, [0xfd, 0x21, ((u16i v >>> 0) &&& 0xff) % 256,
          ((u16i v >>> 8) &&& 0xff) % 256], []⟩ from rfl, u16_low, u16_high]
  · intro v loc
    rw [show encodeInstruction Config.default ⟨Opcode.LD16am, [Operand.reg Reg.HL, Operand.imm v], loc, false⟩ =
        Except.ok ⟨3, [0x2a, ((u16i v >>> 0) &&& 0xff) % 256,
          ((u16i v >>> 8) &&& 0xff) % 256], []⟩ from rfl, u16_low, u16_high]
  · intro v loc
    rw [show encodeInstruction Config.default ⟨Opcode.LD16ma, [Operand.imm v, Operand.reg Reg.HL], loc, false⟩ =
        Except.ok ⟨3, [0x22, ((u16i v >>> 0) &&& 0xff) % 256,
          ((u16i v >>> 8) &&& 0xff) % 256], []⟩ from rfl, u16_low, u16_high]
  · intro v loc
    rw [show encodeInstruction Config.default ⟨Opcode.LD16mo, [Operand.imm v, Operand.reg Reg.BC], loc, false⟩ =
        Except.ok ⟨4, [0xed, 0x43, ((u16i v >>> 0) &&& 0xff) % 256,
          ((u16i v >>> 8) &&& 0xff) % 256], []⟩ from rfl, u16_low, u16_high]
  · intro v loc
    rw [show encodeInstruction Config.default ⟨Opcode.LD16om, [Operand.reg Reg.BC, Operand.imm v], loc, false⟩ =
        Except.ok ⟨4, [0xed, 0x4b, ((u16i v >>> 0) &&& 0xff) % 256,
          ((u16i v >>> 8) &&& 0xff) % 256], []⟩ from rfl, u16_low, u16_high]
  · intro v loc
    rw [show encodeInstruction Config.default ⟨Opcode.LD8am, [Operand.imm v], loc, false⟩ =
        Except.ok ⟨3, [0x3a, ((u16i v >>> 0) &&& 0xff) % 256,
          ((u16i v >>> 8) &&& 0xff) % 256], []⟩ from rfl, u16_low, u16_high]

theorem claim_C7_witness :
    encodeInstruction Config.default ⟨Opcode.CALL16, [Operand.imm 0x1234], 0, false⟩ =
      Except.ok ⟨3, [0xcd, ((0x1234 : Int) % 256).toNat,
        (((0x1234 : Int) / 256) % 256).toNat], []⟩ :=
  claim_C7.2.1 0x1234 0 (by decide)

/-- C8.  Under the default configuration every fixup the encoder emits has
kind `fixup_16`; under any configuration a fixup is either a `fixup_16` or a
`fixup_8_pcrel`, and the latter only when one of the short-jump flags is on
— so the encoder never emits `fixup_8`, `fixup_8_dis`, `fixup_24`,
`fixup_32`, `fixup_byte0..3`, `fixup_word0..1` or `fixup_16_be`. -/
theorem claim_C8 :
    (∀ (mi : Inst) (r : EmitState),
        encodeInstruction Config.default mi = Except.ok r →
        ∀ f ∈ r.fixups, f.kind = MCFixupKind.fixup_16) ∧
    (∀ (cfg : Config) (mi : Inst) (r : EmitState),
        encodeInstruction cfg mi = Except.ok r →
        ∀ f ∈ r.fixups,
          f.kind = MCFixupKind.fixup_16 ∨
            (f.kind = MCFixupKind.fixup_8_pcrel ∧
              (cfg.shortJumps = true ∨ cfg.shortCCJumps = true))) := by
  constructor
  · intro mi r h f hf
    rcases encodeInstruction_fixups Config.default mi r h f hf with
      ⟨hk, _, _⟩ | ⟨_, hcfg, _, _⟩
    · exact hk
    · rcases hcfg with h' | h' <;> exact absurd h' (by decide)
  · intro cfg mi r h f hf
    rcases encodeInstruction_fixups cfg mi r h f hf with ⟨hk, _, _⟩ | ⟨hk, hcfg, _, _⟩
    · exact Or.inl hk
    · exact Or.inr ⟨hk, hcfg⟩

theorem claim_C8_witness :
    (⟨1, ⟨MCExprKind.SymbolRef, 1⟩, MCFixupKind.fixup_16, 0⟩ : Fixup).kind =
      MCFixupKind.fixup_16 :=
  claim_C8.1 ⟨Opcode.JQ, [Operand.expr ⟨MCExprKind.SymbolRef, 1⟩], 0, false⟩
    ⟨3, [0xc3, 0, 0], [⟨1, ⟨MCExprKind.SymbolRef, 1⟩, MCFixupKind.fixup_16, 0⟩]⟩ rfl
    ⟨1, ⟨MCExprKind.SymbolRef, 1⟩, MCFixupKind.fixup_16, 0⟩ (by decide)

end Z80
